import Mathlib

/-!
# sfwbar configuration parser: a shallow embedding of `src/config.c`

The parser of `config.c` is a recursive-descent parser over the token stream
of a GLib `GScanner`.  The embedding works on the token stream the lexer
delivers: a `GScanner` is the list of tokens not yet scanned together with the
fields `token`, `next_token` and `max_parse_errors` that `config.c` reads and
writes.  Every C function becomes a Lean function on the parser state with the
same name; loops become recursive functions over a step budget which the
calling function derives from the number of tokens left.
-/

namespace Sfwbar

/-! ## Tokens -/

/-- Reserved words of the configuration language, in the order in which
`config_parse_file` registers them with `g_scanner_scope_add_symbol`. -/
inductive Keyword
  | G_TOKEN_SCANNER | G_TOKEN_LAYOUT | G_TOKEN_PLACER | G_TOKEN_SWITCHER
  | G_TOKEN_DEFINE | G_TOKEN_TRIGGERACTION | G_TOKEN_END | G_TOKEN_FILE
  | G_TOKEN_EXEC | G_TOKEN_MPDCLIENT | G_TOKEN_SWAYCLIENT | G_TOKEN_EXECCLIENT
  | G_TOKEN_SOCKETCLIENT | G_TOKEN_NUMBERW | G_TOKEN_STRINGW | G_TOKEN_NOGLOB
  | G_TOKEN_CHTIME | G_TOKEN_SUM | G_TOKEN_PRODUCT | G_TOKEN_LASTW
  | G_TOKEN_FIRST | G_TOKEN_GRID | G_TOKEN_SCALE | G_TOKEN_LABEL
  | G_TOKEN_BUTTON | G_TOKEN_IMAGE | G_TOKEN_INCLUDE | G_TOKEN_TASKBAR
  | G_TOKEN_PAGER | G_TOKEN_TRAY | G_TOKEN_STYLE | G_TOKEN_CSS
  | G_TOKEN_INTERVAL | G_TOKEN_VALUE | G_TOKEN_PINS | G_TOKEN_PREVIEW
  | G_TOKEN_COLS | G_TOKEN_ROWS | G_TOKEN_ACTION | G_TOKEN_DISPLAY
  | G_TOKEN_ICONS | G_TOKEN_LABELS | G_TOKEN_LOC | G_TOKEN_NUMERIC
  | G_TOKEN_PEROUTPUT | G_TOKEN_TITLEWIDTH | G_TOKEN_TOOLTIP | G_TOKEN_TRIGGER
  | G_TOKEN_XSTEP | G_TOKEN_YSTEP | G_TOKEN_XORIGIN | G_TOKEN_YORIGIN
  | G_TOKEN_CHILDREN | G_TOKEN_TRUE | G_TOKEN_FALSE | G_TOKEN_MENU
  | G_TOKEN_MENUCLEAR | G_TOKEN_PIPEREAD | G_TOKEN_CONFIG | G_TOKEN_SWAYCMD
  | G_TOKEN_SWAYWIN | G_TOKEN_MPDCMD | G_TOKEN_USERSTATE | G_TOKEN_IDLEINHIBIT
  | G_TOKEN_SETVALUE | G_TOKEN_SETSTYLE | G_TOKEN_SETTOOLTIP | G_TOKEN_FUNCTION
  | G_TOKEN_FOCUS | G_TOKEN_CLOSE | G_TOKEN_MINIMIZE | G_TOKEN_MAXIMIZE
  | G_TOKEN_UNMINIMIZE | G_TOKEN_UNMAXIMIZE | G_TOKEN_SETMONITOR
  | G_TOKEN_SETLAYER | G_TOKEN_SETBARSIZE | G_TOKEN_SETEXCLUSIVEZONE
  | G_TOKEN_SETBARID | G_TOKEN_CLIENTSEND | G_TOKEN_ITEM | G_TOKEN_SEPARATOR
  | G_TOKEN_SUBMENU | G_TOKEN_MINIMIZED | G_TOKEN_MAXIMIZED
  | G_TOKEN_FULLSCREEN | G_TOKEN_FOCUSED | G_TOKEN_REGEX | G_TOKEN_JSON
  | G_TOKEN_GRAB
  deriving DecidableEq, Repr

open Keyword

/-- Tokens the GLib lexer finds in the text, as `config_parse_file` configures
it (`symbol_2_token`, `numbers_2_int` and `int_2_float` set): a lexical error,
a single character, a number (always `G_TOKEN_FLOAT`, carrying the value of
the literal), a string, an identifier, or a reserved word. -/
inductive Lexeme
  | error
  | chr (c : Char)
  | float (v : ℚ)
  | str (s : String)
  | ident (s : String)
  | kw (k : Keyword)
  deriving DecidableEq, Repr

/-- Values of the scanner fields `token` and `next_token`: a token of the
text, `G_TOKEN_EOF` once the text is exhausted, or the `G_TOKEN_NONE` marker
of an empty look-ahead slot. -/
inductive Token
  | eof
  | none
  | error
  | chr (c : Char)
  | float (v : ℚ)
  | str (s : String)
  | ident (s : String)
  | kw (k : Keyword)
  deriving DecidableEq, Repr

/-- Value of GLib's `G_TOKEN_LAST`, the first code free for application
tokens (`GTokenType` in `gscanner.h`). -/
def G_TOKEN_LAST : Nat := 270

/-- Modelled from the spec: the enumeration of keyword token codes lives in
`config.h`, which is not among the sources.  The spec describes "a
per-compilation symbol table that maps reserved keyword spellings to integer
token codes"; the codes are taken consecutive from `G_TOKEN_LAST` in the order
of that table in `config_parse_file`, which is the only order for which the
four range tests of `config.c` (`G_TOKEN_REGEX..G_TOKEN_GRAB`,
`G_TOKEN_SUM..G_TOKEN_FIRST`, `G_TOKEN_GRID..G_TOKEN_TRAY`,
`<= G_TOKEN_SCANNER`) select the keywords the code goes on to handle. -/
def Keyword.code (k : Keyword) : Nat := G_TOKEN_LAST + k.toCtorIdx

/-- Integer code of a token, the value of `(gint)scanner->token`. -/
def Token.code : Token → Nat
  | .eof => 0
  | .none => 256
  | .error => 257
  | .chr c => c.toNat % 256
  | .float _ => 263
  | .str _ => 264
  | .ident _ => 266
  | .kw k => k.code

/-- The scanner token for a token of the text. -/
def Lexeme.token : Lexeme → Token
  | .error => .error
  | .chr c => .chr c
  | .float v => .float v
  | .str s => .str s
  | .ident s => .ident s
  | .kw k => .kw k

/-- Reading of `scanner->value.v_string` while the current token is `t`. -/
def Token.v_string : Token → String
  | .str s => s
  | _ => ""

/-- Reading of `scanner->value.v_identifier` while the current token is `t`. -/
def Token.v_identifier : Token → String
  | .ident s => s
  | _ => ""

/-- Reading of `scanner->value.v_float` while the current token is `t`. -/
def Token.v_float : Token → ℚ
  | .float v => v
  | _ => 0

/-! ## Declaration model -/

/-- Source kinds `SO_FILE`, `SO_EXEC`, `SO_CLIENT`. -/
inductive Source
  | SO_FILE | SO_EXEC | SO_CLIENT
  deriving DecidableEq, Repr

open Source

/-- Modelled from the spec: the parser kinds of the absent header, "extraction
kind {regex, json-path, raw-capture}"; `config_scanner_var` computes the kind
as `scanner->token - G_TOKEN_REGEX`. -/
def VP_REGEX : Nat := 0

/-- Modelled from the spec: see `VP_REGEX`. -/
def VP_JSON : Nat := 1

/-- Modelled from the spec: see `VP_REGEX`. -/
def VP_GRAB : Nat := 2

/-- Modelled from the spec: the file flags of the absent header, "flags
(glob-disabled, check-modification-time)", two independent bits. -/
def VF_CHTIME : Nat := 1

/-- Modelled from the spec: see `VF_CHTIME`. -/
def VF_NOGLOB : Nat := 2


/-- Geometry `struct rect` of a widget.  Modelled from the spec: the record is
declared in the absent header; the spec gives "geometry rectangle {x,y,w,h;
defaults 0,0,1,1}" and the fields hold the numbers assigned to them. -/
structure rect where
  x : ℚ
  y : ℚ
  w : ℚ
  h : ℚ
  deriving DecidableEq, Repr

/-- Record `struct layout_action`: `cond` and `ncond` are `guchar` bit masks,
`type` is the code of the action keyword. -/
structure layout_action where
  cond : Nat
  ncond : Nat
  type : Nat
  command : Option String
  addr : Option String
  deriving DecidableEq, Repr

/-- A zeroed `struct layout_action`, as `g_malloc0` returns it. -/
def layout_action.zero : layout_action :=
  { cond := 0, ncond := 0, type := 0, command := Option.none, addr := Option.none }

/-- Widgets made by the toolkit calls of `config_widgets` and `config_layout`;
a flow grid (`flowgrid.c`) carries its `rows` and `cols`. -/
inductive GtkWidget
  | grid
  | label
  | scale_image
  | button
  | progress_bar
  | flow_grid (rows cols : Int)
  deriving DecidableEq, Repr

/-- Macro `GTK_IS_GRID`: `FlowGrid` is derived from `GTK_TYPE_GRID`
(`G_DEFINE_TYPE_WITH_CODE` in `flowgrid.c`); a `NULL` widget is no grid. -/
def GTK_IS_GRID : Option GtkWidget → Bool
  | some .grid => true
  | some (.flow_grid _ _) => true
  | _ => false

/-- Record `struct layout_widget`, with the fields `config.c` uses.  Modelled
from the spec: the record is declared in the absent header; `interval` holds
the number assigned to it and `action` is the "per-mouse-button action table
(indexed 0..MAX_BUTTON)". -/
structure layout_widget where
  wtype : Nat
  widget : Option GtkWidget
  style : Option String
  css : Option String
  value : Option String
  tooltip : Option String
  trigger : Option String
  interval : ℚ
  action : List layout_action
  rect : rect
  deriving DecidableEq, Repr

/-- Constants of the absent headers and functions outside the sources that
neither the sources nor the spec determine; the parser is parameterised by
them: the constants `SV_REPLACE` and `MAX_BUTTON`, the GLib number formatter,
the record that `layout_widget_new` returns, the sibling that
`layout_widget_config` returns, the token stream that the `GScanner` delivers
for a text, and `get_contents`, the text that `g_file_get_contents` reads
from the file that `get_xdg_config_file` finds for a name (`none` when either
fails). -/
structure Header where
  SV_REPLACE : Nat
  MAX_BUTTON : Nat
  g_ascii_dtostr : ℚ → String
  layout_widget_new : layout_widget
  layout_widget_config : layout_widget → Option GtkWidget → Option GtkWidget → Option GtkWidget
  g_scanner_input_text : String → List Lexeme
  get_contents : String → Option String

/-- Entries of a `GtkMenu` in the order `gtk_container_add` appended them: an
item with its label and the action connected to `activate`, a separator, or
an item labelled `label` whose submenu is the menu at address `menu`. -/
inductive MenuEntry
  | item (label : String) (action : layout_action)
  | separator
  | submenu (label : String) (menu : Nat)
  deriving DecidableEq, Repr

/-- Record `struct scan_var`: `file` is the address of the owning scan file,
`regex` the pattern handed to `g_regex_new`. -/
structure scan_var where
  file : Nat
  type : Nat
  multi : Nat
  json : Option String
  regex : Option String
  deriving DecidableEq, Repr

/-- Record `struct scan_file`; `vars` is the `GList` of its variables. -/
structure scan_file where
  fname : String
  trigger : Option String
  source : Source
  mtime : Nat
  flags : Nat
  vars : List scan_var
  deriving DecidableEq, Repr

/-- Calls into collaborators outside `config.c`, recorded in call order. -/
inductive Call
  | scanner_var_attach (name : String) (var : scan_var)
  | scanner_file_attach (trigger : String) (file : Nat)
  | mpd_ipc_init (file : Option Nat)
  | sway_ipc_client_init (file : Option Nat)
  | client_exec (file : Option Nat)
  | client_socket (file : Option Nat)
  | pager_add_pin (pin : String)
  | pager_set_preview (b : Bool)
  | pager_set_numeric (b : Bool)
  | taskbar_set_options (icons labels filter : Bool) (twidth : Int)
  | switcher_config (cols : Int) (css : Option String) (interval : Int) (icons labels : Bool)
      (twidth : Int)
  | placer_config (wp_x wp_y wo_x wo_y : Int) (pid : Bool)
  | action_function_add (name : String) (actions : List layout_action)
  | action_trigger_add (action : layout_action) (trigger : String)
  | gtk_widget_set_name (widget : Option GtkWidget) (name : String)
  | layout_widget_config (lw : layout_widget) (parent sibling : Option GtkWidget)
  | layout_widget_attach (lw : layout_widget)
  | gtk_css_provider_load_from_data (css : String)
  deriving DecidableEq, Repr

/-- Conversion of a `gdouble` to `gint`: truncation toward zero.  For a value
whose integer part is outside the range of a 32-bit `gint` the C standard
leaves the result open; the conversion instruction of x86-64 (`cvttsd2si`)
then gives the smallest `gint`, `-2^31`. -/
def double_to_gint (v : ℚ) : Int :=
  if -(2 ^ 31 : Int) ≤ v.num.tdiv v.den ∧ v.num.tdiv v.den < 2 ^ 31 then v.num.tdiv v.den
  else -(2 ^ 31)

/-- The integer part of `v` is in the range of a 32-bit `gint`, so that its
conversion to `gint` is defined. -/
def gint_fits (v : ℚ) : Prop :=
  -(2 ^ 31 : Int) ≤ v.num.tdiv v.den ∧ v.num.tdiv v.den < 2 ^ 31

/-- Parser state: the `GScanner` fields used by `config.c` (`input` is the
token stream not yet scanned, `messages` what `g_message` printed), the static
variables `defines` and `file_list`, the heap of scan files (`file_list` holds
addresses into `files`), the log of collaborator calls, the heap of `GtkMenu`
objects (`menu_heap`) and the registry of named menus (`menus`, names to
addresses into `menu_heap`). -/
structure State where
  input : List Lexeme
  token : Token
  next_token : Token
  max_parse_errors : Bool
  messages : List String
  defines : Option (List (String × String))
  files : List scan_file
  file_list : List Nat
  calls : List Call
  menu_heap : List (List MenuEntry)
  menus : List (String × Nat)
  deriving DecidableEq, Repr

/-- A fresh scanner over `toks` in a process with empty static state. -/
def State.init (toks : List Lexeme) : State :=
  { input := toks, token := .none, next_token := .none,
    max_parse_errors := false, messages := [], defines := Option.none,
    files := [], file_list := [], calls := [], menu_heap := [], menus := [] }

/-! ## GScanner primitives -/

/-- Function `g_scanner_peek_next_token`: fills the look-ahead slot if it is
empty; the peeked token is `next_token` of the result. -/
def g_scanner_peek_next_token (s : State) : State :=
  match s.next_token with
  | .none =>
    match s.input with
    | [] => { s with next_token := .eof }
    | t :: rest => { s with next_token := t.token, input := rest }
  | _ => s

/-- Function `g_scanner_get_next_token`: makes the look-ahead token (or the
next scanned one) current; the token returned is `token` of the result. -/
def g_scanner_get_next_token (s : State) : State :=
  match s.next_token with
  | .none =>
    match s.input with
    | [] => { s with token := .eof }
    | t :: rest => { s with token := t.token, input := rest }
  | t => { s with token := t, next_token := .none }

/-- Function `config_log_error`, the scanner's message handler. -/
def config_log_error (s : State) (message : String) (error : Bool) : State :=
  if error then
    let s1 := if !s.max_parse_errors then { s with messages := s.messages ++ [message] } else s
    { s1 with max_parse_errors := true }
  else
    { s with messages := s.messages ++ [message] }

/-- Function `g_scanner_error` of GLib: hands the formatted message to the
message handler as an error. -/
def g_scanner_error (s : State) (message : String) : State :=
  config_log_error s message true

/-- Code `G_TOKEN_FLOAT` of `GTokenType`. -/
def G_TOKEN_FLOAT : Nat := 263

/-- Code `G_TOKEN_STRING` of `GTokenType`. -/
def G_TOKEN_STRING : Nat := 264

/-- Code `G_TOKEN_IDENTIFIER` of `GTokenType`. -/
def G_TOKEN_IDENTIFIER : Nat := 266

/-- Function `config_expect_token`: the result is whether the peeked token has
code `token`; a failure reports the formatted message `errmsg`. -/
def config_expect_token (s : State) (token : Nat) (errmsg : String) : State × Bool :=
  let s1 := g_scanner_peek_next_token s
  if s1.next_token.code = token then (s1, true)
  else (g_scanner_error s1 errmsg, false)

/-- Function `config_optional_semicolon`. -/
def config_optional_semicolon (s : State) : State :=
  let s1 := g_scanner_peek_next_token s
  if s1.next_token = .chr ';' then g_scanner_get_next_token s1 else s1


/-! ## Scanner block -/

/-- Heap write `files[a] := f files[a]`. -/
def heap_update (files : List scan_file) (a : Nat) (f : scan_file → scan_file) :
    List scan_file :=
  match files[a]? with
  | some x => files.set a (f x)
  | Option.none => files

/-- Aggregator part of `config_scanner_var`, entered after the pattern: the
new scanner state and the value of `flag`. -/
def config_scanner_var_flag (H : Header) (s : State) (type : Nat) : State × Nat :=
  let s1 := g_scanner_peek_next_token s
  if s1.next_token = .chr ',' ∨ type = VP_GRAB then
    let s2 := g_scanner_peek_next_token
      (if type ≠ VP_GRAB then g_scanner_get_next_token s1 else s1)
    if G_TOKEN_SUM.code ≤ s2.next_token.code ∧ s2.next_token.code ≤ G_TOKEN_FIRST.code then
      (g_scanner_get_next_token s2,
        (g_scanner_get_next_token s2).token.code - G_TOKEN_SUM.code + 1)
    else if type ≠ VP_GRAB then
      (g_scanner_error (g_scanner_get_next_token s2) "Missing <aggregator> in parser",
        H.SV_REPLACE)
    else (s2, H.SV_REPLACE)
  else (s1, H.SV_REPLACE)

/-- Function `config_scanner_var`: parses `name = parser(...)` and appends the
variable to the scan file at address `file`. -/
def config_scanner_var (H : Header) (s : State) (file : Nat) : State :=
  let s1 := g_scanner_get_next_token { s with max_parse_errors := false }
  let vname := s1.token.v_identifier
  let e1 := config_expect_token s1 ('='.toNat) ("Missing '=' in " ++ vname ++ " = <parser>")
  if e1.2 = false then e1.1 else
  let s2 := g_scanner_get_next_token (g_scanner_get_next_token e1.1)
  if s2.token.code < G_TOKEN_REGEX.code ∨ s2.token.code > G_TOKEN_GRAB.code then
    g_scanner_error s2 ("Missing <parser> in " ++ vname ++ " = <parser>")
  else
  let type := (s2.token.code - G_TOKEN_REGEX.code) % 256
  let e2 := config_expect_token s2 ('('.toNat) "Missing '(' in parser"
  if e2.2 = false then e2.1 else
  let s3 := g_scanner_get_next_token e2.1
  let s4 := if type ≠ VP_GRAB then g_scanner_get_next_token s3 else s3
  if type ≠ VP_GRAB ∧ s4.token.code ≠ G_TOKEN_STRING then
    g_scanner_error s4 "Missing <string> parameter in parser"
  else
  let pattern : Option String := if type ≠ VP_GRAB then some s4.token.v_string else Option.none
  let f := config_scanner_var_flag H s4 type
  let e3 := config_expect_token f.1 (')'.toNat) "Missing ')' in parser"
  if e3.2 = false then e3.1 else
  let s5 := config_optional_semicolon (g_scanner_get_next_token e3.1)
  let var : scan_var :=
    { file := file, type := type, multi := f.2,
      json := if type = VP_JSON then pattern else Option.none,
      regex := if type = VP_REGEX then pattern else Option.none }
  { s5 with
    files := heap_update s5.files file (fun r => { r with vars := r.vars ++ [var] }),
    calls := s5.calls ++ [Call.scanner_var_attach vname var] }

/-- One pass through the body of the flag loop of `config_scanner_source`,
entered with `,` peeked: `get; switch(get) ...`. -/
def config_scanner_source_flag (s : State) (flags : Nat) (fname : String) : State × Nat :=
  let s1 := g_scanner_get_next_token (g_scanner_get_next_token s)
  if s1.token = .kw G_TOKEN_CHTIME then (s1, flags ||| VF_CHTIME)
  else if s1.token = .kw G_TOKEN_NOGLOB then (s1, flags ||| VF_NOGLOB)
  else (g_scanner_error s1 ("Invalid <file_flag> in " ++ fname), flags)

/-- Flag loop of `config_scanner_source`: `while(peek == ',') ...`. -/
def config_scanner_source_flags : Nat → State → Nat → String → State × Nat
  | 0, s, flags, _ => (g_scanner_peek_next_token s, flags)
  | n + 1, s, flags, fname =>
    if (g_scanner_peek_next_token s).next_token = .chr ',' then
      config_scanner_source_flags n
        (config_scanner_source_flag (g_scanner_peek_next_token s) flags fname).1
        (config_scanner_source_flag (g_scanner_peek_next_token s) flags fname).2 fname
    else (g_scanner_peek_next_token s, flags)

/-- Trigger argument of a client source in `config_scanner_source`. -/
def config_scanner_source_trigger (s : State) : State × Option String :=
  let s1 := g_scanner_peek_next_token s
  if s1.next_token = .chr ',' then
    let s2 := g_scanner_peek_next_token (g_scanner_get_next_token s1)
    if s2.next_token.code ≠ G_TOKEN_STRING then
      (g_scanner_error s2 "Invalid trigger in client declaration", Option.none)
    else (g_scanner_get_next_token s2, some (g_scanner_get_next_token s2).token.v_string)
  else (s1, Option.none)

/-- One pass through the body of the variable loop of
`config_scanner_source`: `switch(peek) ...`. -/
def config_scanner_source_item (H : Header) (s : State) (file : Nat) : State :=
  if s.next_token.code = G_TOKEN_IDENTIFIER then config_scanner_var H s file
  else g_scanner_error (g_scanner_get_next_token s) "Expecting a variable declaration or End"

/-- Variable loop of `config_scanner_source`:
`while(peek != '}' && peek != EOF) ...`. -/
def config_scanner_source_vars (H : Header) : Nat → State → Nat → State
  | 0, s, _ => g_scanner_peek_next_token s
  | n + 1, s, file =>
    if (g_scanner_peek_next_token s).next_token ≠ .chr '}' ∧
        (g_scanner_peek_next_token s).next_token ≠ .eof then
      config_scanner_source_vars H n
        (config_scanner_source_item H (g_scanner_peek_next_token s) file) file
    else g_scanner_peek_next_token s

/-- Lookup of `fname` in `file_list` by `config_scanner_source`: the address
of the first listed scan file with that name. -/
def file_list_find (s : State) (fname : String) : Option Nat :=
  s.file_list.find? (fun a => (s.files[a]?.map (fun f => f.fname)) == some fname)

/-- Flag `VF_NOGLOB` is added when the name holds neither `*` nor `?`. -/
def noglob_flags (fname : String) (flags : Nat) : Nat :=
  if '*' ∉ fname.data ∧ '?' ∉ fname.data then flags ||| VF_NOGLOB else flags

/-- Function `config_scanner_source`: the result is the address of the scan
file, or `none` for `NULL`. -/
def config_scanner_source (H : Header) (s : State) (source : Source) : State × Option Nat :=
  let e1 := config_expect_token { s with max_parse_errors := false } ('('.toNat)
    "Missing '(' after <source>"
  if e1.2 = false then (e1.1, Option.none) else
  let e2 := config_expect_token (g_scanner_get_next_token e1.1) G_TOKEN_STRING
    "Missing <string> in source(<string>)"
  if e2.2 = false then (e2.1, Option.none) else
  let s1 := g_scanner_get_next_token e2.1
  let fname := s1.token.v_string
  let fl := if source = SO_FILE then config_scanner_source_flags (s1.input.length + 1) s1 0 fname
    else (s1, 0)
  let tr := if source = SO_CLIENT then config_scanner_source_trigger fl.1
    else (fl.1, Option.none)
  let e3 := config_expect_token tr.1 (')'.toNat) "Missing ')' in source"
  let s2 := if e3.2 then g_scanner_get_next_token e3.1 else e3.1
  let e4 := config_expect_token s2 ('\x7b'.toNat) "Missing '\x7b' after <source>"
  let s3 := if e4.2 then g_scanner_get_next_token e4.1 else e4.1
  if s3.max_parse_errors then (s3, Option.none) else
  let find : Option Nat := if source = SO_CLIENT then Option.none else file_list_find s3 fname
  let file : Nat := find.getD s3.files.length
  let record : scan_file :=
    { fname := fname, trigger := tr.2, source := source, mtime := 0,
      flags := noglob_flags fname fl.2, vars := [] }
  let files := if find.isSome then s3.files.set file record else s3.files ++ [record]
  let calls := if tr.2.isSome then s3.calls ++ [Call.scanner_file_attach (tr.2.getD "") file]
    else s3.calls
  let s4 : State := { s3 with files := files, file_list := s3.file_list ++ [file], calls := calls }
  let s5 := config_scanner_source_vars H (s4.input.length + 1) s4 file
  (if s5.next_token = .chr '}' then g_scanner_get_next_token s5 else s5, some file)

/-- One pass through the body of the loop of `config_scanner`:
`switch(get) ...`. -/
def config_scanner_item (H : Header) (s : State) : State :=
  let s1 := g_scanner_get_next_token s
  if s1.token = .kw G_TOKEN_FILE then (config_scanner_source H s1 SO_FILE).1
  else if s1.token = .kw G_TOKEN_EXEC then (config_scanner_source H s1 SO_EXEC).1
  else if s1.token = .kw G_TOKEN_MPDCLIENT then
    let r := config_scanner_source H s1 SO_CLIENT
    { r.1 with calls := r.1.calls ++ [Call.mpd_ipc_init r.2] }
  else if s1.token = .kw G_TOKEN_SWAYCLIENT then
    let r := config_scanner_source H s1 SO_CLIENT
    { r.1 with calls := r.1.calls ++ [Call.sway_ipc_client_init r.2] }
  else if s1.token = .kw G_TOKEN_EXECCLIENT then
    let r := config_scanner_source H s1 SO_CLIENT
    { r.1 with calls := r.1.calls ++ [Call.client_exec r.2] }
  else if s1.token = .kw G_TOKEN_SOCKETCLIENT then
    let r := config_scanner_source H s1 SO_CLIENT
    { r.1 with calls := r.1.calls ++ [Call.client_socket r.2] }
  else g_scanner_error s1 "Unexpected declaration in scanner"

/-- Main loop of `config_scanner`:
`while(peek != '}' && peek != EOF) ...`. -/
def config_scanner_loop (H : Header) : Nat → State → State
  | 0, s => g_scanner_peek_next_token s
  | n + 1, s =>
    if (g_scanner_peek_next_token s).next_token ≠ .chr '}' ∧
        (g_scanner_peek_next_token s).next_token ≠ .eof then
      config_scanner_loop H n (config_scanner_item H (g_scanner_peek_next_token s))
    else g_scanner_peek_next_token s

/-- Function `config_scanner`: parses the block after the `Scanner` keyword. -/
def config_scanner (H : Header) (s : State) : State :=
  let e1 := config_expect_token { s with max_parse_errors := false } ('\x7b'.toNat)
    "Missing '\x7b' after 'scanner'"
  if e1.2 = false then e1.1 else
  let s1 := g_scanner_get_next_token e1.1
  let s2 := config_scanner_loop H (s1.input.length + 1) s1
  if s2.next_token = .chr '}' then g_scanner_get_next_token s2 else s2


/-! ## Assignments, locations and values -/

/-- Function `config_assign_boolean`. -/
def config_assign_boolean (s : State) (dflt : Bool) (expr : String) : State × Bool :=
  let e1 := config_expect_token { s with max_parse_errors := false } ('='.toNat)
    ("Missing '=' in " ++ expr ++ " = <boolean>")
  if e1.2 = false then (e1.1, false) else
  let s1 := g_scanner_get_next_token (g_scanner_get_next_token e1.1)
  if s1.token = .kw G_TOKEN_TRUE then (config_optional_semicolon s1, true)
  else if s1.token = .kw G_TOKEN_FALSE then (config_optional_semicolon s1, false)
  else
    (config_optional_semicolon
      (g_scanner_error s1 ("Missing <boolean> in " ++ expr ++ " = <boolean>")), dflt)

/-- Function `config_assign_string`: `none` is `NULL`. -/
def config_assign_string (s : State) (expr : String) : State × Option String :=
  let e1 := config_expect_token { s with max_parse_errors := false } ('='.toNat)
    ("Missing '=' in " ++ expr ++ " = <string>")
  if e1.2 = false then (e1.1, Option.none) else
  let e2 := config_expect_token (g_scanner_get_next_token e1.1) G_TOKEN_STRING
    ("Missing <string> in " ++ expr ++ " = <string>")
  if e2.2 = false then (e2.1, Option.none) else
  let s1 := g_scanner_get_next_token e2.1
  (config_optional_semicolon s1, some s1.token.v_string)

/-- Function `config_assign_number`. -/
def config_assign_number (s : State) (expr : String) : State × ℚ :=
  let e1 := config_expect_token { s with max_parse_errors := false } ('='.toNat)
    ("Missing '=' in " ++ expr ++ " = <number>")
  if e1.2 = false then (e1.1, 0) else
  let e2 := config_expect_token (g_scanner_get_next_token e1.1) G_TOKEN_FLOAT
    ("Missing <number> in " ++ expr ++ " = <number>")
  if e2.2 = false then (e2.1, 0) else
  let s1 := g_scanner_get_next_token e2.1
  (config_optional_semicolon s1, s1.token.v_float)

/-- Macro `MAX` of GLib: `((a) > (b)) ? (a) : (b)`. -/
def MAX (a b : ℚ) : ℚ := if a > b then a else b

/-- Function `config_get_loc`. -/
def config_get_loc (s : State) : State × rect :=
  let r0 : rect := { x := 0, y := 0, w := 1, h := 1 }
  let e1 := config_expect_token { s with max_parse_errors := false } ('('.toNat)
    "Missing '(' after loc"
  if e1.2 = false then (e1.1, r0) else
  let e2 := config_expect_token (g_scanner_get_next_token e1.1) G_TOKEN_FLOAT
    "Expecting x to be a <number> in loc(x,y[,w,h])"
  if e2.2 = false then (e2.1, r0) else
  let s1 := g_scanner_get_next_token e2.1
  let r1 : rect := { r0 with x := s1.token.v_float }
  let e3 := config_expect_token s1 (','.toNat) "Missing ',' in loc"
  if e3.2 = false then (e3.1, r1) else
  let e4 := config_expect_token (g_scanner_get_next_token e3.1) G_TOKEN_FLOAT
    "Expecting y to be a <number> in loc(x,y[,w,h])"
  if e4.2 = false then (e4.1, r1) else
  let s2 := g_scanner_get_next_token e4.1
  let r2 : rect := { r1 with y := s2.token.v_float }
  let s3 := g_scanner_peek_next_token s2
  if s3.next_token = .chr ')' then
    let e9 := config_expect_token s3 (')'.toNat) "Missing ')' after loc"
    if e9.2 = false then (e9.1, r2) else
    (config_optional_semicolon (g_scanner_get_next_token e9.1), r2)
  else
  let e5 := config_expect_token s3 (','.toNat) "Missing ',' in loc"
  if e5.2 = false then (e5.1, r2) else
  let e6 := config_expect_token (g_scanner_get_next_token e5.1) G_TOKEN_FLOAT
    "Expecting w to be a <number> in loc(x,y[,w,h])"
  if e6.2 = false then (e6.1, r2) else
  let s4 := g_scanner_get_next_token e6.1
  let r3 : rect := { r2 with w := MAX 1 s4.token.v_float }
  let e7 := config_expect_token s4 (','.toNat) "Missing ',' in loc"
  if e7.2 = false then (e7.1, r3) else
  let e8 := config_expect_token (g_scanner_get_next_token e7.1) G_TOKEN_FLOAT
    "Expecting h to be a <number> in loc(x,y[,w,h])"
  if e8.2 = false then (e8.1, r3) else
  let s5 := g_scanner_get_next_token e8.1
  let r4 : rect := { r3 with h := MAX 1 s5.token.v_float }
  let e9 := config_expect_token s5 (')'.toNat) "Missing ')' after loc"
  if e9.2 = false then (e9.1, r4) else
  (config_optional_semicolon (g_scanner_get_next_token e9.1), r4)

/-- The double quote character. -/
def dquote : Char := Char.ofNat 34

/-- The backslash character. -/
def backslash : Char := Char.ofNat 92

/-- Copy loop of `config_value_string`: every double quote gets a backslash
in front of it. -/
def escape_quotes : List Char → List Char
  | [] => []
  | c :: cs => if c = dquote then backslash :: c :: escape_quotes cs else c :: escape_quotes cs

/-- Function `config_value_string`: `dest` followed by the quoted `string`. -/
def config_value_string (dest string : String) : String :=
  dest ++ String.mk ([dquote] ++ escape_quotes string.data ++ [dquote])

/-- Modelled from the spec: `str_nequal`, the key equality of the `defines`
hash table, is not among the sources; the spec has a "mapping from macro name
(string, unique) to replacement text", so keys are compared as strings. -/
def str_nequal (a b : String) : Bool := a = b

/-- Function `g_hash_table_lookup` on the table as a list of entries. -/
def g_hash_table_lookup : List (String × String) → String → Option String
  | [], _ => Option.none
  | (k, v) :: rest, key => if str_nequal k key then some v else g_hash_table_lookup rest key

/-- Function `g_hash_table_insert`: replaces the value of an existing key,
else adds an entry. -/
def g_hash_table_insert : List (String × String) → String → String → List (String × String)
  | [], key, value => [(key, value)]
  | (k, v) :: rest, key, value =>
    if str_nequal k key then (k, value) :: rest
    else (k, v) :: g_hash_table_insert rest key value

/-- Text appended for an identifier by `config_get_value`: its macro value if
`defines` exists and contains it, else its own spelling. -/
def config_get_value_identifier (defines : Option (List (String × String)))
    (ident : String) : String :=
  match defines with
  | Option.none => ident
  | some d =>
    match g_hash_table_lookup d ident with
    | some v => v
    | Option.none => ident

/-- Text appended by the default case of `config_get_value`: `buf[0]` is the
token code cut to a byte, and a zero byte ends the C string at once. -/
def config_get_value_char (t : Token) : String :=
  if t.code % 256 = 0 then "" else String.mk [Char.ofNat (t.code % 256)]

/-- Text appended to the value for the token `t` by `config_get_value`. -/
def config_get_value_append (H : Header) (defines : Option (List (String × String)))
    (value : String) (t : Token) : String :=
  if t.code = G_TOKEN_STRING then config_value_string value t.v_string
  else if t.code = G_TOKEN_IDENTIFIER then
    value ++ config_get_value_identifier defines t.v_identifier
  else if t.code = G_TOKEN_FLOAT then value ++ H.g_ascii_dtostr t.v_float
  else value ++ config_get_value_char t

/-- Loop test of `config_get_value` on the peeked token. -/
def config_get_value_continues (t : Token) : Bool :=
  t.code ≤ G_TOKEN_SCANNER.code ∧ t ≠ .chr '}' ∧ t ≠ .chr ';' ∧ t ≠ .chr '[' ∧ t ≠ .eof

/-- Loop of `config_get_value`: `while(next_token ...) { switch(get) ...; peek; }`. -/
def config_get_value_loop (H : Header) : Nat → State → String → State × String
  | 0, s, value => (s, value)
  | n + 1, s, value =>
    if config_get_value_continues s.next_token then
      config_get_value_loop H n
        (g_scanner_peek_next_token (g_scanner_get_next_token s))
        (config_get_value_append H s.defines value (g_scanner_get_next_token s).token)
    else (s, value)

/-- Function `config_get_value`: `none` is `NULL`. -/
def config_get_value (H : Header) (s : State) (prop : String) (assign : Bool) :
    State × Option String :=
  let s0 : State := { s with max_parse_errors := false }
  let e1 := config_expect_token s0 ('='.toNat) ("expecting " ++ prop ++ " = expression")
  if assign ∧ e1.2 = false then (e1.1, Option.none) else
  let s1 := g_scanner_peek_next_token (if assign then g_scanner_get_next_token e1.1 else s0)
  let r := config_get_value_loop H (s1.input.length + 1) s1 ""
  (config_optional_semicolon r.1, some r.2)

/-- Function `config_define`. -/
def config_define (H : Header) (s : State) : State :=
  let e1 := config_expect_token s G_TOKEN_IDENTIFIER "Missing identifier after 'define'"
  if e1.2 = false then e1.1 else
  let s1 := g_scanner_get_next_token e1.1
  let ident := s1.token.v_identifier
  let r := config_get_value H s1 "define" true
  if r.2.isNone then r.1 else
  { r.1 with defines := some (g_hash_table_insert (r.1.defines.getD []) ident (r.2.getD "")) }


/-! ## Widget properties and actions -/

/-- Function `flow_grid_set_cols` of `flowgrid.c`; other widgets fail the
`IS_FLOW_GRID` guard and are left alone. -/
def flow_grid_set_cols (w : Option GtkWidget) (cols : Int) : Option GtkWidget :=
  match w with
  | some (.flow_grid _ _) =>
    let rows : Int := if (0 : Int) < 1 ∧ cols < 1 then 1 else 0
    some (.flow_grid rows (if rows > 0 ∧ cols > 0 then -1 else cols))
  | w => w

/-- Function `flow_grid_set_rows` of `flowgrid.c`. -/
def flow_grid_set_rows (w : Option GtkWidget) (rows : Int) : Option GtkWidget :=
  match w with
  | some (.flow_grid _ _) =>
    let rows1 : Int := if rows < 1 ∧ (0 : Int) < 1 then 1 else rows
    some (.flow_grid rows1 (if rows1 > 0 ∧ (0 : Int) > 0 then -1 else 0))
  | w => w

/-- Loop of `config_get_pins`:
`do { get; expect string; get; pager_add_pin } while(peek == ',')`. -/
def config_get_pins_loop : Nat → State → State
  | 0, s => s
  | n + 1, s =>
    let e := config_expect_token (g_scanner_get_next_token s) G_TOKEN_STRING
      "expecting a string in pins = string [,string]"
    if e.2 = false then e.1 else
    let s1 := g_scanner_get_next_token e.1
    let s2 : State := { s1 with calls := s1.calls ++ [Call.pager_add_pin s1.token.v_string] }
    if (g_scanner_peek_next_token s2).next_token = .chr ',' then
      config_get_pins_loop n (g_scanner_peek_next_token s2)
    else g_scanner_peek_next_token s2

/-- Function `config_get_pins`. -/
def config_get_pins (s : State) (lw : layout_widget) : State :=
  let s0 : State := { s with max_parse_errors := false }
  if lw.wtype ≠ G_TOKEN_PAGER.code then
    g_scanner_error s0 "this widget has no property 'pins'"
  else
  let e := config_expect_token s0 ('='.toNat) "expecting pins = string [,string]"
  if e.2 = false then e.1 else
  config_optional_semicolon (config_get_pins_loop (e.1.input.length + 1) e.1)

/-- Function `config_widget_cols`: the new scanner state and widget. -/
def config_widget_cols (s : State) (lw : layout_widget) : State × layout_widget :=
  let s0 : State := { s with max_parse_errors := false }
  if lw.wtype ≠ G_TOKEN_TASKBAR.code ∧ lw.wtype ≠ G_TOKEN_PAGER.code ∧
      lw.wtype ≠ G_TOKEN_TRAY.code then
    (g_scanner_error s0 "this widget has no property 'cols'", lw)
  else
    let r := config_assign_number s0 "cols"
    (r.1, { lw with widget := flow_grid_set_cols lw.widget (double_to_gint r.2) })

/-- Function `config_widget_rows`: the new scanner state and widget. -/
def config_widget_rows (s : State) (lw : layout_widget) : State × layout_widget :=
  let s0 : State := { s with max_parse_errors := false }
  if lw.wtype ≠ G_TOKEN_TASKBAR.code ∧ lw.wtype ≠ G_TOKEN_PAGER.code ∧
      lw.wtype ≠ G_TOKEN_TRAY.code then
    (g_scanner_error s0 "this widget has no property 'rows'", lw)
  else
    let r := config_assign_number s0 "rows"
    (r.1, { lw with widget := flow_grid_set_rows lw.widget (double_to_gint r.2) })

/-- Modelled from the spec: the window-state bits of the absent header, "a
positive condition bitmask and a negative condition bitmask over window states
{focused, minimized, maximized, fullscreen, idle-inhibited, user-state}", one
bit per state in that order. -/
def WS_FOCUSED : Nat := 1

/-- Modelled from the spec: see `WS_FOCUSED`. -/
def WS_MINIMIZED : Nat := 2

/-- Modelled from the spec: see `WS_FOCUSED`. -/
def WS_MAXIMIZED : Nat := 4

/-- Modelled from the spec: see `WS_FOCUSED`. -/
def WS_FULLSCREEN : Nat := 8

/-- Modelled from the spec: see `WS_FOCUSED`. -/
def WS_INHIBIT : Nat := 16

/-- Modelled from the spec: see `WS_FOCUSED`. -/
def WS_USERSTATE : Nat := 32

/-- State bit selected by the condition switch of `config_action`; `none` is
the `default` case. -/
def config_action_state_bit (t : Token) : Option Nat :=
  if t = .kw G_TOKEN_FOCUSED then some WS_FOCUSED
  else if t = .kw G_TOKEN_MINIMIZED then some WS_MINIMIZED
  else if t = .kw G_TOKEN_MAXIMIZED then some WS_MAXIMIZED
  else if t = .kw G_TOKEN_FULLSCREEN then some WS_FULLSCREEN
  else if t = .kw G_TOKEN_IDLEINHIBIT then some WS_INHIBIT
  else if t = .kw G_TOKEN_USERSTATE then some WS_USERSTATE
  else Option.none

/-- Scanner state and the masks `cond`, `ncond` inside `config_action`. -/
structure CondState where
  s : State
  cond : Nat
  ncond : Nat

/-- One pass through the body of the condition loop of `config_action`:
`get; if(peek == '!') ...; switch(get) ...`; the masks are `guchar`. -/
def config_action_cond (c : CondState) : CondState :=
  let s1 := g_scanner_peek_next_token (g_scanner_get_next_token c.s)
  let s2 := g_scanner_get_next_token
    (if s1.next_token = .chr '!' then g_scanner_get_next_token s1 else s1)
  if (config_action_state_bit s2.token).isNone then
    { c with s := g_scanner_error s2 "invalid condition in action" }
  else if s1.next_token = .chr '!' then
    { c with s := s2, ncond := (c.ncond ||| (config_action_state_bit s2.token).getD 0) % 256 }
  else
    { c with s := s2, cond := (c.cond ||| (config_action_state_bit s2.token).getD 0) % 256 }

/-- Condition loop of `config_action`: `do { ... } while (peek == '|')`. -/
def config_action_conds : Nat → CondState → CondState
  | 0, c => c
  | n + 1, c =>
    if (g_scanner_peek_next_token (config_action_cond c).s).next_token = .chr '|' then
      config_action_conds n
        { config_action_cond c with s := g_scanner_peek_next_token (config_action_cond c).s }
    else { config_action_cond c with s := g_scanner_peek_next_token (config_action_cond c).s }

/-- Condition bracket of `config_action`. -/
def config_action_bracket (s : State) : CondState :=
  let s0 := g_scanner_peek_next_token s
  if s0.next_token = .chr '[' then
    let c := config_action_conds (s0.input.length + 1) { s := s0, cond := 0, ncond := 0 }
    let s1 := g_scanner_get_next_token c.s
    { c with s := if s1.token ≠ .chr ']' then
        g_scanner_error s1 "missing ']' in conditional action" else s1 }
  else { s := s0, cond := 0, ncond := 0 }

/-- Action keywords accepted by the first switch of `config_action`. -/
def action_keywords : List Keyword :=
  [G_TOKEN_EXEC, G_TOKEN_MENU, G_TOKEN_MENUCLEAR, G_TOKEN_PIPEREAD, G_TOKEN_SWAYCMD,
   G_TOKEN_SWAYWIN, G_TOKEN_MPDCMD, G_TOKEN_IDLEINHIBIT, G_TOKEN_USERSTATE, G_TOKEN_CONFIG,
   G_TOKEN_FUNCTION, G_TOKEN_FOCUS, G_TOKEN_CLOSE, G_TOKEN_MINIMIZE, G_TOKEN_MAXIMIZE,
   G_TOKEN_UNMINIMIZE, G_TOKEN_UNMAXIMIZE, G_TOKEN_SETMONITOR, G_TOKEN_SETLAYER,
   G_TOKEN_SETBARSIZE, G_TOKEN_SETBARID, G_TOKEN_SETEXCLUSIVEZONE, G_TOKEN_SETVALUE,
   G_TOKEN_SETSTYLE, G_TOKEN_SETTOOLTIP, G_TOKEN_CLIENTSEND]

/-- Action keywords taking one string argument (first group of the second
switch of `config_action`). -/
def action_keywords_string : List Keyword :=
  [G_TOKEN_EXEC, G_TOKEN_MENU, G_TOKEN_MENUCLEAR, G_TOKEN_PIPEREAD, G_TOKEN_SWAYCMD,
   G_TOKEN_SWAYWIN, G_TOKEN_MPDCMD, G_TOKEN_IDLEINHIBIT, G_TOKEN_USERSTATE, G_TOKEN_CONFIG,
   G_TOKEN_FUNCTION, G_TOKEN_SETMONITOR, G_TOKEN_SETLAYER, G_TOKEN_SETBARSIZE,
   G_TOKEN_SETBARID, G_TOKEN_SETEXCLUSIVEZONE]

/-- Keyword of a token; other tokens give the default `G_TOKEN_END`, which is
no action keyword. -/
def Token.keyword : Token → Keyword
  | .kw k => k
  | _ => G_TOKEN_END

/-- Test that a token is a reserved word. -/
def Token.is_keyword : Token → Bool
  | .kw _ => true
  | _ => false

/-- Result of `config_action`: the scanner state, the action record as the
function leaves it, and the returned boolean. -/
structure ActionResult where
  s : State
  action : layout_action
  ok : Bool

/-- Argument part of `config_action` (the second switch) for the action
keyword `type`.  On the `ClientSend` error path the C code frees `addr`
without clearing the field; the record keeps the string it pointed to. -/
def config_action_args (H : Header) (s : State) (action : layout_action) (type : Keyword) :
    ActionResult :=
  if type ∈ action_keywords_string then
    let e := config_expect_token s G_TOKEN_STRING "Missing argument in action"
    if e.2 = false then { s := e.1, action := action, ok := false } else
    let s1 := g_scanner_get_next_token e.1
    { s := s1, action := { action with command := some s1.token.v_string }, ok := true }
  else if type = G_TOKEN_CLIENTSEND then
    let e1 := config_expect_token s G_TOKEN_STRING "Missing argument in action"
    if e1.2 = false then { s := e1.1, action := action, ok := false } else
    let s1 := g_scanner_get_next_token e1.1
    let a1 : layout_action := { action with addr := some s1.token.v_string }
    let e2 := config_expect_token s1 (','.toNat) "Missing second argument in action"
    if e2.2 = false then { s := e2.1, action := a1, ok := false } else
    let e3 := config_expect_token (g_scanner_get_next_token e2.1) G_TOKEN_STRING
      "Missing second argument in action"
    if e3.2 = false then { s := e3.1, action := a1, ok := false } else
    let s2 := g_scanner_get_next_token e3.1
    { s := s2, action := { a1 with command := some s2.token.v_string }, ok := true }
  else if type = G_TOKEN_SETVALUE then
    let r := config_get_value H s "action value" false
    { s := r.1, action := { action with command := r.2 }, ok := true }
  else if type = G_TOKEN_SETSTYLE then
    let r := config_get_value H s "action style" false
    { s := r.1, action := { action with command := r.2 }, ok := true }
  else if type = G_TOKEN_SETTOOLTIP then
    let r := config_get_value H s "action tooltip" false
    { s := r.1, action := { action with command := r.2 }, ok := true }
  else { s := s, action := { action with command := Option.none }, ok := true }

/-- Part of `config_action` behind the condition bracket: the head token, the
arguments and the final stores into the action record. -/
def config_action_head (H : Header) (c : CondState) (action : layout_action) : ActionResult :=
  let s1 := g_scanner_peek_next_token c.s
  let s2 := if s1.next_token.code ≠ G_TOKEN_STRING then g_scanner_get_next_token s1 else s1
  if s1.next_token.code ≠ G_TOKEN_STRING ∧
      ¬ (s2.token.is_keyword ∧ s2.token.keyword ∈ action_keywords) then
    { s := s2, action := action, ok := false }
  else
  let type : Keyword :=
    if s1.next_token.code ≠ G_TOKEN_STRING then s2.token.keyword else G_TOKEN_EXEC
  let r := config_action_args H s2 action type
  if r.ok = false then r else
  { r with action := { r.action with type := type.code, cond := c.cond, ncond := c.ncond } }

/-- Function `config_action`. -/
def config_action (H : Header) (s : State) (action : layout_action) : ActionResult :=
  config_action_head H (config_action_bracket s) action

/-- Function `config_widget_action`: the new scanner state and widget. -/
def config_widget_action (H : Header) (s : State) (lw : layout_widget) :
    State × layout_widget :=
  let s0 := g_scanner_peek_next_token s
  let s1 := if s0.next_token = .chr '[' then
      g_scanner_get_next_token (g_scanner_get_next_token s0) else s0
  if s0.next_token = .chr '[' ∧ s1.token.code ≠ G_TOKEN_FLOAT then
    (g_scanner_error s1 "expecting a number in action[<number>]", lw)
  else
  let button : Int := if s0.next_token = .chr '[' then double_to_gint s1.token.v_float else 1
  let s2 := if s0.next_token = .chr '[' then g_scanner_get_next_token s1 else s1
  if s0.next_token = .chr '[' ∧ s2.token ≠ .chr ']' then
    (g_scanner_error s2 "expecting a ']' in action[<number>]", lw)
  else if button < 0 ∨ button > H.MAX_BUTTON then
    (g_scanner_error s2 ("invalid action index " ++ toString button), lw)
  else
  let s3 := g_scanner_get_next_token s2
  if s3.token ≠ .chr '=' then (g_scanner_error s3 "expecting a '=' after 'action'", lw) else
  let r := config_action H s3 (lw.action.getD button.toNat layout_action.zero)
  let lw1 : layout_widget := { lw with action := lw.action.set button.toNat r.action }
  if r.ok = false then (g_scanner_error r.s "invalid action", lw1)
  else (config_optional_semicolon r.s, lw1)

/-- Scanner state, widget and the locals `icons`, `labels`, `filter`,
`twidth` inside `config_widget_props`. -/
structure Props where
  s : State
  lw : layout_widget
  labels : Bool
  icons : Bool
  filter : Bool
  twidth : Int

/-- The switch of `config_widget_props` on the property keyword, which is the
current token of `s1`. -/
def config_widget_props_switch (H : Header) (p : Props) (s1 : State) : Props :=
  if s1.token = .kw G_TOKEN_STYLE then
    { p with s := (config_get_value H s1 "style" true).1,
             lw := { p.lw with style := (config_get_value H s1 "style" true).2 } }
  else if s1.token = .kw G_TOKEN_CSS then
    { p with s := (config_assign_string s1 "css").1,
             lw := { p.lw with css := (config_assign_string s1 "css").2 } }
  else if s1.token = .kw G_TOKEN_INTERVAL then
    if GTK_IS_GRID p.lw.widget then
      { p with s := g_scanner_error s1 "this widget has no property 'interval'" }
    else if p.lw.interval = 0 then
      { p with s := g_scanner_error s1 "this widget already has a trigger" }
    else
      { p with s := (config_assign_number s1 "interval").1,
               lw := { p.lw with interval := 1000 * (config_assign_number s1 "interval").2 } }
  else if s1.token = .kw G_TOKEN_TRIGGER then
    { p with s := (config_assign_string s1 "trigger").1,
             lw := { p.lw with interval := 0,
                               trigger := (config_assign_string s1 "trigger").2 } }
  else if s1.token = .kw G_TOKEN_VALUE then
    if GTK_IS_GRID p.lw.widget then
      { p with s := g_scanner_error s1 "this widget has no property 'value'" }
    else
      { p with s := (config_get_value H s1 "value" true).1,
               lw := { p.lw with value := (config_get_value H s1 "value" true).2 } }
  else if s1.token = .kw G_TOKEN_TOOLTIP then
    if GTK_IS_GRID p.lw.widget then
      { p with s := g_scanner_error s1 "this widget has no property 'tooltip'" }
    else
      { p with s := (config_get_value H s1 "tooltip" true).1,
               lw := { p.lw with tooltip := (config_get_value H s1 "tooltip" true).2 } }
  else if s1.token = .kw G_TOKEN_PINS then { p with s := config_get_pins s1 p.lw }
  else if s1.token = .kw G_TOKEN_PREVIEW then
    if p.lw.wtype ≠ G_TOKEN_PAGER.code then
      { p with s := g_scanner_error s1 "this widget has no property 'preview'" }
    else
      { p with s := { (config_assign_boolean s1 false "preview").1 with
          calls := (config_assign_boolean s1 false "preview").1.calls ++
            [Call.pager_set_preview (config_assign_boolean s1 false "preview").2] } }
  else if s1.token = .kw G_TOKEN_NUMERIC then
    if p.lw.wtype ≠ G_TOKEN_PAGER.code then
      { p with s := g_scanner_error s1 "this widget has no property 'numeric'" }
    else
      { p with s := { (config_assign_boolean s1 true "numeric").1 with
          calls := (config_assign_boolean s1 true "numeric").1.calls ++
            [Call.pager_set_numeric (config_assign_boolean s1 true "numeric").2] } }
  else if s1.token = .kw G_TOKEN_PEROUTPUT then
    if p.lw.wtype = G_TOKEN_TASKBAR.code then
      { p with s := (config_assign_boolean s1 false "filter_output").1,
               filter := (config_assign_boolean s1 false "filter_output").2 }
    else { p with s := g_scanner_error s1 "this widget has no property 'filter_output'" }
  else if s1.token = .kw G_TOKEN_TITLEWIDTH then
    if p.lw.wtype = G_TOKEN_TASKBAR.code then
      { p with s := (config_assign_number s1 "title_width").1,
               twidth := double_to_gint (config_assign_number s1 "title_width").2 }
    else { p with s := g_scanner_error s1 "this widget has no property 'title_width'" }
  else if s1.token = .kw G_TOKEN_COLS then
    { p with s := (config_widget_cols s1 p.lw).1, lw := (config_widget_cols s1 p.lw).2 }
  else if s1.token = .kw G_TOKEN_ROWS then
    { p with s := (config_widget_rows s1 p.lw).1, lw := (config_widget_rows s1 p.lw).2 }
  else if s1.token = .kw G_TOKEN_ACTION then
    { p with s := (config_widget_action H s1 p.lw).1, lw := (config_widget_action H s1 p.lw).2 }
  else if s1.token = .kw G_TOKEN_ICONS then
    { p with s := (config_assign_boolean s1 false "icons").1,
             icons := (config_assign_boolean s1 false "icons").2 }
  else if s1.token = .kw G_TOKEN_LABELS then
    { p with s := (config_assign_boolean s1 false "labels").1,
             labels := (config_assign_boolean s1 false "labels").2 }
  else if s1.token = .kw G_TOKEN_LOC then
    { p with s := (config_get_loc s1).1, lw := { p.lw with rect := (config_get_loc s1).2 } }
  else { p with s := g_scanner_error s1 "Unexpected token in widget definition" }

/-- One pass through the body of the loop of `config_widget_props`, entered
with the property keyword peeked: `switch(get) ...`. -/
def config_widget_props_item (H : Header) (p : Props) : Props :=
  config_widget_props_switch H p (g_scanner_get_next_token p.s)

/-- Loop test of `config_widget_props` on the peeked token. -/
def config_widget_props_continues (t : Token) (lw : layout_widget) : Bool :=
  ¬ (G_TOKEN_GRID.code ≤ t.code ∧ t.code ≤ G_TOKEN_TRAY.code ∧ lw.wtype = G_TOKEN_GRID.code) ∧
    t ≠ .chr '}' ∧ t ≠ .eof

/-- Loop of `config_widget_props`: `while(...) { switch(get) ...; peek; }`. -/
def config_widget_props_loop (H : Header) : Nat → Props → Props
  | 0, p => p
  | n + 1, p =>
    if config_widget_props_continues p.s.next_token p.lw then
      config_widget_props_loop H n
        { config_widget_props_item H p with
          s := g_scanner_peek_next_token (config_widget_props_item H p).s }
    else p

/-- Function `config_widget_props`: the new scanner state, the widget and the
returned boolean. -/
def config_widget_props (H : Header) (s : State) (lw : layout_widget) :
    State × layout_widget × Bool :=
  let s0 := g_scanner_peek_next_token { s with max_parse_errors := false }
  if s0.next_token ≠ .chr '\x7b' then (s0, lw, false) else
  let s1 := g_scanner_peek_next_token (g_scanner_get_next_token s0)
  let p := config_widget_props_loop H (s1.input.length + 1)
    { s := s1, lw := lw, labels := false, icons := false, filter := false, twidth := -1 }
  let s2 : State := if p.lw.wtype = G_TOKEN_TASKBAR.code then
      { p.s with calls := p.s.calls ++
          [Call.taskbar_set_options p.icons p.labels p.filter p.twidth] }
    else p.s
  let s3 := g_scanner_peek_next_token s2
  (if s3.next_token = .chr '}' ∧ p.lw.wtype ≠ G_TOKEN_GRID.code then
      g_scanner_get_next_token s3 else s3, p.lw, true)


/-! ## Menus -/

/-- Modelled from the spec: `layout_menu_get` is not among the sources; "named
menus are registered in a process-wide menu registry (unique by name)", and
the lookup gives the address of the menu registered under `name`, if any. -/
def layout_menu_get : List (String × Nat) → String → Option Nat
  | [], _ => Option.none
  | (k, m) :: rest, name => if k = name then some m else layout_menu_get rest name

/-- Modelled from the spec: `layout_menu_add` is not among the sources; the
registry is "unique by name, last declaration wins", so the menu replaces the
one registered under `name` or is added as a new entry. -/
def layout_menu_add : List (String × Nat) → String → Nat → List (String × Nat)
  | [], name, menu => [(name, menu)]
  | (k, m) :: rest, name, menu =>
    if k = name then (k, menu) :: rest else (k, m) :: layout_menu_add rest name menu

/-- Function `gtk_container_add` on a menu: appends the entry to the menu at
address `menu`. -/
def gtk_container_add (heap : List (List MenuEntry)) (menu : Nat) (e : MenuEntry) :
    List (List MenuEntry) :=
  match heap[menu]? with
  | some es => heap.set menu (es ++ [e])
  | Option.none => heap

/-- Function `config_menu_item`: the new menu item, or `none` for `NULL`. -/
def config_menu_item (H : Header) (s : State) : State × Option MenuEntry :=
  let s1 := g_scanner_get_next_token { s with max_parse_errors := false }
  if s1.token ≠ .chr '(' then (g_scanner_error s1 "missing '(' after 'item'", Option.none) else
  let s2 := g_scanner_get_next_token s1
  if s2.token.code ≠ G_TOKEN_STRING then
    (g_scanner_error s2 "missing label in 'item'", Option.none)
  else
  let s3 := g_scanner_get_next_token s2
  if s3.token ≠ .chr ',' then (g_scanner_error s3 "missing ',' in 'item'", Option.none) else
  let r := config_action H s3 layout_action.zero
  if r.ok = false then (g_scanner_error r.s "menu item: invalid action", Option.none) else
  let s4 := g_scanner_get_next_token r.s
  if s4.token ≠ .chr ')' then (g_scanner_error s4 "missing ')' after 'item'", Option.none) else
  (config_optional_semicolon s4, some (MenuEntry.item s2.token.v_string r.action))

/-- Result of the header part of `config_menu`: the scanner state, whether the
header was accepted, the menu name and the address of the menu to fill. -/
structure MenuHead where
  s : State
  ok : Bool
  name : String
  menu : Nat

/-- Header part of `config_menu`, up to the `peek` before its loop: parses
`("name") {` and takes the registered menu of that name when there is no
parent, else a new `GtkMenu`. -/
def config_menu_head (s : State) (parent : Option Nat) : MenuHead :=
  let s1 := g_scanner_get_next_token { s with max_parse_errors := false }
  if s1.token ≠ .chr '(' then
    { s := g_scanner_error s1 "missing '(' after 'menu'", ok := false, name := "", menu := 0 }
  else
  let s2 := g_scanner_get_next_token s1
  if s2.token.code ≠ G_TOKEN_STRING then
    { s := g_scanner_error s2 "missing menu name", ok := false, name := "", menu := 0 }
  else
  let s3 := g_scanner_get_next_token s2
  if s3.token ≠ .chr ')' then
    { s := g_scanner_error s3 "missing ')' afer 'menu'", ok := false, name := "", menu := 0 }
  else
  let s4 := g_scanner_get_next_token s3
  if s4.token ≠ .chr '\x7b' then
    { s := g_scanner_error s4 "missing '\x7b' afer 'menu'", ok := false, name := "", menu := 0 }
  else
  let found := layout_menu_get s4.menus s2.token.v_string
  if found.isNone ∨ parent.isSome then
    { s := g_scanner_peek_next_token { s4 with menu_heap := s4.menu_heap ++ [[]] },
      ok := true, name := s2.token.v_string, menu := s4.menu_heap.length }
  else
    { s := g_scanner_peek_next_token s4, ok := true, name := s2.token.v_string,
      menu := found.getD 0 }

/-- Tail part of `config_menu`, after its loop: consumes the closing brace,
registers a top-level menu under its name or attaches a submenu to its parent
as one entry labelled with the name. -/
def config_menu_tail (s : State) (name : String) (menu : Nat) (parent : Option Nat) : State :=
  let s1 := if s.next_token = .chr '}' then g_scanner_get_next_token s else s
  let s2 : State := match parent with
    | Option.none => { s1 with menus := layout_menu_add s1.menus name menu }
    | some p =>
      { s1 with menu_heap := gtk_container_add s1.menu_heap p (MenuEntry.submenu name menu) }
  config_optional_semicolon s2

/-- Cases `G_TOKEN_ITEM`, `G_TOKEN_SEPARATOR` and `default` of the switch in
the loop of `config_menu`, with the `gtk_container_add` that follows; entered
with the statement keyword current. -/
def config_menu_entry (H : Header) (s : State) (menu : Nat) : State :=
  if s.token = .kw G_TOKEN_ITEM then
    let r := config_menu_item H s
    if r.2.isNone then r.1
    else { r.1 with menu_heap :=
      gtk_container_add r.1.menu_heap menu (r.2.getD MenuEntry.separator) }
  else if s.token = .kw G_TOKEN_SEPARATOR then
    let s1 := config_optional_semicolon s
    { s1 with menu_heap := gtk_container_add s1.menu_heap menu MenuEntry.separator }
  else
    g_scanner_error s "Unexpected token in menu. Expecting an item or a separator"

/-- Loop of `config_menu`:
`while(next_token != EOF && next_token != '}') { switch(get) ...; peek; }`.
The case `G_TOKEN_SUBMENU` is the recursive call `config_menu(scanner,menu)`:
header, loop and tail of the submenu on the remaining budget. -/
def config_menu_loop (H : Header) : Nat → State → Nat → State
  | 0, s, _ => s
  | n + 1, s, menu =>
    if s.next_token ≠ .eof ∧ s.next_token ≠ .chr '}' then
      if (g_scanner_get_next_token s).token = .kw G_TOKEN_SUBMENU then
        if (config_menu_head (g_scanner_get_next_token s) (some menu)).ok = false then
          config_menu_loop H n
            (g_scanner_peek_next_token
              (config_menu_head (g_scanner_get_next_token s) (some menu)).s) menu
        else
          config_menu_loop H n
            (g_scanner_peek_next_token
              (config_menu_tail
                (config_menu_loop H n
                  (config_menu_head (g_scanner_get_next_token s) (some menu)).s
                  (config_menu_head (g_scanner_get_next_token s) (some menu)).menu)
                (config_menu_head (g_scanner_get_next_token s) (some menu)).name
                (config_menu_head (g_scanner_get_next_token s) (some menu)).menu
                (some menu))) menu
      else
        config_menu_loop H n
          (g_scanner_peek_next_token (config_menu_entry H (g_scanner_get_next_token s) menu))
          menu
    else s

/-- Function `config_menu`: `parent` is the address of the parent menu, or
`none` for `NULL`. -/
def config_menu (H : Header) (s : State) (parent : Option Nat) : State :=
  let h := config_menu_head s parent
  if h.ok = false then h.s else
  config_menu_tail (config_menu_loop H (h.s.input.length + 1) h.s h.menu) h.name h.menu parent


/-! ## Switcher, placer, functions and trigger actions -/

/-- Scanner state and the locals `css`, `interval`, `cols`, `twidth`, `icons`
and `labels` inside `config_switcher`. -/
structure Switcher where
  s : State
  css : Option String
  interval : Int
  cols : Int
  twidth : Int
  icons : Bool
  labels : Bool

/-- The switch in the loop of `config_switcher`, entered with the property
keyword current in `s1`. -/
def config_switcher_switch (p : Switcher) (s1 : State) : Switcher :=
  if s1.token = .kw G_TOKEN_INTERVAL then
    { p with s := (config_assign_number s1 "interval").1,
             interval := double_to_gint ((config_assign_number s1 "interval").2 / 100) }
  else if s1.token = .kw G_TOKEN_COLS then
    { p with s := (config_assign_number s1 "cols").1,
             cols := double_to_gint (config_assign_number s1 "cols").2 }
  else if s1.token = .kw G_TOKEN_CSS then
    { p with s := (config_assign_string s1 "css").1, css := (config_assign_string s1 "css").2 }
  else if s1.token = .kw G_TOKEN_ICONS then
    { p with s := (config_assign_boolean s1 false "icons").1,
             icons := (config_assign_boolean s1 false "icons").2 }
  else if s1.token = .kw G_TOKEN_LABELS then
    { p with s := (config_assign_boolean s1 false "labels").1,
             labels := (config_assign_boolean s1 false "labels").2 }
  else if s1.token = .kw G_TOKEN_TITLEWIDTH then
    { p with s := (config_assign_number s1 "title_width").1,
             twidth := double_to_gint (config_assign_number s1 "title_width").2 }
  else { p with s := g_scanner_error s1 "Unexpected token in 'switcher'" }

/-- Loop of `config_switcher`: `while(peek != '}' && peek != EOF) switch(get) ...`. -/
def config_switcher_loop : Nat → Switcher → Switcher
  | 0, p => { p with s := g_scanner_peek_next_token p.s }
  | n + 1, p =>
    if (g_scanner_peek_next_token p.s).next_token ≠ .chr '}' ∧
        (g_scanner_peek_next_token p.s).next_token ≠ .eof then
      config_switcher_loop n
        (config_switcher_switch p (g_scanner_get_next_token (g_scanner_peek_next_token p.s)))
    else { p with s := g_scanner_peek_next_token p.s }

/-- Function `config_switcher`: parses the block after the `Switcher` keyword. -/
def config_switcher (s : State) : State :=
  let e1 := config_expect_token { s with max_parse_errors := false } ('\x7b'.toNat)
    "Missing '\x7b' after 'switcher'"
  if e1.2 = false then e1.1 else
  let s1 := g_scanner_get_next_token e1.1
  let p := config_switcher_loop (s1.input.length + 1)
    { s := s1, css := Option.none, interval := 1, cols := 1, twidth := -1, icons := false,
      labels := false }
  let s2 := config_optional_semicolon
    (if p.s.next_token = .chr '}' then g_scanner_get_next_token p.s else p.s)
  { s2 with calls := s2.calls ++
      [Call.switcher_config p.cols p.css p.interval p.icons p.labels p.twidth] }

/-- Scanner state and the locals `wp_x`, `wp_y`, `wo_x`, `wo_y` and `pid`
inside `config_placer`. -/
structure Placer where
  s : State
  wp_x : Int
  wp_y : Int
  wo_x : Int
  wo_y : Int
  pid : Bool

/-- The switch in the loop of `config_placer`, entered with the property
keyword current in `s1`. -/
def config_placer_switch (p : Placer) (s1 : State) : Placer :=
  if s1.token = .kw G_TOKEN_XSTEP then
    { p with s := (config_assign_number s1 "xstep").1,
             wp_x := double_to_gint (config_assign_number s1 "xstep").2 }
  else if s1.token = .kw G_TOKEN_YSTEP then
    { p with s := (config_assign_number s1 "ystep").1,
             wp_y := double_to_gint (config_assign_number s1 "ystep").2 }
  else if s1.token = .kw G_TOKEN_XORIGIN then
    { p with s := (config_assign_number s1 "xorigin").1,
             wo_x := double_to_gint (config_assign_number s1 "xorigin").2 }
  else if s1.token = .kw G_TOKEN_YORIGIN then
    { p with s := (config_assign_number s1 "yorigin").1,
             wo_y := double_to_gint (config_assign_number s1 "yorigin").2 }
  else if s1.token = .kw G_TOKEN_CHILDREN then
    { p with s := (config_assign_boolean s1 false "children").1,
             pid := (config_assign_boolean s1 false "children").2 }
  else { p with s := g_scanner_error s1 "Unexpected token in 'placer'" }

/-- Loop of `config_placer`: `while(peek != '}' && peek != EOF) switch(get) ...`. -/
def config_placer_loop : Nat → Placer → Placer
  | 0, p => { p with s := g_scanner_peek_next_token p.s }
  | n + 1, p =>
    if (g_scanner_peek_next_token p.s).next_token ≠ .chr '}' ∧
        (g_scanner_peek_next_token p.s).next_token ≠ .eof then
      config_placer_loop n
        (config_placer_switch p (g_scanner_get_next_token (g_scanner_peek_next_token p.s)))
    else { p with s := g_scanner_peek_next_token p.s }

/-- Function `config_placer`: parses the block after the `Placer` keyword. -/
def config_placer (s : State) : State :=
  let e1 := config_expect_token { s with max_parse_errors := false } ('\x7b'.toNat)
    "Missing '\x7b' after 'placer'"
  if e1.2 = false then e1.1 else
  let s1 := g_scanner_get_next_token e1.1
  let p := config_placer_loop (s1.input.length + 1)
    { s := s1, wp_x := 10, wp_y := 10, wo_x := 0, wo_y := 0, pid := false }
  let s2 := config_optional_semicolon
    (if p.s.next_token = .chr '}' then g_scanner_get_next_token p.s else p.s)
  { s2 with calls := s2.calls ++
      [Call.placer_config (if p.wp_x < 1 then 1 else p.wp_x) (if p.wp_y < 1 then 1 else p.wp_y)
        p.wo_x p.wo_y p.pid] }

/-- One pass through the body of the loop of `config_function`: an accepted
action is appended to `actions`; the new scanner state is peeked. -/
def config_function_item (H : Header) (s : State) (actions : List layout_action) :
    State × List layout_action :=
  if (config_action H s layout_action.zero).ok = false then
    (g_scanner_peek_next_token
      (g_scanner_error (config_action H s layout_action.zero).s "invalid action"), actions)
  else
    (g_scanner_peek_next_token (config_action H s layout_action.zero).s,
      actions ++ [(config_action H s layout_action.zero).action])

/-- Loop of `config_function`:
`while(next_token != EOF && next_token != '}') { ...; peek; }`. -/
def config_function_loop (H : Header) :
    Nat → State → List layout_action → State × List layout_action
  | 0, s, actions => (s, actions)
  | n + 1, s, actions =>
    if s.next_token ≠ .eof ∧ s.next_token ≠ .chr '}' then
      config_function_loop H n (config_function_item H s actions).1
        (config_function_item H s actions).2
    else (s, actions)

/-- Function `config_function`: parses `("name") { actions }` after the
`Function` keyword. -/
def config_function (H : Header) (s : State) : State :=
  let s1 := g_scanner_get_next_token { s with max_parse_errors := false }
  if s1.token ≠ .chr '(' then g_scanner_error s1 "missing '(' after 'function'" else
  let s2 := g_scanner_get_next_token s1
  if s2.token.code ≠ G_TOKEN_STRING then g_scanner_error s2 "missing function name" else
  let s3 := g_scanner_get_next_token s2
  if s3.token ≠ .chr ')' then g_scanner_error s3 "missing ')' afer 'function'" else
  let s4 := g_scanner_get_next_token s3
  if s4.token ≠ .chr '\x7b' then g_scanner_error s4 "missing '\x7b' afer 'function'" else
  let s5 := g_scanner_peek_next_token s4
  let r := config_function_loop H (s5.input.length + 1) s5 []
  let s6 := config_optional_semicolon
    (if r.1.next_token = .chr '}' then g_scanner_get_next_token r.1 else r.1)
  { s6 with calls := s6.calls ++ [Call.action_function_add s2.token.v_string r.2] }

/-- Function `config_trigger_action`: parses `"trigger", action` after the
`TriggerAction` keyword. -/
def config_trigger_action (H : Header) (s : State) : State :=
  let e1 := config_expect_token s G_TOKEN_STRING "missing trigger in TriggerAction"
  if e1.2 = false then e1.1 else
  let s1 := g_scanner_get_next_token e1.1
  let e2 := config_expect_token s1 (','.toNat) "missing ',' in TriggerAction"
  if e2.2 = false then e2.1 else
  let r := config_action H (g_scanner_get_next_token e2.1) layout_action.zero
  if r.ok = false then g_scanner_error r.s "TriggerAction: invalid action" else
  let s2 : State :=
    { r.s with calls := r.s.calls ++ [Call.action_trigger_add r.action s1.token.v_string] }
  config_optional_semicolon s2


/-! ## Layouts, includes and the top level -/

/-- How a call comes back that may end the process: it returns, the process
is ended by `g_error` and `exit(1)`, it dereferences a `NULL` pointer, or the
budget of nested includes of the model is used up. -/
inductive Outcome (α : Type)
  | returned (a : α)
  | exited
  | fault
  | out_of_fuel
  deriving DecidableEq, Repr

/-- Sequencing: the rest of the function runs only if the call returned. -/
def Outcome.bind {α β : Type} : Outcome α → (α → Outcome β) → Outcome β
  | .returned a, f => f a
  | .exited, _ => .exited
  | .fault, _ => .fault
  | .out_of_fuel, _ => .out_of_fuel

/-- The toolkit widget that the switch of `config_widgets` makes for a widget
keyword; a flow grid starts with `rows = 1` and `cols = 0` (`flow_grid_init`). -/
def config_widgets_widget (t : Token) : Option GtkWidget :=
  if t = .kw G_TOKEN_GRID then some GtkWidget.grid
  else if t = .kw G_TOKEN_LABEL then some GtkWidget.label
  else if t = .kw G_TOKEN_IMAGE then some GtkWidget.scale_image
  else if t = .kw G_TOKEN_BUTTON then some GtkWidget.button
  else if t = .kw G_TOKEN_SCALE then some GtkWidget.progress_bar
  else if t = .kw G_TOKEN_TASKBAR then some (GtkWidget.flow_grid 1 0)
  else if t = .kw G_TOKEN_PAGER then some (GtkWidget.flow_grid 1 0)
  else if t = .kw G_TOKEN_TRAY then some (GtkWidget.flow_grid 1 0)
  else Option.none

/-- Function `config_include`, with `config_parse` as `parse`: the included
widget, or `none` for `NULL`; a `NULL` result of `config_parse` is
dereferenced by `lw->wtype = G_TOKEN_INCLUDE`. -/
def config_include (parse : String → State → Outcome (State × Option layout_widget))
    (s : State) : Outcome (State × Option layout_widget) :=
  let e1 := config_expect_token { s with max_parse_errors := false } ('('.toNat)
    "Missing '(' after include"
  if e1.2 = false then .returned (e1.1, Option.none) else
  let e2 := config_expect_token (g_scanner_get_next_token e1.1) G_TOKEN_STRING
    "Missing <string> in include(<string>)"
  if e2.2 = false then .returned (e2.1, Option.none) else
  (parse (g_scanner_get_next_token e2.1).token.v_string (g_scanner_get_next_token e2.1)).bind
    (fun r =>
      if r.2.isNone then .fault else
      .returned
        (config_optional_semicolon
          (if (config_expect_token r.1 (')'.toNat) "Missing ')' after include").2 then
            g_scanner_get_next_token
              (config_expect_token r.1 (')'.toNat) "Missing ')' after include").1
          else (config_expect_token r.1 (')'.toNat) "Missing ')' after include").1),
         r.2.map (fun lw => { lw with wtype := G_TOKEN_INCLUDE.code })))

/-- The switch of `config_widgets` with the two tests that follow it, entered
with the widget keyword current in `s1`: the widget record to configure, or
`none` where the loop goes on with `continue`. -/
def config_widgets_switch (H : Header)
    (inc : State → Outcome (State × Option layout_widget)) (s1 : State) :
    Outcome (State × Option layout_widget) :=
  if s1.token = .kw G_TOKEN_INCLUDE then
    (inc s1).bind (fun r =>
      if r.2.isNone then .returned (r.1, Option.none)
      else if r.1.max_parse_errors ∨ (r.2.bind (fun lw => lw.widget)).isNone then
        .returned (r.1, Option.none)
      else .returned r)
  else if (config_widgets_widget s1.token).isSome then
    .returned
      ({ s1 with max_parse_errors := false,
                 calls := if s1.token = .kw G_TOKEN_PAGER then
                     s1.calls ++ [Call.pager_set_numeric true] else s1.calls },
       some { H.layout_widget_new with wtype := s1.token.code,
                                       widget := config_widgets_widget s1.token })
  else .returned (g_scanner_error s1 "Unexpected token in 'layout'", Option.none)

/-- The closing brace after the loop of `config_widgets`. -/
def config_widgets_tail (s : State) : State :=
  if s.next_token = .chr '}' then g_scanner_get_next_token s else s

/-- Loop of `config_widgets`: `while(peek != '}' && peek != EOF) ...` for the
children of `parent`, with the local `sibling`.  The recursive call
`config_widgets(scanner, lw->widget)` for a grid is the loop and the closing
brace of the nested block on the remaining budget. -/
def config_widgets_loop (H : Header) (inc : State → Outcome (State × Option layout_widget)) :
    Nat → State → Option GtkWidget → Option GtkWidget → Outcome State
  | 0, s, _, _ => .returned (g_scanner_peek_next_token s)
  | n + 1, s, parent, sibling =>
    if (g_scanner_peek_next_token s).next_token ≠ .chr '}' ∧
        (g_scanner_peek_next_token s).next_token ≠ .eof then
      (config_widgets_switch H inc
          (g_scanner_get_next_token (g_scanner_peek_next_token s))).bind
        (fun w =>
          if w.2.isNone then config_widgets_loop H inc n w.1 parent sibling
          else if ((config_widget_props H w.1 (w.2.getD H.layout_widget_new)).2.1.wtype =
                G_TOKEN_GRID.code ∧
              (config_widget_props H w.1 (w.2.getD H.layout_widget_new)).2.2 = true) then
            (config_widgets_loop H inc n
                { (config_widget_props H w.1 (w.2.getD H.layout_widget_new)).1 with
                  calls := (config_widget_props H w.1 (w.2.getD H.layout_widget_new)).1.calls ++
                    [Call.layout_widget_config
                      (config_widget_props H w.1 (w.2.getD H.layout_widget_new)).2.1
                      parent sibling] }
                (config_widget_props H w.1 (w.2.getD H.layout_widget_new)).2.1.widget
                Option.none).bind
              (fun s4 =>
                config_widgets_loop H inc n
                  { config_widgets_tail s4 with
                    calls := (config_widgets_tail s4).calls ++
                      [Call.layout_widget_attach
                        (config_widget_props H w.1 (w.2.getD H.layout_widget_new)).2.1] }
                  parent
                  (H.layout_widget_config
                    (config_widget_props H w.1 (w.2.getD H.layout_widget_new)).2.1
                    parent sibling))
          else
            config_widgets_loop H inc n
              { (config_widget_props H w.1 (w.2.getD H.layout_widget_new)).1 with
                calls := (config_widget_props H w.1 (w.2.getD H.layout_widget_new)).1.calls ++
                  [Call.layout_widget_config
                    (config_widget_props H w.1 (w.2.getD H.layout_widget_new)).2.1
                    parent sibling,
                   Call.layout_widget_attach
                    (config_widget_props H w.1 (w.2.getD H.layout_widget_new)).2.1] }
              parent
              (H.layout_widget_config
                (config_widget_props H w.1 (w.2.getD H.layout_widget_new)).2.1
                parent sibling))
    else .returned (g_scanner_peek_next_token s)

/-- Function `config_widgets`: the widgets of a block, children of `parent`. -/
def config_widgets (H : Header) (inc : State → Outcome (State × Option layout_widget))
    (s : State) (parent : Option GtkWidget) : Outcome State :=
  (config_widgets_loop H inc (s.input.length + 1) s parent Option.none).bind
    (fun s1 => .returned (config_widgets_tail s1))

/-- Function `config_layout`: parses the block after the `Layout` keyword and
returns the root widget record. -/
def config_layout (H : Header) (inc : State → Outcome (State × Option layout_widget))
    (s : State) : Outcome (State × layout_widget) :=
  let s0 : State :=
    { s with max_parse_errors := false,
             calls := s.calls ++ [Call.gtk_widget_set_name (some GtkWidget.grid) "layout"] }
  let r := config_widget_props H s0
    { H.layout_widget_new with wtype := G_TOKEN_GRID.code, widget := some GtkWidget.grid }
  let s1 : State :=
    { r.1 with calls := r.1.calls ++
        [Call.layout_widget_config r.2.1 Option.none Option.none] }
  if r.2.1.widget.isSome ∧ r.2.2 = true then
    (config_widgets H inc s1 r.2.1.widget).bind (fun s2 => .returned (s2, r.2.1))
  else .returned (s1, r.2.1)

/-- The switch in the loop of `config_parse_toplevel`, entered with the
keyword current in `s1`; `w` is the local holding the last layout. -/
def config_parse_toplevel_switch (H : Header)
    (inc : State → Outcome (State × Option layout_widget)) (layout : Bool) (s1 : State)
    (w : Option layout_widget) : Outcome (State × Option layout_widget) :=
  if s1.token = .kw G_TOKEN_SCANNER then .returned (config_scanner H s1, w)
  else if s1.token = .kw G_TOKEN_LAYOUT then
    if layout then (config_layout H inc s1).bind (fun r => .returned (r.1, some r.2))
    else .returned (g_scanner_error s1 "layout not supported in dynamic config", w)
  else if s1.token = .kw G_TOKEN_PLACER then .returned (config_placer s1, w)
  else if s1.token = .kw G_TOKEN_SWITCHER then .returned (config_switcher s1, w)
  else if s1.token = .kw G_TOKEN_MENU then .returned (config_menu H s1 Option.none, w)
  else if s1.token = .kw G_TOKEN_DEFINE then .returned (config_define H s1, w)
  else if s1.token = .kw G_TOKEN_TRIGGERACTION then .returned (config_trigger_action H s1, w)
  else if s1.token = .kw G_TOKEN_FUNCTION then .returned (config_function H s1, w)
  else .returned (g_scanner_error s1 "Unexpected toplevel token", w)

/-- Loop of `config_parse_toplevel`: `while(peek != EOF) switch(get) ...`. -/
def config_parse_toplevel_loop (H : Header)
    (inc : State → Outcome (State × Option layout_widget)) (layout : Bool) :
    Nat → State → Option layout_widget → Outcome (State × Option layout_widget)
  | 0, s, w => .returned (g_scanner_peek_next_token s, w)
  | n + 1, s, w =>
    if (g_scanner_peek_next_token s).next_token ≠ .eof then
      (config_parse_toplevel_switch H inc layout
          (g_scanner_get_next_token (g_scanner_peek_next_token s)) w).bind
        (fun r => config_parse_toplevel_loop H inc layout n r.1 r.2)
    else .returned (g_scanner_peek_next_token s, w)

/-- Function `config_parse_toplevel`: the last layout of the document, or
`none` for `NULL`. -/
def config_parse_toplevel (H : Header) (inc : State → Outcome (State × Option layout_widget))
    (s : State) (layout : Bool) : Outcome (State × Option layout_widget) :=
  config_parse_toplevel_loop H inc layout (s.input.length + 1) s Option.none

/-- The text `"\n#CSS"` that `config_parse_file` searches for. -/
def css_sentinel : List Char := [Char.ofNat 10, '#', 'C', 'S', 'S']

/-- The split `strstr(data,"\n#CSS")` of `config_parse_file`: the text before
the first occurrence of the sentinel and, if there is one, the text after it. -/
def css_split : List Char → List Char × Option (List Char)
  | [] => ([], Option.none)
  | c :: cs =>
    if (c :: cs).take 5 = css_sentinel then ([], some ((c :: cs).drop 5))
    else (c :: (css_split cs).1, (css_split cs).2)

/-- Function `config_parse_file`: a new scanner over the text before the CSS
sentinel runs `config_parse_toplevel`; the static state is shared with the
caller, whose own scanner is untouched. -/
def config_parse_file (H : Header) (inc : State → Outcome (State × Option layout_widget))
    (s : State) (data : Option String) (layout : Bool) :
    Outcome (State × Option layout_widget) :=
  match data with
  | Option.none => .returned (s, Option.none)
  | some d =>
    (config_parse_toplevel H inc
        { s with input := H.g_scanner_input_text (String.mk (css_split d.data).1),
                 token := .none, next_token := .none, max_parse_errors := false,
                 calls := match (css_split d.data).2 with
                   | some css => s.calls ++ [Call.gtk_css_provider_load_from_data (String.mk css)]
                   | Option.none => s.calls }
        layout).bind
      (fun r =>
        .returned
          ({ r.1 with input := s.input, token := s.token, next_token := s.next_token,
                      max_parse_errors := s.max_parse_errors }, r.2))

/-- Function `config_parse`, with the nesting of includes bounded by the first
argument: an unreadable file ends the process through `g_error` and
`exit(1)`. -/
def config_parse (H : Header) : Nat → String → State → Outcome (State × Option layout_widget)
  | 0, _, _ => .out_of_fuel
  | n + 1, file, s =>
    match H.get_contents file with
    | Option.none => .exited
    | some conf =>
      config_parse_file H (config_include (fun f st => config_parse H n f st)) s (some conf)
        true


/-- Function `config_string`: parses a configuration text as a dynamic
fragment, with `layout = FALSE`; a `NULL` string is ignored. -/
def config_string (H : Header) (inc : State → Outcome (State × Option layout_widget))
    (s : State) (string : Option String) : Outcome State :=
  match string with
  | Option.none => .returned s
  | some conf => (config_parse_file H inc s (some conf) false).bind (fun r => .returned r.1)


/-! ## Menu registry (menu.c) -/

/-- Static state of `menu.c`: the hash table `menus` (`none` while the pointer
is `NULL`) from names to addresses of menus, and the heap of `GtkMenu`
objects, each the list of its items; an item holds the address of its submenu,
if it has one. -/
structure MenuTable where
  menus : Option (List (String × Nat))
  heap : List (List (Option Nat))
  deriving DecidableEq, Repr

/-- Function `g_hash_table_lookup` on the table `menus` as a list of entries;
the keys are compared with `str_nequal`. -/
def menus_lookup : List (String × Nat) → String → Option Nat
  | [], _ => Option.none
  | (k, v) :: rest, key => if str_nequal k key then some v else menus_lookup rest key

/-- Function `g_hash_table_insert` on the table `menus`: replaces the value of
an existing key, else adds an entry. -/
def menus_insert : List (String × Nat) → String → Nat → List (String × Nat)
  | [], key, value => [(key, value)]
  | (k, v) :: rest, key, value =>
    if str_nequal k key then (k, value) :: rest else (k, v) :: menus_insert rest key value

/-- Function `g_hash_table_remove` on the table `menus`: removes the entry of
the key. -/
def menus_remove : List (String × Nat) → String → List (String × Nat)
  | [], _ => []
  | (k, v) :: rest, key =>
    if str_nequal k key then rest else (k, v) :: menus_remove rest key

/-- Function `menu_from_name`: `none` is `NULL`, for the name and for the
result. -/
def menu_from_name (t : MenuTable) (name : Option String) : Option Nat :=
  match t.menus, name with
  | some m, some n => menus_lookup m n
  | _, _ => Option.none

/-- Function `menu_remove`: the submenus of the items of the menu are
detached, then the entry is removed from the table. -/
def menu_remove (t : MenuTable) (name : Option String) : MenuTable :=
  match t.menus, name with
  | some m, some n =>
    match menu_from_name t name with
    | Option.none => t
    | some menu =>
      { menus := some (menus_remove m n),
        heap := t.heap.set menu ((t.heap.getD menu []).map (fun _ => Option.none)) }
  | _, _ => t

/-- Function `menu_new`: the new static state and the menu returned;
`gtk_menu_new` takes the next free address of the heap. -/
def menu_new (t : MenuTable) (name : Option String) : MenuTable × Nat :=
  if name.isSome ∧ (menu_from_name t name).isSome then (t, (menu_from_name t name).getD 0)
  else
    match name with
    | Option.none => ({ t with heap := t.heap ++ [[]] }, t.heap.length)
    | some n =>
      ({ menus := some (menus_insert (t.menus.getD []) n t.heap.length),
         heap := t.heap ++ [[]] }, t.heap.length)


/-! ## Flow grid (flowgrid.c) -/

/-- Conversion of an integer to `gint`: the value modulo `2^32` in the range
of a 32-bit signed integer. -/
def to_gint (x : Int) : Int := (x + 2 ^ 31) % 2 ^ 32 - 2 ^ 31

/-- The widget as `flow_grid_init` leaves it: `rows = 1`, `cols = 0`. -/
def flow_grid_init : Option GtkWidget := some (GtkWidget.flow_grid 1 0)

/-- A call of `flow_grid_set_rows` or `flow_grid_set_cols` with its argument. -/
inductive FlowGridCall
  | set_rows (rows : Int)
  | set_cols (cols : Int)
  deriving DecidableEq, Repr

/-- The widget after one call. -/
def FlowGridCall.run (w : Option GtkWidget) : FlowGridCall → Option GtkWidget
  | .set_rows rows => flow_grid_set_rows w rows
  | .set_cols cols => flow_grid_set_cols w cols

/-- The divisor of `flow_grid_attach`: `rows` when `rows > 0`, else `cols`. -/
def flow_grid_divisor (rows cols : Int) : Int := if rows > 0 then rows else cols

/-- Exactly one of `rows > 0` and `cols > 0` holds for a flow grid. -/
def flow_grid_oriented : Option GtkWidget → Prop
  | some (.flow_grid rows cols) =>
    ((0 < rows ∧ ¬ 0 < cols) ∨ (¬ 0 < rows ∧ 0 < cols)) ∧ 0 < flow_grid_divisor rows cols
  | _ => False

/-- A flow item: the identity of its widget and what `flow_item_get_active`
returns for it. -/
structure FlowItem where
  id : Nat
  active : Bool
  deriving DecidableEq, Repr

/-- The private data of a flow grid that `flow_grid_attach` uses, with the
children of the underlying `GtkGrid`: each child is the identity of its widget
with the column and the row it was attached at. -/
structure FlowGridPrivate where
  rows : Int
  cols : Int
  i : Int
  children : List (Nat × Int × Int)
  deriving DecidableEq, Repr

/-- Function `flow_grid_attach`; `/` and `%` of C truncate toward zero, and the
counter is a `gint`. -/
def flow_grid_attach (g : FlowGridPrivate) (w : FlowItem) : FlowGridPrivate :=
  if w.active = false then g else
  let i : Int := if g.children.isEmpty then 0 else g.i
  if g.rows > 0 then
    { g with children := g.children ++ [(w.id, i.tdiv g.rows, i.tmod g.rows)],
             i := to_gint (i + 1) }
  else
    { g with children := g.children ++ [(w.id, i.tmod g.cols, i.tdiv g.cols)],
             i := to_gint (i + 1) }

/-- The cells of the specification for a grid filled by rows of `r`: the
active items in order, the `k`-th of them at column `k / r` and row `k % r`,
counting from `k`. -/
def cells_down (r : Int) : Nat → List FlowItem → List (Nat × Int × Int)
  | _, [] => []
  | k, w :: ws =>
    if w.active then (w.id, (k : Int) / r, (k : Int) % r) :: cells_down r (k + 1) ws
    else cells_down r k ws

/-- The cells of the specification for a grid filled by columns of `c`: the
`k`-th active item at column `k % c` and row `k / c`. -/
def cells_across (c : Int) : Nat → List FlowItem → List (Nat × Int × Int)
  | _, [] => []
  | k, w :: ws =>
    if w.active then (w.id, (k : Int) % c, (k : Int) / c) :: cells_across c (k + 1) ws
    else cells_across c k ws

/-- Number of active items. -/
def active_count (ws : List FlowItem) : Nat := (ws.filter (fun w => w.active)).length


/-! ## Taskbar pager, menu items and the buffer of value strings -/

/-- The value modulo `2^64` in the range of a `long long`. -/
def to_gint64 (x : Int) : Int := (x + 2 ^ 63) % 2 ^ 64 - 2 ^ 63

/-- Function `taskbar_pager_compare`: `n1` and `n2` are what `strtoll` returns
for the names of the two workspaces and `cmp` what `g_strcmp0` returns for
them; the difference of the two `long long` values is returned as a `gint`. -/
def taskbar_pager_compare (sort_numeric : Bool) (n1 n2 cmp : Int) : Int :=
  if sort_numeric then to_gint (to_gint64 (n1 - n2)) else cmp

/-- Private data of a taskbar pager holder as `taskbar_pager_decorate` uses
it: the pointer `button` (`none` is `NULL`) and the buttons created so far,
each with the flag that it has not been destroyed; the pointer of a button is
its index. -/
structure TaskbarPagerPrivate where
  button : Option Nat
  buttons : List Bool
  deriving DecidableEq, Repr

/-- Function `taskbar_pager_decorate`: `gtk_widget_destroy` ends the life of
the button and leaves the field `button` as it is. -/
def taskbar_pager_decorate (priv : TaskbarPagerPrivate) (labels _icons : Bool) :
    TaskbarPagerPrivate :=
  if labels = priv.button.isSome then priv
  else if labels = false ∧ priv.button.isSome then
    { priv with buttons := priv.buttons.set (priv.button.getD 0) false }
  else
    { button := some priv.buttons.length, buttons := priv.buttons ++ [true] }

/-- The holder has a live label button: the pointer is set and its button
has not been destroyed. -/
def has_live_button (priv : TaskbarPagerPrivate) : Bool :=
  match priv.button with
  | some b => priv.buttons.getD b false
  | Option.none => false

/-- A new holder: no button yet. -/
def taskbar_pager_init : TaskbarPagerPrivate := { button := Option.none, buttons := [] }

/-- Function `strchr`: the text from the first occurrence of `c` on, or `none`
for `NULL`. -/
def strchr : List Char → Char → Option (List Char)
  | [], _ => Option.none
  | x :: xs, c => if x = c then some (x :: xs) else strchr xs c

/-- The arguments `text` and `icon` of the call `menu_item_update(item, text,
icon?icon+1:NULL)` in `menu_item_new`: `g_strndup(label, icon-label)` copies
the characters in front of the position `icon`. -/
def menu_item_new (label : List Char) : List Char × Option (List Char) :=
  match strchr label '%' with
  | some icon => (label.take (label.length - icon.length), some (icon.drop 1))
  | Option.none => (label, Option.none)

/-- Result of the first loop of `config_value_string`: the number of `"` in
the string. -/
def count_quotes : List Char → Nat
  | [] => 0
  | c :: cs => (if c = dquote then 1 else 0) + count_quotes cs

/-- A write `buf[i] = c` into a buffer; `none` when the index is outside the
buffer. -/
def buffer_write (buf : List Char) (i : Nat) (c : Char) : Option (List Char) :=
  if i < buf.length then some (buf.set i c) else Option.none

/-- Second loop of `config_value_string` over the characters of `string` that
are left: the buffer and the index `l` behind the last write, or `none` when a
write was outside the buffer. -/
def config_value_string_loop : List Char → List Char → Nat → Option (List Char × Nat)
  | [], buf, l => some (buf, l)
  | c :: cs, buf, l =>
    if c = dquote then
      (buffer_write buf l backslash).bind (fun b1 =>
        (buffer_write b1 (l + 1) c).bind (fun b2 => config_value_string_loop cs b2 (l + 2)))
    else
      (buffer_write buf l c).bind (fun b1 => config_value_string_loop cs b1 (l + 1))

/-- Function `config_value_string` on the level of the buffer: `g_malloc`
gives `l+i+j+3` bytes of unknown content `fill`, `memcpy` copies `dest`, and
every later write is checked against the size of the buffer; the result is
the whole buffer, or `none` when a write was outside of it. -/
def config_value_string_buffer (fill : Char) (dest string : List Char) : Option (List Char) :=
  let l := dest.length
  let i := string.length
  let j := count_quotes string
  let result := dest ++ List.replicate (l + i + j + 3 - l) fill
  (buffer_write result l dquote).bind (fun b1 =>
    (config_value_string_loop string b1 (l + 1)).bind (fun r =>
      (buffer_write r.1 r.2 dquote).bind (fun b2 =>
        buffer_write b2 (r.2 + 1) (Char.ofNat 0))))


/-! ## Inputs used in the statements -/

/-- A widget record as `layout_widget_new` may return it: no toolkit widget
yet, a non-zero polling interval, no trigger and an action table of
`MAX_BUTTON + 1` empty slots. -/
def layout_widget_example : layout_widget :=
  { wtype := 0, widget := Option.none, style := Option.none,
    css := Option.none, value := Option.none, tooltip := Option.none,
    trigger := Option.none, interval := 1000000,
    action := List.replicate 9 layout_action.zero,
    rect := { x := 0, y := 0, w := 1, h := 1 } }

/-- A header instance for closed examples: `SV_REPLACE = 0`, `MAX_BUTTON = 8`,
a number formatter that prints the digits of an integer value, new widget
records as in `layout_widget_example`, the configured widget as the next
sibling, and a file system without any readable file. -/
def header_example : Header :=
  { SV_REPLACE := 0, MAX_BUTTON := 8, g_ascii_dtostr := fun v => toString v.num,
    layout_widget_new := layout_widget_example,
    layout_widget_config := fun lw _ _ => lw.widget,
    g_scanner_input_text := fun _ => [],
    get_contents := fun _ => Option.none }

/-- Tokens of `File("path") { name = RegEx("pattern") }`. -/
def file_decl (path name pattern : String) : List Lexeme :=
  [.kw G_TOKEN_FILE, .chr '(', .str path, .chr ')', .chr '\x7b', .ident name, .chr '=',
   .kw G_TOKEN_REGEX, .chr '(', .str pattern, .chr ')', .chr '}']

/-- Tokens of `{ File("path") { name = RegEx("pattern", Agg) } }`, the input of
`config_scanner` after the `Scanner` keyword. -/
def scanner_block (path name pattern : String) (agg : Keyword) : List Lexeme :=
  [.chr '\x7b', .kw G_TOKEN_FILE, .chr '(', .str path, .chr ')', .chr '\x7b', .ident name,
   .chr '=', .kw G_TOKEN_REGEX, .chr '(', .str pattern, .chr ',', .kw agg, .chr ')',
   .chr '}', .chr '}']

/-- A scanner inside the body of a source `f`, with the variable name `load`
peeked by the variable loop. -/
def grab_example : State :=
  { State.init [] with
    next_token := .ident "load",
    files := [{ fname := "f", trigger := Option.none, source := SO_FILE, mtime := 0,
                flags := VF_NOGLOB, vars := [] }],
    file_list := [0] }

/-- A label widget as `config_widgets` creates it, with a non-zero polling
interval, no trigger and an action table of `MAX_BUTTON + 1` empty slots. -/
def label_example : layout_widget :=
  { wtype := G_TOKEN_LABEL.code, widget := some GtkWidget.label, style := Option.none,
    css := Option.none, value := Option.none, tooltip := Option.none,
    trigger := Option.none, interval := 1000000,
    action := List.replicate 9 layout_action.zero,
    rect := { x := 0, y := 0, w := 1, h := 1 } }

/-- Tokens of the property block `{ interval = n trigger = "t" }`. -/
def interval_trigger_block (n : ℚ) (t : String) : List Lexeme :=
  [.chr '\x7b', .kw G_TOKEN_INTERVAL, .chr '=', .float n, .kw G_TOKEN_TRIGGER, .chr '=',
   .str t, .chr '}']

/-- Tokens of the property block `{ interval = n trigger = "t" interval = m }`. -/
def interval_trigger_interval_block (n : ℚ) (t : String) (m : ℚ) : List Lexeme :=
  [.chr '\x7b', .kw G_TOKEN_INTERVAL, .chr '=', .float n, .kw G_TOKEN_TRIGGER, .chr '=',
   .str t, .kw G_TOKEN_INTERVAL, .chr '=', .float m, .chr '}']

/-- Tokens of the property block `{ interval = 0; interval = 5; }`. -/
def interval_zero_block : List Lexeme :=
  [.chr '\x7b', .kw G_TOKEN_INTERVAL, .chr '=', .float 0, .chr ';', .kw G_TOKEN_INTERVAL,
   .chr '=', .float 5, .chr ';', .chr '}']

/-- Invariant of the claim on `interval` and `trigger`: a widget with a
trigger has interval zero. -/
def trigger_excludes_interval (lw : layout_widget) : Prop :=
  lw.trigger.isSome → lw.interval = 0

/-- The invariant `trigger_excludes_interval` on the widget of a loop state
of `config_widget_props`. -/
def props_invariant (p : Props) : Prop := trigger_excludes_interval p.lw

/-- The window states a condition can name. -/
inductive WindowState
  | focused | minimized | maximized | fullscreen | idle_inhibit | user_state
  deriving DecidableEq, Repr

/-- Keyword that names a window state in a condition. -/
def WindowState.keyword : WindowState → Keyword
  | .focused => G_TOKEN_FOCUSED
  | .minimized => G_TOKEN_MINIMIZED
  | .maximized => G_TOKEN_MAXIMIZED
  | .fullscreen => G_TOKEN_FULLSCREEN
  | .idle_inhibit => G_TOKEN_IDLEINHIBIT
  | .user_state => G_TOKEN_USERSTATE

/-- State bit of a window state. -/
def WindowState.bit : WindowState → Nat
  | .focused => WS_FOCUSED
  | .minimized => WS_MINIMIZED
  | .maximized => WS_MAXIMIZED
  | .fullscreen => WS_FULLSCREEN
  | .idle_inhibit => WS_INHIBIT
  | .user_state => WS_USERSTATE

/-- A condition of a bracket: a window state, possibly prefixed by `!`. -/
structure Condition where
  negated : Bool
  state : WindowState
  deriving DecidableEq, Repr

/-- Tokens of one condition. -/
def Condition.tokens (c : Condition) : List Lexeme :=
  if c.negated then [.chr '!', .kw c.state.keyword] else [.kw c.state.keyword]

/-- Tokens of the conditions `c|c1|...|cn` between the brackets. -/
def conditions_tokens : Condition → List Condition → List Lexeme
  | c, [] => c.tokens
  | c, d :: ds => c.tokens ++ .chr '|' :: conditions_tokens d ds

/-- Tokens of the bracket `[c|c1|...|cn]`. -/
def bracket_tokens (c : Condition) (cs : List Condition) : List Lexeme :=
  .chr '[' :: (conditions_tokens c cs ++ [.chr ']'])

/-- Bitwise OR of the state bits of exactly the conditions of `cs` that are
negated (`negated = true`) or exactly those that are not (`negated = false`). -/
def condition_mask (negated : Bool) : List Condition → Nat
  | [] => 0
  | c :: cs =>
    if c.negated = negated then c.state.bit ||| condition_mask negated cs
    else condition_mask negated cs

/-- The last condition of `c|c1|...|cn`. -/
def last_condition : Condition → List Condition → Condition
  | c, [] => c
  | _, d :: ds => last_condition d ds

/-- The result `r` of `config_action` with the masks of a condition bracket
stored when the action was accepted. -/
def ActionResult.with_masks (r : ActionResult) (cond ncond : Nat) : ActionResult :=
  if r.ok = false then r
  else { r with action := { r.action with cond := cond, ncond := ncond } }

/-- A run of value tokens: every token passes the loop test of
`config_get_value`. -/
def value_run (ts : List Lexeme) : Prop :=
  ∀ l ∈ ts, config_get_value_continues l.token = true

/-- A token stream on which the loop of `config_get_value` stops at once: it
is empty or starts with a token that fails the loop test. -/
def value_stop (ts : List Lexeme) : Prop :=
  ∀ l, ts.head? = some l → config_get_value_continues l.token = false

/-- Text of a run of value tokens: the texts that `config_get_value` appends
for its tokens, in order, starting from the empty value. -/
def value_text (H : Header) (defines : Option (List (String × String)))
    (ts : List Lexeme) : String :=
  ts.foldl (fun v l => config_get_value_append H defines v l.token) ""

/-- The current token after a run of tokens was taken. -/
def run_last : List Lexeme → Token → Token
  | [], t => t
  | l :: ls, _ => run_last ls l.token

/-- A state of the macro table at evaluation time, for the examples: `X`
holds the text `Y` and `Y` is itself defined. -/
def defines_example : List (String × String) := [("X", "Y"), ("Y", "z")]

/-- The aggregator keywords, each with the value `token - G_TOKEN_SUM + 1`
that `config_scanner_var` stores for it. -/
def aggregators : List (Keyword × Nat) :=
  [(G_TOKEN_SUM, 1), (G_TOKEN_PRODUCT, 2), (G_TOKEN_LASTW, 3), (G_TOKEN_FIRST, 4)]

/-! ### Menu declarations -/

/-- Statements of a well-formed menu body, each with the statements that
follow it: an item with its label, the tokens of its action and the action
they stand for, a separator, or a submenu with its name and its own body;
`semi` tells whether the statement is closed by a `;`. -/
inductive MenuBody
  | done
  | item (label : String) (tokens : List Lexeme) (action : layout_action) (semi : Bool)
      (next : MenuBody)
  | separator (semi : Bool) (next : MenuBody)
  | submenu (name : String) (body : MenuBody) (semi : Bool) (next : MenuBody)

/-- Tokens of an optional `;`. -/
def semicolon_tokens (semi : Bool) : List Lexeme := if semi then [.chr ';'] else []

/-- Tokens of the statements of a menu body. -/
def MenuBody.tokens : MenuBody → List Lexeme
  | .done => []
  | .item label ts _ semi next =>
    [.kw G_TOKEN_ITEM, .chr '(', .str label, .chr ','] ++ ts ++ [.chr ')'] ++
      semicolon_tokens semi ++ next.tokens
  | .separator semi next => [.kw G_TOKEN_SEPARATOR] ++ semicolon_tokens semi ++ next.tokens
  | .submenu name body semi next =>
    [.kw G_TOKEN_SUBMENU, .chr '(', .str name, .chr ')', .chr '\x7b'] ++ body.tokens ++
      [.chr '}'] ++ semicolon_tokens semi ++ next.tokens

/-- The tokens `ts` are an action that `config_action` accepts as `action`
inside `item(label, ...)`: followed by `)` it consumes exactly `ts`, reports
nothing and returns `action`. -/
def action_accepted (H : Header) (ts : List Lexeme) (action : layout_action) : Prop :=
  ∀ (s : State) (rest : List Lexeme),
    ∃ tok : Token,
      config_action H { s with next_token := .none, input := (ts ++ .chr ')' :: rest) }
          layout_action.zero =
        { s := { s with token := tok, next_token := .none, input := (.chr ')' :: rest) },
          action := action, ok := true }

/-- Every item of the body carries an action that `config_action` accepts. -/
def MenuBody.accepted (H : Header) : MenuBody → Prop
  | .done => True
  | .item _ ts action _ next => action_accepted H ts action ∧ next.accepted H
  | .separator _ next => next.accepted H
  | .submenu _ body _ next => body.accepted H ∧ next.accepted H

/-- The menu heap after the statements of a body were added to the menu at
address `menu`: one entry per statement, in order; a submenu takes the next
free address and is filled with its own body before its entry is added. -/
def MenuBody.build : MenuBody → List (List MenuEntry) → Nat → List (List MenuEntry)
  | .done, heap, _ => heap
  | .item label _ action _ next, heap, menu =>
    next.build (gtk_container_add heap menu (MenuEntry.item label action)) menu
  | .separator _ next, heap, menu =>
    next.build (gtk_container_add heap menu MenuEntry.separator) menu
  | .submenu name body _ next, heap, menu =>
    next.build
      (gtk_container_add (body.build (heap ++ [[]]) heap.length) menu
        (MenuEntry.submenu name heap.length)) menu

/-- Number of menus that the submenus of a body allocate. -/
def MenuBody.menus : MenuBody → Nat
  | .done => 0
  | .item _ _ _ _ next => next.menus
  | .separator _ next => next.menus
  | .submenu _ body _ next => 1 + body.menus + next.menus

/-- The entries that the statements of a body stand for, in source order,
when `free` is the first free address of the menu heap. -/
def MenuBody.entries : MenuBody → Nat → List MenuEntry
  | .done, _ => []
  | .item label _ action _ next, free => MenuEntry.item label action :: next.entries free
  | .separator _ next, free => MenuEntry.separator :: next.entries free
  | .submenu name body _ next, free =>
    MenuEntry.submenu name free :: next.entries (free + 1 + body.menus)

/-- Passes through the loop of `config_menu` that a body needs. -/
def MenuBody.depth : MenuBody → Nat
  | .done => 0
  | .item _ _ _ _ next => next.depth + 1
  | .separator _ next => next.depth + 1
  | .submenu _ body _ next => max body.depth next.depth + 1

/-- Tokens of `("name") { statements } ;`, the input of `config_menu` after the
`Menu` keyword. -/
def menu_tokens (name : String) (b : MenuBody) (semi : Bool) : List Lexeme :=
  [.chr '(', .str name, .chr ')', .chr '\x7b'] ++ b.tokens ++ [.chr '}'] ++ semicolon_tokens semi

/-- Address of the menu that a top-level `Menu("name")` fills: the menu
registered under the name, else the next free address. -/
def menu_address (s : State) (name : String) : Nat :=
  (layout_menu_get s.menus name).getD s.menu_heap.length

/-- Entries of the menu registered under `name` before the declaration. -/
def menu_before (s : State) (name : String) : List MenuEntry :=
  match layout_menu_get s.menus name with
  | some m => s.menu_heap.getD m []
  | Option.none => []

/-- Menu heap when the body of a top-level `Menu("name")` starts: a new empty
menu is allocated unless the name is registered. -/
def menu_heap_start (s : State) (name : String) : List (List MenuEntry) :=
  if (layout_menu_get s.menus name).isNone then s.menu_heap ++ [[]] else s.menu_heap

/-- Every registered menu is allocated. -/
def menus_allocated (s : State) : Prop :=
  ∀ (name : String) (m : Nat), layout_menu_get s.menus name = some m → m < s.menu_heap.length

/-- Number of statements of a menu body, not counting those of submenus. -/
def MenuBody.statements : MenuBody → Nat
  | .done => 0
  | .item _ _ _ _ next => next.statements + 1
  | .separator _ next => next.statements + 1
  | .submenu _ _ _ next => next.statements + 1

/-- The scanner after `config_menu(scanner, NULL)` on the declaration
`("name") { statements } ;` followed by `rest`. -/
def menu_declared (H : Header) (s : State) (name : String) (b : MenuBody) (semi : Bool)
    (rest : List Lexeme) : State :=
  config_menu H { s with input := (menu_tokens name b semi ++ rest), next_token := .none }
    Option.none

/-- The action of a bare command string `cmd`. -/
def exec_action (cmd : String) : layout_action :=
  { layout_action.zero with type := G_TOKEN_EXEC.code, command := some cmd }

/-- Statements of `item("Quit","quit.sh"); separator;`. -/
def quit_menu : MenuBody :=
  .item "Quit" [.str "quit.sh"] (exec_action "quit.sh") true (.separator true .done)

/-- Tokens of `Menu("m") { item("Theme", SetStyle "dark"); separator; }`. -/
def style_item_menu : List Lexeme :=
  [.kw G_TOKEN_MENU, .chr '(', .str "m", .chr ')', .chr '\x7b',
   .kw G_TOKEN_ITEM, .chr '(', .str "Theme", .chr ',', .kw G_TOKEN_SETSTYLE, .str "dark",
   .chr ')', .chr ';', .kw G_TOKEN_SEPARATOR, .chr ';', .chr '}']

/-- Tokens of `("Theme", k "dark") }`, the input of `config_menu_item` for an
item with the action keyword `k`, up to the closing brace of the menu. -/
def value_item (k : Keyword) : List Lexeme :=
  [.chr '(', .str "Theme", .chr ',', .kw k, .str "dark", .chr ')', .chr '}']


/-! ### Rows and columns on other widgets -/

/-- The error that `config_widget_rows` and `config_widget_cols` report for
the property keyword `k`. -/
def no_property_message (k : Keyword) : String :=
  if k = G_TOKEN_ROWS then "this widget has no property 'rows'"
  else "this widget has no property 'cols'"

/-- Tokens of `Layout \x7b Label \x7b k = n \x7d \x7d`. -/
def layout_label_block (k : Keyword) (n : ℚ) : List Lexeme :=
  [.kw G_TOKEN_LAYOUT, .chr '\x7b', .kw G_TOKEN_LABEL, .chr '\x7b', .kw k, .chr '=', .float n,
   .chr '}', .chr '}']

/-- Tokens of the property block `\x7b k = n \x7d`. -/
def property_block (k : Keyword) (n : ℚ) : List Lexeme :=
  [.chr '\x7b', .kw k, .chr '=', .float n, .chr '}']

/-- The root widget record that `config_layout` makes. -/
def layout_root (H : Header) : layout_widget :=
  { H.layout_widget_new with wtype := G_TOKEN_GRID.code, widget := some GtkWidget.grid }

/-- The widget record that `config_widgets` makes for the keyword `Label`. -/
def label_widget (H : Header) : layout_widget :=
  { H.layout_widget_new with wtype := G_TOKEN_LABEL.code, widget := some GtkWidget.label }

/-- The scanner after `Layout \x7b Label \x7b k = n \x7d \x7d` with `rest` still to
read: the one error is reported, and the layout and its label went to the
layout collaborator. -/
def layout_label_done (H : Header) (s : State) (k : Keyword) (rest : List Lexeme) : State :=
  { s with input := rest, token := .chr '}', next_token := .none, max_parse_errors := true,
           messages := s.messages ++ [no_property_message k],
           calls := s.calls ++
             [Call.gtk_widget_set_name (some GtkWidget.grid) "layout",
              Call.layout_widget_config (layout_root H) Option.none Option.none,
              Call.layout_widget_config (label_widget H) (some GtkWidget.grid) Option.none,
              Call.layout_widget_attach (label_widget H)] }


/-! ### Value runs and their terminators -/

/-- The tokens that end the run of `config_get_value`: `;`, `\x7d`, `[` and
every reserved word other than `Scanner`. -/
def value_terminator (l : Lexeme) : Prop :=
  l = .chr ';' ∨ l = .chr '}' ∨ l = .chr '[' ∨ ∃ k, l = .kw k ∧ k ≠ G_TOKEN_SCANNER

/-- Tokens of `= "a" css = "b" ;`: the value of a `style` property followed
by the next property. -/
def value_then_keyword : List Lexeme :=
  [.chr '=', .str "a", .kw G_TOKEN_CSS, .chr '=', .str "b", .chr ';']

/-- Tokens of `= x ; \x7d`. -/
def value_then_semicolon : List Lexeme :=
  [.chr '=', .ident "x", .chr ';', .chr '}']

/-- The scanner on return from `config_get_value` when the run was followed
by `rest`: a `;` was taken, any other terminator is the peeked next token,
and at the end of the input the next token is `G_TOKEN_EOF`. -/
def value_returned (s : State) (last : Token) (rest : List Lexeme) : State :=
  match rest with
  | [] => { s with input := [], token := last, next_token := .eof, max_parse_errors := false }
  | l :: tl =>
    if l = .chr ';' then
      { s with input := tl, token := .chr ';', next_token := .none, max_parse_errors := false }
    else
      { s with input := tl, token := last, next_token := l.token, max_parse_errors := false }

/-- Rendering of a value token in the words of the specification: a string is
quoted again, an identifier gives its macro value if it has one and its own
spelling otherwise, a number its text, a single character itself; the
remaining tokens (a lexical error, the word `Scanner`) give the byte of their
code. -/
def value_rendering (H : Header) (defines : Option (List (String × String))) :
    Lexeme → String
  | .str s => config_value_string "" s
  | .ident x =>
    match defines.bind (fun d => g_hash_table_lookup d x) with
    | some v => v
    | Option.none => x
  | .float v => H.g_ascii_dtostr v
  | .chr c => String.mk [c]
  | l => config_get_value_char l.token

/-- Concatenation of texts in order, with nothing between them. -/
def texts_concat : List String → String
  | [] => ""
  | x :: xs => x ++ texts_concat xs

/-- The characters the lexer delivers as tokens are single non-zero bytes. -/
def byte_chars (ts : List Lexeme) : Prop :=
  ∀ c, Lexeme.chr c ∈ ts → 0 < c.toNat ∧ c.toNat < 256


/-! ### String literals -/

/-- Modelled from the spec: the string rule of the tokenizer is GLib code
outside the sources; the spec has "String literals support escaped quote
characters", read as: a backslash escapes the following character, an
unescaped double quote closes the literal.  The function reads the text behind
the opening quote and gives the value of the literal and the text left behind
its closing quote, or `none` if the literal is not closed. -/
def scan_string_body : List Char → Option (List Char × List Char)
  | [] => Option.none
  | c :: cs =>
    if c = dquote then some ([], cs)
    else if c = backslash then
      match cs with
      | [] => Option.none
      | d :: ds => (scan_string_body ds).map (fun r => (d :: r.1, r.2))
    else (scan_string_body cs).map (fun r => (c :: r.1, r.2))

/-- Modelled from the spec: reading one string literal at the start of a
text, see `scan_string_body`. -/
def scan_string : List Char → Option (List Char × List Char)
  | [] => Option.none
  | c :: cs => if c = dquote then scan_string_body cs else Option.none

/-- The text that `config_value_string` appends for `string`. -/
def quoted_text (string : String) : List Char :=
  (config_value_string "" string).data


/-! ### Macro table -/

/-- The value the macro table of `s` holds for `name`, if any. -/
def macro_value (s : State) (name : String) : Option String :=
  s.defines.bind (fun d => g_hash_table_lookup d name)

/-- Number of entries of the macro table of `s` with the key `name`. -/
def macro_entries (s : State) (name : String) : Nat :=
  ((s.defines.getD []).filter (fun e => str_nequal e.1 name)).length

/-- The keys of the macro table are pairwise different, as in a hash table. -/
def macro_keys_unique (s : State) : Prop :=
  ((s.defines.getD []).map Prod.fst).Nodup

/-- The scanner after `config_define` on `name = T` followed by `rest`, the
`Define` keyword just read. -/
def defined (H : Header) (s : State) (name : String) (ts rest : List Lexeme) : State :=
  config_define H { s with next_token := .none, input := (.ident name :: .chr '=' :: (ts ++ rest)) }


/-! ### File flags -/

/-- Tokens of the flag arguments `, f1, f2 ...` of a `File` source. -/
def flag_tokens : List Keyword → List Lexeme
  | [] => []
  | f :: fs => .chr ',' :: .kw f :: flag_tokens fs

/-- The current token after the flag arguments were read. -/
def flag_last : List Keyword → Token → Token
  | [], t => t
  | f :: fs, _ => flag_last fs (.kw f)

/-- The bit that the flag loop of `config_scanner_source` adds for a flag
keyword. -/
def file_flag (f : Keyword) : Nat :=
  if f = G_TOKEN_CHTIME then VF_CHTIME else if f = G_TOKEN_NOGLOB then VF_NOGLOB else 0

/-- Flags of a `File` source in the words of the specification: `CheckTime`
if it is among the flags, `NoGlob` if it is among the flags or the path has
neither `*` nor `?`. -/
def source_flags (path : String) (flags : List Keyword) : Nat :=
  (if G_TOKEN_CHTIME ∈ flags then VF_CHTIME else 0) |||
    (if G_TOKEN_NOGLOB ∈ flags ∨ ('*' ∉ path.data ∧ '?' ∉ path.data) then VF_NOGLOB else 0)

/-- Tokens of `("path", flags) \x7b`, the header of a `File` source behind its
keyword. -/
def file_header (path : String) (flags : List Keyword) : List Lexeme :=
  .chr '(' :: .str path :: (flag_tokens flags ++ [.chr ')', .chr '\x7b'])

/-- The flags of the scan file that a call of `config_scanner_source`
returned, if it returned one. -/
def returned_flags (r : State × Option Nat) : Option Nat :=
  r.2.bind (fun a => r.1.files[a]?.map (fun f => f.flags))


/-! ### Malformed sources and unreadable includes -/

/-- Tokens of the block
`\x7b File("a", Bogus) \x7b x = RegEx("y") \x7d File("b") \x7b z = RegEx("w") \x7d \x7d`
behind the `Scanner` keyword: a source with an invalid flag, followed by a
well-formed source. -/
def scanner_bad_flag_block : List Lexeme :=
  [.chr '\x7b', .kw G_TOKEN_FILE, .chr '(', .str "a", .chr ',', .ident "Bogus", .chr ')',
   .chr '\x7b', .ident "x", .chr '=', .kw G_TOKEN_REGEX, .chr '(', .str "y", .chr ')', .chr '}'] ++
  (.kw G_TOKEN_FILE :: .chr '(' :: .str "b" :: .chr ')' :: .chr '\x7b' ::
    .ident "z" :: .chr '=' :: .kw G_TOKEN_REGEX :: .chr '(' :: .str "w" :: .chr ')' ::
    [.chr '}', .chr '}'])

/-- Tokens of `Layout \x7b Include("missing.widget") Label \x7b \x7d \x7d`. -/
def include_block : List Lexeme :=
  [.kw G_TOKEN_LAYOUT, .chr '\x7b', .kw G_TOKEN_INCLUDE, .chr '(', .str "missing.widget",
   .chr ')', .kw G_TOKEN_LABEL, .chr '\x7b', .chr '}', .chr '}']


/-! ### Error flag -/

/-- Tokens of `bogus Define term = xterm`: a token the top level rejects,
followed by a well-formed macro definition. -/
def error_then_define : List Lexeme :=
  [.ident "bogus", .kw G_TOKEN_DEFINE, .ident "term", .chr '=', .ident "xterm"]

/-- A scanner that has reported an error: the flag is set and the message is
in the log. -/
def error_reported : State :=
  { State.init [] with max_parse_errors := true, messages := ["Unexpected toplevel token"] }


/-! ### Action heads and action slots -/

/-- The window actions without argument (the `default` case of the second
switch of `config_action`). -/
def window_actions : List Keyword :=
  [G_TOKEN_FOCUS, G_TOKEN_CLOSE, G_TOKEN_MINIMIZE, G_TOKEN_MAXIMIZE, G_TOKEN_UNMINIMIZE,
   G_TOKEN_UNMAXIMIZE]

/-- A token that is no action head: no string, no action keyword and no `[`. -/
def no_action_head (t : Lexeme) : Prop :=
  (∀ x, t ≠ .str x) ∧ (∀ k ∈ action_keywords, t ≠ .kw k) ∧ t ≠ .chr '['

/-- Tokens of `[n] = ` followed by `rest`, the input of `config_widget_action`
behind the `action` keyword. -/
def action_index_tokens (n : ℚ) (rest : List Lexeme) : List Lexeme :=
  .chr '[' :: .float n :: .chr ']' :: .chr '=' :: rest


/-! ### Documents of layout blocks -/

/-- Tokens of `Layout \x7b css = "a" \x7d`. -/
def layout_css_block (a : String) : List Lexeme :=
  [.kw G_TOKEN_LAYOUT, .chr '\x7b', .kw G_TOKEN_CSS, .chr '=', .str a, .chr '}']

/-- Tokens of a document of `Layout \x7b css = "a" \x7d` blocks, one for each text
of the list, in order. -/
def layout_css_blocks : List String → List Lexeme
  | [] => []
  | a :: rest => layout_css_block a ++ layout_css_blocks rest

/-- The root record that `config_layout` returns for `Layout \x7b css = "a" \x7d`. -/
def layout_css_root (H : Header) (a : String) : layout_widget :=
  { H.layout_widget_new with wtype := G_TOKEN_GRID.code, widget := some GtkWidget.grid,
                             css := some a }

/-- The scanner behind `Layout \x7b css = "a" \x7d` when `rest` follows: the root was
named and configured. -/
def layout_css_done (H : Header) (s : State) (a : String) (rest : List Lexeme) : State :=
  { s with input := rest, token := .chr '}', next_token := .none, max_parse_errors := false,
           calls := s.calls ++ [Call.gtk_widget_set_name (some GtkWidget.grid) "layout",
             Call.layout_widget_config (layout_css_root H a) Option.none Option.none] }


/-! ### Submenu declarations -/

/-- The scanner after `config_menu(scanner, parent)` on the declaration
`("name") \x7b statements \x7d ;` of a submenu of the menu at address `parent`,
followed by `rest`. -/
def submenu_declared (H : Header) (s : State) (name : String) (b : MenuBody) (semi : Bool)
    (rest : List Lexeme) (parent : Nat) : State :=
  config_menu H { s with input := (menu_tokens name b semi ++ rest), next_token := .none }
    (some parent)

/-- A process in which the empty menu at address 0 is registered as `m`. -/
def registered_example : State :=
  { State.init [] with menu_heap := [[]], menus := [("m", 0)] }


/-! ### Placer blocks -/

/-- The numeric properties of a `Placer` block. -/
inductive PlacerField
  | xstep
  | ystep
  | xorigin
  | yorigin
  deriving DecidableEq, Repr

/-- The keyword of a numeric property. -/
def PlacerField.keyword : PlacerField → Keyword
  | .xstep => G_TOKEN_XSTEP
  | .ystep => G_TOKEN_YSTEP
  | .xorigin => G_TOKEN_XORIGIN
  | .yorigin => G_TOKEN_YORIGIN

/-- Statements of a `Placer` block: `field = v`, `field =` with its number
missing, and `children = true` or `children = false`; `semi` tells whether the
statement is closed by a `;`. -/
inductive PlacerStmt
  | number (f : PlacerField) (v : ℚ) (semi : Bool)
  | missing (f : PlacerField)
  | children (v : Bool) (semi : Bool)

/-- Tokens of one statement. -/
def PlacerStmt.tokens : PlacerStmt → List Lexeme
  | .number f v semi => [.kw f.keyword, .chr '=', .float v] ++ semicolon_tokens semi
  | .missing f => [.kw f.keyword, .chr '=']
  | .children v semi =>
    [.kw G_TOKEN_CHILDREN, .chr '=', .kw (if v then G_TOKEN_TRUE else G_TOKEN_FALSE)] ++
      semicolon_tokens semi

/-- Tokens of the statements of a block. -/
def placer_tokens : List PlacerStmt → List Lexeme
  | [] => []
  | st :: rest => st.tokens ++ placer_tokens rest

/-- What a statement assigns to the numeric property `f`: nothing, a missing
number, or a number. -/
def PlacerStmt.assigns (f : PlacerField) : PlacerStmt → Option (Option ℚ)
  | .number g v _ => if g = f then some (some v) else Option.none
  | .missing g => if g = f then some Option.none else Option.none
  | .children _ _ => Option.none

/-- The number of the statement, if it has one, fits a `gint`. -/
def PlacerStmt.fits : PlacerStmt → Prop
  | .number _ v _ => gint_fits v
  | _ => True

/-- The last assignment to the numeric property `f` in a block. -/
def placer_last (f : PlacerField) : List PlacerStmt → Option (Option ℚ)
  | [] => Option.none
  | st :: rest =>
    match placer_last f rest with
    | some r => some r
    | Option.none => st.assigns f

/-- The last value assigned to `children` in a block. -/
def placer_last_children : List PlacerStmt → Option Bool
  | [] => Option.none
  | st :: rest =>
    match placer_last_children rest with
    | some r => some r
    | Option.none =>
      match st with
      | .children v _ => some v
      | _ => Option.none

/-- The step of a block in the words of the specification: 10 when the step is not
assigned, the last assigned value (as a `gint`) when that value is at least 1,
and 1 when it is below 1 or its number is missing. -/
def placer_step (f : PlacerField) (stmts : List PlacerStmt) : Int :=
  match placer_last f stmts with
  | Option.none => 10
  | some Option.none => 1
  | some (some v) => if 1 ≤ v then double_to_gint v else 1

/-- The origin of a block in the words of the specification: 0 when it is not assigned or
its number is missing, else the last assigned value (as a `gint`). -/
def placer_origin (f : PlacerField) (stmts : List PlacerStmt) : Int :=
  match placer_last f stmts with
  | some (some v) => double_to_gint v
  | _ => 0

/-- The variable of `config_placer` for the numeric property `f` behind the
statements, when it held `dflt` before them. -/
def placer_value (f : PlacerField) (stmts : List PlacerStmt) (dflt : Int) : Int :=
  match placer_last f stmts with
  | Option.none => dflt
  | some Option.none => 0
  | some (some v) => double_to_gint v

/-- The variable for the numeric property `f` behind one statement, when it
held `dflt` before it. -/
def PlacerStmt.value (f : PlacerField) (st : PlacerStmt) (dflt : Int) : Int :=
  match st.assigns f with
  | Option.none => dflt
  | some Option.none => 0
  | some (some v) => double_to_gint v

/-- The variable `pid` behind one statement, when it held `dflt` before it. -/
def PlacerStmt.pid (st : PlacerStmt) (dflt : Bool) : Bool :=
  match st with
  | .children v _ => v
  | _ => dflt

/-- Tokens of `\x7b statements \x7d ;`, the input of `config_placer` after the
`Placer` keyword. -/
def placer_block (stmts : List PlacerStmt) (semi : Bool) : List Lexeme :=
  .chr '\x7b' :: (placer_tokens stmts ++ .chr '}' :: semicolon_tokens semi)


/-! ### CSS sentinel -/

/-- The sentinel `"\n#CSS"` stands at position `n` of the text `d`. -/
def css_at (d : List Char) (n : Nat) : Prop := (d.drop n).take 5 = css_sentinel

/-- The scanner that `config_parse_file` makes for the text `text`, with the
calls `calls` logged so far. -/
def file_scanner (H : Header) (s : State) (text : List Char) (calls : List Call) : State :=
  { s with input := H.g_scanner_input_text (String.mk text), token := .none,
           next_token := .none, max_parse_errors := false, calls := calls }

/-- The result of `config_parse_file` when the scanner `sc` parses the text:
the scanner state of the caller `s` is as before. -/
def file_parsed (H : Header) (inc : State → Outcome (State × Option layout_widget))
    (s sc : State) (layout : Bool) : Outcome (State × Option layout_widget) :=
  (config_parse_toplevel H inc sc layout).bind
    (fun r =>
      .returned
        ({ r.1 with input := s.input, token := s.token, next_token := s.next_token,
                    max_parse_errors := s.max_parse_errors }, r.2))

/-- The text `a`, newline, `#CSSx`: its second line begins with `#CSS` and goes
on with another character. -/
def css_line_with_tail : String := String.mk (['a'] ++ css_sentinel ++ ['x'])


/-! ### States of the menu registry -/

/-- The keys of the table `menus` are pairwise different, as in every hash
table. -/
def menus_unique (t : MenuTable) : Prop :=
  ((t.menus.getD []).map Prod.fst).Nodup

/-- Number of entries of the table `menus` under the name `n`. -/
def menus_entries (t : MenuTable) (n : String) : Nat :=
  ((t.menus.getD []).filter (fun e => str_nequal e.1 n)).length

/-- A state of `menu.c` in which `main` is registered as menu 0, whose one
item has the submenu 1. -/
def menu_table_example : MenuTable :=
  { menus := some [("main", 0)], heap := [[some 1], []] }


/-! ### Location blocks -/

/-- A token at which every step of `config_get_loc` fails: no number, no `,`,
no `(` and no `)`. -/
def loc_stopper (t : Lexeme) : Prop :=
  t.token.code ≠ G_TOKEN_FLOAT ∧ t.token.code ≠ ','.toNat ∧ t.token.code ≠ '('.toNat ∧
    t.token.code ≠ ')'.toNat ∧ t.token ≠ .chr ')'

/-- The rectangle and the error flag that `config_get_loc` returns on the
tokens `ts`. -/
def loc_result (s : State) (ts : List Lexeme) : rect × Bool :=
  ((config_get_loc { s with next_token := .none, input := ts }).2,
   (config_get_loc { s with next_token := .none, input := ts }).1.max_parse_errors)


/-! ### Unconsumed tokens -/

/-- The look-ahead slot as a list of tokens still to be consumed: empty when
the slot is empty or holds the end of input. -/
def pending (t : Token) : List Token := if t = .none ∨ t = .eof then [] else [t]

/-- The tokens that the scanner has not consumed yet: the peeked token, if
any, and the tokens of the text behind it. -/
def stream (s : State) : List Token := pending s.next_token ++ s.input.map Lexeme.token

/-- Number of tokens not consumed yet. -/
def remaining (s : State) : Nat := (stream s).length

/-- State `s1` comes after `s`: its unconsumed tokens are a final part of
those of `s`. -/
structure follows (s1 s : State) : Prop where
  suffix : stream s1 <:+ stream s

/-- State `s1` comes after `s` and at least one token was consumed in
between. -/
structure advances (s1 s : State) : Prop where
  after : follows s1 s
  fewer : remaining s1 < remaining s

/-- A loop given as a function of its budget settles at the budget `n`: every
larger budget gives the same result. -/
def loop_settles {α : Type} (loop : Nat → α) (n : Nat) : Prop := ∀ m, n ≤ m → loop m = loop n

/-- No `Include` keyword among the tokens not consumed yet. -/
def no_include (s : State) : Prop := Token.kw G_TOKEN_INCLUDE ∉ stream s

/-- The call returns, in a state that comes after `s`. -/
def returns_after (x : Outcome State) (s : State) : Prop :=
  ∃ r, x = .returned r ∧ follows r s


/-! ## Evaluation lemmas -/

theorem code_G_TOKEN_SCANNER : G_TOKEN_SCANNER.code = 270 := by decide

theorem code_G_TOKEN_SUM : G_TOKEN_SUM.code = 287 := by decide

theorem code_G_TOKEN_PRODUCT : G_TOKEN_PRODUCT.code = 288 := by decide

theorem code_G_TOKEN_LASTW : G_TOKEN_LASTW.code = 289 := by decide

theorem code_G_TOKEN_FIRST : G_TOKEN_FIRST.code = 290 := by decide

theorem code_G_TOKEN_GRID : G_TOKEN_GRID.code = 291 := by decide

theorem code_G_TOKEN_TASKBAR : G_TOKEN_TASKBAR.code = 297 := by decide

theorem code_G_TOKEN_PAGER : G_TOKEN_PAGER.code = 298 := by decide

theorem code_G_TOKEN_TRAY : G_TOKEN_TRAY.code = 299 := by decide

theorem code_G_TOKEN_INTERVAL : G_TOKEN_INTERVAL.code = 302 := by decide

theorem code_G_TOKEN_TRIGGER : G_TOKEN_TRIGGER.code = 317 := by decide

theorem code_G_TOKEN_REGEX : G_TOKEN_REGEX.code = 357 := by decide

theorem code_G_TOKEN_JSON : G_TOKEN_JSON.code = 358 := by decide

theorem code_G_TOKEN_GRAB : G_TOKEN_GRAB.code = 359 := by decide

theorem config_scanner_source_flags_succ (n : Nat) (s : State) (flags : Nat) (fname : String) :
    config_scanner_source_flags (n + 1) s flags fname =
      if (g_scanner_peek_next_token s).next_token = .chr ',' then
        config_scanner_source_flags n
          (config_scanner_source_flag (g_scanner_peek_next_token s) flags fname).1
          (config_scanner_source_flag (g_scanner_peek_next_token s) flags fname).2 fname
      else (g_scanner_peek_next_token s, flags) := rfl

theorem config_scanner_source_vars_succ (H : Header) (n : Nat) (s : State) (file : Nat) :
    config_scanner_source_vars H (n + 1) s file =
      if (g_scanner_peek_next_token s).next_token ≠ .chr '}' ∧
          (g_scanner_peek_next_token s).next_token ≠ .eof then
        config_scanner_source_vars H n
          (config_scanner_source_item H (g_scanner_peek_next_token s) file) file
      else g_scanner_peek_next_token s := rfl

theorem config_scanner_loop_succ (H : Header) (n : Nat) (s : State) :
    config_scanner_loop H (n + 1) s =
      if (g_scanner_peek_next_token s).next_token ≠ .chr '}' ∧
          (g_scanner_peek_next_token s).next_token ≠ .eof then
        config_scanner_loop H n (config_scanner_item H (g_scanner_peek_next_token s))
      else g_scanner_peek_next_token s := rfl

theorem config_widget_props_loop_succ (H : Header) (n : Nat) (p : Props) :
    config_widget_props_loop H (n + 1) p =
      if config_widget_props_continues p.s.next_token p.lw then
        config_widget_props_loop H n
          { config_widget_props_item H p with
            s := g_scanner_peek_next_token (config_widget_props_item H p).s }
      else p := rfl

theorem config_action_conds_succ (n : Nat) (c : CondState) :
    config_action_conds (n + 1) c =
      if (g_scanner_peek_next_token (config_action_cond c).s).next_token = .chr '|' then
        config_action_conds n
          { config_action_cond c with s := g_scanner_peek_next_token (config_action_cond c).s }
      else
        { config_action_cond c with
          s := g_scanner_peek_next_token (config_action_cond c).s } := rfl

/-- Peeking changes only `input` and `next_token`. -/
theorem g_scanner_peek_next_token_frame (s : State) :
    (g_scanner_peek_next_token s).token = s.token ∧
    (g_scanner_peek_next_token s).max_parse_errors = s.max_parse_errors ∧
    (g_scanner_peek_next_token s).messages = s.messages ∧
    (g_scanner_peek_next_token s).defines = s.defines ∧
    (g_scanner_peek_next_token s).files = s.files ∧
    (g_scanner_peek_next_token s).file_list = s.file_list ∧
    (g_scanner_peek_next_token s).calls = s.calls ∧
    (g_scanner_peek_next_token s).menu_heap = s.menu_heap ∧
    (g_scanner_peek_next_token s).menus = s.menus := by
  unfold g_scanner_peek_next_token
  split
  · split <;> simp
  · simp

/-- Taking a token changes only `input`, `token` and `next_token`. -/
theorem g_scanner_get_next_token_frame (s : State) :
    (g_scanner_get_next_token s).max_parse_errors = s.max_parse_errors ∧
    (g_scanner_get_next_token s).messages = s.messages ∧
    (g_scanner_get_next_token s).defines = s.defines ∧
    (g_scanner_get_next_token s).files = s.files ∧
    (g_scanner_get_next_token s).file_list = s.file_list ∧
    (g_scanner_get_next_token s).calls = s.calls ∧
    (g_scanner_get_next_token s).menu_heap = s.menu_heap ∧
    (g_scanner_get_next_token s).menus = s.menus := by
  unfold g_scanner_get_next_token
  split
  · split <;> simp
  · simp

/-- Skipping an optional semicolon changes only the scanner position. -/
theorem config_optional_semicolon_frame (s : State) :
    (config_optional_semicolon s).max_parse_errors = s.max_parse_errors ∧
    (config_optional_semicolon s).messages = s.messages ∧
    (config_optional_semicolon s).defines = s.defines ∧
    (config_optional_semicolon s).files = s.files ∧
    (config_optional_semicolon s).file_list = s.file_list ∧
    (config_optional_semicolon s).calls = s.calls ∧
    (config_optional_semicolon s).menu_heap = s.menu_heap ∧
    (config_optional_semicolon s).menus = s.menus := by
  have hp := g_scanner_peek_next_token_frame s
  have hg := g_scanner_get_next_token_frame (g_scanner_peek_next_token s)
  unfold config_optional_semicolon
  simp only []
  split
  · simp [hp, hg]
  · simp [hp]

/-! ## Scanner block: claims C1 to C3 -/

/-- C1 (behaviour of the code): after `File(p){ a = RegEx(x) }` and
`File(p){ b = RegEx(y) }` in one `Scanner` block there is one scan file
record for `p`, listed twice in `file_list`, and its variable list holds the
variable of the second declaration only: the re-declaration reuses the record
but resets `vars`, so the first variable is dropped from the list. -/
theorem config_scanner_redeclared_file_drops_vars (H : Header) (p a b x y : String) :
    (config_scanner H (State.init
        ([.chr '\x7b'] ++ file_decl p a x ++ file_decl p b y ++ [.chr '}']))).files =
      [{ fname := p, trigger := Option.none, source := SO_FILE, mtime := 0,
         flags := noglob_flags p 0,
         vars := [{ file := 0, type := VP_REGEX, multi := H.SV_REPLACE, json := Option.none,
                    regex := some y }] }] ∧
    (config_scanner H (State.init
        ([.chr '\x7b'] ++ file_decl p a x ++ file_decl p b y ++ [.chr '}']))).file_list =
      [0, 0] := by
  simp [State.init, file_decl, config_scanner, config_scanner_loop_succ, config_scanner_item,
    config_scanner_source, config_expect_token, g_scanner_peek_next_token, Token.code, Lexeme.token,
    g_scanner_get_next_token, G_TOKEN_STRING, G_TOKEN_IDENTIFIER,
    config_scanner_source_flags_succ, Token.v_string, config_scanner_source_vars_succ,
    config_scanner_source_item, config_scanner_var, config_scanner_var_flag,
    Token.v_identifier, code_G_TOKEN_REGEX, code_G_TOKEN_GRAB, code_G_TOKEN_SUM,
    code_G_TOKEN_FIRST, VP_GRAB, VP_REGEX, VP_JSON, config_optional_semicolon, heap_update,
    file_list_find]


/-- C2: `config_scanner` on `{ File("path"){ name = RegEx("pattern", Agg) } }`
with a path free of `*` and `?`, started in a fresh process, consumes the whole
input and leaves exactly one scan file (that path, flags `VF_NOGLOB`) with
exactly one variable, of kind regex, built from the pattern, with the
aggregation value of `Agg`, attached under `name`; no error is reported. -/
theorem config_scanner_single_file (H : Header) (path name pattern : String)
    (agg : Keyword) (n : Nat) (hagg : (agg, n) ∈ aggregators)
    (hpath : '*' ∉ path.data ∧ '?' ∉ path.data) :
    config_scanner H (State.init (scanner_block path name pattern agg)) =
      { input := [], token := .chr '}', next_token := .none, max_parse_errors := false,
        messages := [], defines := Option.none,
        files := [{ fname := path, trigger := Option.none, source := SO_FILE, mtime := 0,
                    flags := VF_NOGLOB,
                    vars := [{ file := 0, type := VP_REGEX, multi := n, json := Option.none,
                               regex := some pattern }] }],
        file_list := [0],
        calls := [Call.scanner_var_attach name
          { file := 0, type := VP_REGEX, multi := n, json := Option.none,
            regex := some pattern }],
        menu_heap := [], menus := [] } := by
  simp only [aggregators, List.mem_cons, Prod.mk.injEq, List.mem_singleton, List.not_mem_nil,
    or_false] at hagg
  rcases hagg with ⟨rfl, rfl⟩ | ⟨rfl, rfl⟩ | ⟨rfl, rfl⟩ | ⟨rfl, rfl⟩ <;>
  simp [State.init, scanner_block, config_scanner, config_scanner_loop_succ,
    config_scanner_item, config_scanner_source, config_expect_token,
    g_scanner_peek_next_token, Token.code, Lexeme.token, g_scanner_get_next_token, G_TOKEN_STRING,
    G_TOKEN_IDENTIFIER, config_scanner_source_flags_succ, Token.v_string,
    config_scanner_source_vars_succ, config_scanner_source_item, config_scanner_var,
    config_scanner_var_flag, Token.v_identifier, code_G_TOKEN_REGEX, code_G_TOKEN_GRAB,
    code_G_TOKEN_SUM, code_G_TOKEN_FIRST, code_G_TOKEN_PRODUCT, code_G_TOKEN_LASTW, VP_GRAB,
    VP_REGEX, VP_JSON, config_optional_semicolon, heap_update, file_list_find, noglob_flags,
    hpath]

/-- C2 (witness): the instance `File("x.txt"){ cpu = RegEx("(\\d+)", Sum) }`. -/
theorem config_scanner_single_file_witness :
    (G_TOKEN_SUM, 1) ∈ aggregators ∧ ('*' ∉ "x.txt".data ∧ '?' ∉ "x.txt".data) ∧
    config_scanner header_example
        (State.init (scanner_block "x.txt" "cpu" "(\\d+)" G_TOKEN_SUM)) =
      { input := [], token := .chr '}', next_token := .none, max_parse_errors := false,
        messages := [], defines := Option.none,
        files := [{ fname := "x.txt", trigger := Option.none, source := SO_FILE, mtime := 0,
                    flags := VF_NOGLOB,
                    vars := [{ file := 0, type := VP_REGEX, multi := 1, json := Option.none,
                               regex := some "(\\d+)" }] }],
        file_list := [0],
        calls := [Call.scanner_var_attach "cpu"
          { file := 0, type := VP_REGEX, multi := 1, json := Option.none,
            regex := some "(\\d+)" }],
        menu_heap := [], menus := [] } :=
  ⟨by decide, by decide,
    config_scanner_single_file header_example "x.txt" "cpu" "(\\d+)" G_TOKEN_SUM 1
      (by decide) (by decide)⟩


/-- C3 (counter-example): the body of a `Scanner` block holding
`File("f") { load = Grab(Sum) }` is parsed without any error; the variable
`load` is registered with the aggregation value of `Sum`. -/
theorem config_scanner_grab_sum_accepted :
    (config_scanner header_example (State.init
      [.chr '\x7b', .kw G_TOKEN_FILE, .chr '(', .str "f", .chr ')', .chr '\x7b', .ident "load",
       .chr '=', .kw G_TOKEN_GRAB, .chr '(', .kw G_TOKEN_SUM, .chr ')', .chr '}',
       .chr '}'])).max_parse_errors = false ∧
    (config_scanner header_example (State.init
      [.chr '\x7b', .kw G_TOKEN_FILE, .chr '(', .str "f", .chr ')', .chr '\x7b', .ident "load",
       .chr '=', .kw G_TOKEN_GRAB, .chr '(', .kw G_TOKEN_SUM, .chr ')', .chr '}',
       .chr '}'])).messages = [] ∧
    (config_scanner header_example (State.init
      [.chr '\x7b', .kw G_TOKEN_FILE, .chr '(', .str "f", .chr ')', .chr '\x7b', .ident "load",
       .chr '=', .kw G_TOKEN_GRAB, .chr '(', .kw G_TOKEN_SUM, .chr ')', .chr '}',
       .chr '}'])).calls =
      [Call.scanner_var_attach "load"
        { file := 0, type := VP_GRAB, multi := 1, json := Option.none,
          regex := Option.none }] := by
  decide

/-- C3 (amended): in a declaration `name = Grab(...)`, a pattern string inside
the parentheses is reported as an error and registers nothing, while the empty
form `Grab()` and the form `Grab(<aggregator>)` are both accepted without
error: the variable is registered as a raw capture without pattern, with
`SV_REPLACE` or the value of the aggregator.  The scanner `s` has the name
peeked, as in the variable loop, and the tokens after it are given. -/
theorem config_scanner_var_grab (H : Header) (s : State) (file : Nat)
    (name pattern : String) (agg : Keyword) (n : Nat) (rest : List Lexeme)
    (hs : s.next_token = .ident name) (hagg : (agg, n) ∈ aggregators) :
    ((config_scanner_var H { s with input :=
          (.chr '=' :: .kw G_TOKEN_GRAB :: .chr '(' :: .str pattern :: rest) } file
        ).max_parse_errors = true ∧
      (config_scanner_var H { s with input :=
          (.chr '=' :: .kw G_TOKEN_GRAB :: .chr '(' :: .str pattern :: rest) } file
        ).files = s.files ∧
      (config_scanner_var H { s with input :=
          (.chr '=' :: .kw G_TOKEN_GRAB :: .chr '(' :: .str pattern :: rest) } file
        ).calls = s.calls) ∧
    ((config_scanner_var H { s with input :=
          (.chr '=' :: .kw G_TOKEN_GRAB :: .chr '(' :: .chr ')' :: rest) } file
        ).max_parse_errors = false ∧
      (config_scanner_var H { s with input :=
          (.chr '=' :: .kw G_TOKEN_GRAB :: .chr '(' :: .chr ')' :: rest) } file
        ).messages = s.messages ∧
      (config_scanner_var H { s with input :=
          (.chr '=' :: .kw G_TOKEN_GRAB :: .chr '(' :: .chr ')' :: rest) } file
        ).calls = s.calls ++ [Call.scanner_var_attach name
          { file := file, type := VP_GRAB, multi := H.SV_REPLACE, json := Option.none,
            regex := Option.none }]) ∧
    ((config_scanner_var H { s with input :=
          (.chr '=' :: .kw G_TOKEN_GRAB :: .chr '(' :: .kw agg :: .chr ')' :: rest) } file
        ).max_parse_errors = false ∧
      (config_scanner_var H { s with input :=
          (.chr '=' :: .kw G_TOKEN_GRAB :: .chr '(' :: .kw agg :: .chr ')' :: rest) } file
        ).messages = s.messages ∧
      (config_scanner_var H { s with input :=
          (.chr '=' :: .kw G_TOKEN_GRAB :: .chr '(' :: .kw agg :: .chr ')' :: rest) } file
        ).calls = s.calls ++ [Call.scanner_var_attach name
          { file := file, type := VP_GRAB, multi := n, json := Option.none,
            regex := Option.none }]) := by
  simp only [aggregators, List.mem_cons, Prod.mk.injEq, List.mem_singleton, List.not_mem_nil,
    or_false] at hagg
  refine ⟨?_, ?_, ?_⟩
  · simp [config_scanner_var, config_expect_token, g_scanner_peek_next_token, Token.code, Lexeme.token,
      g_scanner_get_next_token, G_TOKEN_STRING, config_scanner_var_flag, Token.v_identifier,
      code_G_TOKEN_REGEX, code_G_TOKEN_GRAB, code_G_TOKEN_SUM, code_G_TOKEN_FIRST, VP_GRAB,
      g_scanner_error, config_log_error, hs]
  · simp [config_scanner_var, config_expect_token, g_scanner_peek_next_token, Token.code, Lexeme.token,
      g_scanner_get_next_token, G_TOKEN_STRING, config_scanner_var_flag, Token.v_identifier,
      code_G_TOKEN_REGEX, code_G_TOKEN_GRAB, code_G_TOKEN_SUM, code_G_TOKEN_FIRST, VP_GRAB,
      VP_REGEX, VP_JSON, config_optional_semicolon_frame, hs]
  · rcases hagg with ⟨rfl, rfl⟩ | ⟨rfl, rfl⟩ | ⟨rfl, rfl⟩ | ⟨rfl, rfl⟩ <;>
    simp [config_scanner_var, config_expect_token, g_scanner_peek_next_token, Token.code, Lexeme.token,
      g_scanner_get_next_token, G_TOKEN_STRING, config_scanner_var_flag, Token.v_identifier,
      code_G_TOKEN_REGEX, code_G_TOKEN_GRAB, code_G_TOKEN_SUM, code_G_TOKEN_FIRST,
      code_G_TOKEN_PRODUCT, code_G_TOKEN_LASTW, VP_GRAB, VP_REGEX, VP_JSON,
      config_optional_semicolon_frame, hs]

/-- C3 (witness): the variable `load` of a file `f`, with `Sum` as aggregator. -/
theorem config_scanner_var_grab_witness :
    (grab_example.next_token = .ident "load" ∧ (G_TOKEN_SUM, 1) ∈ aggregators) ∧
    (config_scanner_var header_example { grab_example with input :=
        (.chr '=' :: .kw G_TOKEN_GRAB :: .chr '(' :: .str "p" :: [.chr ')', .chr '}']) } 0
      ).max_parse_errors = true ∧
    (config_scanner_var header_example { grab_example with input :=
        (.chr '=' :: .kw G_TOKEN_GRAB :: .chr '(' :: .kw G_TOKEN_SUM :: .chr ')' ::
          [.chr ')', .chr '}']) } 0).max_parse_errors = false :=
  ⟨⟨by decide, by decide⟩,
    (config_scanner_var_grab header_example grab_example 0 "load" "p" G_TOKEN_SUM 1
      [.chr ')', .chr '}'] (by decide) (by decide)).1.1,
    (config_scanner_var_grab header_example grab_example 0 "load" "p" G_TOKEN_SUM 1
      [.chr ')', .chr '}'] (by decide) (by decide)).2.2.1⟩


/-! ## Locations: claim C6 -/

/-- C6: on the tokens `(x,y)` `config_get_loc` returns the rectangle
`{x, y, 1, 1}` and on `(x,y,w,h)` it returns `{x, y, max 1 w, max 1 h}`; in
both cases no error is reported and the scanner is left exactly behind the
`)`, after the step that skips an optional `;`, whatever follows. -/
theorem config_get_loc_parses (s : State) (x y w h : ℚ) (rest : List Lexeme) :
    config_get_loc { s with next_token := .none, input :=
        ([.chr '(', .float x, .chr ',', .float y, .chr ')'] ++ rest) } =
      (config_optional_semicolon { s with
          input := rest, token := .chr ')', next_token := .none, max_parse_errors := false },
        { x := x, y := y, w := 1, h := 1 }) ∧
    config_get_loc { s with next_token := .none, input :=
        ([.chr '(', .float x, .chr ',', .float y, .chr ',', .float w, .chr ',', .float h,
          .chr ')'] ++ rest) } =
      (config_optional_semicolon { s with
          input := rest, token := .chr ')', next_token := .none, max_parse_errors := false },
        { x := x, y := y, w := max 1 w, h := max 1 h }) := by
  have hmax : ∀ v : ℚ, MAX 1 v = max 1 v := by
    intro v
    unfold MAX
    split_ifs with hv
    · exact (max_eq_left (le_of_lt hv)).symm
    · exact (max_eq_right (not_lt.mp hv)).symm
  constructor <;>
  simp [config_get_loc, config_expect_token, g_scanner_peek_next_token, Token.code, Lexeme.token,
    g_scanner_get_next_token, G_TOKEN_FLOAT, Token.v_float, hmax]


/-! ## Interval and trigger: claims C7 to C9 -/

/-- C7: on a widget that is no grid and has a non-zero interval, the block
`{ interval = n trigger = "t" }` leaves interval 0 and trigger `t` without
error; with a further `interval = m` the block reports an error (the flag is
set and the message is the one about the trigger) and still leaves interval 0
and trigger `t`. -/
theorem config_widget_props_trigger_clears_interval (H : Header) (s : State)
    (lw : layout_widget) (n m : ℚ) (t : String) (rest : List Lexeme)
    (hgrid : GTK_IS_GRID lw.widget = false) (hint : lw.interval ≠ 0) :
    ((config_widget_props H { s with next_token := .none, input :=
          (interval_trigger_block n t ++ rest) } lw).2.1.interval = 0 ∧
      (config_widget_props H { s with next_token := .none, input :=
          (interval_trigger_block n t ++ rest) } lw).2.1.trigger = some t ∧
      (config_widget_props H { s with next_token := .none, input :=
          (interval_trigger_block n t ++ rest) } lw).1.max_parse_errors = false ∧
      (config_widget_props H { s with next_token := .none, input :=
          (interval_trigger_block n t ++ rest) } lw).1.messages = s.messages) ∧
    ((config_widget_props H { s with next_token := .none, input :=
          (interval_trigger_interval_block n t m ++ rest) } lw).2.1.interval = 0 ∧
      (config_widget_props H { s with next_token := .none, input :=
          (interval_trigger_interval_block n t m ++ rest) } lw).2.1.trigger = some t ∧
      (config_widget_props H { s with next_token := .none, input :=
          (interval_trigger_interval_block n t m ++ rest) } lw).1.max_parse_errors = true ∧
      (config_widget_props H { s with next_token := .none, input :=
          (interval_trigger_interval_block n t m ++ rest) } lw).1.messages =
        s.messages ++ ["this widget already has a trigger"]) := by
  by_cases hw : lw.wtype = 297
  · refine ⟨⟨?_, ?_, ?_, ?_⟩, ?_, ?_, ?_, ?_⟩ <;>
    simp [hw, interval_trigger_block, interval_trigger_interval_block, config_widget_props,
      config_widget_props_loop_succ, config_widget_props_continues,
      config_widget_props_item, config_widget_props_switch, g_scanner_peek_next_token,
      g_scanner_get_next_token,
      Token.code, Lexeme.token, code_G_TOKEN_GRID, code_G_TOKEN_TRAY, code_G_TOKEN_TASKBAR,
      code_G_TOKEN_INTERVAL, code_G_TOKEN_TRIGGER, hgrid, hint, config_assign_number,
      config_assign_string, config_expect_token, config_optional_semicolon, G_TOKEN_FLOAT,
      G_TOKEN_STRING, Token.v_float, Token.v_string, g_scanner_error, config_log_error]
  · by_cases hg : lw.wtype = 291
    · refine ⟨⟨?_, ?_, ?_, ?_⟩, ?_, ?_, ?_, ?_⟩ <;>
      simp [hg, interval_trigger_block, interval_trigger_interval_block,
        config_widget_props, config_widget_props_loop_succ, config_widget_props_continues,
        config_widget_props_item, config_widget_props_switch, g_scanner_peek_next_token,
      g_scanner_get_next_token,
        Token.code, Lexeme.token, code_G_TOKEN_GRID, code_G_TOKEN_TRAY, code_G_TOKEN_TASKBAR,
        code_G_TOKEN_INTERVAL, code_G_TOKEN_TRIGGER, hgrid, hint, config_assign_number,
        config_assign_string, config_expect_token, config_optional_semicolon,
        G_TOKEN_FLOAT, G_TOKEN_STRING, Token.v_float, Token.v_string, g_scanner_error,
        config_log_error]
    · refine ⟨⟨?_, ?_, ?_, ?_⟩, ?_, ?_, ?_, ?_⟩ <;>
      simp [hw, hg, interval_trigger_block, interval_trigger_interval_block,
        config_widget_props, config_widget_props_loop_succ, config_widget_props_continues,
        config_widget_props_item, config_widget_props_switch, g_scanner_peek_next_token,
      g_scanner_get_next_token,
        Token.code, Lexeme.token, code_G_TOKEN_GRID, code_G_TOKEN_TRAY, code_G_TOKEN_TASKBAR,
        code_G_TOKEN_INTERVAL, code_G_TOKEN_TRIGGER, hgrid, hint, config_assign_number,
        config_assign_string, config_expect_token, config_optional_semicolon,
        G_TOKEN_FLOAT, G_TOKEN_STRING, Token.v_float, Token.v_string, g_scanner_error,
        config_log_error]

/-- C7 (witness): a label with interval 1000000, `interval = 5`, then
`trigger = "t"`, then `interval = 7`. -/
theorem config_widget_props_trigger_clears_interval_witness :
    (GTK_IS_GRID label_example.widget = false ∧ label_example.interval ≠ 0) ∧
    (config_widget_props header_example { State.init [] with next_token := .none, input :=
        (interval_trigger_block 5 "t" ++ []) } label_example).2.1.interval = 0 ∧
    (config_widget_props header_example { State.init [] with next_token := .none, input :=
        (interval_trigger_interval_block 5 "t" 7 ++ []) } label_example).1.max_parse_errors =
      true :=
  ⟨⟨by decide, by simp [label_example]⟩,
    (config_widget_props_trigger_clears_interval header_example (State.init [])
      label_example 5 7 "t" [] (by decide) (by simp [label_example])).1.1,
    (config_widget_props_trigger_clears_interval header_example (State.init [])
      label_example 5 7 "t" [] (by decide) (by simp [label_example])).2.2.2.1⟩


/-- The cases `cols` and `rows` touch neither trigger nor interval. -/
theorem config_widget_cols_rows_keep (s : State) (lw : layout_widget) :
    (config_widget_cols s lw).2.trigger = lw.trigger ∧
    (config_widget_cols s lw).2.interval = lw.interval ∧
    (config_widget_rows s lw).2.trigger = lw.trigger ∧
    (config_widget_rows s lw).2.interval = lw.interval := by
  unfold config_widget_cols config_widget_rows
  simp only []
  refine ⟨?_, ?_, ?_, ?_⟩ <;> split_ifs <;> rfl

/-- The case `action` touches neither trigger nor interval. -/
theorem config_widget_action_keeps (H : Header) (s : State) (lw : layout_widget) :
    (config_widget_action H s lw).2.trigger = lw.trigger ∧
    (config_widget_action H s lw).2.interval = lw.interval := by
  unfold config_widget_action
  simp only []
  constructor <;> split_ifs <;> rfl

/-- A property of loop states holds for a conditional when it holds for
both branches. -/
theorem props_ite {P : Props → Prop} {c : Prop} [Decidable c] {a b : Props}
    (ha : c → P a) (hb : ¬ c → P b) : P (if c then a else b) := by
  split
  · exact ha (by assumption)
  · exact hb (by assumption)

/-- One property keeps the invariant: only `trigger` stores a trigger, and it
zeroes the interval; `interval` stores a value only while the interval is
non-zero, hence while there is no trigger. -/
theorem config_widget_props_item_invariant (H : Header) (p : Props)
    (h : trigger_excludes_interval p.lw) :
    trigger_excludes_interval (config_widget_props_item H p).lw := by
  have hc := config_widget_cols_rows_keep (g_scanner_get_next_token p.s) p.lw
  have ha := config_widget_action_keeps H (g_scanner_get_next_token p.s) p.lw
  show props_invariant (config_widget_props_item H p)
  unfold config_widget_props_item config_widget_props_switch
  repeat' (refine props_ite (fun _ => ?_) (fun _ => ?_))
  all_goals unfold props_invariant trigger_excludes_interval
  all_goals unfold trigger_excludes_interval at h
  all_goals first
    | exact h
    | (simp only [hc.1, hc.2.1, hc.2.2.1, hc.2.2.2, ha.1, ha.2]; exact h)
    | (intro _; rfl)
    | (intro ht
       exact absurd (h ht) (by assumption))

/-- Every number of passes through the property loop keeps the invariant. -/
theorem config_widget_props_loop_invariant (H : Header) (n : Nat) (p : Props)
    (h : trigger_excludes_interval p.lw) :
    trigger_excludes_interval (config_widget_props_loop H n p).lw := by
  induction n generalizing p with
  | zero => exact h
  | succ k ih =>
    rw [config_widget_props_loop_succ]
    split_ifs
    · exact ih _ (config_widget_props_item_invariant H p h)
    · exact h

/-- C8: on a widget that starts without a trigger, `config_widget_props`
never yields a widget with both a trigger and a non-zero interval, and the
same holds after every number of passes through its property loop: once a
trigger is stored the interval is 0 in every later state. -/
theorem config_widget_props_trigger_excludes_interval (H : Header) (s : State)
    (lw : layout_widget) (h : lw.trigger = Option.none) :
    trigger_excludes_interval (config_widget_props H s lw).2.1 ∧
    ∀ (n : Nat) (labels icons filter : Bool) (twidth : Int),
      trigger_excludes_interval (config_widget_props_loop H n
        { s := s, lw := lw, labels := labels, icons := icons, filter := filter,
          twidth := twidth }).lw := by
  have h0 : trigger_excludes_interval lw := by
    unfold trigger_excludes_interval
    rw [h]
    intro hf
    exact absurd hf (by simp)
  constructor
  · unfold config_widget_props
    simp only []
    split
    · exact h0
    · exact config_widget_props_loop_invariant H _ _ h0
  · intro n labels icons filter twidth
    exact config_widget_props_loop_invariant H n _ h0

/-- C8 (witness): the label of the examples, after the properties
`interval = 5`, `trigger = "t"`, `interval = 7`. -/
theorem config_widget_props_trigger_excludes_interval_witness :
    label_example.trigger = Option.none ∧
    trigger_excludes_interval (config_widget_props header_example
      (State.init (interval_trigger_interval_block 5 "t" 7)) label_example).2.1 :=
  ⟨rfl, (config_widget_props_trigger_excludes_interval header_example
    (State.init (interval_trigger_interval_block 5 "t" 7)) label_example rfl).1⟩


/-- C9 (behaviour of the code at the failing input): on a label without a
trigger, `{ interval = 0; interval = 5; }` stores 0 for the first assignment
and then rejects the second one with the message about an existing trigger:
the widget keeps interval 0 and still has no trigger, and the error flag is
set. -/
theorem config_widget_props_interval_after_zero_rejected :
    (config_widget_props header_example (State.init interval_zero_block)
        label_example).2.1.interval = 0 ∧
    (config_widget_props header_example (State.init interval_zero_block)
        label_example).2.1.trigger = Option.none ∧
    (config_widget_props header_example (State.init interval_zero_block)
        label_example).1.max_parse_errors = true ∧
    (config_widget_props header_example (State.init interval_zero_block)
        label_example).1.messages = ["this widget already has a trigger"] := by
  refine ⟨?_, ?_, ?_, ?_⟩ <;>
  simp [State.init, interval_zero_block, label_example, GTK_IS_GRID, config_widget_props,
    config_widget_props_loop_succ, config_widget_props_continues, config_widget_props_item,
    config_widget_props_switch, g_scanner_peek_next_token, g_scanner_get_next_token,
    Token.code, Lexeme.token, code_G_TOKEN_GRID, code_G_TOKEN_TRAY, code_G_TOKEN_TASKBAR,
    code_G_TOKEN_INTERVAL, code_G_TOKEN_TRIGGER, config_assign_number, config_expect_token,
    config_optional_semicolon, G_TOKEN_FLOAT, Token.v_float, g_scanner_error,
    config_log_error, Keyword.code, G_TOKEN_LAST]


/-! ## Condition brackets: claim C5 -/

theorem window_state_bit_lt (st : WindowState) : st.bit < 64 := by
  cases st <;> decide

theorem config_action_cond_step (s : State) (sep : Token)
    (hsep : sep = .chr '[' ∨ sep = .chr '|') (c : Condition) (tl : List Lexeme)
    (cond ncond : Nat) (hc : cond < 64) (hn : ncond < 64) :
    config_action_cond
        { s := { s with next_token := sep, input := (c.tokens ++ tl) }, cond := cond,
          ncond := ncond } =
      { s := { s with token := .kw c.state.keyword, next_token := .none, input := tl },
        cond := if c.negated then cond else cond ||| c.state.bit,
        ncond := if c.negated then ncond ||| c.state.bit else ncond } := by
  have hb := window_state_bit_lt c.state
  have h1 : (cond ||| c.state.bit) % 256 = cond ||| c.state.bit :=
    Nat.mod_eq_of_lt (lt_trans (Nat.or_lt_two_pow (n := 6) hc hb) (by decide))
  have h2 : (ncond ||| c.state.bit) % 256 = ncond ||| c.state.bit :=
    Nat.mod_eq_of_lt (lt_trans (Nat.or_lt_two_pow (n := 6) hn hb) (by decide))
  rcases c with ⟨neg, st⟩
  rcases hsep with rfl | rfl <;> cases neg <;> cases st <;>
  simp [config_action_cond, g_scanner_get_next_token, g_scanner_peek_next_token, Lexeme.token,
    Condition.tokens, WindowState.keyword, WindowState.bit, config_action_state_bit] at h1 h2 ⊢ <;>
  first | exact h1 | exact h2


theorem config_action_conds_run (rest : List Lexeme) (ds : List Condition) :
    ∀ (c : Condition) (s : State) (sep : Token), (sep = .chr '[' ∨ sep = .chr '|') →
    ∀ (cond ncond : Nat), cond < 64 → ncond < 64 → ∀ fuel : Nat, ds.length + 1 ≤ fuel →
    config_action_conds fuel
        { s := { s with next_token := sep,
                        input := (conditions_tokens c ds ++ .chr ']' :: rest) },
          cond := cond, ncond := ncond } =
      { s := { s with token := .kw (last_condition c ds).state.keyword,
                      next_token := .chr ']', input := rest },
        cond := cond ||| condition_mask false (c :: ds),
        ncond := ncond ||| condition_mask true (c :: ds) } := by
  induction ds with
  | nil =>
    intro c s sep hsep cond ncond hc hn fuel hf
    obtain ⟨k, rfl⟩ : ∃ k, fuel = k + 1 := ⟨fuel - 1, by omega⟩
    have hstep := config_action_cond_step s sep hsep c (.chr ']' :: rest) cond ncond hc hn
    rw [config_action_conds_succ]
    simp only [conditions_tokens]
    rw [hstep]
    rcases c with ⟨neg, st⟩
    cases neg <;>
    simp [g_scanner_peek_next_token, condition_mask, last_condition, Lexeme.token]
  | cons d ds ih =>
    intro c s sep hsep cond ncond hc hn fuel hf
    obtain ⟨k, rfl⟩ : ∃ k, fuel = k + 1 := ⟨fuel - 1, by simp at hf; omega⟩
    have hk : ds.length + 1 ≤ k := by simp at hf; omega
    have hstep := config_action_cond_step s sep hsep c
      (.chr '|' :: (conditions_tokens d ds ++ .chr ']' :: rest)) cond ncond hc hn
    have hb := window_state_bit_lt c.state
    rw [config_action_conds_succ]
    simp only [conditions_tokens, List.append_assoc, List.cons_append]
    rw [hstep]
    have hc' : (if c.negated then cond else cond ||| c.state.bit) < 64 := by
      split
      · exact hc
      · exact Nat.or_lt_two_pow (n := 6) hc hb
    have hn' : (if c.negated then ncond ||| c.state.bit else ncond) < 64 := by
      split
      · exact Nat.or_lt_two_pow (n := 6) hn hb
      · exact hn
    have hrec := ih d { s with token := .kw c.state.keyword } (.chr '|') (Or.inr rfl)
      _ _ hc' hn' k hk
    simp only [g_scanner_peek_next_token, Lexeme.token, if_true] 
    rw [hrec]
    rcases c with ⟨neg, st⟩
    cases neg <;>
    simp [condition_mask, last_condition, Nat.or_assoc]


theorem conditions_tokens_length (ds : List Condition) :
    ∀ c : Condition, ds.length + 1 ≤ (conditions_tokens c ds).length := by
  induction ds with
  | nil =>
    intro c
    rcases c with ⟨neg, st⟩
    cases neg <;> simp [conditions_tokens, Condition.tokens]
  | cons d ds ih =>
    intro c
    have := ih d
    simp only [conditions_tokens, List.length_append, List.length_cons]
    omega

theorem config_action_bracket_run (s : State) (c : Condition) (ds : List Condition)
    (rest : List Lexeme) :
    config_action_bracket
        { s with next_token := .none, input := (bracket_tokens c ds ++ rest) } =
      { s := { s with token := .chr ']', next_token := .none, input := rest },
        cond := condition_mask false (c :: ds), ncond := condition_mask true (c :: ds) } := by
  have hlen := conditions_tokens_length ds c
  have hin : bracket_tokens c ds ++ rest =
      .chr '[' :: (conditions_tokens c ds ++ .chr ']' :: rest) := by
    simp [bracket_tokens]
  have hpeek : g_scanner_peek_next_token
      { s with next_token := .none,
               input := (.chr '[' :: (conditions_tokens c ds ++ .chr ']' :: rest)) } =
      { s with next_token := .chr '[',
               input := (conditions_tokens c ds ++ .chr ']' :: rest) } := by
    simp [g_scanner_peek_next_token, Lexeme.token]
  unfold config_action_bracket
  rw [hin]
  simp only [hpeek, if_true]
  rw [config_action_conds_run rest ds c s (.chr '[') (Or.inl rfl) 0 0 (by decide) (by decide)]
  · simp [g_scanner_get_next_token]
  · simp only [List.length_append]
    omega

theorem lexeme_token_ne_none (l : Lexeme) : l.token ≠ .none := by
  cases l <;> simp [Lexeme.token]

theorem g_scanner_peek_next_token_of_ne (s : State) (h : s.next_token ≠ .none) :
    g_scanner_peek_next_token s = s := by
  unfold g_scanner_peek_next_token
  split
  · rename_i heq
    exact absurd heq h
  · rfl

theorem g_scanner_peek_next_token_ne (s : State) :
    (g_scanner_peek_next_token s).next_token ≠ .none := by
  by_cases h : s.next_token = .none
  · rcases hi : s.input with _ | ⟨t, r⟩
    · simp [g_scanner_peek_next_token, h, hi]
    · simpa [g_scanner_peek_next_token, h, hi] using lexeme_token_ne_none t
  · rw [g_scanner_peek_next_token_of_ne s h]
    exact h

theorem g_scanner_peek_next_token_idem (s : State) :
    g_scanner_peek_next_token (g_scanner_peek_next_token s) = g_scanner_peek_next_token s :=
  g_scanner_peek_next_token_of_ne _ (g_scanner_peek_next_token_ne s)

theorem config_action_bracket_none (s : State)
    (h : (g_scanner_peek_next_token s).next_token ≠ .chr '[') :
    config_action_bracket s = { s := g_scanner_peek_next_token s, cond := 0, ncond := 0 } := by
  unfold config_action_bracket
  simp only []
  rw [if_neg h]

theorem config_action_head_peek (H : Header) (s : State) (cond ncond : Nat)
    (action : layout_action) :
    config_action_head H { s := g_scanner_peek_next_token s, cond := cond, ncond := ncond }
        action =
      config_action_head H { s := s, cond := cond, ncond := ncond } action := by
  unfold config_action_head
  simp only [g_scanner_peek_next_token_idem]

theorem config_action_head_masks (H : Header) (s : State) (cond ncond : Nat)
    (action : layout_action) :
    config_action_head H { s := s, cond := cond, ncond := ncond } action =
      (config_action_head H { s := s, cond := 0, ncond := 0 } action).with_masks
        cond ncond := by
  unfold config_action_head ActionResult.with_masks
  simp only []
  split_ifs <;> simp_all


theorem config_action_head_ok_masks (H : Header) (c : CondState) (action : layout_action)
    (h : (config_action_head H c action).ok = true) :
    (config_action_head H c action).action.cond = c.cond ∧
    (config_action_head H c action).action.ncond = c.ncond := by
  unfold config_action_head at h ⊢
  simp only [] at h ⊢
  split_ifs at h ⊢ <;> simp_all

/-- C5: a well-formed condition bracket `[c|c1|...|cn]` in front of an action
makes `config_action` return what it returns for the action alone, with
`cond` set to the OR of the state bits of exactly the conditions without `!`
and `ncond` to the OR of the bits of exactly the negated ones whenever the
action is accepted; without a bracket an accepted action has both masks 0. -/
theorem config_action_condition_bracket (H : Header) (s : State) (action : layout_action)
    (c : Condition) (ds : List Condition) (rest : List Lexeme)
    (hrest : rest.head? ≠ some (.chr '[')) :
    config_action H { s with next_token := .none, input := (bracket_tokens c ds ++ rest) }
        action =
      (config_action H { s with token := .chr ']', next_token := .none, input := rest }
        action).with_masks (condition_mask false (c :: ds)) (condition_mask true (c :: ds)) ∧
    ((config_action H { s with token := .chr ']', next_token := .none, input := rest }
        action).ok = true →
      (config_action H { s with next_token := .none, input := (bracket_tokens c ds ++ rest) }
        action).ok = true ∧
      (config_action H { s with next_token := .none, input := (bracket_tokens c ds ++ rest) }
        action).action.cond = condition_mask false (c :: ds) ∧
      (config_action H { s with next_token := .none, input := (bracket_tokens c ds ++ rest) }
        action).action.ncond = condition_mask true (c :: ds)) ∧
    (∀ s0 : State, (g_scanner_peek_next_token s0).next_token ≠ .chr '[' →
      (config_action H s0 action).ok = true →
      (config_action H s0 action).action.cond = 0 ∧
      (config_action H s0 action).action.ncond = 0) := by
  have hpeek : (g_scanner_peek_next_token
      { s with token := .chr ']', next_token := .none, input := rest }).next_token ≠
      .chr '[' := by
    rcases rest with _ | ⟨t, r⟩
    · simp [g_scanner_peek_next_token]
    · have ht : t ≠ .chr '[' := by
        intro h
        exact hrest (by simp [h])
      cases t <;> simp_all [g_scanner_peek_next_token, Lexeme.token]
  have heq : config_action H
      { s with next_token := .none, input := (bracket_tokens c ds ++ rest) } action =
      (config_action H { s with token := .chr ']', next_token := .none, input := rest }
        action).with_masks (condition_mask false (c :: ds))
        (condition_mask true (c :: ds)) := by
    unfold config_action
    rw [config_action_bracket_run, config_action_bracket_none _ hpeek,
      config_action_head_peek]
    exact config_action_head_masks H _ _ _ action
  refine ⟨heq, ?_, ?_⟩
  · intro hok
    rw [heq]
    unfold ActionResult.with_masks
    simp [hok]
  · intro s0 h0 hok
    unfold config_action at hok ⊢
    rw [config_action_bracket_none _ h0] at hok ⊢
    exact config_action_head_ok_masks H _ action hok

/-- C5 (witness): `[Focused|!Minimized] "quit.sh"` gives `cond` the focused
bit and `ncond` the minimized bit. -/
theorem config_action_condition_bracket_witness :
    [Lexeme.str "quit.sh"].head? ≠ some (.chr '[') ∧
    (config_action header_example { State.init [] with next_token := .none, input :=
        (bracket_tokens ⟨false, .focused⟩ [⟨true, .minimized⟩] ++ [.str "quit.sh"]) }
      layout_action.zero).ok = true ∧
    (config_action header_example { State.init [] with next_token := .none, input :=
        (bracket_tokens ⟨false, .focused⟩ [⟨true, .minimized⟩] ++ [.str "quit.sh"]) }
      layout_action.zero).action.cond = WS_FOCUSED ∧
    (config_action header_example { State.init [] with next_token := .none, input :=
        (bracket_tokens ⟨false, .focused⟩ [⟨true, .minimized⟩] ++ [.str "quit.sh"]) }
      layout_action.zero).action.ncond = WS_MINIMIZED :=
  ⟨by decide,
    (config_action_condition_bracket header_example (State.init []) layout_action.zero
      ⟨false, .focused⟩ [⟨true, .minimized⟩] [.str "quit.sh"] (by decide)).2.1 (by decide)⟩


/-! ## Macros in values: claim C4 -/

theorem config_get_value_loop_succ (H : Header) (n : Nat) (s : State) (value : String) :
    config_get_value_loop H (n + 1) s value =
      if config_get_value_continues s.next_token then
        config_get_value_loop H n
          (g_scanner_peek_next_token (g_scanner_get_next_token s))
          (config_get_value_append H s.defines value (g_scanner_get_next_token s).token)
      else (s, value) := rfl

theorem g_scanner_get_next_token_of_ne (s : State) (h : s.next_token ≠ .none) :
    g_scanner_get_next_token s = { s with token := s.next_token, next_token := .none } := by
  unfold g_scanner_get_next_token
  split
  · rename_i heq
    exact absurd heq h
  · rfl

theorem config_get_value_loop_run (H : Header) (rest : List Lexeme) (hrest : value_stop rest)
    (ts : List Lexeme) :
    ∀ (s : State) (value : String) (fuel : Nat), value_run ts → ts.length ≤ fuel →
    config_get_value_loop H fuel
        (g_scanner_peek_next_token { s with next_token := .none, input := (ts ++ rest) })
        value =
      (g_scanner_peek_next_token
          { s with token := run_last ts s.token, next_token := .none, input := rest },
        ts.foldl (fun v l => config_get_value_append H s.defines v l.token) value) := by
  induction ts with
  | nil =>
    intro s value fuel _ _
    have hstop : config_get_value_continues
        (g_scanner_peek_next_token
          { s with next_token := .none, input := rest }).next_token = false := by
      rcases rest with _ | ⟨t, r⟩
      · simp [g_scanner_peek_next_token, config_get_value_continues]
      · simpa [g_scanner_peek_next_token] using hrest t rfl
    cases fuel with
    | zero => simp [config_get_value_loop, run_last]
    | succ k =>
      rw [config_get_value_loop_succ]
      simp only [List.nil_append, hstop]
      simp [run_last]
  | cons l ls ih =>
    intro s value fuel hrun hfuel
    obtain ⟨k, rfl⟩ : ∃ k, fuel = k + 1 := ⟨fuel - 1, by simp at hfuel; omega⟩
    have hl : config_get_value_continues l.token = true := hrun l (by simp)
    have hls : value_run ls := fun x hx => hrun x (by simp [hx])
    have hne := lexeme_token_ne_none l
    have hrec := ih { s with token := l.token } (config_get_value_append H s.defines value l.token) k hls
      (by simp at hfuel; omega)
    have hpeek : g_scanner_peek_next_token
        { s with next_token := .none, input := (l :: ls ++ rest) } =
        { s with next_token := l.token, input := (ls ++ rest) } := by
      simp [g_scanner_peek_next_token]
    have hget : g_scanner_get_next_token
        { s with next_token := l.token, input := (ls ++ rest) } =
        { s with token := l.token, next_token := .none, input := (ls ++ rest) } := by
      rw [g_scanner_get_next_token_of_ne _ hne]
    rw [config_get_value_loop_succ, hpeek]
    simp only [hl, if_true, hget]
    rw [hrec]
    simp [run_last]


theorem config_get_value_append_eq (H : Header) (d : Option (List (String × String)))
    (value : String) (t : Token) :
    config_get_value_append H d value t = value ++ config_get_value_append H d "" t := by
  unfold config_get_value_append config_value_string
  split_ifs <;> simp

theorem value_text_foldl (H : Header) (d : Option (List (String × String)))
    (ts : List Lexeme) :
    ∀ value : String,
      ts.foldl (fun v l => config_get_value_append H d v l.token) value =
        value ++ value_text H d ts := by
  unfold value_text
  induction ts with
  | nil => intro value; simp
  | cons l ls ih =>
    intro value
    simp only [List.foldl_cons]
    rw [ih, ih (config_get_value_append H d "" l.token), config_get_value_append_eq,
      String.append_assoc]

theorem value_text_ident (H : Header) (d : List (String × String)) (name v : String)
    (h : g_hash_table_lookup d name = some v) (ts : List Lexeme) :
    value_text H (some d) (.ident name :: ts) = v ++ value_text H (some d) ts := by
  have h1 : config_get_value_append H (some d) "" (Lexeme.ident name).token = v := by
    simp [config_get_value_append, Lexeme.token, Token.code, G_TOKEN_STRING,
      G_TOKEN_IDENTIFIER, Token.v_identifier, config_get_value_identifier, h]
  unfold value_text
  simp only [List.foldl_cons]
  rw [value_text_foldl, h1]
  rfl

theorem value_text_append (H : Header) (d : Option (List (String × String)))
    (ts us : List Lexeme) :
    value_text H d (ts ++ us) = value_text H d ts ++ value_text H d us := by
  unfold value_text
  rw [List.foldl_append, value_text_foldl]
  rfl

theorem g_hash_table_lookup_insert (d : List (String × String)) (key value : String) :
    g_hash_table_lookup (g_hash_table_insert d key value) key = some value := by
  induction d with
  | nil => simp [g_hash_table_insert, g_hash_table_lookup, str_nequal]
  | cons e es ih =>
    rcases e with ⟨k, v⟩
    by_cases hk : str_nequal k key = true
    · simp [g_hash_table_insert, g_hash_table_lookup, hk]
    · simp [g_hash_table_insert, g_hash_table_lookup, hk, ih]

theorem value_run_fuel (ts rest : List Lexeme) (s : State) :
    ts.length ≤ (g_scanner_peek_next_token
      { s with next_token := .none, input := (ts ++ rest) }).input.length + 1 := by
  rcases hts : ts ++ rest with _ | ⟨t, r⟩
  · have : ts = [] := (List.append_eq_nil.mp hts).1
    simp [this]
  · have hlen : (ts ++ rest).length = r.length + 1 := by rw [hts]; simp
    simp only [List.length_append] at hlen
    simp [g_scanner_peek_next_token]
    omega

/-- Result of `config_get_value` without `=` on a run of value tokens
followed by a terminator. -/
theorem config_get_value_run (H : Header) (s : State) (prop : String)
    (ts rest : List Lexeme) (hts : value_run ts) (hrest : value_stop rest) :
    config_get_value H { s with next_token := .none, input := (ts ++ rest) } prop false =
      (config_optional_semicolon (g_scanner_peek_next_token
          { s with max_parse_errors := false, token := run_last ts s.token,
                   next_token := .none, input := rest }),
        some (value_text H s.defines ts)) := by
  have hrun := config_get_value_loop_run H rest hrest ts
    { s with max_parse_errors := false } "" _ hts
    (value_run_fuel ts rest { s with max_parse_errors := false })
  unfold config_get_value
  simp only [Bool.false_eq_true, false_and, if_false]
  rw [hrun]
  rfl

/-- Result of `config_get_value` with `=` on `= T` for a run `T` of value
tokens followed by a terminator. -/
theorem config_get_value_assign_run (H : Header) (s : State) (prop : String)
    (ts rest : List Lexeme) (hts : value_run ts) (hrest : value_stop rest) :
    config_get_value H { s with next_token := .none, input := (.chr '=' :: (ts ++ rest)) }
        prop true =
      (config_optional_semicolon (g_scanner_peek_next_token
          { s with max_parse_errors := false, token := run_last ts (.chr '='),
                   next_token := .none, input := rest }),
        some (value_text H s.defines ts)) := by
  have hrun := config_get_value_loop_run H rest hrest ts
    { s with max_parse_errors := false, token := .chr '=' } "" _ hts
    (value_run_fuel ts rest { s with max_parse_errors := false, token := .chr '=' })
  have h1 : g_scanner_peek_next_token
      { s with max_parse_errors := false, next_token := .none,
               input := (.chr '=' :: (ts ++ rest)) } =
      { s with max_parse_errors := false, next_token := .chr '=', input := (ts ++ rest) } := by
    simp [g_scanner_peek_next_token, Lexeme.token]
  have h2 : g_scanner_get_next_token
      { s with max_parse_errors := false, next_token := .chr '=', input := (ts ++ rest) } =
      { s with max_parse_errors := false, token := .chr '=', next_token := .none,
               input := (ts ++ rest) } := by
    simp [g_scanner_get_next_token]
  unfold config_get_value config_expect_token
  simp only [h1, h2, Token.code, Char.reduceToNat, Nat.reduceMod, if_true, true_and]
  simp only [Bool.true_eq_false, if_false]
  rw [hrun]
  rfl

/-- State of the macro table after `config_define` on `X = T`. -/
theorem config_define_run (H : Header) (s : State) (name : String)
    (ts rest : List Lexeme) (hts : value_run ts) (hrest : value_stop rest) :
    (config_define H { s with next_token := .none, input :=
        (.ident name :: .chr '=' :: (ts ++ rest)) }).defines =
      some (g_hash_table_insert (s.defines.getD []) name (value_text H s.defines ts)) := by
  have hval := config_get_value_assign_run H { s with token := .ident name } "define" ts rest
    hts hrest
  have h1 : g_scanner_peek_next_token
      { s with next_token := .none, input := (.ident name :: .chr '=' :: (ts ++ rest)) } =
      { s with next_token := .ident name, input := (.chr '=' :: (ts ++ rest)) } := by
    simp [g_scanner_peek_next_token, Lexeme.token]
  have h2 : g_scanner_get_next_token
      { s with next_token := .ident name, input := (.chr '=' :: (ts ++ rest)) } =
      { s with token := .ident name, next_token := .none,
               input := (.chr '=' :: (ts ++ rest)) } := by
    simp [g_scanner_get_next_token]
  unfold config_define config_expect_token
  simp only [h1, h2, Token.code, G_TOKEN_IDENTIFIER, if_true, Bool.true_eq_false, if_false,
    hval, Token.v_identifier, Option.isNone_some, Option.getD_some]
  simp [(config_optional_semicolon_frame _).2.2.1, (g_scanner_peek_next_token_frame _).2.2.2.1]


/-- C4: after `config_define` has processed `X = T`, the macro table holds
for `X` the text of `T` as evaluated at that time; and whenever the table at
evaluation time still holds that entry for `X`, `config_get_value` on a run
`R1 X R2` returns the text of `R1`, then the stored text of `X` verbatim, then
the text of `R2`: the inserted text is not scanned again, whatever else the
table defines at that time. -/
theorem config_get_value_macro_verbatim (H : Header) (s s2 : State) (name prop : String)
    (ts rest r1 r2 rest2 : List Lexeme) (hts : value_run ts) (hrest : value_stop rest)
    (hr1 : value_run r1) (hr2 : value_run r2) (hrest2 : value_stop rest2)
    (hkeep : s2.defines.bind (fun d => g_hash_table_lookup d name) =
      (config_define H { s with next_token := .none, input :=
        (.ident name :: .chr '=' :: (ts ++ rest)) }).defines.bind
          (fun d => g_hash_table_lookup d name)) :
    (config_define H { s with next_token := .none, input :=
        (.ident name :: .chr '=' :: (ts ++ rest)) }).defines.bind
          (fun d => g_hash_table_lookup d name) = some (value_text H s.defines ts) ∧
    (config_get_value H { s2 with next_token := .none, input :=
        (r1 ++ .ident name :: (r2 ++ rest2)) } prop false).2 =
      some (value_text H s2.defines r1 ++
        (value_text H s.defines ts ++ value_text H s2.defines r2)) := by
  have hdef := config_define_run H s name ts rest hts hrest
  have hstored : (config_define H { s with next_token := .none, input :=
        (.ident name :: .chr '=' :: (ts ++ rest)) }).defines.bind
          (fun d => g_hash_table_lookup d name) = some (value_text H s.defines ts) := by
    rw [hdef]
    simp [g_hash_table_lookup_insert]
  refine ⟨hstored, ?_⟩
  rw [hstored] at hkeep
  have hrun : value_run (r1 ++ .ident name :: r2) := by
    intro l hl
    rcases List.mem_append.mp hl with h | h
    · exact hr1 l h
    · rcases List.mem_cons.mp h with h | h
      · subst h
        simp [config_get_value_continues, Lexeme.token, Token.code, code_G_TOKEN_SCANNER]
      · exact hr2 l h
  have hval := config_get_value_run H s2 prop (r1 ++ .ident name :: r2) rest2 hrun hrest2
  simp only [List.append_assoc, List.cons_append] at hval
  rw [hval]
  rcases hd : s2.defines with _ | d
  · rw [hd] at hkeep
    cases hkeep
  · rw [hd] at hkeep
    change g_hash_table_lookup d name = _ at hkeep
    rw [value_text_append, value_text_ident H d name _ hkeep]


/-- C4 (witness): `Define X = Y` in a fresh process; later the table holds
`X = Y` and also `Y = z`; the value expression `X` evaluates to `Y`. -/
theorem config_get_value_macro_verbatim_witness :
    (value_run [Lexeme.ident "Y"] ∧ value_stop [] ∧ value_run [] ∧
      ({ State.init [] with defines := some defines_example } : State).defines.bind
          (fun d => g_hash_table_lookup d "X") =
        (config_define header_example { State.init [] with next_token := .none, input :=
          (.ident "X" :: .chr '=' :: ([.ident "Y"] ++ [])) }).defines.bind
            (fun d => g_hash_table_lookup d "X")) ∧
    (config_get_value header_example
        { ({ State.init [] with defines := some defines_example } : State) with
          next_token := .none, input := ([] ++ .ident "X" :: ([] ++ [])) }
        "value" false).2 = some "Y" :=
  ⟨⟨by unfold value_run; decide, by unfold value_stop; decide, by unfold value_run; decide,
      by decide⟩,
    (config_get_value_macro_verbatim header_example (State.init [])
      { State.init [] with defines := some defines_example } "X" "value"
      [.ident "Y"] [] [] [] [] (by unfold value_run; decide) (by unfold value_stop; decide)
      (by unfold value_run; decide) (by unfold value_run; decide)
      (by unfold value_stop; decide) (by decide)).2⟩


/-! ## Menus: claim C10 -/

theorem config_menu_loop_succ (H : Header) (n : Nat) (s : State) (menu : Nat) :
    config_menu_loop H (n + 1) s menu =
    if s.next_token ≠ .eof ∧ s.next_token ≠ .chr '}' then
      if (g_scanner_get_next_token s).token = .kw G_TOKEN_SUBMENU then
        if (config_menu_head (g_scanner_get_next_token s) (some menu)).ok = false then
          config_menu_loop H n
            (g_scanner_peek_next_token
              (config_menu_head (g_scanner_get_next_token s) (some menu)).s) menu
        else
          config_menu_loop H n
            (g_scanner_peek_next_token
              (config_menu_tail
                (config_menu_loop H n
                  (config_menu_head (g_scanner_get_next_token s) (some menu)).s
                  (config_menu_head (g_scanner_get_next_token s) (some menu)).menu)
                (config_menu_head (g_scanner_get_next_token s) (some menu)).name
                (config_menu_head (g_scanner_get_next_token s) (some menu)).menu
                (some menu))) menu
      else
        config_menu_loop H n
          (g_scanner_peek_next_token (config_menu_entry H (g_scanner_get_next_token s) menu))
          menu
    else s := rfl

theorem menu_tokens_head (b : MenuBody) (rest : List Lexeme) :
    ∃ t Y, b.tokens ++ .chr '}' :: rest = t :: Y ∧ t ≠ .chr ';' := by
  cases b <;> simp [MenuBody.tokens]

theorem optional_semicolon_peek (s : State) (semi : Bool) (t : Lexeme) (Y : List Lexeme)
    (ht : t ≠ .chr ';') :
    ∃ tok, g_scanner_peek_next_token (config_optional_semicolon
        { s with next_token := .none, input := (semicolon_tokens semi ++ t :: Y) }) =
      g_scanner_peek_next_token { s with token := tok, next_token := .none, input := (t :: Y) } := by
  have htok : t.token ≠ .chr ';' := by
    cases t <;> simp_all [Lexeme.token]
  cases semi
  · refine ⟨s.token, ?_⟩
    simp [semicolon_tokens, config_optional_semicolon, g_scanner_peek_next_token,
      g_scanner_get_next_token, htok]
    have := lexeme_token_ne_none t
    split <;> simp_all
  · refine ⟨.chr ';', ?_⟩
    simp [semicolon_tokens, config_optional_semicolon, g_scanner_peek_next_token,
      g_scanner_get_next_token, Lexeme.token]

theorem config_menu_item_run (H : Header) (label : String) (ts : List Lexeme)
    (action : layout_action) (hacc : action_accepted H ts action) (s : State)
    (rest : List Lexeme) :
    config_menu_item H
        { s with input := (.chr '(' :: .str label :: .chr ',' :: (ts ++ .chr ')' :: rest)),
                 next_token := .none } =
      (config_optional_semicolon
        { s with input := rest, token := .chr ')', next_token := .none,
                 max_parse_errors := false }, some (MenuEntry.item label action)) := by
  obtain ⟨tok, hA⟩ := hacc { s with token := .chr ',', max_parse_errors := false } rest
  simp only [] at hA
  simp [config_menu_item, g_scanner_get_next_token, Lexeme.token, Token.code, G_TOKEN_STRING,
    Token.v_string, hA]

theorem peek_mk (t : Lexeme) (Y : List Lexeme) (tok : Token) (e : Bool) (ms : List String)
    (d : Option (List (String × String))) (fs : List scan_file) (fl : List Nat)
    (cs : List Call) (hp : List (List MenuEntry)) (mn : List (String × Nat)) :
    g_scanner_peek_next_token
        { input := t :: Y, token := tok, next_token := .none, max_parse_errors := e,
          messages := ms, defines := d, files := fs, file_list := fl, calls := cs,
          menu_heap := hp, menus := mn } =
      { input := Y, token := tok, next_token := t.token, max_parse_errors := e,
        messages := ms, defines := d, files := fs, file_list := fl, calls := cs,
        menu_heap := hp, menus := mn } := rfl

theorem get_mk (t : Lexeme) (Y : List Lexeme) (tok : Token) (e : Bool) (ms : List String)
    (d : Option (List (String × String))) (fs : List scan_file) (fl : List Nat)
    (cs : List Call) (hp : List (List MenuEntry)) (mn : List (String × Nat)) :
    g_scanner_get_next_token
        { input := t :: Y, token := tok, next_token := .none, max_parse_errors := e,
          messages := ms, defines := d, files := fs, file_list := fl, calls := cs,
          menu_heap := hp, menus := mn } =
      { input := Y, token := t.token, next_token := .none, max_parse_errors := e,
        messages := ms, defines := d, files := fs, file_list := fl, calls := cs,
        menu_heap := hp, menus := mn } := rfl

theorem get_mk_kw (k : Keyword) (Y : List Lexeme) (tok : Token) (e : Bool) (ms : List String)
    (d : Option (List (String × String))) (fs : List scan_file) (fl : List Nat)
    (cs : List Call) (hp : List (List MenuEntry)) (mn : List (String × Nat)) :
    g_scanner_get_next_token
        { input := Y, token := tok, next_token := .kw k, max_parse_errors := e,
          messages := ms, defines := d, files := fs, file_list := fl, calls := cs,
          menu_heap := hp, menus := mn } =
      { input := Y, token := .kw k, next_token := .none, max_parse_errors := e,
        messages := ms, defines := d, files := fs, file_list := fl, calls := cs,
        menu_heap := hp, menus := mn } := rfl

theorem get_mk_chr (c : Char) (Y : List Lexeme) (tok : Token) (e : Bool) (ms : List String)
    (d : Option (List (String × String))) (fs : List scan_file) (fl : List Nat)
    (cs : List Call) (hp : List (List MenuEntry)) (mn : List (String × Nat)) :
    g_scanner_get_next_token
        { input := Y, token := tok, next_token := .chr c, max_parse_errors := e,
          messages := ms, defines := d, files := fs, file_list := fl, calls := cs,
          menu_heap := hp, menus := mn } =
      { input := Y, token := .chr c, next_token := .none, max_parse_errors := e,
        messages := ms, defines := d, files := fs, file_list := fl, calls := cs,
        menu_heap := hp, menus := mn } := rfl

theorem config_optional_semicolon_heap (s : State) (hp : List (List MenuEntry)) :
    ({ input := (config_optional_semicolon s).input,
       token := (config_optional_semicolon s).token,
       next_token := (config_optional_semicolon s).next_token,
       max_parse_errors := (config_optional_semicolon s).max_parse_errors,
       messages := (config_optional_semicolon s).messages,
       defines := (config_optional_semicolon s).defines,
       files := (config_optional_semicolon s).files,
       file_list := (config_optional_semicolon s).file_list,
       calls := (config_optional_semicolon s).calls,
       menu_heap := hp,
       menus := (config_optional_semicolon s).menus } : State) =
      config_optional_semicolon { s with menu_heap := hp } := by
  unfold config_optional_semicolon g_scanner_peek_next_token g_scanner_get_next_token
  simp only []
  repeat' split
  all_goals simp_all

theorem config_optional_semicolon_menu_heap (s : State) :
    (config_optional_semicolon s).menu_heap = s.menu_heap := by
  unfold config_optional_semicolon g_scanner_peek_next_token g_scanner_get_next_token
  simp only []
  repeat' split
  all_goals simp_all

theorem config_menu_loop_run (H : Header) (b : MenuBody) :
    ∀ (fuel : Nat) (s : State) (menu : Nat) (rest : List Lexeme),
    b.accepted H → b.depth ≤ fuel →
    ∃ tok, config_menu_loop H fuel
        (g_scanner_peek_next_token
          { s with input := (b.tokens ++ .chr '}' :: rest), next_token := .none,
                   max_parse_errors := false }) menu =
      { s with input := rest, token := tok, next_token := .chr '}',
               max_parse_errors := false, menu_heap := b.build s.menu_heap menu } := by
  induction b with
  | done =>
    intro fuel s menu rest _ _
    refine ⟨s.token, ?_⟩
    cases fuel with
    | zero => simp [MenuBody.tokens, g_scanner_peek_next_token, config_menu_loop, Lexeme.token,
        MenuBody.build]
    | succ n => simp [MenuBody.tokens, g_scanner_peek_next_token, config_menu_loop_succ,
        Lexeme.token, MenuBody.build]
  | item label ts action semi next ih =>
    intro fuel s menu rest hacc hfuel
    obtain ⟨n, rfl⟩ : ∃ n, fuel = n + 1 := ⟨fuel - 1, by simp [MenuBody.depth] at hfuel; omega⟩
    obtain ⟨t, Y, hY, ht⟩ := menu_tokens_head next rest
    have hitem := config_menu_item_run H label ts action hacc.1
      { s with token := .kw G_TOKEN_ITEM, max_parse_errors := false }
      (semicolon_tokens semi ++ (next.tokens ++ .chr '}' :: rest))
    simp only [] at hitem
    simp [MenuBody.tokens, peek_mk, get_mk, get_mk_kw, get_mk_chr, config_menu_loop_succ,
        Lexeme.token, MenuBody.build, config_menu_entry, hitem,
        config_optional_semicolon_heap, config_optional_semicolon_menu_heap]
    have hn : next.depth ≤ n := by simp [MenuBody.depth] at hfuel; omega
    rw [hY]
    obtain ⟨tok1, h1⟩ := optional_semicolon_peek
      { s with token := .chr ')', max_parse_errors := false,
               menu_heap := gtk_container_add s.menu_heap menu (MenuEntry.item label action) }
      semi t Y ht
    simp only [] at h1
    rw [h1, ← hY]
    obtain ⟨tok2, h2⟩ := ih n
      { s with token := tok1,
               menu_heap := gtk_container_add s.menu_heap menu (MenuEntry.item label action) }
      menu rest hacc.2 hn
    exact ⟨tok2, h2⟩
  | separator semi next ih =>
    intro fuel s menu rest hacc hfuel
    obtain ⟨n, rfl⟩ : ∃ n, fuel = n + 1 := ⟨fuel - 1, by simp [MenuBody.depth] at hfuel; omega⟩
    obtain ⟨t, Y, hY, ht⟩ := menu_tokens_head next rest
    have hn : next.depth ≤ n := by simp [MenuBody.depth] at hfuel; omega
    simp [MenuBody.tokens, peek_mk, get_mk, get_mk_kw, get_mk_chr, config_menu_loop_succ,
        Lexeme.token, MenuBody.build, config_menu_entry,
        config_optional_semicolon_heap, config_optional_semicolon_menu_heap]
    rw [hY]
    obtain ⟨tok1, h1⟩ := optional_semicolon_peek
      { s with token := .kw G_TOKEN_SEPARATOR, max_parse_errors := false,
               menu_heap := gtk_container_add s.menu_heap menu MenuEntry.separator }
      semi t Y ht
    simp only [] at h1
    rw [h1, ← hY]
    obtain ⟨tok2, h2⟩ := ih n
      { s with token := tok1,
               menu_heap := gtk_container_add s.menu_heap menu MenuEntry.separator }
      menu rest hacc hn
    exact ⟨tok2, h2⟩
  | submenu name body semi next ihb ih =>
    intro fuel s menu rest hacc hfuel
    obtain ⟨n, rfl⟩ : ∃ n, fuel = n + 1 := ⟨fuel - 1, by simp [MenuBody.depth] at hfuel; omega⟩
    obtain ⟨t, Y, hY, ht⟩ := menu_tokens_head next rest
    have hn : next.depth ≤ n := by simp [MenuBody.depth] at hfuel; omega
    have hnb : body.depth ≤ n := by simp [MenuBody.depth] at hfuel; omega
    simp [MenuBody.tokens, peek_mk, get_mk, get_mk_kw, get_mk_chr, config_menu_loop_succ,
        Lexeme.token, MenuBody.build, config_menu_head, Token.code, G_TOKEN_STRING,
        Token.v_string]
    obtain ⟨tokb, hb⟩ := ihb n
      { s with token := .chr '\x7b', menu_heap := s.menu_heap ++ [[]] }
      s.menu_heap.length (semicolon_tokens semi ++ (next.tokens ++ .chr '}' :: rest)) hacc.1 hnb
    simp only [] at hb
    rw [hb]
    simp [config_menu_tail, get_mk_chr, config_optional_semicolon_heap,
      config_optional_semicolon_menu_heap]
    rw [hY]
    obtain ⟨tok1, h1⟩ := optional_semicolon_peek
      { s with token := .chr '}', max_parse_errors := false,
               menu_heap := gtk_container_add (body.build (s.menu_heap ++ [[]]) s.menu_heap.length)
                 menu (MenuEntry.submenu name s.menu_heap.length) }
      semi t Y ht
    simp only [] at h1
    rw [h1, ← hY]
    obtain ⟨tok2, h2⟩ := ih n
      { s with token := tok1,
               menu_heap := gtk_container_add (body.build (s.menu_heap ++ [[]]) s.menu_heap.length)
                 menu (MenuEntry.submenu name s.menu_heap.length) }
      menu rest hacc.2 hn
    exact ⟨tok2, h2⟩

theorem gtk_container_add_length (heap : List (List MenuEntry)) (m : Nat) (e : MenuEntry) :
    (gtk_container_add heap m e).length = heap.length := by
  unfold gtk_container_add
  split <;> simp

theorem gtk_container_add_same (heap : List (List MenuEntry)) (m : Nat) (e : MenuEntry)
    (es : List MenuEntry) (h : heap[m]? = some es) :
    (gtk_container_add heap m e)[m]? = some (es ++ [e]) := by
  have hm : m < heap.length := by
    rcases Nat.lt_or_ge m heap.length with h1 | h1
    · exact h1
    · rw [List.getElem?_eq_none h1] at h
      cases h
  simp [gtk_container_add, h, List.getElem?_set, hm]

theorem gtk_container_add_other (heap : List (List MenuEntry)) (m k : Nat) (e : MenuEntry)
    (hk : k ≠ m) : (gtk_container_add heap m e)[k]? = heap[k]? := by
  unfold gtk_container_add
  split
  · simp [List.getElem?_set, Ne.symm hk]
  · rfl

theorem menu_build_length (b : MenuBody) :
    ∀ (heap : List (List MenuEntry)) (m : Nat),
      (b.build heap m).length = heap.length + b.menus := by
  induction b with
  | done => intro heap m; simp [MenuBody.build, MenuBody.menus]
  | item label ts action semi next ih =>
    intro heap m
    simp [MenuBody.build, MenuBody.menus, ih, gtk_container_add_length]
  | separator semi next ih =>
    intro heap m
    simp [MenuBody.build, MenuBody.menus, ih, gtk_container_add_length]
  | submenu name body semi next ihb ih =>
    intro heap m
    simp [MenuBody.build, MenuBody.menus, ih, ihb, gtk_container_add_length]
    omega

theorem menu_build_other (b : MenuBody) :
    ∀ (heap : List (List MenuEntry)) (m k : Nat), k < heap.length → k ≠ m →
      (b.build heap m)[k]? = heap[k]? := by
  induction b with
  | done => intro heap m k _ _; simp [MenuBody.build]
  | item label ts action semi next ih =>
    intro heap m k hk hne
    simp only [MenuBody.build]
    rw [ih _ m k (by rw [gtk_container_add_length]; exact hk) hne,
      gtk_container_add_other heap m k _ hne]
  | separator semi next ih =>
    intro heap m k hk hne
    simp only [MenuBody.build]
    rw [ih _ m k (by rw [gtk_container_add_length]; exact hk) hne,
      gtk_container_add_other heap m k _ hne]
  | submenu name body semi next ihb ih =>
    intro heap m k hk hne
    simp only [MenuBody.build]
    rw [ih _ m k (by rw [gtk_container_add_length, menu_build_length]; simp; omega) hne,
      gtk_container_add_other _ m k _ hne,
      ihb _ heap.length k (by simp; omega) (by omega)]
    simp [List.getElem?_append, hk]

theorem menu_build_entries (b : MenuBody) :
    ∀ (heap : List (List MenuEntry)) (m : Nat) (es : List MenuEntry), heap[m]? = some es →
      (b.build heap m)[m]? = some (es ++ b.entries heap.length) := by
  induction b with
  | done => intro heap m es h; simp [MenuBody.build, MenuBody.entries, h]
  | item label ts action semi next ih =>
    intro heap m es h
    simp only [MenuBody.build, MenuBody.entries]
    rw [ih _ m _ (gtk_container_add_same heap m _ es h), gtk_container_add_length]
    simp
  | separator semi next ih =>
    intro heap m es h
    simp only [MenuBody.build, MenuBody.entries]
    rw [ih _ m _ (gtk_container_add_same heap m _ es h), gtk_container_add_length]
    simp
  | submenu name body semi next ihb ih =>
    intro heap m es h
    have hm : m < heap.length := by
      rcases Nat.lt_or_ge m heap.length with h1 | h1
      · exact h1
      · rw [List.getElem?_eq_none h1] at h
        cases h
    have h1 : (body.build (heap ++ [[]]) heap.length)[m]? = some es := by
      rw [menu_build_other body _ heap.length m (by simp; omega) (by omega)]
      simpa [List.getElem?_append, hm] using h
    simp only [MenuBody.build, MenuBody.entries]
    rw [ih _ m _ (gtk_container_add_same _ m _ es h1), gtk_container_add_length,
      menu_build_length]
    simp

theorem menu_depth_le_tokens (b : MenuBody) : b.depth ≤ b.tokens.length := by
  induction b with
  | done => simp [MenuBody.depth]
  | item label ts action semi next ih => simp [MenuBody.depth, MenuBody.tokens]; omega
  | separator semi next ih => simp [MenuBody.depth, MenuBody.tokens]; omega
  | submenu name body semi next ihb ih => simp [MenuBody.depth, MenuBody.tokens]; omega

theorem layout_menu_get_add (r : List (String × Nat)) (name : String) (m : Nat) :
    layout_menu_get (layout_menu_add r name m) name = some m := by
  induction r with
  | nil => simp [layout_menu_add, layout_menu_get]
  | cons p r ih =>
    obtain ⟨k, v⟩ := p
    by_cases h : k = name
    · simp [layout_menu_add, layout_menu_get, h]
    · simp [layout_menu_add, layout_menu_get, h, ih]

theorem action_accepted_exec (H : Header) (cmd : String) :
    action_accepted H [.str cmd]
      { layout_action.zero with type := G_TOKEN_EXEC.code, command := some cmd } := by
  intro s rest
  refine ⟨.str cmd, ?_⟩
  simp [config_action, config_action_bracket, config_action_head, config_action_args,
    config_expect_token, g_scanner_peek_next_token, g_scanner_get_next_token, Lexeme.token,
    Token.code, G_TOKEN_STRING, action_keywords_string, Token.v_string, layout_action.zero]

theorem config_menu_run (H : Header) (s : State) (name : String) (b : MenuBody) (semi : Bool)
    (rest : List Lexeme) (hacc : b.accepted H) :
    ∃ tok, config_menu H
        { s with input := (menu_tokens name b semi ++ rest), next_token := .none } Option.none =
      config_optional_semicolon
        { s with input := (semicolon_tokens semi ++ rest), token := tok, next_token := .none,
                 max_parse_errors := false,
                 menu_heap := b.build (menu_heap_start s name) (menu_address s name),
                 menus := layout_menu_add s.menus name (menu_address s name) } := by
  obtain ⟨t, Y, hY, ht⟩ := menu_tokens_head b (semicolon_tokens semi ++ rest)
  have hd := menu_depth_le_tokens b
  have hlen : b.tokens.length ≤ Y.length := by
    have := congrArg List.length hY
    simp at this
    omega
  have hhead : config_menu_head
      { s with input := (menu_tokens name b semi ++ rest), next_token := .none } Option.none =
      { s := g_scanner_peek_next_token
          { s with input := (b.tokens ++ .chr '}' :: (semicolon_tokens semi ++ rest)),
                   token := .chr '\x7b', next_token := .none, max_parse_errors := false,
                   menu_heap := menu_heap_start s name },
        ok := true, name := name, menu := menu_address s name } := by
    rcases hfound : layout_menu_get s.menus name with _ | m0 <;>
    simp [menu_tokens, config_menu_head, get_mk, Lexeme.token, Token.code,
      G_TOKEN_STRING, Token.v_string, hfound, menu_heap_start, menu_address]
  obtain ⟨tok, h⟩ := config_menu_loop_run H b (Y.length + 1)
    { s with token := .chr '\x7b', menu_heap := menu_heap_start s name } (menu_address s name)
    (semicolon_tokens semi ++ rest) hacc (by omega)
  simp only [] at h
  rw [hY] at h
  refine ⟨.chr '}', ?_⟩
  unfold config_menu
  rw [hhead]
  simp only [Bool.true_eq_false, if_false]
  rw [hY]
  change config_menu_tail (config_menu_loop H (Y.length + 1) _ _) _ _ _ = _
  rw [h]
  simp [config_menu_tail, get_mk_chr]

theorem menu_entries_length (b : MenuBody) : ∀ free : Nat,
    (b.entries free).length = b.statements := by
  induction b with
  | done => intro free; rfl
  | item label ts action semi next ih => intro free; simp [MenuBody.entries, MenuBody.statements, ih]
  | separator semi next ih => intro free; simp [MenuBody.entries, MenuBody.statements, ih]
  | submenu name body semi next ihb ih =>
    intro free; simp [MenuBody.entries, MenuBody.statements, ih]

theorem menu_heap_start_address (s : State) (name : String) (halloc : menus_allocated s) :
    (menu_heap_start s name)[menu_address s name]? = some (menu_before s name) := by
  rcases hfound : layout_menu_get s.menus name with _ | m0
  · simp [menu_heap_start, menu_address, menu_before, hfound]
  · have hm := halloc name m0 hfound
    simp [menu_heap_start, menu_address, menu_before, hfound, hm, List.getD]

/-- Menus whose items carry an action that ends before the closing
parenthesis of `item(...)`: for every `Menu("name") { statements }` whose
items carry such actions, `config_menu` reports nothing and leaves
a menu registered under `name` whose entries are the ones it had before the
declaration followed by exactly one entry per statement, in source order: an
item entry with the label and the parsed action, a separator entry, or a
submenu entry; the whole menu heap is the one that adding the statements one
by one gives. -/
theorem config_menu_builds_entries (H : Header) (s : State) (name : String) (b : MenuBody)
    (semi : Bool) (rest : List Lexeme) (hacc : b.accepted H) (halloc : menus_allocated s) :
    layout_menu_get (menu_declared H s name b semi rest).menus name =
      some (menu_address s name) ∧
    (menu_declared H s name b semi rest).menu_heap[menu_address s name]? =
      some (menu_before s name ++ b.entries (menu_heap_start s name).length) ∧
    (b.entries (menu_heap_start s name).length).length = b.statements ∧
    (menu_declared H s name b semi rest).menu_heap =
      b.build (menu_heap_start s name) (menu_address s name) ∧
    (menu_declared H s name b semi rest).messages = s.messages ∧
    (menu_declared H s name b semi rest).max_parse_errors = false := by
  obtain ⟨tok, h⟩ := config_menu_run H s name b semi rest hacc
  have hf := config_optional_semicolon_frame
    { s with input := (semicolon_tokens semi ++ rest), token := tok, next_token := .none,
             max_parse_errors := false,
             menu_heap := b.build (menu_heap_start s name) (menu_address s name),
             menus := layout_menu_add s.menus name (menu_address s name) }
  unfold menu_declared
  rw [h]
  obtain ⟨h1, h2, -, -, -, -, h7, h8⟩ := hf
  rw [h1, h2, h7, h8]
  exact ⟨layout_menu_get_add _ _ _,
    menu_build_entries b _ _ _ (menu_heap_start_address s name halloc),
    menu_entries_length b _, rfl, rfl, rfl⟩

/-- The example of the specification: `Menu("m") \x7b item("Quit","quit.sh");
separator; \x7d` on a fresh scanner registers under `m` a menu with exactly the
item and the separator. -/
theorem config_menu_builds_entries_witness :
    quit_menu.accepted header_example ∧ menus_allocated (State.init []) ∧
    layout_menu_get (menu_declared header_example (State.init []) "m" quit_menu false []).menus
      "m" = some 0 ∧
    (menu_declared header_example (State.init []) "m" quit_menu false []).menu_heap[0]? =
      some [MenuEntry.item "Quit" (exec_action "quit.sh"), MenuEntry.separator] :=
  ⟨⟨action_accepted_exec _ _, trivial⟩, fun _ _ h => by simp [State.init, layout_menu_get] at h,
    (config_menu_builds_entries header_example (State.init []) "m" quit_menu false []
      ⟨action_accepted_exec _ _, trivial⟩
      (fun _ _ h => by simp [State.init, layout_menu_get] at h)).1,
    (config_menu_builds_entries header_example (State.init []) "m" quit_menu false []
      ⟨action_accepted_exec _ _, trivial⟩
      (fun _ _ h => by simp [State.init, layout_menu_get] at h)).2.1⟩

/-- C10 (behaviour of the code at the failing input): on
`Menu("m") \x7b item("Theme", SetStyle "dark"); separator; \x7d` the menu `m` is
registered without any entry and "missing ')' after 'item'" is reported.
`config_action` reads the value of `SetStyle` with `config_get_value`, which
takes the closing parenthesis of the item as part of the value (the command
becomes `"dark")`) and the `;` behind it; `config_menu_item` then reads the
next token, finds no `)` and drops the item, and the `separator` keyword it
read is lost with it.  The same happens to an item with `SetValue` or
`SetTooltip`. -/
theorem config_menu_item_value_action_dropped :
    config_parse_toplevel header_example
        (config_include (fun f st => config_parse header_example 0 f st))
        (State.init style_item_menu) true =
      .returned
        ({ State.init [] with
           token := .chr '}', next_token := .eof, max_parse_errors := true,
           messages := ["missing ')' after 'item'"],
           menu_heap := [[]], menus := [("m", 0)] }, Option.none) ∧
    (config_action header_example
        { State.init [.kw G_TOKEN_SETSTYLE, .str "dark", .chr ')', .chr '}'] with
          token := .chr ',' } layout_action.zero).s.token = .chr ')' ∧
    (config_action header_example
        { State.init [.kw G_TOKEN_SETSTYLE, .str "dark", .chr ')', .chr '}'] with
          token := .chr ',' } layout_action.zero).action.command =
      some (String.mk [dquote, 'd', 'a', 'r', 'k', dquote, ')']) ∧
    (∀ k ∈ [G_TOKEN_SETVALUE, G_TOKEN_SETSTYLE, G_TOKEN_SETTOOLTIP],
      (config_menu_item header_example (State.init (value_item k))).2 = Option.none ∧
      (config_menu_item header_example (State.init (value_item k))).1.messages =
        ["missing ')' after 'item'"] ∧
      (config_menu_item header_example (State.init (value_item k))).1.token = .chr '}') := by
  refine ⟨by decide, by decide, by decide, by decide⟩


/-! ## Rows and columns: claim C11 -/

theorem code_G_TOKEN_ROWS : G_TOKEN_ROWS.code = 307 := by decide

theorem code_G_TOKEN_COLS : G_TOKEN_COLS.code = 306 := by decide

theorem code_G_TOKEN_LABEL : G_TOKEN_LABEL.code = 293 := by decide

theorem config_widget_props_loop_rows (H : Header) (p : Props) (k : Keyword)
    (hk : k = G_TOKEN_ROWS ∨ k = G_TOKEN_COLS) (n : ℚ) (rest : List Lexeme) (fuel : Nat)
    (hw : p.lw.wtype ≠ G_TOKEN_TASKBAR.code ∧ p.lw.wtype ≠ G_TOKEN_PAGER.code ∧
      p.lw.wtype ≠ G_TOKEN_TRAY.code) :
    config_widget_props_loop H (fuel + 3)
        { p with
          s := { p.s with input := (.chr '=' :: .float n :: rest), next_token := .kw k } } =
      config_widget_props_loop H fuel
        { p with
          s := g_scanner_peek_next_token
            { p.s with input := rest, token := .float n, next_token := .none,
                       max_parse_errors := true,
                       messages := p.s.messages ++ [no_property_message k] } } := by
  obtain ⟨h1, h2, h3⟩ := hw
  rw [code_G_TOKEN_TASKBAR] at h1
  rw [code_G_TOKEN_PAGER] at h2
  rw [code_G_TOKEN_TRAY] at h3
  rcases hk with rfl | rfl <;>
  simp [config_widget_props_loop_succ, config_widget_props_continues,
    config_widget_props_item, config_widget_props_switch, g_scanner_get_next_token,
    Token.code, Lexeme.token, code_G_TOKEN_GRID, code_G_TOKEN_TRAY, code_G_TOKEN_TASKBAR,
    code_G_TOKEN_PAGER, code_G_TOKEN_ROWS, code_G_TOKEN_COLS, config_widget_rows,
    config_widget_cols, g_scanner_error, config_log_error, h1, h2, h3, no_property_message,
    peek_mk, get_mk]

theorem config_widgets_loop_succ (H : Header)
    (inc : State → Outcome (State × Option layout_widget)) (n : Nat) (s : State)
    (parent sibling : Option GtkWidget) :
    config_widgets_loop H inc (n + 1) s parent sibling =
    if (g_scanner_peek_next_token s).next_token ≠ .chr '}' ∧
        (g_scanner_peek_next_token s).next_token ≠ .eof then
      (config_widgets_switch H inc
          (g_scanner_get_next_token (g_scanner_peek_next_token s))).bind
        (fun w =>
          if w.2.isNone then config_widgets_loop H inc n w.1 parent sibling
          else if ((config_widget_props H w.1 (w.2.getD H.layout_widget_new)).2.1.wtype =
                G_TOKEN_GRID.code ∧
              (config_widget_props H w.1 (w.2.getD H.layout_widget_new)).2.2 = true) then
            (config_widgets_loop H inc n
                { (config_widget_props H w.1 (w.2.getD H.layout_widget_new)).1 with
                  calls := (config_widget_props H w.1 (w.2.getD H.layout_widget_new)).1.calls ++
                    [Call.layout_widget_config
                      (config_widget_props H w.1 (w.2.getD H.layout_widget_new)).2.1
                      parent sibling] }
                (config_widget_props H w.1 (w.2.getD H.layout_widget_new)).2.1.widget
                Option.none).bind
              (fun s4 =>
                config_widgets_loop H inc n
                  { config_widgets_tail s4 with
                    calls := (config_widgets_tail s4).calls ++
                      [Call.layout_widget_attach
                        (config_widget_props H w.1 (w.2.getD H.layout_widget_new)).2.1] }
                  parent
                  (H.layout_widget_config
                    (config_widget_props H w.1 (w.2.getD H.layout_widget_new)).2.1
                    parent sibling))
          else
            config_widgets_loop H inc n
              { (config_widget_props H w.1 (w.2.getD H.layout_widget_new)).1 with
                calls := (config_widget_props H w.1 (w.2.getD H.layout_widget_new)).1.calls ++
                  [Call.layout_widget_config
                    (config_widget_props H w.1 (w.2.getD H.layout_widget_new)).2.1
                    parent sibling,
                   Call.layout_widget_attach
                    (config_widget_props H w.1 (w.2.getD H.layout_widget_new)).2.1] }
              parent
              (H.layout_widget_config
                (config_widget_props H w.1 (w.2.getD H.layout_widget_new)).2.1
                parent sibling))
    else .returned (g_scanner_peek_next_token s) := rfl

theorem config_parse_toplevel_loop_succ (H : Header)
    (inc : State → Outcome (State × Option layout_widget)) (layout : Bool) (n : Nat)
    (s : State) (w : Option layout_widget) :
    config_parse_toplevel_loop H inc layout (n + 1) s w =
    if (g_scanner_peek_next_token s).next_token ≠ .eof then
      (config_parse_toplevel_switch H inc layout
          (g_scanner_get_next_token (g_scanner_peek_next_token s)) w).bind
        (fun r => config_parse_toplevel_loop H inc layout n r.1 r.2)
    else .returned (g_scanner_peek_next_token s, w) := rfl

theorem Outcome.bind_returned {α β : Type} (a : α) (f : α → Outcome β) :
    (Outcome.returned a).bind f = f a := rfl

@[congr]
theorem Outcome.bind_congr {α β : Type} {x y : Outcome α} (f : α → Outcome β) (h : x = y) :
    x.bind f = y.bind f := by rw [h]

theorem config_widget_props_rows (H : Header) (s : State) (lw : layout_widget) (k : Keyword)
    (hk : k = G_TOKEN_ROWS ∨ k = G_TOKEN_COLS) (n : ℚ) (rest : List Lexeme)
    (hw : lw.wtype ≠ G_TOKEN_TASKBAR.code ∧ lw.wtype ≠ G_TOKEN_PAGER.code ∧
      lw.wtype ≠ G_TOKEN_TRAY.code) (hg : lw.wtype ≠ G_TOKEN_GRID.code) :
    config_widget_props H { s with input := (property_block k n ++ rest), next_token := .none }
        lw =
      ({ s with input := rest, token := .chr '}', next_token := .none,
                max_parse_errors := true,
                messages := s.messages ++ [no_property_message k] }, lw, true) := by
  obtain ⟨h1, h2, h3⟩ := hw
  rw [code_G_TOKEN_TASKBAR] at h1
  rw [code_G_TOKEN_PAGER] at h2
  rw [code_G_TOKEN_TRAY] at h3
  rw [code_G_TOKEN_GRID] at hg
  rcases hk with rfl | rfl <;>
  simp [property_block, config_widget_props, config_widget_props_loop_succ,
    config_widget_props_continues,
    config_widget_props_item, config_widget_props_switch, g_scanner_get_next_token,
    g_scanner_peek_next_token,
    Token.code, Lexeme.token, code_G_TOKEN_GRID, code_G_TOKEN_TRAY, code_G_TOKEN_TASKBAR,
    code_G_TOKEN_PAGER, code_G_TOKEN_ROWS, code_G_TOKEN_COLS, config_widget_rows,
    config_widget_cols, g_scanner_error, config_log_error, h1, h2, h3, hg, no_property_message]

theorem config_widget_props_rows_mk (H : Header) (lw : layout_widget) (k : Keyword)
    (hk : k = G_TOKEN_ROWS ∨ k = G_TOKEN_COLS) (n : ℚ) (rest : List Lexeme)
    (hw : lw.wtype ≠ G_TOKEN_TASKBAR.code ∧ lw.wtype ≠ G_TOKEN_PAGER.code ∧
      lw.wtype ≠ G_TOKEN_TRAY.code) (hg : lw.wtype ≠ G_TOKEN_GRID.code)
    (tok : Token) (e : Bool) (ms : List String)
    (d : Option (List (String × String))) (fs : List scan_file) (fl : List Nat)
    (cs : List Call) (hp : List (List MenuEntry)) (mn : List (String × Nat)) :
    config_widget_props H
        { input := .chr '\x7b' :: .kw k :: .chr '=' :: .float n :: .chr '}' :: rest,
          token := tok, next_token := .none, max_parse_errors := e,
          messages := ms, defines := d, files := fs, file_list := fl, calls := cs,
          menu_heap := hp, menus := mn } lw =
      ({ input := rest, token := .chr '}', next_token := .none, max_parse_errors := true,
         messages := ms ++ [no_property_message k], defines := d, files := fs,
         file_list := fl, calls := cs, menu_heap := hp, menus := mn }, lw, true) :=
  config_widget_props_rows H
    { input := [], token := tok, next_token := .none, max_parse_errors := e,
      messages := ms, defines := d, files := fs, file_list := fl, calls := cs,
      menu_heap := hp, menus := mn } lw k hk n rest hw hg

theorem config_widget_props_children_mk (H : Header) (lw : layout_widget) (k : Keyword)
    (hk : G_TOKEN_GRID.code ≤ k.code ∧ k.code ≤ G_TOKEN_TRAY.code)
    (hg : lw.wtype = G_TOKEN_GRID.code) (rest : List Lexeme)
    (tok : Token) (e : Bool) (ms : List String)
    (d : Option (List (String × String))) (fs : List scan_file) (fl : List Nat)
    (cs : List Call) (hp : List (List MenuEntry)) (mn : List (String × Nat)) :
    config_widget_props H
        { input := .chr '\x7b' :: .kw k :: rest,
          token := tok, next_token := .none, max_parse_errors := e,
          messages := ms, defines := d, files := fs, file_list := fl, calls := cs,
          menu_heap := hp, menus := mn } lw =
      ({ input := rest, token := .chr '\x7b', next_token := .kw k, max_parse_errors := false,
         messages := ms, defines := d, files := fs,
         file_list := fl, calls := cs, menu_heap := hp, menus := mn }, lw, true) := by
  rw [code_G_TOKEN_GRID] at hg
  rw [code_G_TOKEN_GRID, code_G_TOKEN_TRAY] at hk
  simp [config_widget_props, config_widget_props_loop_succ, config_widget_props_continues,
    g_scanner_get_next_token, g_scanner_peek_next_token,
    Token.code, Lexeme.token, code_G_TOKEN_GRID, code_G_TOKEN_TRAY, code_G_TOKEN_TASKBAR,
    hg, hk]

theorem config_parse_toplevel_rows (H : Header)
    (inc : State → Outcome (State × Option layout_widget)) (s : State) (k : Keyword)
    (hk : k = G_TOKEN_ROWS ∨ k = G_TOKEN_COLS) (n : ℚ)
    (rest : List Lexeme) (fuel : Nat) (w : Option layout_widget) :
    config_parse_toplevel_loop H inc true (fuel + 1)
        { s with input := (layout_label_block k n ++ rest), next_token := .none } w =
      config_parse_toplevel_loop H inc true fuel (layout_label_done H s k rest)
        (some (layout_root H)) := by
  have hrows := config_widget_props_rows_mk H
    { H.layout_widget_new with wtype := 293, widget := some GtkWidget.label } k hk n
    (.chr '}' :: rest) (by simp [code_G_TOKEN_TASKBAR, code_G_TOKEN_PAGER, code_G_TOKEN_TRAY])
    (by simp [code_G_TOKEN_GRID])
  have hroot := config_widget_props_children_mk H
    { H.layout_widget_new with wtype := 291, widget := some GtkWidget.grid } G_TOKEN_LABEL
    (by decide) (by simp [code_G_TOKEN_GRID])
  simp [layout_label_block, config_parse_toplevel_loop_succ, config_parse_toplevel_switch,
    g_scanner_peek_next_token, g_scanner_get_next_token, Lexeme.token, Outcome.bind_returned,
    config_layout, hrows, hroot, Token.code, code_G_TOKEN_GRID, code_G_TOKEN_LABEL,
    config_widgets, config_widgets_loop_succ, config_widgets_switch, config_widgets_widget,
    config_widgets_tail, layout_label_done, layout_root, label_widget]

/-- C11: on a widget of any kind other than TaskBar, Pager and Tray a
`rows = n` or `cols = n` property reports the one error of
`config_widget_rows` or `config_widget_cols`, leaves the widget record (so
its rows and columns) and the locals of the property loop as they were, and
the parse goes on: the property loop continues with the rest of the block
from the state behind the three tokens; a block holding only that property
is closed and accepted; and after `Layout \x7b Label \x7b rows = n \x7d \x7d` the top-level
loop goes on with the rest of the document, the layout with its label built. -/
theorem config_widget_props_rows_cols_rejected (H : Header)
    (inc : State → Outcome (State × Option layout_widget)) (p : Props) (s : State)
    (k : Keyword) (hk : k = G_TOKEN_ROWS ∨ k = G_TOKEN_COLS) (n : ℚ) (rest : List Lexeme)
    (fuel : Nat) (w : Option layout_widget)
    (hw : p.lw.wtype ≠ G_TOKEN_TASKBAR.code ∧ p.lw.wtype ≠ G_TOKEN_PAGER.code ∧
      p.lw.wtype ≠ G_TOKEN_TRAY.code) :
    config_widget_props_loop H (fuel + 3)
        { p with
          s := { p.s with input := (.chr '=' :: .float n :: rest), next_token := .kw k } } =
      config_widget_props_loop H fuel
        { p with
          s := g_scanner_peek_next_token
            { p.s with input := rest, token := .float n, next_token := .none,
                       max_parse_errors := true,
                       messages := p.s.messages ++ [no_property_message k] } } ∧
    (p.lw.wtype ≠ G_TOKEN_GRID.code →
      config_widget_props H
          { s with input := (property_block k n ++ rest), next_token := .none } p.lw =
        ({ s with input := rest, token := .chr '}', next_token := .none,
                  max_parse_errors := true,
                  messages := s.messages ++ [no_property_message k] }, p.lw, true)) ∧
    config_parse_toplevel_loop H inc true (fuel + 1)
        { s with input := (layout_label_block k n ++ rest), next_token := .none } w =
      config_parse_toplevel_loop H inc true fuel (layout_label_done H s k rest)
        (some (layout_root H)) :=
  ⟨config_widget_props_loop_rows H p k hk n rest fuel hw,
    fun hg => config_widget_props_rows H s p.lw k hk n rest hw hg,
    config_parse_toplevel_rows H inc s k hk n rest fuel w⟩

/-- C11 (witness): the document `Layout \x7b Label \x7b rows = 2 \x7d \x7d` is parsed to
its end; the parse returns the layout, with the one error reported. -/
theorem config_widget_props_rows_cols_rejected_witness :
    (label_example.wtype ≠ G_TOKEN_TASKBAR.code ∧ label_example.wtype ≠ G_TOKEN_PAGER.code ∧
      label_example.wtype ≠ G_TOKEN_TRAY.code) ∧
    config_parse_toplevel header_example
        (config_include (fun f st => config_parse header_example 0 f st))
        (State.init (layout_label_block G_TOKEN_ROWS 2)) true =
      .returned
        ({ layout_label_done header_example (State.init []) G_TOKEN_ROWS [] with
           next_token := .eof }, some (layout_root header_example)) :=
  ⟨by decide,
    ((config_widget_props_rows_cols_rejected header_example
      (config_include (fun f st => config_parse header_example 0 f st))
      { s := State.init [], lw := label_example, labels := false, icons := false,
        filter := false, twidth := -1 }
      (State.init []) G_TOKEN_ROWS (Or.inl rfl) 2 [] 9 Option.none (by decide)).2.2).trans rfl⟩


/-! ## Value evaluation: claims C12 to C14 -/

theorem keyword_code_le_scanner (k : Keyword) :
    k.code ≤ G_TOKEN_SCANNER.code ↔ k = G_TOKEN_SCANNER := by
  cases k <;> decide

theorem config_get_value_continues_iff (l : Lexeme) :
    config_get_value_continues l.token = true ↔ ¬ value_terminator l := by
  cases l with
  | error => simp [config_get_value_continues, Lexeme.token, Token.code, value_terminator,
      code_G_TOKEN_SCANNER]
  | chr c =>
    have : c.toNat % 256 ≤ 270 := by omega
    simp [config_get_value_continues, Lexeme.token, Token.code, value_terminator,
      code_G_TOKEN_SCANNER, this]
    tauto
  | float v => simp [config_get_value_continues, Lexeme.token, Token.code, value_terminator,
      code_G_TOKEN_SCANNER]
  | str s => simp [config_get_value_continues, Lexeme.token, Token.code, value_terminator,
      code_G_TOKEN_SCANNER]
  | ident s => simp [config_get_value_continues, Lexeme.token, Token.code, value_terminator,
      code_G_TOKEN_SCANNER]
  | kw k =>
    have h := keyword_code_le_scanner k
    simp [config_get_value_continues, Lexeme.token, Token.code, value_terminator, h]

theorem value_run_of_not_terminator (ts : List Lexeme) (h : ∀ l ∈ ts, ¬ value_terminator l) :
    value_run ts := fun l hl => (config_get_value_continues_iff l).mpr (h l hl)

theorem value_stop_of_terminator (rest : List Lexeme)
    (h : ∀ l, rest.head? = some l → value_terminator l) : value_stop rest := by
  intro l hl
  have := h l hl
  by_contra hc
  exact ((config_get_value_continues_iff l).mp (by simpa using hc)) this

/-- C12 (counterexample): in `= "a" css = "b" ;` the run ends at the reserved
word `css`, three tokens before the `;`: the value is `"a"` and `css` is the
next token. -/
theorem config_get_value_stops_at_keyword :
    (config_get_value header_example (State.init value_then_keyword) "style" true).2 =
      some (String.mk [dquote, 'a', dquote]) ∧
    (config_get_value header_example (State.init value_then_keyword) "style" true).1.next_token =
      .kw G_TOKEN_CSS ∧
    (config_get_value header_example (State.init value_then_keyword) "style" true).1.input =
      [.chr '=', .str "b", .chr ';'] := by
  decide

/-- C12 (amended): `config_get_value` consumes the tokens up to the first one
that is `;`, `\x7d`, `[`, a reserved word other than `Scanner`, or the end of
the input: every token before it is consumed and gives its text to the value,
with or without the leading `=`, and exactly these tokens end the run. -/
theorem config_get_value_consumes_run (H : Header) (s : State) (prop : String)
    (ts rest : List Lexeme) (hts : ∀ l ∈ ts, ¬ value_terminator l)
    (hrest : ∀ l, rest.head? = some l → value_terminator l) :
    config_get_value H { s with next_token := .none, input := (ts ++ rest) } prop false =
      (config_optional_semicolon (g_scanner_peek_next_token
          { s with max_parse_errors := false, token := run_last ts s.token,
                   next_token := .none, input := rest }),
        some (value_text H s.defines ts)) ∧
    config_get_value H { s with next_token := .none, input := (.chr '=' :: (ts ++ rest)) }
        prop true =
      (config_optional_semicolon (g_scanner_peek_next_token
          { s with max_parse_errors := false, token := run_last ts (.chr '='),
                   next_token := .none, input := rest }),
        some (value_text H s.defines ts)) ∧
    (∀ l : Lexeme, config_get_value_continues l.token = false ↔ value_terminator l) :=
  ⟨config_get_value_run H s prop ts rest (value_run_of_not_terminator ts hts)
      (value_stop_of_terminator rest hrest),
    config_get_value_assign_run H s prop ts rest (value_run_of_not_terminator ts hts)
      (value_stop_of_terminator rest hrest),
    fun l => by
      have := config_get_value_continues_iff l
      constructor
      · intro h
        by_contra hc
        rw [this.mpr hc] at h
        cases h
      · intro h
        by_contra hc
        exact (this.mp (by simpa using hc)) h⟩

/-- C12 (witness of the amended claim): the run `"a" b ,` in front of the
reserved word `css` is consumed whole. -/
theorem config_get_value_consumes_run_witness :
    (∀ l ∈ [Lexeme.str "a", .ident "b", .chr ','], ¬ value_terminator l) ∧
    (∀ l, [Lexeme.kw G_TOKEN_CSS].head? = some l → value_terminator l) ∧
    (config_get_value header_example
        { State.init [] with
          next_token := .none,
          input := ([Lexeme.str "a", .ident "b", .chr ','] ++ [Lexeme.kw G_TOKEN_CSS]) }
        "style" false).2 =
      some (value_text header_example Option.none [Lexeme.str "a", .ident "b", .chr ',']) :=
  ⟨by simp [value_terminator], by simp [value_terminator],
    congrArg Prod.snd
      (config_get_value_consumes_run header_example (State.init []) "style"
        [Lexeme.str "a", .ident "b", .chr ','] [Lexeme.kw G_TOKEN_CSS]
        (by simp [value_terminator]) (by simp [value_terminator])).1⟩

/-- C13 (counterexample): on `= x ; \x7d` the `;` that ended the run is consumed
by `config_get_value` itself: on return it is the current token and the next
token of the stream is `\x7d`. -/
theorem config_get_value_takes_semicolon :
    (config_get_value header_example (State.init value_then_semicolon) "value" true).2 =
      some "x" ∧
    (config_get_value header_example (State.init value_then_semicolon) "value" true).1.token =
      .chr ';' ∧
    (g_scanner_peek_next_token
      (config_get_value header_example (State.init value_then_semicolon) "value"
        true).1).next_token = .chr '}' := by
  decide

theorem config_optional_semicolon_returned (s : State) (last : Token) (rest : List Lexeme) :
    config_optional_semicolon (g_scanner_peek_next_token
        { s with max_parse_errors := false, token := last, next_token := .none,
                 input := rest }) = value_returned s last rest := by
  rcases rest with _ | ⟨l, tl⟩
  · simp [config_optional_semicolon, g_scanner_peek_next_token, value_returned]
  · by_cases h : l = .chr ';'
    · subst h
      simp [config_optional_semicolon, g_scanner_peek_next_token, value_returned,
        g_scanner_get_next_token, Lexeme.token]
    · have hn := lexeme_token_ne_none l
      have ht : l.token ≠ .chr ';' := by
        cases l <;> simp_all [Lexeme.token]
      simp [config_optional_semicolon, g_scanner_peek_next_token, value_returned, h, ht]

/-- C13 (amended): `config_get_value` leaves the terminator of the run as the
next token of the stream unless it is a `;`: a `\x7d`, a `[` or a reserved word
is peeked and not consumed, at the end of the input the next token is
`G_TOKEN_EOF`, and a `;` is consumed. -/
theorem config_get_value_terminator (H : Header) (s : State) (prop : String)
    (ts rest : List Lexeme) (hts : ∀ l ∈ ts, ¬ value_terminator l)
    (hrest : ∀ l, rest.head? = some l → value_terminator l) :
    (config_get_value H { s with next_token := .none, input := (ts ++ rest) } prop false).1 =
      value_returned s (run_last ts s.token) rest ∧
    (config_get_value H { s with next_token := .none, input := (.chr '=' :: (ts ++ rest)) }
        prop true).1 = value_returned s (run_last ts (.chr '=')) rest := by
  rw [config_get_value_run H s prop ts rest (value_run_of_not_terminator ts hts)
      (value_stop_of_terminator rest hrest),
    config_get_value_assign_run H s prop ts rest (value_run_of_not_terminator ts hts)
      (value_stop_of_terminator rest hrest)]
  exact ⟨config_optional_semicolon_returned s _ rest, config_optional_semicolon_returned s _ rest⟩

/-- C13 (witness of the amended claim): after `= x` the brace stays the next
token, and after `= x ;` the semicolon is gone and the brace is still to be
read. -/
theorem config_get_value_terminator_witness :
    (∀ l ∈ [Lexeme.ident "x"], ¬ value_terminator l) ∧
    (∀ l, [Lexeme.chr '}'].head? = some l → value_terminator l) ∧
    (config_get_value header_example
        { State.init [] with
          next_token := .none,
          input := (.chr '=' :: ([Lexeme.ident "x"] ++ [Lexeme.chr '}'])) }
        "value" true).1.next_token = .chr '}' :=
  ⟨by simp [value_terminator], by simp [value_terminator],
    (congrArg State.next_token
      (config_get_value_terminator header_example (State.init []) "value"
        [Lexeme.ident "x"] [Lexeme.chr '}']
        (by simp [value_terminator]) (by simp [value_terminator])).2).trans rfl⟩

theorem config_get_value_append_rendering (H : Header)
    (d : Option (List (String × String))) (l : Lexeme)
    (hb : ∀ c, l = .chr c → 0 < c.toNat ∧ c.toNat < 256) :
    config_get_value_append H d "" l.token = value_rendering H d l := by
  cases l with
  | error => simp [config_get_value_append, value_rendering, Lexeme.token, Token.code,
      G_TOKEN_STRING, G_TOKEN_IDENTIFIER, G_TOKEN_FLOAT]
  | chr c =>
    obtain ⟨h0, h1⟩ := hb c rfl
    have hm : c.toNat % 256 = c.toNat := Nat.mod_eq_of_lt h1
    have hne : c.toNat ≠ 0 := by omega
    have hc : Char.ofNat c.toNat = c := Char.ofNat_toNat c
    simp [config_get_value_append, value_rendering, Lexeme.token, Token.code,
      G_TOKEN_STRING, G_TOKEN_IDENTIFIER, G_TOKEN_FLOAT, config_get_value_char, hm, hne, hc]
    rw [if_neg (by omega), if_neg (by omega), if_neg (by omega)]
  | float v => simp [config_get_value_append, value_rendering, Lexeme.token, Token.code,
      G_TOKEN_STRING, G_TOKEN_IDENTIFIER, G_TOKEN_FLOAT, Token.v_float]
  | str s => simp [config_get_value_append, value_rendering, Lexeme.token, Token.code,
      G_TOKEN_STRING, Token.v_string]
  | ident x =>
    rcases d with _ | d
    · simp [config_get_value_append, value_rendering, Lexeme.token, Token.code,
        G_TOKEN_STRING, G_TOKEN_IDENTIFIER, Token.v_identifier, config_get_value_identifier]
    · rcases h : g_hash_table_lookup d x with _ | v <;>
      simp [config_get_value_append, value_rendering, Lexeme.token, Token.code,
        G_TOKEN_STRING, G_TOKEN_IDENTIFIER, Token.v_identifier, config_get_value_identifier, h]
  | kw k =>
    have : 270 ≤ k.code := by simp [Keyword.code, G_TOKEN_LAST]
    simp [config_get_value_append, value_rendering, Lexeme.token, Token.code,
      G_TOKEN_STRING, G_TOKEN_IDENTIFIER, G_TOKEN_FLOAT]
    rw [if_neg (by omega), if_neg (by omega), if_neg (by omega)]

theorem value_text_rendering (H : Header) (d : Option (List (String × String)))
    (ts : List Lexeme) (hb : byte_chars ts) :
    value_text H d ts = texts_concat (ts.map (value_rendering H d)) := by
  induction ts with
  | nil => rfl
  | cons l ls ih =>
    have h1 : value_text H d (l :: ls) = value_text H d [l] ++ value_text H d ls :=
      value_text_append H d [l] ls
    have h2 : value_text H d [l] = config_get_value_append H d "" l.token := rfl
    rw [h1, h2, config_get_value_append_rendering H d l
        (fun c hc => hb c (by simp [hc])),
      ih (fun c hc => hb c (List.mem_cons_of_mem _ hc))]
    rfl

/-- C14: the string that `config_get_value` returns for a run of value tokens
is the concatenation, in input order and with nothing in between, of the
renderings of the tokens: a string quoted again by `config_value_string`, an
identifier as its macro value or else its own spelling, a number as the text
of the formatter, a character as itself.  Hence the value of a run `ts ++ us`
is the value of `ts` followed by the value of `us`, and the empty run gives
the empty string. -/
theorem config_get_value_concatenates (H : Header) (s : State) (prop : String)
    (ts us rest : List Lexeme) (hts : value_run ts) (hus : value_run us)
    (hbt : byte_chars ts) (hbu : byte_chars us) (hrest : value_stop rest) :
    (config_get_value H { s with next_token := .none, input := (ts ++ rest) } prop false).2 =
      some (texts_concat (ts.map (value_rendering H s.defines))) ∧
    (config_get_value H { s with next_token := .none, input := (us ++ rest) } prop false).2 =
      some (texts_concat (us.map (value_rendering H s.defines))) ∧
    (config_get_value H { s with next_token := .none, input := ((ts ++ us) ++ rest) }
        prop false).2 =
      some (texts_concat (ts.map (value_rendering H s.defines)) ++
        texts_concat (us.map (value_rendering H s.defines))) ∧
    (config_get_value H { s with next_token := .none, input := ([] ++ rest) } prop false).2 =
      some "" := by
  have hrun : value_run (ts ++ us) := by
    intro l hl
    rcases List.mem_append.mp hl with h | h
    · exact hts l h
    · exact hus l h
  rw [config_get_value_run H s prop ts rest hts hrest,
    config_get_value_run H s prop us rest hus hrest,
    config_get_value_run H s prop (ts ++ us) rest hrun hrest,
    config_get_value_run H s prop [] rest (fun _ h => by cases h) hrest,
    value_text_append, value_text_rendering H s.defines ts hbt,
    value_text_rendering H s.defines us hbu]
  exact ⟨rfl, rfl, rfl, rfl⟩

/-- C14 (witness): with `X` defined as `Y`, the run `X +` followed by the run
`"q"` gives `Y+"q"`. -/
theorem config_get_value_concatenates_witness :
    value_run [Lexeme.ident "X", .chr '+'] ∧ value_run [Lexeme.str "q"] ∧
    byte_chars [Lexeme.ident "X", .chr '+'] ∧ byte_chars [Lexeme.str "q"] ∧
    value_stop [Lexeme.chr ';'] ∧
    (config_get_value header_example
        { { State.init [] with defines := some defines_example } with
          next_token := .none,
          input := (([Lexeme.ident "X", .chr '+'] ++ [Lexeme.str "q"]) ++ [Lexeme.chr ';']) }
        "value" false).2 = some (String.mk ['Y', '+', dquote, 'q', dquote]) :=
  ⟨by unfold value_run; decide, by unfold value_run; decide,
    by simp [byte_chars], by simp [byte_chars], by unfold value_stop; decide,
    ((config_get_value_concatenates header_example
      { State.init [] with defines := some defines_example } "value"
      [Lexeme.ident "X", .chr '+'] [Lexeme.str "q"] [Lexeme.chr ';']
      (by unfold value_run; decide) (by unfold value_run; decide)
      (by simp [byte_chars]) (by simp [byte_chars]) (by unfold value_stop; decide)).2.2.1).trans
      (by decide)⟩


/-! ## Quoting: claim C15 -/

theorem scan_string_body_escape (cs rest : List Char) (h : backslash ∉ cs) :
    scan_string_body (escape_quotes cs ++ dquote :: rest) = some (cs, rest) := by
  induction cs with
  | nil =>
    simp only [escape_quotes, List.nil_append]
    rw [scan_string_body.eq_def]
    simp
  | cons c cs ih =>
    have hc : c ≠ backslash := fun hc => h (by simp [hc])
    have ih1 := ih (fun hm => h (List.mem_cons_of_mem _ hm))
    by_cases hq : c = dquote
    · subst hq
      have hne : backslash ≠ dquote := by decide
      simp only [escape_quotes, if_true, List.cons_append]
      rw [scan_string_body.eq_def]
      simp [hne, ih1]
    · simp only [escape_quotes, if_neg hq, List.cons_append]
      rw [scan_string_body.eq_def]
      simp [hq, hc, ih1]

/-- C15 (behaviour of the code at the failing input): `config_value_string`
escapes the quote character but copies a backslash as it is.  For the string
that is one backslash the appended text is `"\"`, in which the backslash
escapes the closing quote: read back, it is no closed literal. -/
theorem config_value_string_backslash_unreadable :
    quoted_text (String.mk [backslash]) = [dquote, backslash, dquote] ∧
    scan_string (quoted_text (String.mk [backslash])) = Option.none := by
  decide

/-- Strings without a backslash are quoted as the specification asks: the text
that `config_value_string` appends for such a string is a string literal that
reads back, under the string rule of the tokenizer, as exactly one string with
the value it was made from and nothing left over. -/
theorem config_value_string_round_trip (dest string : String)
    (h : backslash ∉ string.data) :
    (config_value_string dest string).data = dest.data ++ quoted_text string ∧
    scan_string (quoted_text string) = some (string.data, []) := by
  constructor
  · simp [config_value_string, quoted_text]
  · have := scan_string_body_escape string.data [] h
    simp [quoted_text, config_value_string, scan_string, this]

/-- An instance of the round trip: the string `a"b` is appended as `"a\"b"`
and reads back as `a"b`. -/
theorem config_value_string_round_trip_witness :
    backslash ∉ (String.mk ['a', dquote, 'b']).data ∧
    quoted_text (String.mk ['a', dquote, 'b']) = [dquote, 'a', backslash, dquote, 'b', dquote] ∧
    scan_string (quoted_text (String.mk ['a', dquote, 'b'])) = some (['a', dquote, 'b'], []) :=
  ⟨by decide, by decide,
    (config_value_string_round_trip "" (String.mk ['a', dquote, 'b']) (by decide)).2⟩


/-! ## Macro table: claim C16 -/

theorem g_hash_table_lookup_insert_ne (d : List (String × String)) (key other value : String)
    (h : other ≠ key) :
    g_hash_table_lookup (g_hash_table_insert d key value) other = g_hash_table_lookup d other := by
  induction d with
  | nil => simp [g_hash_table_insert, g_hash_table_lookup, str_nequal, Ne.symm h]
  | cons e es ih =>
    rcases e with ⟨k, v⟩
    by_cases hk : k = key
    · subst hk
      simp [g_hash_table_insert, g_hash_table_lookup, str_nequal, Ne.symm h]
    · by_cases ho : k = other
      · subst ho
        simp [g_hash_table_insert, g_hash_table_lookup, str_nequal, h]
      · simp [g_hash_table_insert, g_hash_table_lookup, str_nequal, hk, ho, ih]

theorem g_hash_table_insert_keys (d : List (String × String)) (key value : String) :
    (g_hash_table_insert d key value).map Prod.fst =
      if key ∈ d.map Prod.fst then d.map Prod.fst else d.map Prod.fst ++ [key] := by
  induction d with
  | nil => simp [g_hash_table_insert]
  | cons e es ih =>
    rcases e with ⟨k, v⟩
    by_cases hk : k = key
    · subst hk
      simp [g_hash_table_insert, str_nequal]
    · have hk2 : ¬ key = k := fun h => hk h.symm
      simp only [g_hash_table_insert, str_nequal, decide_eq_true_eq, hk, if_false, List.map_cons,
        ih, List.mem_cons, hk2, false_or]
      split_ifs <;> simp

theorem g_hash_table_insert_nodup (d : List (String × String)) (key value : String)
    (h : (d.map Prod.fst).Nodup) : ((g_hash_table_insert d key value).map Prod.fst).Nodup := by
  rw [g_hash_table_insert_keys]
  split_ifs with hm
  · exact h
  · exact List.Nodup.append h (List.nodup_singleton _) (by simpa using hm)

theorem g_hash_table_entries_insert (d : List (String × String)) (key value : String)
    (h : (d.map Prod.fst).Nodup) :
    ((g_hash_table_insert d key value).filter (fun e => str_nequal e.1 key)).length = 1 := by
  induction d with
  | nil => simp [g_hash_table_insert, str_nequal]
  | cons e es ih =>
    rcases e with ⟨k, v⟩
    have hn := List.nodup_cons.mp h
    by_cases hk : k = key
    · subst hk
      have hnot : ∀ e ∈ es, ¬ (str_nequal e.1 k = true) := by
        intro e he hke
        simp [str_nequal] at hke
        exact hn.1 (List.mem_map.mpr ⟨e, he, hke⟩)
      have : es.filter (fun e => str_nequal e.1 k) = [] := by
        simpa [List.filter_eq_nil_iff] using hnot
      simp [g_hash_table_insert, str_nequal, List.filter_cons]
      simpa [str_nequal] using this
    · simp [g_hash_table_insert, str_nequal, hk, List.filter_cons]
      simpa [str_nequal] using ih hn.2

theorem config_define_missing_assign (H : Header) (s : State) (name : String)
    (rest : List Lexeme) (h : ∀ l, rest.head? = some l → l.token.code ≠ '='.toNat) :
    (config_define H { s with next_token := .none, input := (.ident name :: rest) }).defines =
      s.defines := by
  rcases rest with _ | ⟨l, tl⟩
  · simp [config_define, config_expect_token, g_scanner_peek_next_token,
      g_scanner_get_next_token, Lexeme.token, Token.code, G_TOKEN_IDENTIFIER, config_get_value,
      g_scanner_error, config_log_error]
  · have hc : l.token.code ≠ 61 := h l rfl
    have ht : (Lexeme.ident name).token = Token.ident name := rfl
    have hi : (Token.ident name).code = 266 := rfl
    simp [config_define, config_expect_token, g_scanner_peek_next_token,
      g_scanner_get_next_token, ht, hi, G_TOKEN_IDENTIFIER, config_get_value,
      g_scanner_error, config_log_error, hc]

/-- C16: `config_define` stores the evaluated value under the macro name and
overwrites: after `Define X = T1` and then `Define X = T2` the table holds for
`X` the value of `T2` (evaluated with the table as the first definition left
it), it holds exactly one entry for `X`, and every other name has the value it
had before; and when the token after the name is not `=`, the table is left
as it was. -/
theorem config_define_overwrites (H : Header) (s : State) (name : String)
    (t1 rest1 t2 rest2 rest3 : List Lexeme) (ht1 : value_run t1) (hrest1 : value_stop rest1)
    (ht2 : value_run t2) (hrest2 : value_stop rest2) (hu : macro_keys_unique s)
    (hmiss : ∀ l, rest3.head? = some l → l.token.code ≠ '='.toNat) :
    macro_value (defined H (defined H s name t1 rest1) name t2 rest2) name =
      some (value_text H (defined H s name t1 rest1).defines t2) ∧
    macro_entries (defined H (defined H s name t1 rest1) name t2 rest2) name = 1 ∧
    (∀ other : String, other ≠ name →
      macro_value (defined H (defined H s name t1 rest1) name t2 rest2) other =
        macro_value s other) ∧
    (config_define H { s with next_token := .none, input := (.ident name :: rest3) }).defines =
      s.defines := by
  have h1 := config_define_run H s name t1 rest1 ht1 hrest1
  have h2 := config_define_run H (defined H s name t1 rest1) name t2 rest2 ht2 hrest2
  have hd1 : (defined H s name t1 rest1).defines =
      some (g_hash_table_insert (s.defines.getD []) name (value_text H s.defines t1)) := h1
  have hd2 : (defined H (defined H s name t1 rest1) name t2 rest2).defines =
      some (g_hash_table_insert ((defined H s name t1 rest1).defines.getD []) name
        (value_text H (defined H s name t1 rest1).defines t2)) := h2
  refine ⟨?_, ?_, ?_, config_define_missing_assign H s name rest3 hmiss⟩
  · unfold macro_value
    rw [hd2]
    simp [g_hash_table_lookup_insert]
  · unfold macro_entries
    rw [hd2, hd1]
    simp only [Option.getD_some]
    exact g_hash_table_entries_insert _ _ _ (g_hash_table_insert_nodup _ _ _ hu)
  · intro other ho
    unfold macro_value
    rw [hd2, hd1]
    simp only [Option.getD_some]
    change g_hash_table_lookup _ other = _
    rw [g_hash_table_lookup_insert_ne _ _ _ _ ho, g_hash_table_lookup_insert_ne _ _ _ _ ho]
    rcases hs : s.defines with _ | d
    · simp [g_hash_table_lookup]
    · simp

/-- C16 (witness): with `X` and `Y` defined, `Define X = a` and then
`Define X = b` leave `X` as `b` in one entry and `Y` as it was. -/
theorem config_define_overwrites_witness :
    value_run [Lexeme.ident "a"] ∧ value_stop [Lexeme.chr ';'] ∧
    value_run [Lexeme.ident "b"] ∧ macro_keys_unique
      { State.init [] with defines := some defines_example } ∧
    (∀ l, [Lexeme.str "c"].head? = some l → l.token.code ≠ '='.toNat) ∧
    macro_value (defined header_example
      (defined header_example { State.init [] with defines := some defines_example } "X"
        [Lexeme.ident "a"] [Lexeme.chr ';']) "X" [Lexeme.ident "b"] [Lexeme.chr ';']) "X" =
      some "b" ∧
    macro_entries (defined header_example
      (defined header_example { State.init [] with defines := some defines_example } "X"
        [Lexeme.ident "a"] [Lexeme.chr ';']) "X" [Lexeme.ident "b"] [Lexeme.chr ';']) "X" = 1 ∧
    macro_value (defined header_example
      (defined header_example { State.init [] with defines := some defines_example } "X"
        [Lexeme.ident "a"] [Lexeme.chr ';']) "X" [Lexeme.ident "b"] [Lexeme.chr ';']) "Y" =
      some "z" :=
  ⟨by unfold value_run; decide, by unfold value_stop; decide, by unfold value_run; decide,
    by unfold macro_keys_unique; decide, by decide,
    ((config_define_overwrites header_example
      { State.init [] with defines := some defines_example } "X"
      [Lexeme.ident "a"] [Lexeme.chr ';'] [Lexeme.ident "b"] [Lexeme.chr ';'] [Lexeme.str "c"]
      (by unfold value_run; decide) (by unfold value_stop; decide)
      (by unfold value_run; decide) (by unfold value_stop; decide)
      (by unfold macro_keys_unique; decide) (by decide)).1).trans (by decide),
    (config_define_overwrites header_example
      { State.init [] with defines := some defines_example } "X"
      [Lexeme.ident "a"] [Lexeme.chr ';'] [Lexeme.ident "b"] [Lexeme.chr ';'] [Lexeme.str "c"]
      (by unfold value_run; decide) (by unfold value_stop; decide)
      (by unfold value_run; decide) (by unfold value_stop; decide)
      (by unfold macro_keys_unique; decide) (by decide)).2.1,
    ((config_define_overwrites header_example
      { State.init [] with defines := some defines_example } "X"
      [Lexeme.ident "a"] [Lexeme.chr ';'] [Lexeme.ident "b"] [Lexeme.chr ';'] [Lexeme.str "c"]
      (by unfold value_run; decide) (by unfold value_stop; decide)
      (by unfold value_run; decide) (by unfold value_stop; decide)
      (by unfold macro_keys_unique; decide) (by decide)).2.2.1 "Y" (by decide)).trans
      (by decide)⟩


/-! ## File flags: claim C17 -/

theorem config_scanner_source_flags_run (fname : String) (flags : List Keyword)
    (hf : ∀ f ∈ flags, f = G_TOKEN_CHTIME ∨ f = G_TOKEN_NOGLOB) :
    ∀ (s : State) (acc fuel : Nat) (rest : List Lexeme), flags.length ≤ fuel →
    config_scanner_source_flags fuel
        { s with next_token := .none, input := (flag_tokens flags ++ .chr ')' :: rest) }
        acc fname =
      ({ s with token := flag_last flags s.token, next_token := .chr ')', input := rest },
        flags.foldl (fun a f => a ||| file_flag f) acc) := by
  induction flags with
  | nil =>
    intro s acc fuel rest _
    cases fuel with
    | zero => simp [flag_tokens, config_scanner_source_flags, g_scanner_peek_next_token,
        Lexeme.token, flag_last]
    | succ n => simp [flag_tokens, config_scanner_source_flags_succ, g_scanner_peek_next_token,
        Lexeme.token, flag_last]
  | cons f fs ih =>
    intro s acc fuel rest hfuel
    obtain ⟨n, rfl⟩ : ∃ n, fuel = n + 1 := ⟨fuel - 1, by simp at hfuel; omega⟩
    have hfs : ∀ g ∈ fs, g = G_TOKEN_CHTIME ∨ g = G_TOKEN_NOGLOB :=
      fun g hg => hf g (List.mem_cons_of_mem _ hg)
    have h := ih hfs { s with token := .kw f } (acc ||| file_flag f) n rest
      (by simp at hfuel; omega)
    have hc : file_flag G_TOKEN_CHTIME = VF_CHTIME := rfl
    have hg : file_flag G_TOKEN_NOGLOB = VF_NOGLOB := rfl
    simp only [] at h
    rcases hf f (List.mem_cons_self _ _) with rfl | rfl
    · rw [hc] at h
      simp [flag_tokens, config_scanner_source_flags_succ, config_scanner_source_flag,
        peek_mk, get_mk, get_mk_chr, Lexeme.token, h, hc, flag_last]
    · rw [hg] at h
      simp [flag_tokens, config_scanner_source_flags_succ, config_scanner_source_flag,
        peek_mk, get_mk, get_mk_chr, Lexeme.token, h, hg, flag_last]

theorem peek_files (s : State) : (g_scanner_peek_next_token s).files = s.files :=
  (g_scanner_peek_next_token_frame s).2.2.2.2.1

theorem get_files (s : State) : (g_scanner_get_next_token s).files = s.files :=
  (g_scanner_get_next_token_frame s).2.2.2.1

theorem error_files (s : State) (m : String) : (g_scanner_error s m).files = s.files := by
  unfold g_scanner_error config_log_error
  simp only [if_true]
  split <;> rfl

theorem expect_files (s : State) (t : Nat) (m : String) :
    (config_expect_token s t m).1.files = s.files := by
  unfold config_expect_token
  simp only []
  split
  · exact peek_files s
  · rw [error_files, peek_files]

theorem semicolon_files (s : State) : (config_optional_semicolon s).files = s.files :=
  (config_optional_semicolon_frame s).2.2.2.1

theorem var_flag_files (H : Header) (s : State) (type : Nat) :
    (config_scanner_var_flag H s type).1.files = s.files := by
  unfold config_scanner_var_flag
  simp only []
  split_ifs <;> simp [peek_files, get_files, error_files]

theorem heap_update_flags (files : List scan_file) (a : Nat) (f : scan_file → scan_file)
    (hf : ∀ x, (f x).flags = x.flags) :
    (heap_update files a f).map (fun r => r.flags) = files.map (fun r => r.flags) := by
  unfold heap_update
  split
  · rename_i x hx
    apply List.ext_getElem?
    intro i
    by_cases hi : i = a
    · subst hi
      have hi : i < files.length := by
        by_contra hc
        rw [List.getElem?_eq_none (by omega)] at hx
        cases hx
      have hx2 : files[i] = x := by
        have := List.getElem?_eq_getElem hi
        rw [hx] at this
        exact (Option.some.inj this).symm
      simp [List.getElem?_set, hx, hf, hi, hx2]
    · simp [List.getElem?_set, Ne.symm hi]
  · rfl

set_option maxRecDepth 8000 in
theorem config_scanner_var_flags (H : Header) (s : State) (file : Nat) :
    (config_scanner_var H s file).files.map (fun r => r.flags) =
      s.files.map (fun r => r.flags) := by
  unfold config_scanner_var
  lift_lets
  intro s1 vname e1 s2 ty e2 s3 s4 pattern f e3 s5 var
  have h1 : s1.files = s.files := get_files _
  have he1 : e1.1.files = s.files := (expect_files _ _ _).trans h1
  have h2 : s2.files = s.files := (get_files _).trans ((get_files _).trans he1)
  have he2 : e2.1.files = s.files := (expect_files _ _ _).trans h2
  have h3 : s3.files = s.files := (get_files _).trans he2
  have h4 : s4.files = s.files := by
    by_cases hty : ty ≠ VP_GRAB
    · have : s4 = g_scanner_get_next_token s3 := if_pos hty
      rw [this]
      exact (get_files _).trans h3
    · have : s4 = s3 := if_neg hty
      rw [this]
      exact h3
  have hf : f.1.files = s.files := (var_flag_files H s4 ty).trans h4
  have he3 : e3.1.files = s.files := (expect_files f.1 _ _).trans hf
  have h5 : s5.files = s.files :=
    (semicolon_files (g_scanner_get_next_token e3.1)).trans ((get_files e3.1).trans he3)
  clear_value var s5 e3 f pattern s4 s3 e2 ty s2 e1 vname s1
  split_ifs
  · rw [he1]
  · rw [error_files, h2]
  · rw [he2]
  · rw [error_files, h4]
  · rw [he3]
  · exact (heap_update_flags s5.files file
      (fun r => { r with vars := r.vars ++ [var] }) (fun _ => rfl)).trans (by rw [h5])

theorem config_scanner_source_vars_flags (H : Header) (file : Nat) :
    ∀ (fuel : Nat) (s : State),
    (config_scanner_source_vars H fuel s file).files.map (fun r => r.flags) =
      s.files.map (fun r => r.flags) := by
  intro fuel
  induction fuel with
  | zero => intro s; simp [config_scanner_source_vars, peek_files]
  | succ n ih =>
    intro s
    rw [config_scanner_source_vars_succ]
    split
    · rw [ih]
      unfold config_scanner_source_item
      split
      · rw [config_scanner_var_flags, peek_files]
      · rw [error_files, get_files, peek_files]
    · rw [peek_files]

theorem file_flags_fold (flags : List Keyword)
    (hf : ∀ f ∈ flags, f = G_TOKEN_CHTIME ∨ f = G_TOKEN_NOGLOB) :
    ∀ acc : Nat, acc < 4 →
    flags.foldl (fun a f => a ||| file_flag f) acc =
      acc ||| ((if G_TOKEN_CHTIME ∈ flags then 1 else 0) |||
        (if G_TOKEN_NOGLOB ∈ flags then 2 else 0)) := by
  induction flags with
  | nil => intro acc _; simp
  | cons f fs ih =>
    intro acc hacc
    have hfs : ∀ g ∈ fs, g = G_TOKEN_CHTIME ∨ g = G_TOKEN_NOGLOB :=
      fun g hg => hf g (List.mem_cons_of_mem _ hg)
    simp only [List.foldl_cons]
    rcases hf f (List.mem_cons_self _ _) with rfl | rfl
    · have hlt : acc ||| file_flag G_TOKEN_CHTIME < 4 := by
        interval_cases acc <;> decide
      rw [ih hfs _ hlt]
      by_cases h1 : G_TOKEN_CHTIME ∈ fs <;> by_cases h2 : G_TOKEN_NOGLOB ∈ fs <;>
      simp [h1, h2] <;> interval_cases acc <;> decide
    · have hlt : acc ||| file_flag G_TOKEN_NOGLOB < 4 := by
        interval_cases acc <;> decide
      rw [ih hfs _ hlt]
      by_cases h1 : G_TOKEN_CHTIME ∈ fs <;> by_cases h2 : G_TOKEN_NOGLOB ∈ fs <;>
      simp [h1, h2] <;> interval_cases acc <;> decide

theorem noglob_flags_fold (path : String) (flags : List Keyword)
    (hf : ∀ f ∈ flags, f = G_TOKEN_CHTIME ∨ f = G_TOKEN_NOGLOB) :
    noglob_flags path (flags.foldl (fun a f => a ||| file_flag f) 0) =
      source_flags path flags := by
  rw [file_flags_fold flags hf 0 (by decide)]
  unfold noglob_flags source_flags
  by_cases h1 : G_TOKEN_CHTIME ∈ flags <;> by_cases h2 : G_TOKEN_NOGLOB ∈ flags <;>
  by_cases h3 : ('*' ∉ path.data ∧ '?' ∉ path.data) <;>
  simp [h1, h2, h3, VF_CHTIME, VF_NOGLOB]

theorem source_flags_bits (path : String) (flags : List Keyword) :
    (source_flags path flags &&& VF_CHTIME ≠ 0 ↔ G_TOKEN_CHTIME ∈ flags) ∧
    (source_flags path flags &&& VF_NOGLOB ≠ 0 ↔
      (G_TOKEN_NOGLOB ∈ flags ∨ ('*' ∉ path.data ∧ '?' ∉ path.data))) := by
  unfold source_flags
  by_cases h1 : G_TOKEN_CHTIME ∈ flags <;>
  by_cases h2 : (G_TOKEN_NOGLOB ∈ flags ∨ ('*' ∉ path.data ∧ '?' ∉ path.data)) <;>
  simp [h1, h2, VF_CHTIME, VF_NOGLOB]

theorem flag_tokens_length (flags : List Keyword) :
    (flag_tokens flags).length = 2 * flags.length := by
  induction flags with
  | nil => rfl
  | cons f fs ih => simp [flag_tokens, ih]; omega

theorem file_list_find_some (s : State) (fname : String) (a : Nat)
    (h : file_list_find s fname = some a) : a < s.files.length := by
  unfold file_list_find at h
  have h1 := List.find?_some h
  by_contra hc
  rw [List.getElem?_eq_none (by omega)] at h1
  simp at h1

theorem returned_flags_eq (r : State × Option Nat) :
    returned_flags r = r.2.bind (fun a => (r.1.files.map (fun f => f.flags))[a]?) := by
  unfold returned_flags
  congr 1
  funext a
  simp [List.getElem?_map]

set_option maxRecDepth 8000 in
theorem config_scanner_source_file_run (H : Header) (s : State) (path : String)
    (flags : List Keyword) (rest : List Lexeme)
    (hf : ∀ f ∈ flags, f = G_TOKEN_CHTIME ∨ f = G_TOKEN_NOGLOB) :
    returned_flags (config_scanner_source H
        { s with next_token := .none, input := (file_header path flags ++ rest) } SO_FILE) =
      some (source_flags path flags) := by
  have hrun := config_scanner_source_flags_run path flags hf
    { s with token := .str path, max_parse_errors := false } 0
    ((flag_tokens flags ++ .chr ')' :: .chr '\x7b' :: rest).length + 1) (.chr '\x7b' :: rest)
    (by simp [flag_tokens_length]; omega)
  simp only [] at hrun
  rw [returned_flags_eq]
  unfold config_scanner_source
  lift_lets
  intro e1 e2 s1 fname fl tr e3 s2 e4 s3 find file record files calls s4 s5
  have hs1 : s1 = { s with input := (flag_tokens flags ++ .chr ')' :: .chr '\x7b' :: rest),
                           token := .str path, next_token := .none,
                           max_parse_errors := false } := by
    simp [s1, e2, e1, file_header, config_expect_token, g_scanner_peek_next_token,
      g_scanner_get_next_token, Lexeme.token, Token.code, G_TOKEN_STRING]
  have hfname : fname = path := by
    simp [fname, hs1, Token.v_string]
  have hfl : fl = ({ s with input := (.chr '\x7b' :: rest), token := flag_last flags (.str path),
                            next_token := .chr ')', max_parse_errors := false },
        flags.foldl (fun a f => a ||| file_flag f) 0) := by
    simp only [fl, if_true, hfname, hs1]
    exact hrun
  have hs3 : s3 = { s with input := rest, token := .chr '\x7b', next_token := .none,
                           max_parse_errors := false } := by
    simp [s3, e4, s2, e3, tr, hfl, config_expect_token, g_scanner_peek_next_token,
      g_scanner_get_next_token, Lexeme.token, Token.code]
  have he1 : e1.2 = true := by
    simp [e1, file_header, config_expect_token, g_scanner_peek_next_token, Lexeme.token,
      Token.code]
  have he2 : e2.2 = true := by
    simp [e2, e1, file_header, config_expect_token, g_scanner_peek_next_token,
      g_scanner_get_next_token, Lexeme.token, Token.code, G_TOKEN_STRING]
  have hm : s3.max_parse_errors = false := by rw [hs3]
  have h5 : s5.files.map (fun f => f.flags) = files.map (fun f => f.flags) :=
    config_scanner_source_vars_flags H file (s4.input.length + 1) s4
  have hres : (if s5.next_token = .chr '}' then g_scanner_get_next_token s5 else s5).files =
      s5.files := by
    split
    · exact get_files s5
    · rfl
  have hrecord : record.flags = source_flags path flags := by
    have : record.flags = noglob_flags fname fl.2 := rfl
    rw [this, hfname, hfl]
    exact noglob_flags_fold path flags hf
  have hrec : (files.map (fun f => f.flags))[file]? = some (source_flags path flags) := by
    rw [List.getElem?_map, ← hrecord]
    rcases hfind : find with _ | a
    · have hfile : file = s3.files.length := by simp [file, hfind]
      have hfiles : files = s3.files ++ [record] := by simp [files, hfind]
      rw [hfile, hfiles]
      simp
    · have ha : a < s3.files.length := by
        have : file_list_find s3 fname = some a := by
          have hf2 : find = file_list_find s3 fname := if_neg (by decide)
          rw [← hf2]
          exact hfind
        exact file_list_find_some s3 fname a this
      have hfile : file = a := by simp [file, hfind]
      have hfiles : files = s3.files.set a record := by simp [files, hfind, hfile]
      rw [hfile, hfiles]
      simp [List.getElem?_set, ha]
  simp only [he1, he2, hm, Bool.true_eq_false, Bool.false_eq_true, if_false, Option.some_bind,
    hres, h5, hrec]

/-- C17: for a well-formed header `File("path", flags) \x7b` whose flags are
`CheckTime` and `NoGlob` in any number and order, the scan file that
`config_scanner_source` returns has the `CheckTime` bit set iff `CheckTime` is
among the flags and the `NoGlob` bit set iff `NoGlob` is among the flags or
the path holds neither `*` nor `?`, whatever follows the brace; a second list
with the same flags in another order or with repetitions gives the same
flags. -/
theorem config_scanner_source_file_flags (H : Header) (s : State) (path : String)
    (flags flags2 : List Keyword) (rest : List Lexeme)
    (hf : ∀ f ∈ flags, f = G_TOKEN_CHTIME ∨ f = G_TOKEN_NOGLOB)
    (hf2 : ∀ f ∈ flags2, f = G_TOKEN_CHTIME ∨ f = G_TOKEN_NOGLOB)
    (hsame : ∀ f, f ∈ flags2 ↔ f ∈ flags) :
    returned_flags (config_scanner_source H
        { s with next_token := .none, input := (file_header path flags ++ rest) } SO_FILE) =
      some (source_flags path flags) ∧
    (source_flags path flags &&& VF_CHTIME ≠ 0 ↔ G_TOKEN_CHTIME ∈ flags) ∧
    (source_flags path flags &&& VF_NOGLOB ≠ 0 ↔
      (G_TOKEN_NOGLOB ∈ flags ∨ ('*' ∉ path.data ∧ '?' ∉ path.data))) ∧
    returned_flags (config_scanner_source H
        { s with next_token := .none, input := (file_header path flags2 ++ rest) } SO_FILE) =
      returned_flags (config_scanner_source H
        { s with next_token := .none, input := (file_header path flags ++ rest) } SO_FILE) := by
  refine ⟨config_scanner_source_file_run H s path flags rest hf,
    (source_flags_bits path flags).1, (source_flags_bits path flags).2, ?_⟩
  rw [config_scanner_source_file_run H s path flags rest hf,
    config_scanner_source_file_run H s path flags2 rest hf2]
  unfold source_flags
  simp only [hsame G_TOKEN_CHTIME, hsame G_TOKEN_NOGLOB]

/-- C17 (witness): `File("/proc/*", CheckTime, NoGlob)` and the same header
with the flags as `NoGlob, CheckTime, NoGlob` both give the flags
`VF_CHTIME | VF_NOGLOB`. -/
theorem config_scanner_source_file_flags_witness :
    (∀ f ∈ [G_TOKEN_CHTIME, G_TOKEN_NOGLOB], f = G_TOKEN_CHTIME ∨ f = G_TOKEN_NOGLOB) ∧
    (∀ f ∈ [G_TOKEN_NOGLOB, G_TOKEN_CHTIME, G_TOKEN_NOGLOB],
      f = G_TOKEN_CHTIME ∨ f = G_TOKEN_NOGLOB) ∧
    (∀ f, f ∈ [G_TOKEN_NOGLOB, G_TOKEN_CHTIME, G_TOKEN_NOGLOB] ↔
      f ∈ [G_TOKEN_CHTIME, G_TOKEN_NOGLOB]) ∧
    returned_flags (config_scanner_source header_example
        { State.init [] with
          next_token := .none,
          input := (file_header "/proc/*" [G_TOKEN_NOGLOB, G_TOKEN_CHTIME, G_TOKEN_NOGLOB] ++
            [Lexeme.chr '}']) } SO_FILE) = some 3 :=
  ⟨by decide, by decide, fun f => by simp; tauto,
    ((config_scanner_source_file_flags header_example (State.init []) "/proc/*"
      [G_TOKEN_CHTIME, G_TOKEN_NOGLOB] [G_TOKEN_NOGLOB, G_TOKEN_CHTIME, G_TOKEN_NOGLOB]
      [Lexeme.chr '}'] (by decide) (by decide) (fun f => by simp; tauto)).2.2.2).trans
      ((config_scanner_source_file_flags header_example (State.init []) "/proc/*"
        [G_TOKEN_CHTIME, G_TOKEN_NOGLOB] [G_TOKEN_NOGLOB, G_TOKEN_CHTIME, G_TOKEN_NOGLOB]
        [Lexeme.chr '}'] (by decide) (by decide) (fun f => by simp; tauto)).1.trans (by decide))⟩


/-! ## Error recovery: claims C19 and C20 -/

/-- C19 (behaviour of the code at the failing input): in the block
`\x7b File("a", Bogus) \x7b x = RegEx("y") \x7d File("b") \x7b z = RegEx("w") \x7d \x7d`
the source with the invalid flag returns `NULL` behind its opening brace, the
loop of `config_scanner` then skips its body token by token and takes the
closing brace of that body for the end of the Scanner block: `config_scanner`
returns with the source `b` unread, no scan file is registered, and the top
level that reads on rejects the tokens of `b` as well. -/
theorem config_scanner_bad_flag_drops_sibling :
    (config_scanner header_example (State.init scanner_bad_flag_block)).files = [] ∧
    (config_scanner header_example (State.init scanner_bad_flag_block)).input =
      [.kw G_TOKEN_FILE, .chr '(', .str "b", .chr ')', .chr '\x7b', .ident "z", .chr '=',
       .kw G_TOKEN_REGEX, .chr '(', .str "w", .chr ')', .chr '}', .chr '}'] ∧
    (config_scanner header_example (State.init scanner_bad_flag_block)).messages =
      ["Invalid <file_flag> in a"] ∧
    (config_parse_toplevel header_example
        (config_include (fun f st => config_parse header_example 0 f st))
        (State.init (.kw G_TOKEN_SCANNER :: scanner_bad_flag_block)) true) =
      .returned
        ({ State.init [] with
           token := .chr '}', next_token := .eof, max_parse_errors := true,
           messages := ["Invalid <file_flag> in a"] }, Option.none) := by
  refine ⟨by decide, by decide, by decide, ?_⟩
  decide

/-- C20 (counterexample): `config_parse` on a file that cannot be read does
not return `NULL` but ends the process, and so does the parse of
`Layout \x7b Include("missing.widget") Label \x7b \x7d \x7d`: the label behind the include
is never parsed and nothing is returned to the caller. -/
theorem config_include_unreadable_exits :
    config_parse header_example 1 "missing.widget" (State.init []) = .exited ∧
    config_parse_toplevel header_example
        (config_include (fun f st => config_parse header_example 1 f st))
        (State.init include_block) true = .exited := by
  refine ⟨by decide, ?_⟩
  decide

theorem config_layout_eq (H : Header)
    (inc : State → Outcome (State × Option layout_widget)) (s : State) :
    config_layout H inc s =
      if (config_widget_props H
            { s with max_parse_errors := false,
                     calls := s.calls ++ [Call.gtk_widget_set_name (some GtkWidget.grid) "layout"] }
            { H.layout_widget_new with wtype := G_TOKEN_GRID.code,
                                       widget := some GtkWidget.grid }).2.1.widget.isSome ∧
          (config_widget_props H
            { s with max_parse_errors := false,
                     calls := s.calls ++ [Call.gtk_widget_set_name (some GtkWidget.grid) "layout"] }
            { H.layout_widget_new with wtype := G_TOKEN_GRID.code,
                                       widget := some GtkWidget.grid }).2.2 = true then
        (config_widgets H inc
          { (config_widget_props H
              { s with max_parse_errors := false,
                       calls := s.calls ++
                         [Call.gtk_widget_set_name (some GtkWidget.grid) "layout"] }
              { H.layout_widget_new with wtype := G_TOKEN_GRID.code,
                                         widget := some GtkWidget.grid }).1 with
            calls := (config_widget_props H
              { s with max_parse_errors := false,
                       calls := s.calls ++
                         [Call.gtk_widget_set_name (some GtkWidget.grid) "layout"] }
              { H.layout_widget_new with wtype := G_TOKEN_GRID.code,
                                         widget := some GtkWidget.grid }).1.calls ++
              [Call.layout_widget_config (config_widget_props H
                { s with max_parse_errors := false,
                         calls := s.calls ++
                           [Call.gtk_widget_set_name (some GtkWidget.grid) "layout"] }
                { H.layout_widget_new with wtype := G_TOKEN_GRID.code,
                                           widget := some GtkWidget.grid }).2.1
                Option.none Option.none] }
          (config_widget_props H
            { s with max_parse_errors := false,
                     calls := s.calls ++ [Call.gtk_widget_set_name (some GtkWidget.grid) "layout"] }
            { H.layout_widget_new with wtype := G_TOKEN_GRID.code,
                                       widget := some GtkWidget.grid }).2.1.widget).bind
          (fun s2 => .returned (s2, (config_widget_props H
            { s with max_parse_errors := false,
                     calls := s.calls ++ [Call.gtk_widget_set_name (some GtkWidget.grid) "layout"] }
            { H.layout_widget_new with wtype := G_TOKEN_GRID.code,
                                       widget := some GtkWidget.grid }).2.1))
      else
        .returned
          ({ (config_widget_props H
              { s with max_parse_errors := false,
                       calls := s.calls ++
                         [Call.gtk_widget_set_name (some GtkWidget.grid) "layout"] }
              { H.layout_widget_new with wtype := G_TOKEN_GRID.code,
                                         widget := some GtkWidget.grid }).1 with
            calls := (config_widget_props H
              { s with max_parse_errors := false,
                       calls := s.calls ++
                         [Call.gtk_widget_set_name (some GtkWidget.grid) "layout"] }
              { H.layout_widget_new with wtype := G_TOKEN_GRID.code,
                                         widget := some GtkWidget.grid }).1.calls ++
              [Call.layout_widget_config (config_widget_props H
                { s with max_parse_errors := false,
                         calls := s.calls ++
                           [Call.gtk_widget_set_name (some GtkWidget.grid) "layout"] }
                { H.layout_widget_new with wtype := G_TOKEN_GRID.code,
                                           widget := some GtkWidget.grid }).2.1
                Option.none Option.none] },
           (config_widget_props H
            { s with max_parse_errors := false,
                     calls := s.calls ++ [Call.gtk_widget_set_name (some GtkWidget.grid) "layout"] }
            { H.layout_widget_new with wtype := G_TOKEN_GRID.code,
                                       widget := some GtkWidget.grid }).2.1) := rfl

theorem config_widget_props_include (H : Header) (lw : layout_widget)
    (hg : lw.wtype = G_TOKEN_GRID.code) (rest : List Lexeme) (s : State) :
    config_widget_props H
        { s with input := (.chr '\x7b' :: .kw G_TOKEN_INCLUDE :: rest), next_token := .none }
        lw =
      ({ s with input := rest, token := .chr '\x7b', next_token := .kw G_TOKEN_INCLUDE,
                max_parse_errors := false }, lw, true) := by
  rw [code_G_TOKEN_GRID] at hg
  have hinc : G_TOKEN_INCLUDE.code = 296 := by decide
  simp [config_widget_props, config_widget_props_loop_succ, config_widget_props_continues,
    g_scanner_get_next_token, g_scanner_peek_next_token,
    Token.code, Lexeme.token, code_G_TOKEN_GRID, code_G_TOKEN_TRAY, code_G_TOKEN_TASKBAR,
    hinc, hg]

/-- C20 (amended): for a file that cannot be read `config_parse` ends the
process (`g_error`, `exit(1)`) from every scanner state; hence
`config_include` on `("file"` does not return, the loop of `config_widgets`
that meets `Include("file"` ends with the process whatever follows the
include, and so does `config_parse_toplevel` on a document that starts with
`Layout \x7b Include("file"`. -/
theorem config_include_unreadable (H : Header) (n : Nat) (file : String) (s : State) (rest : List Lexeme)
    (hread : H.get_contents file = Option.none) :
    config_parse H (n + 1) file s = .exited ∧
    config_include (fun f st => config_parse H (n + 1) f st)
        { s with next_token := .none, input := (.chr '(' :: .str file :: rest) } = .exited ∧
    (∀ (parent sibling : Option GtkWidget) (m : Nat),
      config_widgets_loop H (config_include (fun f st => config_parse H (n + 1) f st)) (m + 1)
          { s with next_token := .none,
                   input := (.kw G_TOKEN_INCLUDE :: .chr '(' :: .str file :: rest) }
          parent sibling = .exited) ∧
    config_parse_toplevel H (config_include (fun f st => config_parse H (n + 1) f st))
        { s with next_token := .none,
                 input := (.kw G_TOKEN_LAYOUT :: .chr '\x7b' :: .kw G_TOKEN_INCLUDE :: .chr '(' ::
                   .str file :: rest) } true = .exited := by
  have h1 : ∀ st : State, config_parse H (n + 1) file st = .exited := by
    intro st
    simp [config_parse, hread]
  have h2 : ∀ st : State, config_include (fun f st => config_parse H (n + 1) f st)
        { st with next_token := .none, input := (.chr '(' :: .str file :: rest) } = .exited := by
    intro st
    unfold config_include
    simp [config_expect_token, g_scanner_peek_next_token, g_scanner_get_next_token,
      Lexeme.token, Token.code, G_TOKEN_STRING, Token.v_string, h1, Outcome.bind]
  have h3 : ∀ (st : State) (parent sibling : Option GtkWidget) (m : Nat),
      config_widgets_loop H (config_include (fun f st => config_parse H (n + 1) f st)) (m + 1)
          { st with next_token := .none,
                    input := (.kw G_TOKEN_INCLUDE :: .chr '(' :: .str file :: rest) }
          parent sibling = .exited := by
    intro st parent sibling m
    have h := h2 { st with token := .kw G_TOKEN_INCLUDE }
    simp only [] at h
    rw [config_widgets_loop_succ]
    simp [g_scanner_peek_next_token, g_scanner_get_next_token, Lexeme.token,
      config_widgets_switch, h, Outcome.bind]
  refine ⟨h1 s, h2 s, h3 s, ?_⟩
  unfold config_parse_toplevel
  rw [config_parse_toplevel_loop_succ]
  simp only [g_scanner_peek_next_token, g_scanner_get_next_token, Lexeme.token, ne_eq,
    reduceCtorEq, not_false_eq_true, if_true, config_parse_toplevel_switch, Token.kw.injEq,
    if_false]
  have hp := config_widget_props_include H
    { H.layout_widget_new with wtype := G_TOKEN_GRID.code, widget := some GtkWidget.grid }
    rfl (.chr '(' :: .str file :: rest)
    { s with token := .kw G_TOKEN_LAYOUT, max_parse_errors := false,
             calls := s.calls ++ [Call.gtk_widget_set_name (some GtkWidget.grid) "layout"] }
  simp only [] at hp
  rw [config_layout_eq]
  dsimp only
  rw [hp]
  have h4 : ∀ st : State, st.next_token = .none →
      st.input = (.chr '(' :: .str file :: rest) →
      config_include (fun f st => config_parse H (n + 1) f st) st = .exited := by
    intro st hn hi
    have h := h2 st
    rw [← hn, ← hi] at h
    exact h
  simp [config_widgets, config_widgets_loop_succ, g_scanner_peek_next_token,
    g_scanner_get_next_token, config_widgets_switch, h4, Outcome.bind]

/-- C20 (witness of the amended claim): no file is readable under
`header_example`; the parse of `Layout \x7b Include("missing.widget") Label \x7b \x7d \x7d`
ends with the process. -/
theorem config_include_unreadable_witness :
    header_example.get_contents "missing.widget" = Option.none ∧
    config_parse_toplevel header_example
        (config_include (fun f st => config_parse header_example 1 f st))
        { State.init [] with
          next_token := .none,
          input := (.kw G_TOKEN_LAYOUT :: .chr '\x7b' :: .kw G_TOKEN_INCLUDE :: .chr '(' ::
            .str "missing.widget" ::
            [.chr ')', .kw G_TOKEN_LABEL, .chr '\x7b', .chr '}', .chr '}']) } true = .exited :=
  ⟨rfl,
    (config_include_unreadable header_example 0 "missing.widget" (State.init [])
      [.chr ')', .kw G_TOKEN_LABEL, .chr '\x7b', .chr '}', .chr '}'] rfl).2.2.2⟩


/-! ## Error flag: claims C21 and C22 -/

/-- C22: `config_log_error` called as an error leaves the flag set and appends
its message exactly when the flag was clear before the call; called as a
warning it appends its message and leaves the flag as it was; no call touches
anything else than the flag and the messages.  Hence a sequence of error
reports without a reset of the flag between them emits the first message only,
and none if the flag was set at its start. -/
theorem config_log_error_first_only (s : State) (message : String) :
    (config_log_error s message true).max_parse_errors = true ∧
    (config_log_error s message true).messages =
      (if s.max_parse_errors then s.messages else s.messages ++ [message]) ∧
    ((config_log_error s message true).messages ≠ s.messages ↔ s.max_parse_errors = false) ∧
    (config_log_error s message false).messages = s.messages ++ [message] ∧
    (config_log_error s message false).max_parse_errors = s.max_parse_errors ∧
    (∀ error, { config_log_error s message error with
        max_parse_errors := s.max_parse_errors, messages := s.messages } = s) ∧
    ∀ msgs : List String,
      (msgs.foldl (fun st m => config_log_error st m true) s).messages =
        s.messages ++ (if s.max_parse_errors then [] else msgs.take 1) := by
  refine ⟨?_, ?_, ?_, ?_, ?_, ?_, ?_⟩
  · unfold config_log_error; simp
  · unfold config_log_error; cases h : s.max_parse_errors <;> simp [h]
  · unfold config_log_error; cases h : s.max_parse_errors <;> simp [h]
  · unfold config_log_error; simp
  · unfold config_log_error; simp
  · intro error
    unfold config_log_error
    cases error <;> cases h : s.max_parse_errors <;> simp [h] <;> (try cases s) <;> simp_all
  · intro msgs
    have hset : ∀ (l : List String) (st : State), st.max_parse_errors = true →
        (l.foldl (fun st m => config_log_error st m true) st).messages = st.messages := by
      intro l
      induction l with
      | nil => intro st _; rfl
      | cons m l ih =>
        intro st hst
        simp only [List.foldl_cons]
        rw [ih _ (by unfold config_log_error; simp)]
        unfold config_log_error; simp [hst]
    cases msgs with
    | nil => cases h : s.max_parse_errors <;> simp
    | cons m l =>
      simp only [List.foldl_cons]
      rw [hset l _ (by unfold config_log_error; simp)]
      unfold config_log_error
      cases h : s.max_parse_errors <;> simp [h]

/-- C21 (counterexample): on `bogus Define term = xterm` the top level reports
"Unexpected toplevel token" for the first token, and `config_parse_toplevel`
still returns with the flag clear: the macro definition that follows resets
it. -/
theorem config_parse_toplevel_flag_reset :
    config_parse_toplevel header_example
        (config_include (fun f st => config_parse header_example 0 f st))
        (State.init error_then_define) true =
      .returned
        ({ State.init [] with
           token := .ident "xterm", next_token := .eof, max_parse_errors := false,
           messages := ["Unexpected toplevel token"],
           defines := some [("term", "xterm")] }, Option.none) := by
  decide

theorem config_define_state (H : Header) (s : State) (name : String)
    (ts rest : List Lexeme) (hts : value_run ts) (hrest : value_stop rest) :
    config_define H { s with next_token := .none, input :=
        (.ident name :: .chr '=' :: (ts ++ rest)) } =
      { value_returned s (run_last ts (.chr '=')) rest with
        defines := some (g_hash_table_insert (s.defines.getD []) name
          (value_text H s.defines ts)) } := by
  have hval := config_get_value_assign_run H { s with token := .ident name } "define" ts rest
    hts hrest
  have hret := config_optional_semicolon_returned { s with token := .ident name }
    (run_last ts (.chr '=')) rest
  simp only [] at hret hval
  rw [hret] at hval
  have h1 : g_scanner_peek_next_token
      { s with next_token := .none, input := (.ident name :: .chr '=' :: (ts ++ rest)) } =
      { s with next_token := .ident name, input := (.chr '=' :: (ts ++ rest)) } := by
    simp [g_scanner_peek_next_token, Lexeme.token]
  have h2 : g_scanner_get_next_token
      { s with next_token := .ident name, input := (.chr '=' :: (ts ++ rest)) } =
      { s with token := .ident name, next_token := .none,
               input := (.chr '=' :: (ts ++ rest)) } := by
    simp [g_scanner_get_next_token]
  unfold config_define config_expect_token
  simp only [h1, h2, Token.code, G_TOKEN_IDENTIFIER, if_true, Bool.true_eq_false, if_false,
    hval, Token.v_identifier, Option.isNone_some, Option.getD_some]
  unfold value_returned
  rcases rest with _ | ⟨l, tl⟩
  · simp
  · by_cases h : l = .chr ';' <;> simp [h]

/-- C21 (amended): an error report sets the flag, and the flag only tells
whether an error was reported since the last construct that clears it.
`Scanner`, `Layout`, `Placer`, `Switcher`, `Menu` and `Function` start by
clearing the flag: on a document that starts with one of these keywords the
loop of `config_parse_toplevel` gives the same result, flag included, whether
the flag was set before or not.  `config_get_value`, which `Define` calls
after the name, clears it in the same way.  From every state of the scanner,
whatever its flag and the messages reported so far, a document that ends in a
well-formed `Define NAME = value` makes the loop return with the flag clear
and without any further message. -/
theorem config_parse_toplevel_flag_last_construct (H : Header)
    (inc : State → Outcome (State × Option layout_widget)) (layout : Bool) (n : Nat)
    (s : State) (w : Option layout_widget) (message name : String) (ts : List Lexeme)
    (hts : value_run ts) :
    (g_scanner_error s message).max_parse_errors = true ∧
    (∀ (b : Bool) (k : Keyword) (rest : List Lexeme) (m : Nat),
      k ∈ [G_TOKEN_SCANNER, G_TOKEN_LAYOUT, G_TOKEN_PLACER, G_TOKEN_SWITCHER, G_TOKEN_MENU,
        G_TOKEN_FUNCTION] →
      config_parse_toplevel_loop H inc true (m + 1)
          { s with next_token := .none, input := (.kw k :: rest), max_parse_errors := b } w =
        config_parse_toplevel_loop H inc true (m + 1)
          { s with next_token := .none, input := (.kw k :: rest),
                   max_parse_errors := false } w) ∧
    (∀ (b : Bool) (prop : String) (assign : Bool),
      config_get_value H { s with max_parse_errors := b } prop assign =
        config_get_value H { s with max_parse_errors := false } prop assign) ∧
    config_parse_toplevel_loop H inc layout (n + 2)
        { s with next_token := .none,
                 input := (.kw G_TOKEN_DEFINE :: .ident name :: .chr '=' :: ts) } w =
      .returned
        ({ s with input := [], token := run_last ts (.chr '='), next_token := .eof,
                  max_parse_errors := false,
                  defines := some (g_hash_table_insert (s.defines.getD []) name
                    (value_text H s.defines ts)) }, w) := by
  refine ⟨by unfold g_scanner_error config_log_error; simp, ?_, fun _ _ _ => rfl, ?_⟩
  · intro b k rest m hk
    have h1 : ∀ c : Bool, g_scanner_get_next_token (g_scanner_peek_next_token
        { s with next_token := .none, input := (.kw k :: rest), max_parse_errors := c }) =
        { s with token := .kw k, next_token := .none, input := rest,
                 max_parse_errors := c } := by
      intro c; simp [g_scanner_peek_next_token, g_scanner_get_next_token, Lexeme.token]
    have h2 : ∀ c : Bool, (g_scanner_peek_next_token
        { s with next_token := .none, input := (.kw k :: rest),
                 max_parse_errors := c }).next_token = .kw k := by
      intro c; simp [g_scanner_peek_next_token, Lexeme.token]
    rw [config_parse_toplevel_loop_succ, config_parse_toplevel_loop_succ, h1, h1, h2, h2]
    have h3 : config_parse_toplevel_switch H inc true
        { s with token := .kw k, next_token := .none, input := rest,
                 max_parse_errors := b } w =
        config_parse_toplevel_switch H inc true
        { s with token := .kw k, next_token := .none, input := rest,
                 max_parse_errors := false } w := by
      simp only [List.mem_cons, List.mem_singleton, List.not_mem_nil, or_false] at hk
      rcases hk with rfl | rfl | rfl | rfl | rfl | rfl <;> rfl
    rw [h3, if_pos (by simp), if_pos (by simp)]
  have hdef := config_define_state H { s with token := .kw G_TOKEN_DEFINE } name ts [] hts
    (by intro l hl; simp at hl)
  simp only [List.append_nil] at hdef
  have h1 : g_scanner_peek_next_token
      { s with next_token := .none,
               input := (.kw G_TOKEN_DEFINE :: .ident name :: .chr '=' :: ts) } =
      { s with next_token := .kw G_TOKEN_DEFINE, input := (.ident name :: .chr '=' :: ts) } := by
    simp [g_scanner_peek_next_token, Lexeme.token]
  have h2 : g_scanner_get_next_token
      { s with next_token := .kw G_TOKEN_DEFINE, input := (.ident name :: .chr '=' :: ts) } =
      { s with token := .kw G_TOKEN_DEFINE, next_token := .none,
               input := (.ident name :: .chr '=' :: ts) } := by
    simp [g_scanner_get_next_token]
  rw [config_parse_toplevel_loop_succ, h1]
  simp only [ne_eq, reduceCtorEq, not_false_eq_true, if_true, h2]
  unfold config_parse_toplevel_switch
  simp only [Token.kw.injEq, reduceCtorEq, if_false, if_true, Outcome.bind_returned]
  rw [hdef, config_parse_toplevel_loop_succ]
  simp [value_returned, g_scanner_peek_next_token]

/-- C21 (witness of the amended claim): with the flag set and a message
reported, `Define term = "a" cmd` at the end of the document clears the
flag. -/
theorem config_parse_toplevel_flag_last_construct_witness :
    value_run [Lexeme.str "a", .ident "cmd"] ∧
    config_parse_toplevel_loop header_example (fun st => .returned (st, Option.none)) true 2
        { error_reported with
          next_token := .none,
          input := (.kw G_TOKEN_DEFINE :: .ident "term" :: .chr '=' ::
            [Lexeme.str "a", .ident "cmd"]) } Option.none =
      .returned
        ({ error_reported with
           input := [], token := run_last [Lexeme.str "a", .ident "cmd"] (.chr '='),
           next_token := .eof, max_parse_errors := false,
           defines := some (g_hash_table_insert (error_reported.defines.getD []) "term"
             (value_text header_example error_reported.defines
               [Lexeme.str "a", .ident "cmd"])) }, Option.none) :=
  ⟨by unfold value_run; decide,
    (config_parse_toplevel_flag_last_construct header_example
      (fun st => .returned (st, Option.none)) true 0 error_reported
      Option.none "" "term" [Lexeme.str "a", .ident "cmd"]
      (by unfold value_run; decide)).2.2.2⟩


/-! ## Actions: claims C23 to C25 -/

theorem config_action_head_unknown (H : Header) (s : State) (cond ncond : Nat)
    (action : layout_action) (input : List Lexeme)
    (hhead : ∀ t, input.head? = some t →
      (∀ x, t ≠ .str x) ∧ (∀ k ∈ action_keywords, t ≠ .kw k)) :
    config_action_head H
        { s := { s with next_token := .none, input := input }, cond := cond, ncond := ncond }
        action =
      { s := g_scanner_get_next_token { s with next_token := .none, input := input },
        action := action, ok := false } := by
  rcases input with _ | ⟨t, rest⟩
  · simp [config_action_head, g_scanner_peek_next_token, g_scanner_get_next_token, Token.code,
      G_TOKEN_STRING, Token.is_keyword]
  · obtain ⟨h1, h2⟩ := hhead t rfl
    cases t with
    | str x => exact absurd rfl (h1 x)
    | kw k =>
      have hk : k ∉ action_keywords := fun hk => h2 k hk rfl
      have hc : ¬ (G_TOKEN_LAST + k.toCtorIdx = 264) := by
        cases k <;> decide
      simp [config_action_head, g_scanner_peek_next_token, g_scanner_get_next_token, Token.code,
        G_TOKEN_STRING, Token.is_keyword, Token.keyword, Lexeme.token, hk, Keyword.code, hc]
    | chr c =>
      have hc : ¬ (c.toNat % 256 = 264) := by omega
      simp [config_action_head, g_scanner_peek_next_token, g_scanner_get_next_token, Token.code,
        G_TOKEN_STRING, Token.is_keyword, Lexeme.token, hc]
    | _ =>
      simp [config_action_head, g_scanner_peek_next_token, g_scanner_get_next_token, Token.code,
        G_TOKEN_STRING, Token.is_keyword, Lexeme.token]

/-- C23: when the head token of an action (the first token behind the optional
condition bracket, or the end of the input) is neither a string nor an action
keyword, `config_action` consumes it and returns FALSE with the action record
as it was and with the error flag and the messages of the scanner unchanged:
nothing is reported.  This holds without a bracket and behind a well-formed
bracket `[c|c1|...|cn]`, whose masks are not stored. -/
theorem config_action_unknown_head (H : Header) (s : State) (action : layout_action)
    (input : List Lexeme) (c : Condition) (ds : List Condition)
    (hhead : ∀ t, input.head? = some t → no_action_head t) :
    config_action H { s with next_token := .none, input := input } action =
      { s := { s with token := (input.head?.map Lexeme.token).getD .eof, next_token := .none,
                      input := input.tail },
        action := action, ok := false } ∧
    config_action H { s with next_token := .none, input := (bracket_tokens c ds ++ input) }
        action =
      { s := { s with token := (input.head?.map Lexeme.token).getD .eof, next_token := .none,
                      input := input.tail },
        action := action, ok := false } := by
  have hh : ∀ t, input.head? = some t →
      (∀ x, t ≠ .str x) ∧ (∀ k ∈ action_keywords, t ≠ .kw k) :=
    fun t ht => ⟨(hhead t ht).1, (hhead t ht).2.1⟩
  have hget : ∀ tok : Token,
      g_scanner_get_next_token { s with token := tok, next_token := .none, input := input } =
      { s with token := (input.head?.map Lexeme.token).getD .eof, next_token := .none,
               input := input.tail } := by
    intro tok
    rcases input with _ | ⟨t, rest⟩ <;> simp [g_scanner_get_next_token]
  have hpeek : (g_scanner_peek_next_token
      { s with next_token := .none, input := input }).next_token ≠ .chr '[' := by
    rcases input with _ | ⟨t, rest⟩
    · simp [g_scanner_peek_next_token]
    · have ht := (hhead t rfl).2.2
      cases t <;> simp_all [g_scanner_peek_next_token, Lexeme.token]
  constructor
  · unfold config_action
    rw [config_action_bracket_none _ hpeek, config_action_head_peek,
      config_action_head_unknown H s 0 0 action input hh]
    have := hget s.token
    simp only [] at this
    rw [this]
  · unfold config_action
    rw [config_action_bracket_run]
    have h := config_action_head_unknown H { s with token := .chr ']' }
      (condition_mask false (c :: ds)) (condition_mask true (c :: ds)) action input hh
    simp only [] at h
    rw [h]
    have := hget (.chr ']')
    simp only [] at this
    rw [this]

/-- C23 (witness): `;` is no action head; on `; x` the call returns FALSE, the
record is the one passed in and nothing is reported. -/
theorem config_action_unknown_head_witness :
    (∀ t, [Lexeme.chr ';', .ident "x"].head? = some t → no_action_head t) ∧
    config_action header_example
        { State.init [] with next_token := .none, input := [Lexeme.chr ';', .ident "x"] }
        layout_action.zero =
      { s := { State.init [] with
               token := (([Lexeme.chr ';', .ident "x"].head?).map Lexeme.token).getD .eof,
               next_token := .none, input := [Lexeme.chr ';', .ident "x"].tail },
        action := layout_action.zero, ok := false } :=
  ⟨fun t ht => by
      simp at ht
      subst ht
      simp [no_action_head, action_keywords],
    (config_action_unknown_head header_example (State.init []) layout_action.zero
      [Lexeme.chr ';', .ident "x"] ⟨false, .focused⟩ []
      (fun t ht => by
        simp at ht
        subst ht
        simp [no_action_head, action_keywords])).1⟩

theorem keyword_code_ne_string (k : Keyword) : (k.code = 264) = False := by
  have : 270 ≤ k.code := by unfold Keyword.code G_TOKEN_LAST; omega
  simp only [eq_iff_iff, iff_false]
  omega

/-- C24: a bare string is the run-command action: on `"cmd"` and on
`Exec "cmd"` alike `config_action` returns TRUE with `type = G_TOKEN_EXEC` and
`command = cmd`; a window action without argument (`Focus`, `Close`,
`Minimize`, `Maximize`, `UnMinimize`, `UnMaximize`) consumes its keyword only
and leaves `command` NULL; `ClientSend "addr", "cmd"` stores the first string
as `addr` and the second as `command`, and is rejected when the `,` or the
second string is missing. -/
theorem config_action_arities (H : Header) (s : State) (action : layout_action)
    (cmd addr : String) (rest : List Lexeme) (k : Keyword) (t : Lexeme)
    (hk : k ∈ window_actions) (hcomma : t.token.code ≠ ','.toNat)
    (hstr : t.token.code ≠ G_TOKEN_STRING) :
    config_action H { s with next_token := .none, input := (.str cmd :: rest) } action =
      { s := { s with token := .str cmd, next_token := .none, input := rest },
        action := { action with type := G_TOKEN_EXEC.code, command := some cmd, cond := 0,
                                ncond := 0 },
        ok := true } ∧
    config_action H { s with next_token := .none, input := (.kw G_TOKEN_EXEC :: .str cmd :: rest) }
        action =
      { s := { s with token := .str cmd, next_token := .none, input := rest },
        action := { action with type := G_TOKEN_EXEC.code, command := some cmd, cond := 0,
                                ncond := 0 },
        ok := true } ∧
    config_action H { s with next_token := .none, input := (.kw k :: rest) } action =
      { s := { s with token := .kw k, next_token := .none, input := rest },
        action := { action with type := k.code, command := Option.none, cond := 0, ncond := 0 },
        ok := true } ∧
    config_action H
        { s with next_token := .none,
                 input := (.kw G_TOKEN_CLIENTSEND :: .str addr :: .chr ',' :: .str cmd :: rest) }
        action =
      { s := { s with token := .str cmd, next_token := .none, input := rest },
        action := { action with type := G_TOKEN_CLIENTSEND.code, addr := some addr,
                                command := some cmd, cond := 0, ncond := 0 },
        ok := true } ∧
    (config_action H
        { s with next_token := .none,
                 input := (.kw G_TOKEN_CLIENTSEND :: .str addr :: t :: rest) } action).ok =
      false ∧
    (config_action H
        { s with next_token := .none,
                 input := (.kw G_TOKEN_CLIENTSEND :: .str addr :: .chr ',' :: t :: rest) }
        action).ok = false := by
  have hcomma2 : ¬ (t.token.code = 44) := hcomma
  have hstr2 : ¬ (t.token.code = 264) := hstr
  refine ⟨?_, ?_, ?_, ?_, ?_, ?_⟩
  · simp [config_action, config_action_bracket, config_action_head, config_action_args,
      config_expect_token, g_scanner_peek_next_token, g_scanner_get_next_token, Lexeme.token,
      Token.code, G_TOKEN_STRING, action_keywords_string, Token.v_string]
  · simp [config_action, config_action_bracket, config_action_head, config_action_args,
      config_expect_token, g_scanner_peek_next_token, g_scanner_get_next_token, Lexeme.token,
      Token.code, G_TOKEN_STRING, action_keywords_string, action_keywords, Token.v_string,
      Token.is_keyword, Token.keyword, keyword_code_ne_string]
  · simp only [window_actions, List.mem_cons, List.mem_singleton, List.not_mem_nil,
      or_false] at hk
    rcases hk with rfl | rfl | rfl | rfl | rfl | rfl <;>
    simp [config_action, config_action_bracket, config_action_head, config_action_args,
      config_expect_token, g_scanner_peek_next_token, g_scanner_get_next_token, Lexeme.token,
      Token.code, G_TOKEN_STRING, action_keywords_string, action_keywords, Token.v_string,
      Token.is_keyword, Token.keyword, keyword_code_ne_string]
  · simp [config_action, config_action_bracket, config_action_head, config_action_args,
      config_expect_token, g_scanner_peek_next_token, g_scanner_get_next_token, Lexeme.token,
      Token.code, G_TOKEN_STRING, action_keywords_string, action_keywords, Token.v_string,
      Token.is_keyword, Token.keyword, keyword_code_ne_string]
  · clear hk
    cases t <;>
    simp_all [config_action, config_action_bracket, config_action_head, config_action_args,
      config_expect_token, g_scanner_peek_next_token, g_scanner_get_next_token, Lexeme.token,
      Token.code, G_TOKEN_STRING, action_keywords_string, action_keywords, Token.v_string,
      Token.is_keyword, Token.keyword, keyword_code_ne_string]
  · clear hk
    cases t <;>
    simp_all [config_action, config_action_bracket, config_action_head, config_action_args,
      config_expect_token, g_scanner_peek_next_token, g_scanner_get_next_token, Lexeme.token,
      Token.code, G_TOKEN_STRING, action_keywords_string, action_keywords, Token.v_string,
      Token.is_keyword, Token.keyword, keyword_code_ne_string]

/-- C24 (witness): `"quit.sh"` alone is the action `Exec "quit.sh"`. -/
theorem config_action_arities_witness :
    G_TOKEN_CLOSE ∈ window_actions ∧ (Lexeme.ident "x").token.code ≠ ','.toNat ∧
    (Lexeme.ident "x").token.code ≠ G_TOKEN_STRING ∧
    config_action header_example
        { State.init [] with next_token := .none, input := (.str "quit.sh" :: []) }
        layout_action.zero =
      { s := { State.init [] with token := .str "quit.sh", next_token := .none, input := [] },
        action := { layout_action.zero with type := G_TOKEN_EXEC.code,
                                            command := some "quit.sh", cond := 0, ncond := 0 },
        ok := true } :=
  ⟨by decide, by decide, by decide,
    (config_action_arities header_example (State.init []) layout_action.zero "quit.sh" "addr" []
      G_TOKEN_CLOSE (.ident "x") (by decide) (by decide) (by decide)).1⟩

/-- C25: for `action[n] = <action>` with the index `(gint)n` inside
`0..MAX_BUTTON` and an action table of `MAX_BUTTON + 1` slots,
`config_widget_action` writes slot `(gint)n` only: the slot holds the record
that `config_action` leaves when it parses the tokens behind `=` into the
slot, every other slot and the length of the table are as before, and the
index is inside the table.  With the index outside `0..MAX_BUTTON` the error
"invalid action index" is reported behind the `]` and the widget is returned
as it was, so no slot is read or written; a number too large for a `gint` is
converted to the smallest `gint` and rejected as well, `action[4294967296]`
with the message "invalid action index -2147483648".  Without `[n]` the
action goes to slot 1 (which exists when `1 <= MAX_BUTTON`). -/
theorem config_widget_action_slot (H : Header) (s : State) (lw : layout_widget) (n : ℚ)
    (rest : List Lexeme) (hlen : lw.action.length = H.MAX_BUTTON + 1) :
    (0 ≤ double_to_gint n ∧ double_to_gint n ≤ H.MAX_BUTTON →
      (double_to_gint n).toNat < lw.action.length ∧
      (config_widget_action H
          { s with input := action_index_tokens n rest, next_token := .none } lw).2.action =
        lw.action.set (double_to_gint n).toNat
          (config_action H { s with token := .chr '=', next_token := .none, input := rest }
            (lw.action.getD (double_to_gint n).toNat layout_action.zero)).action ∧
      (config_widget_action H
          { s with input := action_index_tokens n rest, next_token := .none } lw).2.action[(double_to_gint n).toNat]? =
        some (config_action H { s with token := .chr '=', next_token := .none, input := rest }
            (lw.action.getD (double_to_gint n).toNat layout_action.zero)).action ∧
      ∀ j, j ≠ (double_to_gint n).toNat →
        (config_widget_action H
          { s with input := action_index_tokens n rest, next_token := .none } lw).2.action[j]? = lw.action[j]?) ∧
    (double_to_gint n < 0 ∨ double_to_gint n > H.MAX_BUTTON →
      config_widget_action H
          { s with input := action_index_tokens n rest, next_token := .none } lw =
        (g_scanner_error { s with token := .chr ']', next_token := .none,
                                  input := (.chr '=' :: rest) }
          ("invalid action index " ++ toString (double_to_gint n)), lw)) ∧
    (1 ≤ H.MAX_BUTTON →
      (config_widget_action H { s with next_token := .none, input := (.chr '=' :: rest) }
          lw).2.action =
        lw.action.set 1
          (config_action H { s with token := .chr '=', next_token := .none, input := rest }
            (lw.action.getD 1 layout_action.zero)).action) ∧
    config_widget_action H
        { s with input := action_index_tokens 4294967296 rest, next_token := .none } lw =
      (g_scanner_error { s with token := .chr ']', next_token := .none,
                                input := (.chr '=' :: rest) }
        "invalid action index -2147483648", lw) := by
  refine ⟨?_, ?_, ?_, ?_⟩
  · intro hr
    have hnot : ¬ (double_to_gint n < 0 ∨ double_to_gint n > (H.MAX_BUTTON : Int)) := by omega
    have hidx : (double_to_gint n).toNat < lw.action.length := by omega
    have hact : (config_widget_action H
          { s with input := action_index_tokens n rest, next_token := .none } lw).2.action =
        lw.action.set (double_to_gint n).toNat
          (config_action H { s with token := .chr '=', next_token := .none, input := rest }
            (lw.action.getD (double_to_gint n).toNat layout_action.zero)).action := by
      simp only [config_widget_action, action_index_tokens, g_scanner_peek_next_token,
        g_scanner_get_next_token, Lexeme.token, Token.code, G_TOKEN_FLOAT, Token.v_float,
        if_true, ne_eq, not_true_eq_false, and_false, if_false, hnot, true_and]
      split_ifs <;> rfl
    refine ⟨hidx, hact, ?_, ?_⟩
    · rw [hact]
      simp [List.getElem?_set, hidx]
    · intro j hj
      rw [hact]
      simp [List.getElem?_set, Ne.symm hj]
  · intro hr
    simp [config_widget_action, action_index_tokens, g_scanner_peek_next_token,
      g_scanner_get_next_token, Lexeme.token, Token.code, G_TOKEN_FLOAT, Token.v_float, hr]
  · intro h1
    have hnot : ¬ ((1 : Int) < 0 ∨ (1 : Int) > (H.MAX_BUTTON : Int)) := by omega
    simp only [config_widget_action, g_scanner_peek_next_token,
      g_scanner_get_next_token, Lexeme.token, Token.code, G_TOKEN_FLOAT, Token.v_float,
      if_true, ne_eq, not_true_eq_false, and_false, if_false, hnot, true_and, false_and,
      reduceCtorEq, Token.chr.injEq, Char.reduceEq]
    split_ifs <;> rfl
  · have h6 : double_to_gint 4294967296 = -2147483648 := by simp [double_to_gint]
    have h7 : ("invalid action index " ++ toString (-2147483648 : Int)) =
        "invalid action index -2147483648" := by decide
    rw [← h7, ← h6]
    simp [config_widget_action, action_index_tokens, g_scanner_peek_next_token,
      g_scanner_get_next_token, Lexeme.token, Token.code, G_TOKEN_FLOAT, Token.v_float, h6]

/-- C25 (witness): with `MAX_BUTTON = 8` and a table of nine slots,
`action[3] = "run.sh"` fills slot 3. -/
theorem config_widget_action_slot_witness :
    layout_widget_example.action.length = header_example.MAX_BUTTON + 1 ∧
    (0 ≤ double_to_gint 3 ∧ double_to_gint 3 ≤ header_example.MAX_BUTTON) ∧
    (config_widget_action header_example
        { State.init [] with input := action_index_tokens 3 [.str "run.sh"], next_token := .none }
      layout_widget_example).2.action[(double_to_gint 3).toNat]? =
      some (config_action header_example
        { State.init [] with token := .chr '=', next_token := .none, input := [.str "run.sh"] }
        (layout_widget_example.action.getD (double_to_gint 3).toNat layout_action.zero)).action :=
  ⟨by decide, by decide,
    ((config_widget_action_slot header_example (State.init []) layout_widget_example 3
      [.str "run.sh"] (by decide)).1 (by decide)).2.2.1⟩


/-! ## Layout in dynamic fragments: claim C26 -/

theorem config_parse_toplevel_loop_dynamic (H : Header)
    (inc : State → Outcome (State × Option layout_widget)) :
    ∀ (fuel : Nat) (s : State) (w : Option layout_widget),
      ∃ s1, config_parse_toplevel_loop H inc false fuel s w = .returned (s1, w) := by
  intro fuel
  induction fuel with
  | zero => intro s w; exact ⟨_, rfl⟩
  | succ n ih =>
    intro s w
    rw [config_parse_toplevel_loop_succ]
    by_cases h : (g_scanner_peek_next_token s).next_token ≠ .eof
    · rw [if_pos h]
      unfold config_parse_toplevel_switch
      simp only [Bool.false_eq_true, if_false]
      split_ifs <;> simp only [Outcome.bind_returned] <;> exact ih _ _
    · rw [if_neg h]
      exact ⟨_, rfl⟩

theorem config_widget_props_css_mk (H : Header) (lw : layout_widget) (a : String)
    (hg : lw.wtype = G_TOKEN_GRID.code) (rest : List Lexeme)
    (tok : Token) (e : Bool) (ms : List String)
    (d : Option (List (String × String))) (fs : List scan_file) (fl : List Nat)
    (cs : List Call) (hp : List (List MenuEntry)) (mn : List (String × Nat)) :
    config_widget_props H
        { input := .chr '\x7b' :: .kw G_TOKEN_CSS :: .chr '=' :: .str a :: .chr '}' :: rest,
          token := tok, next_token := .none, max_parse_errors := e,
          messages := ms, defines := d, files := fs, file_list := fl, calls := cs,
          menu_heap := hp, menus := mn } lw =
      ({ input := rest, token := .str a, next_token := .chr '}', max_parse_errors := false,
         messages := ms, defines := d, files := fs,
         file_list := fl, calls := cs, menu_heap := hp, menus := mn },
       { lw with css := some a }, true) := by
  rw [code_G_TOKEN_GRID] at hg
  have hcss : G_TOKEN_CSS.code = 301 := by decide
  simp [config_widget_props, config_widget_props_loop_succ, config_widget_props_continues,
    config_widget_props_item, config_widget_props_switch, config_assign_string,
    config_expect_token, config_optional_semicolon, G_TOKEN_STRING, Token.v_string,
    g_scanner_get_next_token, g_scanner_peek_next_token,
    Token.code, Lexeme.token, code_G_TOKEN_GRID, code_G_TOKEN_TRAY, code_G_TOKEN_TASKBAR,
    hcss, hg]

theorem config_layout_css (H : Header)
    (inc : State → Outcome (State × Option layout_widget)) (s : State) (a : String)
    (rest : List Lexeme) :
    config_layout H inc
        { s with input := (.chr '\x7b' :: .kw G_TOKEN_CSS :: .chr '=' :: .str a :: .chr '}' :: rest),
                 token := .kw G_TOKEN_LAYOUT, next_token := .none } =
      .returned (layout_css_done H s a rest, layout_css_root H a) := by
  have hroot := config_widget_props_css_mk H
    { H.layout_widget_new with wtype := G_TOKEN_GRID.code, widget := some GtkWidget.grid } a
    rfl rest (.kw G_TOKEN_LAYOUT) false s.messages s.defines s.files s.file_list
    (s.calls ++ [Call.gtk_widget_set_name (some GtkWidget.grid) "layout"]) s.menu_heap s.menus
  rw [config_layout_eq]
  dsimp only
  rw [hroot]
  simp [config_widgets, config_widgets_loop_succ, g_scanner_peek_next_token,
    g_scanner_get_next_token, config_widgets_tail, Outcome.bind_returned, layout_css_done,
    layout_css_root]

theorem config_parse_toplevel_css (H : Header)
    (inc : State → Outcome (State × Option layout_widget)) (s : State) (a : String)
    (rest : List Lexeme) (fuel : Nat) (w : Option layout_widget) :
    config_parse_toplevel_loop H inc true (fuel + 1)
        { s with input := (layout_css_block a ++ rest), next_token := .none } w =
      config_parse_toplevel_loop H inc true fuel (layout_css_done H s a rest)
        (some (layout_css_root H a)) := by
  have hl := config_layout_css H inc s a rest
  simp only [] at hl
  rw [config_parse_toplevel_loop_succ]
  simp only [layout_css_block, List.cons_append, List.nil_append, g_scanner_peek_next_token,
    g_scanner_get_next_token, Lexeme.token, ne_eq, reduceCtorEq, not_false_eq_true, if_true,
    config_parse_toplevel_switch, Token.kw.injEq, if_false, hl, Outcome.bind_returned]

theorem layout_css_blocks_length (l : List String) :
    (layout_css_blocks l).length = 6 * l.length := by
  induction l with
  | nil => rfl
  | cons a l ih => simp [layout_css_blocks, layout_css_block, ih]; omega

theorem config_parse_toplevel_loop_css_last (H : Header)
    (inc : State → Outcome (State × Option layout_widget)) (last : String) (texts : List String) :
    ∀ (s : State) (w : Option layout_widget) (fuel : Nat), texts.length + 2 ≤ fuel →
      ∃ s1, config_parse_toplevel_loop H inc true fuel
          { s with input := (layout_css_blocks (texts ++ [last])), next_token := .none } w =
        .returned (s1, some (layout_css_root H last)) := by
  induction texts with
  | nil =>
    intro s w fuel hf
    obtain ⟨f, rfl⟩ : ∃ f, fuel = f + 1 + 1 := ⟨fuel - 2, by simp at hf; omega⟩
    have h := config_parse_toplevel_css H inc s last [] (f + 1) w
    simp only [List.append_nil] at h
    simp only [List.nil_append, layout_css_blocks, List.append_nil]
    rw [h, config_parse_toplevel_loop_succ]
    simp [layout_css_done, g_scanner_peek_next_token]
  | cons a texts ih =>
    intro s w fuel hf
    obtain ⟨f, rfl⟩ : ∃ f, fuel = f + 1 := ⟨fuel - 1, by simp at hf; omega⟩
    have h := config_parse_toplevel_css H inc s a (layout_css_blocks (texts ++ [last])) f w
    show ∃ s1, config_parse_toplevel_loop H inc true (f + 1)
        { s with input := (layout_css_block a ++ layout_css_blocks (texts ++ [last])),
                 next_token := .none } w = _
    rw [h]
    exact ih (layout_css_done H s a (layout_css_blocks (texts ++ [last]))) _ f
      (by simp at hf; omega)

theorem config_parse_toplevel_loop_dynamic_include (H : Header)
    (inc inc2 : State → Outcome (State × Option layout_widget)) :
    ∀ (fuel : Nat) (s : State) (w : Option layout_widget),
      config_parse_toplevel_loop H inc false fuel s w =
        config_parse_toplevel_loop H inc2 false fuel s w := by
  intro fuel
  induction fuel with
  | zero => intro s w; rfl
  | succ n ih =>
    intro s w
    have hsw : ∀ s1, config_parse_toplevel_switch H inc false s1 w =
        config_parse_toplevel_switch H inc2 false s1 w := by
      intro s1
      unfold config_parse_toplevel_switch
      simp only [Bool.false_eq_true, if_false]
    rw [config_parse_toplevel_loop_succ, config_parse_toplevel_loop_succ, hsw]
    simp only [ih]

theorem config_parse_file_dynamic (H : Header)
    (inc : State → Outcome (State × Option layout_widget)) (s : State) (text : String) :
    ∃ s1, config_parse_file H inc s (some text) false = .returned (s1, Option.none) := by
  have key : ∀ x : Outcome (State × Option layout_widget),
      (∃ s1, x = .returned (s1, Option.none)) →
      ∃ s2, x.bind (fun r => Outcome.returned
        (({ r.1 with input := s.input, token := s.token, next_token := s.next_token,
                     max_parse_errors := s.max_parse_errors } : State), r.2)) =
        .returned (s2, Option.none) := by
    rintro _ ⟨s1, rfl⟩
    exact ⟨_, rfl⟩
  unfold config_parse_file config_parse_toplevel
  exact key _ (config_parse_toplevel_loop_dynamic H inc _ _ _)

/-- C26: called with `layout = FALSE`, `config_parse_toplevel` returns for
every input, and returns NULL; so does `config_parse_file` called with FALSE,
which is how `config_string` calls it; at a `Layout` keyword the switch only
reports "layout not supported in dynamic config" (the local holding the
layout and the log of collaborator calls stay as they are), and the whole
parse does not depend on the parser of included files: neither
`config_layout` nor `config_include` is reached.  At a `Layout` keyword the
loop, and with it the whole parse of a document that starts with the keyword,
reads the keyword, calls `g_scanner_error` with that message and goes on with
the tokens behind the keyword; on the document `Layout` alone the parse ends
with the flag set and that one message.  Called with `layout = TRUE`, the loop
hands every `Layout` keyword to `config_layout` and replaces the local by its
result, whatever the block holds: if the document ends behind the block, the
root of that block is returned, whatever layout was held before; on a
document of several blocks `Layout \x7b css = "a" \x7d` the parse returns the root
of the last block. -/
theorem config_parse_toplevel_layout_flag (H : Header)
    (inc inc2 : State → Outcome (State × Option layout_widget)) (s : State)
    (w : Option layout_widget) (texts : List String) (last text : String) :
    (∃ s1, config_parse_toplevel H inc s false = .returned (s1, Option.none)) ∧
    (∃ s1, config_parse_file H inc s (some text) false = .returned (s1, Option.none)) ∧
    config_string H inc s (some text) =
      (config_parse_file H inc s (some text) false).bind (fun r => .returned r.1) ∧
    config_parse_toplevel H inc s false = config_parse_toplevel H inc2 s false ∧
    (∀ s1 : State, s1.token = .kw G_TOKEN_LAYOUT →
      config_parse_toplevel_switch H inc false s1 w =
        .returned (g_scanner_error s1 "layout not supported in dynamic config", w) ∧
      (g_scanner_error s1 "layout not supported in dynamic config").calls = s1.calls ∧
      (g_scanner_error s1 "layout not supported in dynamic config").max_parse_errors = true) ∧
    (∃ s1, config_parse_toplevel H inc
        { s with input := (layout_css_blocks (texts ++ [last])), next_token := .none } true =
      .returned (s1, some (layout_css_root H last))) ∧
    (∀ (s0 : State) (rest : List Lexeme) (w0 : Option layout_widget) (m : Nat),
      config_parse_toplevel_loop H inc false (m + 1)
          { s0 with next_token := .none, input := (.kw G_TOKEN_LAYOUT :: rest) } w0 =
        config_parse_toplevel_loop H inc false m
          (g_scanner_error { s0 with token := .kw G_TOKEN_LAYOUT, next_token := .none,
                                     input := rest }
            "layout not supported in dynamic config") w0) ∧
    (∀ rest : List Lexeme,
      config_parse_toplevel H inc
          { s with next_token := .none, input := (.kw G_TOKEN_LAYOUT :: rest) } false =
        config_parse_toplevel H inc
          (g_scanner_error { s with token := .kw G_TOKEN_LAYOUT, next_token := .none,
                                    input := rest }
            "layout not supported in dynamic config") false) ∧
    config_parse_toplevel H inc (State.init [.kw G_TOKEN_LAYOUT]) false =
      .returned ({ State.init [] with token := .kw G_TOKEN_LAYOUT, next_token := .eof,
                                      max_parse_errors := true,
                                      messages := ["layout not supported in dynamic config"] },
        Option.none) ∧
    (∀ (s0 : State) (rest : List Lexeme) (w0 : Option layout_widget) (m : Nat),
      config_parse_toplevel_loop H inc true (m + 1)
          { s0 with next_token := .none, input := (.kw G_TOKEN_LAYOUT :: rest) } w0 =
        (config_layout H inc { s0 with token := .kw G_TOKEN_LAYOUT, next_token := .none,
                                       input := rest }).bind
          (fun r => config_parse_toplevel_loop H inc true m r.1 (some r.2))) ∧
    (∀ (s0 s2 : State) (rest : List Lexeme) (w0 : Option layout_widget) (m : Nat)
        (root : layout_widget),
      config_layout H inc { s0 with token := .kw G_TOKEN_LAYOUT, next_token := .none,
                                    input := rest } = .returned (s2, root) →
      (g_scanner_peek_next_token s2).next_token = .eof →
      config_parse_toplevel_loop H inc true (m + 2)
          { s0 with next_token := .none, input := (.kw G_TOKEN_LAYOUT :: rest) } w0 =
        .returned (g_scanner_peek_next_token s2, some root)) := by
  have hA : ∀ (layout : Bool) (s0 : State) (rest : List Lexeme) (w0 : Option layout_widget)
      (m : Nat),
      config_parse_toplevel_loop H inc layout (m + 1)
          { s0 with next_token := .none, input := (.kw G_TOKEN_LAYOUT :: rest) } w0 =
        (config_parse_toplevel_switch H inc layout
          { s0 with token := .kw G_TOKEN_LAYOUT, next_token := .none, input := rest } w0).bind
          (fun r => config_parse_toplevel_loop H inc layout m r.1 r.2) := by
    intro layout s0 rest w0 m
    rw [config_parse_toplevel_loop_succ]
    simp [g_scanner_peek_next_token, g_scanner_get_next_token, Lexeme.token]
  have hT : ∀ (s0 : State) (rest : List Lexeme) (w0 : Option layout_widget) (m : Nat),
      config_parse_toplevel_loop H inc true (m + 1)
          { s0 with next_token := .none, input := (.kw G_TOKEN_LAYOUT :: rest) } w0 =
        (config_layout H inc { s0 with token := .kw G_TOKEN_LAYOUT, next_token := .none,
                                       input := rest }).bind
          (fun r => config_parse_toplevel_loop H inc true m r.1 (some r.2)) := by
    intro s0 rest w0 m
    rw [hA]
    unfold config_parse_toplevel_switch
    simp only [Token.kw.injEq, reduceCtorEq, if_false, if_true]
    generalize config_layout H inc _ = x
    cases x <;> rfl
  have hF : ∀ (s0 : State) (rest : List Lexeme) (w0 : Option layout_widget) (m : Nat),
      config_parse_toplevel_loop H inc false (m + 1)
          { s0 with next_token := .none, input := (.kw G_TOKEN_LAYOUT :: rest) } w0 =
        config_parse_toplevel_loop H inc false m
          (g_scanner_error { s0 with token := .kw G_TOKEN_LAYOUT, next_token := .none,
                                     input := rest }
            "layout not supported in dynamic config") w0 := by
    intro s0 rest w0 m
    rw [hA]
    unfold config_parse_toplevel_switch
    simp only [Token.kw.injEq, reduceCtorEq, if_false, if_true, Bool.false_eq_true,
      Outcome.bind_returned]
  refine ⟨config_parse_toplevel_loop_dynamic H inc _ s Option.none,
    config_parse_file_dynamic H inc s text, rfl,
    config_parse_toplevel_loop_dynamic_include H inc inc2 _ s Option.none, ?_, ?_,
    hF, ?_, ?_, hT, ?_⟩
  · intro s1 h1
    refine ⟨?_, ?_, ?_⟩
    · unfold config_parse_toplevel_switch
      simp [h1]
    · unfold g_scanner_error config_log_error
      split_ifs <;> rfl
    · unfold g_scanner_error config_log_error
      simp
  · unfold config_parse_toplevel
    refine config_parse_toplevel_loop_css_last H inc last texts s Option.none _ ?_
    simp [layout_css_blocks_length]
  · intro rest
    unfold config_parse_toplevel
    have hl : ∀ st : State,
        (g_scanner_error st "layout not supported in dynamic config").input = st.input := by
      intro st; unfold g_scanner_error config_log_error; split_ifs <;> rfl
    rw [hl]
    exact hF s rest Option.none (rest.length + 1)
  · unfold config_parse_toplevel
    have := hF (State.init []) [] Option.none 1
    simp only [State.init] at this ⊢
    simp only [List.length_singleton]
    rw [this, config_parse_toplevel_loop_succ]
    simp [g_scanner_error, config_log_error, g_scanner_peek_next_token]
  · intro s0 s2 rest w0 m root h1 h2
    rw [hT, h1, Outcome.bind_returned, config_parse_toplevel_loop_succ]
    simp [h2]

/-- C26 (witness): in a dynamic fragment the `Layout` keyword is answered by
the error alone. -/
theorem config_parse_toplevel_layout_flag_witness :
    ({ State.init [] with token := .kw G_TOKEN_LAYOUT } : State).token = .kw G_TOKEN_LAYOUT ∧
    config_parse_toplevel_switch header_example (fun st => .returned (st, Option.none)) false
        { State.init [] with token := .kw G_TOKEN_LAYOUT } Option.none =
      .returned
        (g_scanner_error { State.init [] with token := .kw G_TOKEN_LAYOUT }
          "layout not supported in dynamic config", Option.none) :=
  ⟨rfl,
    ((config_parse_toplevel_layout_flag header_example (fun st => .returned (st, Option.none))
      (fun st => .returned (st, Option.none)) (State.init []) Option.none [] ""
      "").2.2.2.2.1
        { State.init [] with token := .kw G_TOKEN_LAYOUT } rfl).1⟩


/-! ## Submenus: claim C27 -/

theorem config_submenu_run (H : Header) (s : State) (name : String) (b : MenuBody) (semi : Bool)
    (rest : List Lexeme) (p : Nat) (hacc : b.accepted H) :
    ∃ tok, config_menu H
        { s with input := (menu_tokens name b semi ++ rest), next_token := .none } (some p) =
      config_optional_semicolon
        { s with input := (semicolon_tokens semi ++ rest), token := tok, next_token := .none,
                 max_parse_errors := false,
                 menu_heap := gtk_container_add
                   (b.build (s.menu_heap ++ [[]]) s.menu_heap.length) p
                   (MenuEntry.submenu name s.menu_heap.length) } := by
  obtain ⟨t, Y, hY, ht⟩ := menu_tokens_head b (semicolon_tokens semi ++ rest)
  have hd := menu_depth_le_tokens b
  have hlen : b.tokens.length ≤ Y.length := by
    have := congrArg List.length hY
    simp at this
    omega
  have hhead : config_menu_head
      { s with input := (menu_tokens name b semi ++ rest), next_token := .none } (some p) =
      { s := g_scanner_peek_next_token
          { s with input := (b.tokens ++ .chr '}' :: (semicolon_tokens semi ++ rest)),
                   token := .chr '\x7b', next_token := .none, max_parse_errors := false,
                   menu_heap := s.menu_heap ++ [[]] },
        ok := true, name := name, menu := s.menu_heap.length } := by
    simp [menu_tokens, config_menu_head, get_mk, Lexeme.token, Token.code,
      G_TOKEN_STRING, Token.v_string]
  obtain ⟨tok, h⟩ := config_menu_loop_run H b (Y.length + 1)
    { s with token := .chr '\x7b', menu_heap := s.menu_heap ++ [[]] } s.menu_heap.length
    (semicolon_tokens semi ++ rest) hacc (by omega)
  simp only [] at h
  rw [hY] at h
  refine ⟨.chr '}', ?_⟩
  unfold config_menu
  rw [hhead]
  simp only [Bool.true_eq_false, if_false]
  rw [hY]
  change config_menu_tail (config_menu_loop H (Y.length + 1) _ _) _ _ _ = _
  rw [h]
  simp [config_menu_tail, get_mk_chr]

/-- C27: called without a parent, `config_menu` fills the menu registered under
the name if there is one: no menu is allocated for the declaration itself and
the name stays registered at the same address.  Called with a parent (the
`SubMenu` statement), it fills a menu at a fresh address even if the name is
registered: the registered menu is another one and keeps its entries (unless
it is the parent), the new menu holds the entries of the body, the parent gets
exactly one more entry, the submenu entry labelled with the name, and the
registry is as before, so the new menu is not registered. -/
theorem config_menu_reuse_top_level_only (H : Header) (s : State) (name : String)
    (b : MenuBody) (semi : Bool) (rest : List Lexeme) (p : Nat) (hacc : b.accepted H)
    (halloc : menus_allocated s) (hp : p < s.menu_heap.length) :
    (∀ m, layout_menu_get s.menus name = some m →
      (menu_declared H s name b semi rest).menu_heap = b.build s.menu_heap m ∧
      (menu_declared H s name b semi rest).menu_heap[m]? =
        some (s.menu_heap.getD m [] ++ b.entries s.menu_heap.length) ∧
      layout_menu_get (menu_declared H s name b semi rest).menus name = some m) ∧
    (submenu_declared H s name b semi rest p).menus = s.menus ∧
    (submenu_declared H s name b semi rest p).menu_heap =
      gtk_container_add (b.build (s.menu_heap ++ [[]]) s.menu_heap.length) p
        (MenuEntry.submenu name s.menu_heap.length) ∧
    (submenu_declared H s name b semi rest p).menu_heap[s.menu_heap.length]? =
      some (b.entries (s.menu_heap.length + 1)) ∧
    (submenu_declared H s name b semi rest p).menu_heap[p]? =
      some (s.menu_heap.getD p [] ++ [MenuEntry.submenu name s.menu_heap.length]) ∧
    (∀ m, layout_menu_get s.menus name = some m →
      m ≠ s.menu_heap.length ∧
      (m ≠ p → (submenu_declared H s name b semi rest p).menu_heap[m]? = s.menu_heap[m]?)) := by
  obtain ⟨tok, h⟩ := config_submenu_run H s name b semi rest p hacc
  have hf := config_optional_semicolon_frame
    { s with input := (semicolon_tokens semi ++ rest), token := tok, next_token := .none,
             max_parse_errors := false,
             menu_heap := gtk_container_add
               (b.build (s.menu_heap ++ [[]]) s.menu_heap.length) p
               (MenuEntry.submenu name s.menu_heap.length) }
  obtain ⟨-, -, -, -, -, -, h7, h8⟩ := hf
  have hheap : (submenu_declared H s name b semi rest p).menu_heap =
      gtk_container_add (b.build (s.menu_heap ++ [[]]) s.menu_heap.length) p
        (MenuEntry.submenu name s.menu_heap.length) := by
    unfold submenu_declared
    rw [h, h7]
  have hmenus : (submenu_declared H s name b semi rest p).menus = s.menus := by
    unfold submenu_declared
    rw [h, h8]
  have hfresh : (s.menu_heap ++ [[]])[s.menu_heap.length]? = some ([] : List MenuEntry) := by
    simp
  have hold : ∀ k, k < s.menu_heap.length →
      (b.build (s.menu_heap ++ [[]]) s.menu_heap.length)[k]? = s.menu_heap[k]? := by
    intro k hk
    rw [menu_build_other b _ s.menu_heap.length k (by simp; omega) (by omega)]
    simp [List.getElem?_append, hk]
  refine ⟨?_, hmenus, hheap, ?_, ?_, ?_⟩
  · intro m hm
    obtain ⟨tok2, h2⟩ := config_menu_run H s name b semi rest hacc
    have hf2 := config_optional_semicolon_frame
      { s with input := (semicolon_tokens semi ++ rest), token := tok2, next_token := .none,
               max_parse_errors := false,
               menu_heap := b.build (menu_heap_start s name) (menu_address s name),
               menus := layout_menu_add s.menus name (menu_address s name) }
    obtain ⟨-, -, -, -, -, -, g7, g8⟩ := hf2
    have hstart : menu_heap_start s name = s.menu_heap := by
      simp [menu_heap_start, hm]
    have haddr : menu_address s name = m := by
      simp [menu_address, hm]
    have hm2 := halloc name m hm
    have hget : s.menu_heap[m]? = some (s.menu_heap.getD m []) := by
      simp [List.getD, hm2]
    unfold menu_declared
    rw [h2, g7, g8]
    rw [hstart, haddr]
    exact ⟨rfl, menu_build_entries b _ _ _ hget, layout_menu_get_add _ _ _⟩
  · rw [hheap, gtk_container_add_other _ p _ _ (by omega),
      menu_build_entries b _ _ _ hfresh]
    simp
  · rw [hheap]
    refine gtk_container_add_same _ p _ _ ?_
    rw [hold p hp]
    simp [List.getD, hp]
  · intro m hm
    have hm2 := halloc name m hm
    refine ⟨by omega, fun hmp => ?_⟩
    rw [hheap, gtk_container_add_other _ p _ _ hmp, hold m hm2]

theorem registered_example_allocated : menus_allocated registered_example := by
  intro name m h
  simp [registered_example, State.init, layout_menu_get] at h
  simp [registered_example, State.init]
  omega

/-- C27 (witness): with the menu `m` registered at address 0,
`SubMenu("m") \x7b item("Quit","quit.sh"); separator; \x7d` inside that menu fills a
new menu at address 1, adds one submenu entry to menu 0 and leaves the
registry as it is. -/
theorem config_menu_reuse_top_level_only_witness :
    quit_menu.accepted header_example ∧ menus_allocated registered_example ∧
    0 < registered_example.menu_heap.length ∧
    (submenu_declared header_example registered_example "m" quit_menu false [] 0).menus =
      registered_example.menus ∧
    (submenu_declared header_example registered_example "m" quit_menu false [] 0).menu_heap =
      [[MenuEntry.submenu "m" 1],
       [MenuEntry.item "Quit" (exec_action "quit.sh"), MenuEntry.separator]] :=
  ⟨⟨action_accepted_exec _ _, trivial⟩, registered_example_allocated, by decide,
    (config_menu_reuse_top_level_only header_example registered_example "m" quit_menu false []
      0 ⟨action_accepted_exec _ _, trivial⟩ registered_example_allocated (by decide)).2.1,
    (config_menu_reuse_top_level_only header_example registered_example "m" quit_menu false []
      0 ⟨action_accepted_exec _ _, trivial⟩ registered_example_allocated
      (by decide)).2.2.1.trans (by decide)⟩


/-! ## Placer: claim C28 -/

theorem config_placer_loop_succ (n : Nat) (p : Placer) :
    config_placer_loop (n + 1) p =
      if (g_scanner_peek_next_token p.s).next_token ≠ .chr '}' ∧
          (g_scanner_peek_next_token p.s).next_token ≠ .eof then
        config_placer_loop n
          (config_placer_switch p (g_scanner_get_next_token (g_scanner_peek_next_token p.s)))
      else { p with s := g_scanner_peek_next_token p.s } := rfl

theorem error_calls (s : State) (m : String) : (g_scanner_error s m).calls = s.calls := by
  unfold g_scanner_error config_log_error
  simp only [if_true]
  split <;> rfl

theorem peek_calls (s : State) : (g_scanner_peek_next_token s).calls = s.calls :=
  (g_scanner_peek_next_token_frame s).2.2.2.2.2.2.1

theorem get_calls (s : State) : (g_scanner_get_next_token s).calls = s.calls :=
  (g_scanner_get_next_token_frame s).2.2.2.2.2.1

theorem semicolon_calls (s : State) : (config_optional_semicolon s).calls = s.calls :=
  (config_optional_semicolon_frame s).2.2.2.2.2.1

theorem expect_calls (s : State) (t : Nat) (m : String) :
    (config_expect_token s t m).1.calls = s.calls := by
  unfold config_expect_token
  simp only []
  split
  · exact peek_calls s
  · rw [error_calls, peek_calls]

theorem config_assign_number_calls (s : State) (expr : String) :
    (config_assign_number s expr).1.calls = s.calls := by
  unfold config_assign_number
  simp only []
  split_ifs <;> simp [semicolon_calls, get_calls, expect_calls]

theorem config_assign_boolean_calls (s : State) (dflt : Bool) (expr : String) :
    (config_assign_boolean s dflt expr).1.calls = s.calls := by
  unfold config_assign_boolean
  simp only []
  split_ifs <;> simp [semicolon_calls, get_calls, expect_calls, error_calls]

theorem config_placer_switch_calls (p : Placer) (s1 : State) :
    (config_placer_switch p s1).s.calls = s1.calls := by
  unfold config_placer_switch
  split_ifs <;> simp [config_assign_number_calls, config_assign_boolean_calls, error_calls]

theorem config_placer_loop_calls : ∀ (fuel : Nat) (p : Placer),
    (config_placer_loop fuel p).s.calls = p.s.calls := by
  intro fuel
  induction fuel with
  | zero => intro p; simp [config_placer_loop, peek_calls]
  | succ n ih =>
    intro p
    rw [config_placer_loop_succ]
    split
    · rw [ih, config_placer_switch_calls, get_calls, peek_calls]
    · simp [peek_calls]

theorem double_to_gint_of_fits (v : ℚ) (h : gint_fits v) :
    double_to_gint v = v.num.tdiv v.den := by
  unfold gint_fits at h
  unfold double_to_gint
  rw [if_pos h]

theorem double_to_gint_lt_one (v : ℚ) (hv : gint_fits v) : double_to_gint v < 1 ↔ v < 1 := by
  have hden : (0 : Int) < v.den := by exact_mod_cast v.den_pos
  rw [Rat.lt_one_iff_num_lt_denom, double_to_gint_of_fits v hv]
  constructor
  · intro h
    by_contra hge
    have hge2 : (v.den : Int) ≤ v.num := by omega
    have hnum : 0 ≤ v.num := by omega
    rw [Int.tdiv_eq_ediv hnum (le_of_lt hden)] at h
    have : 1 ≤ v.num / v.den := by
      rw [Int.le_ediv_iff_mul_le hden]
      omega
    omega
  · intro h
    rcases Int.lt_or_le v.num 0 with hneg | hpos
    · have h0 : 0 ≤ (-v.num).tdiv v.den := Int.tdiv_nonneg (by omega) (le_of_lt hden)
      rw [Int.neg_tdiv] at h0
      omega
    · rw [Int.tdiv_eq_ediv hpos (le_of_lt hden)]
      have : v.num / v.den = 0 := Int.ediv_eq_zero_of_lt hpos h
      omega

theorem placer_tokens_head (stmts : List PlacerStmt) (rest : List Lexeme) :
    ∃ t Y, placer_tokens stmts ++ .chr '}' :: rest = t :: Y ∧ t ≠ .chr ';' ∧
      t.token.code ≠ G_TOKEN_FLOAT := by
  have hk : ∀ k : Keyword, (Lexeme.kw k).token.code ≠ G_TOKEN_FLOAT := by
    intro k
    have : 270 ≤ k.code := by unfold Keyword.code G_TOKEN_LAST; omega
    simp only [Lexeme.token, Token.code, G_TOKEN_FLOAT]
    omega
  rcases stmts with _ | ⟨st, more⟩
  · exact ⟨_, _, rfl, by simp, by decide⟩
  · cases st with
    | number f v semi => exact ⟨_, _, rfl, by simp, hk _⟩
    | missing f => exact ⟨_, _, rfl, by simp, hk _⟩
    | children v semi => exact ⟨_, _, rfl, by simp, hk _⟩

theorem config_assign_number_run (s : State) (expr : String) (v : ℚ) (semi : Bool)
    (t : Lexeme) (Y : List Lexeme) (ht : t ≠ .chr ';') :
    ∃ s1 : State, s1.calls = s.calls ∧
      (config_assign_number
        { s with next_token := .none,
                 input := (.chr '=' :: .float v :: (semicolon_tokens semi ++ t :: Y)) } expr).2 =
        v ∧
      g_scanner_peek_next_token (config_assign_number
        { s with next_token := .none,
                 input := (.chr '=' :: .float v :: (semicolon_tokens semi ++ t :: Y)) } expr).1 =
        g_scanner_peek_next_token { s1 with next_token := .none, input := (t :: Y) } := by
  obtain ⟨tok, h⟩ := optional_semicolon_peek
    { s with token := .float v, max_parse_errors := false } semi t Y ht
  simp only [] at h
  refine ⟨{ s with token := tok, max_parse_errors := false }, rfl, ?_, ?_⟩
  · simp [config_assign_number, config_expect_token, g_scanner_peek_next_token,
      g_scanner_get_next_token, Lexeme.token, Token.code, G_TOKEN_FLOAT, Token.v_float]
  · rw [← h]
    simp [config_assign_number, config_expect_token, g_scanner_peek_next_token,
      g_scanner_get_next_token, Lexeme.token, Token.code, G_TOKEN_FLOAT, Token.v_float]

theorem config_assign_number_missing (s : State) (expr : String) (t : Lexeme)
    (Y : List Lexeme) (ht : t.token.code ≠ G_TOKEN_FLOAT) :
    ∃ s1 : State, s1.calls = s.calls ∧
      (config_assign_number
        { s with next_token := .none, input := (.chr '=' :: t :: Y) } expr).2 = 0 ∧
      g_scanner_peek_next_token (config_assign_number
        { s with next_token := .none, input := (.chr '=' :: t :: Y) } expr).1 =
        g_scanner_peek_next_token { s1 with next_token := .none, input := (t :: Y) } := by
  have hn := lexeme_token_ne_none t
  have h1 : g_scanner_peek_next_token
      { s with max_parse_errors := false, next_token := .none,
               input := (.chr '=' :: t :: Y) } =
      { s with max_parse_errors := false, next_token := .chr '=', input := (t :: Y) } := rfl
  have h2 : g_scanner_get_next_token
      { s with max_parse_errors := false, next_token := .chr '=', input := (t :: Y) } =
      { s with max_parse_errors := false, token := .chr '=', next_token := .none,
               input := (t :: Y) } := rfl
  have h3 : g_scanner_peek_next_token
      { s with max_parse_errors := false, token := .chr '=', next_token := .none,
               input := (t :: Y) } =
      { s with max_parse_errors := false, token := .chr '=', next_token := t.token,
               input := Y } := rfl
  have c1 : (Token.chr '=').code = '='.toNat := by decide
  have hres : config_assign_number
      { s with next_token := .none, input := (.chr '=' :: t :: Y) } expr =
      (g_scanner_error
        { s with max_parse_errors := false, token := .chr '=', next_token := t.token,
                 input := Y } ("Missing <number> in " ++ expr ++ " = <number>"), 0) := by
    unfold config_assign_number config_expect_token
    simp only [h1, c1, if_true, h2, h3, ht, if_false, Bool.true_eq_false, Bool.false_eq_true]
  refine ⟨{ s with token := .chr '=', max_parse_errors := true,
                   messages := s.messages ++ ["Missing <number> in " ++ expr ++ " = <number>"] },
    rfl, ?_, ?_⟩
  · rw [hres]
  · rw [hres, g_scanner_peek_next_token_of_ne _ (by
      unfold g_scanner_error config_log_error
      simpa using hn)]
    unfold g_scanner_error config_log_error
    simp [g_scanner_peek_next_token]

theorem config_assign_boolean_run (s : State) (expr : String) (v dflt : Bool) (semi : Bool)
    (t : Lexeme) (Y : List Lexeme) (ht : t ≠ .chr ';') :
    ∃ s1 : State, s1.calls = s.calls ∧
      (config_assign_boolean
        { s with next_token := .none,
                 input := (.chr '=' :: .kw (if v then G_TOKEN_TRUE else G_TOKEN_FALSE) ::
                   (semicolon_tokens semi ++ t :: Y)) } dflt expr).2 = v ∧
      g_scanner_peek_next_token (config_assign_boolean
        { s with next_token := .none,
                 input := (.chr '=' :: .kw (if v then G_TOKEN_TRUE else G_TOKEN_FALSE) ::
                   (semicolon_tokens semi ++ t :: Y)) } dflt expr).1 =
        g_scanner_peek_next_token { s1 with next_token := .none, input := (t :: Y) } := by
  obtain ⟨tok, h⟩ := optional_semicolon_peek
    { s with token := .kw (if v then G_TOKEN_TRUE else G_TOKEN_FALSE),
             max_parse_errors := false } semi t Y ht
  simp only [] at h
  refine ⟨{ s with token := tok, max_parse_errors := false }, rfl, ?_, ?_⟩
  · cases v <;>
    simp [config_assign_boolean, config_expect_token, g_scanner_peek_next_token,
      g_scanner_get_next_token, Lexeme.token, Token.code]
  · rw [← h]
    cases v <;>
    simp [config_assign_boolean, config_expect_token, g_scanner_peek_next_token,
      g_scanner_get_next_token, Lexeme.token, Token.code]

theorem placer_value_cons (f : PlacerField) (st : PlacerStmt) (more : List PlacerStmt)
    (d : Int) : placer_value f (st :: more) d = placer_value f more (st.value f d) := by
  unfold placer_value PlacerStmt.value
  simp only [placer_last]
  rcases placer_last f more with _ | r
  · rfl
  · cases r <;> rfl

theorem placer_last_children_cons (st : PlacerStmt) (more : List PlacerStmt) (d : Bool) :
    (placer_last_children (st :: more)).getD d = (placer_last_children more).getD (st.pid d) := by
  simp only [placer_last_children]
  rcases placer_last_children more with _ | r
  · cases st <;> rfl
  · rfl

theorem config_placer_switch_stmt (p : Placer) (s : State) (st : PlacerStmt) (t : Lexeme)
    (Y : List Lexeme) (ht : t ≠ .chr ';') (hf : t.token.code ≠ G_TOKEN_FLOAT) :
    (g_scanner_peek_next_token
        { s with next_token := .none, input := (st.tokens ++ t :: Y) }).next_token ≠ .chr '}' ∧
    (g_scanner_peek_next_token
        { s with next_token := .none, input := (st.tokens ++ t :: Y) }).next_token ≠ .eof ∧
    ∃ s2 : State, s2.calls = s.calls ∧
      g_scanner_peek_next_token
        (config_placer_switch p (g_scanner_get_next_token (g_scanner_peek_next_token
          { s with next_token := .none, input := (st.tokens ++ t :: Y) }))).s =
        g_scanner_peek_next_token { s2 with next_token := .none, input := (t :: Y) } ∧
      (config_placer_switch p (g_scanner_get_next_token (g_scanner_peek_next_token
          { s with next_token := .none, input := (st.tokens ++ t :: Y) }))).wp_x =
        st.value .xstep p.wp_x ∧
      (config_placer_switch p (g_scanner_get_next_token (g_scanner_peek_next_token
          { s with next_token := .none, input := (st.tokens ++ t :: Y) }))).wp_y =
        st.value .ystep p.wp_y ∧
      (config_placer_switch p (g_scanner_get_next_token (g_scanner_peek_next_token
          { s with next_token := .none, input := (st.tokens ++ t :: Y) }))).wo_x =
        st.value .xorigin p.wo_x ∧
      (config_placer_switch p (g_scanner_get_next_token (g_scanner_peek_next_token
          { s with next_token := .none, input := (st.tokens ++ t :: Y) }))).wo_y =
        st.value .yorigin p.wo_y ∧
      (config_placer_switch p (g_scanner_get_next_token (g_scanner_peek_next_token
          { s with next_token := .none, input := (st.tokens ++ t :: Y) }))).pid =
        st.pid p.pid := by
  cases st with
  | number f v semi =>
    have hget : ∀ k : Keyword, g_scanner_get_next_token (g_scanner_peek_next_token
        { s with next_token := .none,
                 input := (.kw k :: .chr '=' :: .float v :: (semicolon_tokens semi ++ t :: Y)) }) =
        { s with token := .kw k, next_token := .none,
                 input := (.chr '=' :: .float v :: (semicolon_tokens semi ++ t :: Y)) } :=
      fun _ => rfl
    refine ⟨by cases f <;> simp [PlacerStmt.tokens, g_scanner_peek_next_token, Lexeme.token],
      by cases f <;> simp [PlacerStmt.tokens, g_scanner_peek_next_token, Lexeme.token], ?_⟩
    cases f
    · obtain ⟨s2, hc, hv, hp⟩ := config_assign_number_run
        { s with token := .kw G_TOKEN_XSTEP } "xstep" v semi t Y ht
      simp only [] at hv hp
      refine ⟨s2, hc, ?_⟩
      simp only [PlacerStmt.tokens, PlacerField.keyword, List.cons_append, List.nil_append,
        List.append_assoc, hget, config_placer_switch, if_true, hv, hp]
      simp [PlacerStmt.value, PlacerStmt.assigns, PlacerStmt.pid]
    · obtain ⟨s2, hc, hv, hp⟩ := config_assign_number_run
        { s with token := .kw G_TOKEN_YSTEP } "ystep" v semi t Y ht
      simp only [] at hv hp
      refine ⟨s2, hc, ?_⟩
      simp only [PlacerStmt.tokens, PlacerField.keyword, List.cons_append, List.nil_append,
        List.append_assoc, hget, config_placer_switch, if_true, hv, hp, Token.kw.injEq,
        reduceCtorEq, if_false]
      simp [PlacerStmt.value, PlacerStmt.assigns, PlacerStmt.pid]
    · obtain ⟨s2, hc, hv, hp⟩ := config_assign_number_run
        { s with token := .kw G_TOKEN_XORIGIN } "xorigin" v semi t Y ht
      simp only [] at hv hp
      refine ⟨s2, hc, ?_⟩
      simp only [PlacerStmt.tokens, PlacerField.keyword, List.cons_append, List.nil_append,
        List.append_assoc, hget, config_placer_switch, if_true, hv, hp, Token.kw.injEq,
        reduceCtorEq, if_false]
      simp [PlacerStmt.value, PlacerStmt.assigns, PlacerStmt.pid]
    · obtain ⟨s2, hc, hv, hp⟩ := config_assign_number_run
        { s with token := .kw G_TOKEN_YORIGIN } "yorigin" v semi t Y ht
      simp only [] at hv hp
      refine ⟨s2, hc, ?_⟩
      simp only [PlacerStmt.tokens, PlacerField.keyword, List.cons_append, List.nil_append,
        List.append_assoc, hget, config_placer_switch, if_true, hv, hp, Token.kw.injEq,
        reduceCtorEq, if_false]
      simp [PlacerStmt.value, PlacerStmt.assigns, PlacerStmt.pid]
  | missing f =>
    have hget : ∀ k : Keyword, g_scanner_get_next_token (g_scanner_peek_next_token
        { s with next_token := .none, input := (.kw k :: .chr '=' :: t :: Y) }) =
        { s with token := .kw k, next_token := .none, input := (.chr '=' :: t :: Y) } :=
      fun _ => rfl
    refine ⟨by cases f <;> simp [PlacerStmt.tokens, g_scanner_peek_next_token, Lexeme.token],
      by cases f <;> simp [PlacerStmt.tokens, g_scanner_peek_next_token, Lexeme.token], ?_⟩
    cases f
    · obtain ⟨s2, hc, hv, hp⟩ := config_assign_number_missing
        { s with token := .kw G_TOKEN_XSTEP } "xstep" t Y hf
      simp only [] at hv hp
      refine ⟨s2, hc, ?_⟩
      simp only [PlacerStmt.tokens, PlacerField.keyword, List.cons_append, List.nil_append,
        List.append_assoc, hget, config_placer_switch, if_true, hv, hp]
      simp [PlacerStmt.value, PlacerStmt.assigns, PlacerStmt.pid, double_to_gint]
    · obtain ⟨s2, hc, hv, hp⟩ := config_assign_number_missing
        { s with token := .kw G_TOKEN_YSTEP } "ystep" t Y hf
      simp only [] at hv hp
      refine ⟨s2, hc, ?_⟩
      simp only [PlacerStmt.tokens, PlacerField.keyword, List.cons_append, List.nil_append,
        List.append_assoc, hget, config_placer_switch, if_true, hv, hp, Token.kw.injEq,
        reduceCtorEq, if_false]
      simp [PlacerStmt.value, PlacerStmt.assigns, PlacerStmt.pid, double_to_gint]
    · obtain ⟨s2, hc, hv, hp⟩ := config_assign_number_missing
        { s with token := .kw G_TOKEN_XORIGIN } "xorigin" t Y hf
      simp only [] at hv hp
      refine ⟨s2, hc, ?_⟩
      simp only [PlacerStmt.tokens, PlacerField.keyword, List.cons_append, List.nil_append,
        List.append_assoc, hget, config_placer_switch, if_true, hv, hp, Token.kw.injEq,
        reduceCtorEq, if_false]
      simp [PlacerStmt.value, PlacerStmt.assigns, PlacerStmt.pid, double_to_gint]
    · obtain ⟨s2, hc, hv, hp⟩ := config_assign_number_missing
        { s with token := .kw G_TOKEN_YORIGIN } "yorigin" t Y hf
      simp only [] at hv hp
      refine ⟨s2, hc, ?_⟩
      simp only [PlacerStmt.tokens, PlacerField.keyword, List.cons_append, List.nil_append,
        List.append_assoc, hget, config_placer_switch, if_true, hv, hp, Token.kw.injEq,
        reduceCtorEq, if_false]
      simp [PlacerStmt.value, PlacerStmt.assigns, PlacerStmt.pid, double_to_gint]
  | children v semi =>
    have hget : g_scanner_get_next_token (g_scanner_peek_next_token
        { s with next_token := .none,
                 input := (.kw G_TOKEN_CHILDREN :: .chr '=' ::
                   .kw (if v then G_TOKEN_TRUE else G_TOKEN_FALSE) ::
                   (semicolon_tokens semi ++ t :: Y)) }) =
        { s with token := .kw G_TOKEN_CHILDREN, next_token := .none,
                 input := (.chr '=' :: .kw (if v then G_TOKEN_TRUE else G_TOKEN_FALSE) ::
                   (semicolon_tokens semi ++ t :: Y)) } := rfl
    refine ⟨by simp [PlacerStmt.tokens, g_scanner_peek_next_token, Lexeme.token],
      by simp [PlacerStmt.tokens, g_scanner_peek_next_token, Lexeme.token], ?_⟩
    obtain ⟨s2, hc, hv, hp⟩ := config_assign_boolean_run
      { s with token := .kw G_TOKEN_CHILDREN } "children" v false semi t Y ht
    simp only [] at hv hp
    refine ⟨s2, hc, ?_⟩
    simp only [PlacerStmt.tokens, List.cons_append, List.nil_append,
      List.append_assoc, hget, config_placer_switch, if_true, hv, hp, Token.kw.injEq,
      reduceCtorEq, if_false]
    simp [PlacerStmt.value, PlacerStmt.assigns, PlacerStmt.pid]

theorem placer_tokens_length (stmts : List PlacerStmt) :
    stmts.length ≤ (placer_tokens stmts).length := by
  induction stmts with
  | nil => simp
  | cons st more ih =>
    cases st <;> simp [placer_tokens, PlacerStmt.tokens] <;> omega

theorem config_placer_loop_run (rest : List Lexeme) :
    ∀ (stmts : List PlacerStmt) (fuel : Nat) (p : Placer) (s : State), stmts.length ≤ fuel →
    g_scanner_peek_next_token p.s =
      g_scanner_peek_next_token
        { s with next_token := .none, input := (placer_tokens stmts ++ .chr '}' :: rest) } →
    ∃ s1 : State, s1.calls = s.calls ∧
      config_placer_loop fuel p =
        { s := g_scanner_peek_next_token
            { s1 with next_token := .none, input := (.chr '}' :: rest) },
          wp_x := placer_value .xstep stmts p.wp_x, wp_y := placer_value .ystep stmts p.wp_y,
          wo_x := placer_value .xorigin stmts p.wo_x,
          wo_y := placer_value .yorigin stmts p.wo_y,
          pid := (placer_last_children stmts).getD p.pid } := by
  intro stmts
  induction stmts with
  | nil =>
    intro fuel p s _ hp
    refine ⟨s, rfl, ?_⟩
    simp only [placer_tokens, List.nil_append] at hp
    cases fuel with
    | zero =>
      simp only [config_placer_loop, hp]
      rfl
    | succ n =>
      rw [config_placer_loop_succ, hp]
      simp [g_scanner_peek_next_token, Lexeme.token]
      exact ⟨rfl, rfl, rfl, rfl, rfl⟩
  | cons st more ih =>
    intro fuel p s hfuel hp
    obtain ⟨n, rfl⟩ : ∃ n, fuel = n + 1 := ⟨fuel - 1, by simp at hfuel; omega⟩
    obtain ⟨t, Y, hY, ht, hf⟩ := placer_tokens_head more rest
    have hin : placer_tokens (st :: more) ++ .chr '}' :: rest = st.tokens ++ t :: Y := by
      simp [placer_tokens, hY]
    rw [hin] at hp
    obtain ⟨h1, h2, s2, hc, hpk, hx, hy, hox, hoy, hpid⟩ :=
      config_placer_switch_stmt p s st t Y ht hf
    rw [config_placer_loop_succ, hp, if_pos ⟨h1, h2⟩]
    obtain ⟨s3, hc3, hrun⟩ := ih n _ s2 (by simp at hfuel; omega) (by rw [hY]; exact hpk)
    refine ⟨s3, hc3.trans hc, ?_⟩
    rw [hrun, hx, hy, hox, hoy, hpid]
    simp only [placer_value_cons, placer_last_children_cons]

theorem placer_last_fits (f : PlacerField) :
    ∀ (stmts : List PlacerStmt) (v : ℚ), (∀ st ∈ stmts, st.fits) →
      placer_last f stmts = some (some v) → gint_fits v := by
  intro stmts
  induction stmts with
  | nil =>
    intro v _ h
    simp [placer_last] at h
  | cons st rest ih =>
    intro v hfit h
    unfold placer_last at h
    rcases hl : placer_last f rest with _ | r
    · rw [hl] at h
      simp only [] at h
      have hst := hfit st (List.mem_cons_self _ _)
      cases st with
      | number g x semi =>
        simp only [PlacerStmt.assigns] at h
        split at h
        · simp only [Option.some.injEq] at h
          subst h
          exact hst
        · simp at h
      | missing g =>
        simp only [PlacerStmt.assigns] at h
        split at h <;> simp at h
      | children x semi => simp [PlacerStmt.assigns] at h
    · rw [hl] at h
      simp only [Option.some.injEq] at h
      subst h
      exact ih v (fun x hx => hfit x (List.mem_cons_of_mem _ hx)) hl

theorem placer_step_value (f : PlacerField) (stmts : List PlacerStmt)
    (hfit : ∀ st ∈ stmts, st.fits) :
    (if placer_value f stmts 10 < 1 then 1 else placer_value f stmts 10) =
      placer_step f stmts := by
  have hv := placer_last_fits f stmts
  unfold placer_value placer_step
  rcases hl : placer_last f stmts with _ | _ | v
  · rfl
  · rfl
  · have hvf := hv v hfit hl
    simp only []
    by_cases h : v < 1
    · rw [if_pos ((double_to_gint_lt_one v hvf).2 h), if_neg (not_le.2 h)]
    · rw [if_neg (fun h2 => h ((double_to_gint_lt_one v hvf).1 h2)), if_pos (not_lt.1 h)]

theorem placer_origin_value (f : PlacerField) (stmts : List PlacerStmt) :
    placer_value f stmts 0 = placer_origin f stmts := by
  unfold placer_value placer_origin
  rcases placer_last f stmts with _ | _ | v <;> rfl

theorem closing_brace_calls (q : State) :
    (if q.next_token = .chr '}' then g_scanner_get_next_token q else q).calls = q.calls := by
  split
  · exact get_calls q
  · rfl

theorem placer_last_append (f : PlacerField) (st : PlacerStmt) (stmts : List PlacerStmt) :
    placer_last f (stmts ++ [st]) =
      match st.assigns f with
      | some r => some r
      | Option.none => placer_last f stmts := by
  induction stmts with
  | nil =>
    simp only [List.nil_append, placer_last]
    rcases st.assigns f with _ | r <;> rfl
  | cons x xs ih =>
    show (match placer_last f (xs ++ [st]) with
      | some r => some r
      | Option.none => x.assigns f) = _
    rw [ih]
    rcases st.assigns f with _ | r
    · rfl
    · rfl

theorem double_to_gint_int (z : Int) (h1 : -(2 ^ 31) ≤ z) (h2 : z < 2 ^ 31) :
    double_to_gint (z : ℚ) = z := by
  have hz : gint_fits (z : ℚ) := by
    simp only [gint_fits, Rat.num_intCast, Rat.den_intCast, Nat.cast_one, Int.tdiv_one]
    exact ⟨h1, h2⟩
  rw [double_to_gint_of_fits _ hz]
  simp

theorem placer_step_last_int (f : PlacerField) (z : Int) (semi : Bool)
    (stmts : List PlacerStmt) (h1 : -(2 ^ 31) ≤ z) (h2 : z < 2 ^ 31) :
    placer_step f (stmts ++ [PlacerStmt.number f (z : ℚ) semi]) = if 1 ≤ z then z else 1 := by
  have hc : ((1 : ℚ) ≤ (z : ℚ)) ↔ 1 ≤ z := by exact_mod_cast Iff.rfl
  unfold placer_step
  rw [placer_last_append]
  simp [PlacerStmt.assigns, double_to_gint_int z h1 h2, hc]

theorem placer_step_missing (f : PlacerField) (stmts : List PlacerStmt) :
    placer_step f (stmts ++ [PlacerStmt.missing f]) = 1 := by
  unfold placer_step
  rw [placer_last_append]
  simp [PlacerStmt.assigns]

/-- C28: for every `Placer` block whose opening brace is present, whatever
follows the brace, `config_placer` adds exactly one call of `placer_config` to
the log, and its `xstep` and `ystep` are at least 1.  For a block of
assignments whose numbers fit a `gint` the call carries, for each step, 10
when the step is not assigned, the last assigned value (converted to `gint`)
when that value is at least 1, and 1 when it is below 1 or its number is
missing; for each origin the last assigned value or 0; and for `children` the
last assigned value or FALSE.  In particular a block that ends in `step = z`
for a whole number `z` in the range of `gint` gives the step `z` when `z` is
at least 1 and 1 otherwise, and a block without assignments gives 10. -/
theorem config_placer_once (s : State) (rest : List Lexeme) (stmts : List PlacerStmt)
    (semi : Bool) (hfit : ∀ st ∈ stmts, st.fits) :
    (∀ f, placer_step f [] = 10 ∧ placer_origin f [] = 0) ∧
    (∀ (f : PlacerField) (z : Int) (semi2 : Bool), -(2 ^ 31) ≤ z → z < 2 ^ 31 →
      placer_step f (stmts ++ [PlacerStmt.number f (z : ℚ) semi2]) = if 1 ≤ z then z else 1) ∧
    (∀ f : PlacerField, placer_step f (stmts ++ [PlacerStmt.missing f]) = 1) ∧
    (∃ x y ox oy pid,
      (config_placer { s with next_token := .none, input := (.chr '\x7b' :: rest) }).calls =
        s.calls ++ [Call.placer_config x y ox oy pid] ∧ 1 ≤ x ∧ 1 ≤ y) ∧
    (config_placer { s with next_token := .none, input := (placer_block stmts semi ++ rest) }).calls =
      s.calls ++ [Call.placer_config (placer_step .xstep stmts) (placer_step .ystep stmts)
        (placer_origin .xorigin stmts) (placer_origin .yorigin stmts)
        ((placer_last_children stmts).getD false)] := by
  have e1 : ∀ r : List Lexeme, config_expect_token
      { s with max_parse_errors := false, next_token := .none, input := (.chr '\x7b' :: r) }
      ('\x7b'.toNat) "Missing '\x7b' after 'placer'" =
      ({ s with max_parse_errors := false, next_token := .chr '\x7b', input := r }, true) := by
    intro r
    simp [config_expect_token, g_scanner_peek_next_token, Lexeme.token, Token.code]
  have hg : ∀ r : List Lexeme, g_scanner_get_next_token
      { s with max_parse_errors := false, next_token := .chr '\x7b', input := r } =
      { s with max_parse_errors := false, token := .chr '\x7b', next_token := .none,
               input := r } := fun _ => rfl
  refine ⟨fun f => ⟨rfl, rfl⟩,
    fun f z semi2 h1 h2 => placer_step_last_int f z semi2 stmts h1 h2,
    fun f => placer_step_missing f stmts, ?_, ?_⟩
  · have hP : ∃ P : Placer,
        (config_placer { s with next_token := .none, input := (.chr '\x7b' :: rest) }).calls =
          s.calls ++ [Call.placer_config (if P.wp_x < 1 then 1 else P.wp_x)
            (if P.wp_y < 1 then 1 else P.wp_y) P.wo_x P.wo_y P.pid] := by
      refine ⟨config_placer_loop (rest.length + 1)
        { s := { s with max_parse_errors := false, token := .chr '\x7b', next_token := .none,
                        input := rest },
          wp_x := 10, wp_y := 10, wo_x := 0, wo_y := 0, pid := false }, ?_⟩
      unfold config_placer
      simp only [e1, Bool.true_eq_false, if_false, hg, semicolon_calls, closing_brace_calls,
        config_placer_loop_calls]
    obtain ⟨P, hP⟩ := hP
    refine ⟨_, _, _, _, _, hP, ?_, ?_⟩
    · split <;> omega
    · split <;> omega
  · obtain ⟨s1, hc, hrun⟩ := config_placer_loop_run (semicolon_tokens semi ++ rest) stmts
      ((placer_tokens stmts ++ .chr '}' :: (semicolon_tokens semi ++ rest)).length + 1)
      { s := { s with max_parse_errors := false, token := .chr '\x7b', next_token := .none,
                      input := (placer_tokens stmts ++ .chr '}' ::
                        (semicolon_tokens semi ++ rest)) },
        wp_x := 10, wp_y := 10, wo_x := 0, wo_y := 0, pid := false }
      { s with max_parse_errors := false, token := .chr '\x7b' }
      (by have := placer_tokens_length stmts; simp only [List.length_append]; omega) rfl
    have hin : placer_block stmts semi ++ rest =
        .chr '\x7b' :: (placer_tokens stmts ++ .chr '}' :: (semicolon_tokens semi ++ rest)) := by
      simp [placer_block]
    unfold config_placer
    rw [hin]
    simp only [e1, Bool.true_eq_false, if_false, hg]
    simp only [] at hrun
    rw [hrun]
    simp only [semicolon_calls, closing_brace_calls, peek_calls,
      placer_step_value _ stmts hfit, placer_origin_value]
    rw [show s1.calls = s.calls from hc]

/-- C28 (witness): the block `\x7b xstep = 5; ystep = 0 children = true \x7d` calls
`placer_config` once, with the steps 5 and 1, the origins 0 and `children`
TRUE. -/
theorem config_placer_once_witness :
    (∀ st ∈ [PlacerStmt.number .xstep 5 true, PlacerStmt.number .ystep 0 false,
      PlacerStmt.children true false], st.fits) ∧
    (config_placer
      { State.init [] with
        next_token := .none,
        input := (placer_block [PlacerStmt.number .xstep 5 true,
          PlacerStmt.number .ystep 0 false, PlacerStmt.children true false] false ++
            []) }).calls =
      [Call.placer_config 5 1 0 0 true] :=
  ⟨by simp [PlacerStmt.fits, gint_fits],
    ((config_placer_once (State.init []) []
      [PlacerStmt.number .xstep 5 true, PlacerStmt.number .ystep 0 false,
        PlacerStmt.children true false] false
      (by simp [PlacerStmt.fits, gint_fits])).2.2.2.2).trans
      (by simp [State.init, placer_step, placer_origin, placer_last, placer_last_children,
        PlacerStmt.assigns, double_to_gint])⟩


/-! ## CSS sentinel: claim C29 -/

theorem css_split_first (post : List Char) :
    ∀ pre : List Char, (∀ n, n < pre.length → ¬ css_at (pre ++ css_sentinel ++ post) n) →
      css_split (pre ++ css_sentinel ++ post) = (pre, some post) := by
  intro pre
  induction pre with
  | nil =>
    intro _
    simp [css_split, css_sentinel]
  | cons c p ih =>
    intro h
    have h0 := h 0 (by simp)
    have hp : ∀ n, n < p.length → ¬ css_at (p ++ css_sentinel ++ post) n := by
      intro n hn
      have := h (n + 1) (by simp; omega)
      simpa [css_at] using this
    have h0' : ¬ ((c :: (p ++ css_sentinel ++ post)).take 5 = css_sentinel) := by
      simpa [css_at] using h0
    show css_split (c :: (p ++ css_sentinel ++ post)) = _
    rw [css_split, if_neg h0', ih hp]

theorem css_split_none :
    ∀ d : List Char, (∀ n, ¬ css_at d n) → css_split d = (d, Option.none) := by
  intro d
  induction d with
  | nil => intro _; rfl
  | cons c cs ih =>
    intro h
    have h0 : ¬ ((c :: cs).take 5 = css_sentinel) := by
      simpa [css_at] using h 0
    have hcs : ∀ n, ¬ css_at cs n := by
      intro n
      simpa [css_at] using h (n + 1)
    rw [css_split, if_neg h0, ih hcs]

/-- C29 (counterexample): in the text `a`, newline, `#CSSx` the second line
merely begins with `#CSS`, and the document is split all the same: the text
`a` is tokenized and the stylesheet `x` is handed to the CSS provider. -/
theorem config_parse_file_splits_on_line_prefix :
    css_split css_line_with_tail.data = (['a'], some ['x']) ∧
    config_parse_file header_example (fun st => .returned (st, Option.none)) (State.init [])
        (some css_line_with_tail) true =
      file_parsed header_example (fun st => .returned (st, Option.none)) (State.init [])
        (file_scanner header_example (State.init []) ['a']
          [Call.gtk_css_provider_load_from_data (String.mk ['x'])]) true := by
  constructor <;> decide

/-- C29 (amended): `config_parse_file` splits the document at the first
occurrence of the five characters newline, `#CSS`: the tokenized text is
exactly the part before that newline and the stylesheet is exactly the text
behind `#CSS`, handed on as it is, whatever follows `#CSS` on its line; a
document in which the five characters do not occur is tokenized whole and no
stylesheet is loaded. -/
theorem config_parse_file_css_split (H : Header)
    (inc : State → Outcome (State × Option layout_widget)) (s : State) (layout : Bool)
    (pre post d : List Char)
    (hfirst : ∀ n, n < pre.length → ¬ css_at (pre ++ css_sentinel ++ post) n)
    (hnone : ∀ n, ¬ css_at d n) :
    css_split (pre ++ css_sentinel ++ post) = (pre, some post) ∧
    config_parse_file H inc s (some (String.mk (pre ++ css_sentinel ++ post))) layout =
      file_parsed H inc s
        (file_scanner H s pre
          (s.calls ++ [Call.gtk_css_provider_load_from_data (String.mk post)])) layout ∧
    css_split d = (d, Option.none) ∧
    config_parse_file H inc s (some (String.mk d)) layout =
      file_parsed H inc s (file_scanner H s d s.calls) layout := by
  have h1 := css_split_first post pre hfirst
  have h2 := css_split_none d hnone
  refine ⟨h1, ?_, h2, ?_⟩
  · simp only [config_parse_file, h1, file_parsed, file_scanner]
  · simp only [config_parse_file, h2, file_parsed, file_scanner]

/-- C29 (witness of the amended claim): the text `a`, newline, `#CSS`,
newline, `b` is split into `a` and the stylesheet newline, `b`; the text
`#CSS`, newline, `b`, whose first line is the sentinel word without a newline
in front of it, is not split. -/
theorem config_parse_file_css_split_witness :
    (∀ n, n < ['a'].length →
      ¬ css_at (['a'] ++ css_sentinel ++ [Char.ofNat 10, 'b']) n) ∧
    (∀ n, ¬ css_at ['#', 'C', 'S', 'S', Char.ofNat 10, 'b'] n) ∧
    css_split (['a'] ++ css_sentinel ++ [Char.ofNat 10, 'b']) =
      (['a'], some [Char.ofNat 10, 'b']) ∧
    css_split ['#', 'C', 'S', 'S', Char.ofNat 10, 'b'] =
      (['#', 'C', 'S', 'S', Char.ofNat 10, 'b'], Option.none) :=
  ⟨fun n hn => by
      have h0 : n = 0 := by simpa using hn
      subst h0
      unfold css_at
      decide,
    fun n => by
      unfold css_at
      rcases n with _ | _ | _ | _ | _ | _ | n <;> simp [css_sentinel],
    (config_parse_file_css_split header_example (fun st => .returned (st, Option.none))
      (State.init []) true ['a'] [Char.ofNat 10, 'b'] ['#', 'C', 'S', 'S', Char.ofNat 10, 'b']
      (fun n hn => by
        have h0 : n = 0 := by simpa using hn
        subst h0
        unfold css_at
        decide)
      (fun n => by
        unfold css_at
        rcases n with _ | _ | _ | _ | _ | _ | n <;> simp [css_sentinel])).1,
    (config_parse_file_css_split header_example (fun st => .returned (st, Option.none))
      (State.init []) true ['a'] [Char.ofNat 10, 'b'] ['#', 'C', 'S', 'S', Char.ofNat 10, 'b']
      (fun n hn => by
        have h0 : n = 0 := by simpa using hn
        subst h0
        unfold css_at
        decide)
      (fun n => by
        unfold css_at
        rcases n with _ | _ | _ | _ | _ | _ | n <;> simp [css_sentinel])).2.2.1⟩


/-! ## Menu registry: claim C30 -/

theorem menus_lookup_insert (m : List (String × Nat)) (n : String) (v : Nat) :
    menus_lookup (menus_insert m n v) n = some v := by
  induction m with
  | nil => simp [menus_insert, menus_lookup, str_nequal]
  | cons e m ih =>
    obtain ⟨k, w⟩ := e
    by_cases h : k = n
    · simp [menus_insert, menus_lookup, str_nequal, h]
    · simp [menus_insert, menus_lookup, str_nequal, h, ih]

theorem menus_lookup_insert_ne (m : List (String × Nat)) (n other : String) (v : Nat)
    (h : other ≠ n) : menus_lookup (menus_insert m n v) other = menus_lookup m other := by
  induction m with
  | nil => simp [menus_insert, menus_lookup, str_nequal, Ne.symm h]
  | cons e m ih =>
    obtain ⟨k, w⟩ := e
    by_cases hk : k = n
    · subst hk
      simp [menus_insert, menus_lookup, str_nequal, Ne.symm h]
    · by_cases ho : k = other
      · subst ho
        simp [menus_insert, menus_lookup, str_nequal, hk]
      · simp [menus_insert, menus_lookup, str_nequal, hk, ho, ih]

theorem menus_lookup_none (m : List (String × Nat)) (n : String)
    (h : n ∉ m.map Prod.fst) : menus_lookup m n = Option.none := by
  induction m with
  | nil => rfl
  | cons e m ih =>
    obtain ⟨k, w⟩ := e
    simp only [List.map_cons, List.mem_cons, not_or] at h
    simp [menus_lookup, str_nequal, Ne.symm h.1, ih h.2]

theorem menus_lookup_none_mem (m : List (String × Nat)) (n : String)
    (h : menus_lookup m n = Option.none) : n ∉ m.map Prod.fst := by
  induction m with
  | nil => simp
  | cons e m ih =>
    obtain ⟨k, w⟩ := e
    by_cases hk : k = n
    · simp [menus_lookup, str_nequal, hk] at h
    · simp only [menus_lookup, str_nequal, hk, decide_False, Bool.false_eq_true, if_false] at h
      simp only [List.map_cons, List.mem_cons, not_or]
      exact ⟨Ne.symm hk, ih h⟩

theorem menus_lookup_remove (m : List (String × Nat)) (n : String)
    (hu : (m.map Prod.fst).Nodup) : menus_lookup (menus_remove m n) n = Option.none := by
  induction m with
  | nil => rfl
  | cons e m ih =>
    obtain ⟨k, w⟩ := e
    simp only [List.map_cons, List.nodup_cons] at hu
    by_cases hk : k = n
    · subst hk
      simp [menus_remove, str_nequal, menus_lookup_none m k hu.1]
    · simp [menus_remove, menus_lookup, str_nequal, hk, ih hu.2]

theorem menus_lookup_remove_ne (m : List (String × Nat)) (n other : String)
    (h : other ≠ n) : menus_lookup (menus_remove m n) other = menus_lookup m other := by
  induction m with
  | nil => rfl
  | cons e m ih =>
    obtain ⟨k, w⟩ := e
    by_cases hk : k = n
    · subst hk
      simp [menus_remove, menus_lookup, str_nequal, Ne.symm h]
    · by_cases ho : k = other
      · subst ho
        simp [menus_remove, menus_lookup, str_nequal, hk]
      · simp [menus_remove, menus_lookup, str_nequal, hk, ho, ih]

theorem menus_filter_none (m : List (String × Nat)) (n : String)
    (h : n ∉ m.map Prod.fst) : (m.filter (fun e => str_nequal e.1 n)).length = 0 := by
  induction m with
  | nil => rfl
  | cons e m ih =>
    obtain ⟨k, w⟩ := e
    simp only [List.map_cons, List.mem_cons, not_or] at h
    simp [List.filter, str_nequal, Ne.symm h.1]
    simpa [str_nequal] using ih h.2

theorem menus_filter_some (m : List (String × Nat)) (n : String) (v : Nat)
    (hu : (m.map Prod.fst).Nodup) (h : menus_lookup m n = some v) :
    (m.filter (fun e => str_nequal e.1 n)).length = 1 := by
  induction m with
  | nil => simp [menus_lookup] at h
  | cons e m ih =>
    obtain ⟨k, w⟩ := e
    simp only [List.map_cons, List.nodup_cons] at hu
    by_cases hk : k = n
    · subst hk
      have := menus_filter_none m k hu.1
      simp [List.filter, str_nequal, this]
      simpa [str_nequal] using this
    · simp only [menus_lookup, str_nequal, hk, decide_False, Bool.false_eq_true, if_false] at h
      have := ih hu.2 h
      simp [List.filter, str_nequal, hk]
      simpa [str_nequal] using this

theorem menus_filter_insert (m : List (String × Nat)) (n : String) (v : Nat)
    (h : n ∉ m.map Prod.fst) :
    ((menus_insert m n v).filter (fun e => str_nequal e.1 n)).length = 1 := by
  induction m with
  | nil => simp [menus_insert, List.filter, str_nequal]
  | cons e m ih =>
    obtain ⟨k, w⟩ := e
    simp only [List.map_cons, List.mem_cons, not_or] at h
    have := ih h.2
    simp [menus_insert, List.filter, str_nequal, Ne.symm h.1]
    simpa [str_nequal] using this

theorem menu_new_found (t : MenuTable) (n : String) (v : Nat)
    (h : menu_from_name t (some n) = some v) : menu_new t (some n) = (t, v) := by
  simp [menu_new, h]

theorem menu_new_fresh (t : MenuTable) (n : String)
    (h : menu_from_name t (some n) = Option.none) :
    menu_new t (some n) =
      ({ menus := some (menus_insert (t.menus.getD []) n t.heap.length),
         heap := t.heap ++ [[]] }, t.heap.length) := by
  simp [menu_new, h]

theorem menu_from_name_lookup (t : MenuTable) (n : String) :
    menu_from_name t (some n) = menus_lookup (t.menus.getD []) n := by
  unfold menu_from_name
  rcases t.menus with _ | m
  · rfl
  · rfl

theorem menus_insert_keys (m : List (String × Nat)) (n : String) (v : Nat) :
    ∀ x, x ∈ (menus_insert m n v).map Prod.fst → x = n ∨ x ∈ m.map Prod.fst := by
  induction m with
  | nil =>
    intro x hx
    simp [menus_insert] at hx
    exact Or.inl hx
  | cons e m ih =>
    obtain ⟨k, w⟩ := e
    intro x hx
    by_cases hk : k = n
    · simp only [menus_insert, str_nequal, hk, decide_True, if_true] at hx
      exact Or.inr (by simpa [hk] using hx)
    · simp only [menus_insert, str_nequal, hk, decide_False, Bool.false_eq_true, if_false,
        List.map_cons, List.mem_cons] at hx
      rcases hx with hx | hx
      · exact Or.inr (by simp [hx])
      · rcases ih x hx with h1 | h1
        · exact Or.inl h1
        · exact Or.inr (by simp only [List.map_cons, List.mem_cons]; exact Or.inr h1)

theorem menus_insert_nodup (m : List (String × Nat)) (n : String) (v : Nat)
    (hu : (m.map Prod.fst).Nodup) : ((menus_insert m n v).map Prod.fst).Nodup := by
  induction m with
  | nil => simp [menus_insert]
  | cons e m ih =>
    obtain ⟨k, w⟩ := e
    simp only [List.map_cons, List.nodup_cons] at hu
    by_cases hk : k = n
    · simpa [menus_insert, str_nequal, hk] using hu
    · simp only [menus_insert, str_nequal, hk, decide_False, Bool.false_eq_true, if_false,
        List.map_cons, List.nodup_cons]
      refine ⟨fun hmem => ?_, ih hu.2⟩
      rcases menus_insert_keys m n v k hmem with h1 | h1
      · exact hk h1
      · exact hu.1 h1

theorem menus_remove_keys (m : List (String × Nat)) (n : String) :
    ∀ x, x ∈ (menus_remove m n).map Prod.fst → x ∈ m.map Prod.fst := by
  induction m with
  | nil => intro x hx; exact hx
  | cons e m ih =>
    obtain ⟨k, w⟩ := e
    intro x hx
    by_cases hk : k = n
    · simp only [menus_remove, str_nequal, hk, decide_True, if_true] at hx
      simp only [List.map_cons, List.mem_cons]
      exact Or.inr hx
    · simp only [menus_remove, str_nequal, hk, decide_False, Bool.false_eq_true, if_false,
        List.map_cons, List.mem_cons] at hx
      simp only [List.map_cons, List.mem_cons]
      rcases hx with hx | hx
      · exact Or.inl hx
      · exact Or.inr (ih x hx)

theorem menus_remove_nodup (m : List (String × Nat)) (n : String)
    (hu : (m.map Prod.fst).Nodup) : ((menus_remove m n).map Prod.fst).Nodup := by
  induction m with
  | nil => simp [menus_remove]
  | cons e m ih =>
    obtain ⟨k, w⟩ := e
    simp only [List.map_cons, List.nodup_cons] at hu
    by_cases hk : k = n
    · simpa [menus_remove, str_nequal, hk] using hu.2
    · simp only [menus_remove, str_nequal, hk, decide_False, Bool.false_eq_true, if_false,
        List.map_cons, List.nodup_cons]
      exact ⟨fun hmem => hu.1 (menus_remove_keys m n k hmem), ih hu.2⟩

/-- C30: the menu registry is unique by name.  From every state of `menu.c`
whose table has pairwise different keys, a second `menu_new(n)` returns the
menu of the first and leaves the state as it is; after `menu_new(n)` the table
holds exactly one entry for `n` and `menu_from_name(n)` returns that menu;
`menu_new(NULL)` leaves the table as it is; after `menu_remove(n)`,
`menu_from_name(n)` returns NULL; neither `menu_new(n)` nor `menu_remove(n)`
changes what `menu_from_name` returns for another name; and the keys stay
pairwise different. -/
theorem menu_registry_unique (t : MenuTable) (n other : String) (hu : menus_unique t)
    (hne : other ≠ n) :
    menu_new (menu_new t (some n)).1 (some n) =
      ((menu_new t (some n)).1, (menu_new t (some n)).2) ∧
    menus_entries (menu_new t (some n)).1 n = 1 ∧
    menu_from_name (menu_new t (some n)).1 (some n) = some (menu_new t (some n)).2 ∧
    (menu_new t Option.none).1.menus = t.menus ∧
    menu_from_name (menu_remove t (some n)) (some n) = Option.none ∧
    menu_from_name (menu_remove t (some n)) (some other) = menu_from_name t (some other) ∧
    menu_from_name (menu_new t (some n)).1 (some other) = menu_from_name t (some other) ∧
    menus_unique (menu_new t (some n)).1 ∧ menus_unique (menu_remove t (some n)) := by
  have hfrom : menu_from_name (menu_new t (some n)).1 (some n) =
      some (menu_new t (some n)).2 := by
    rcases hf : menu_from_name t (some n) with _ | v
    · rw [menu_new_fresh t n hf, menu_from_name_lookup]
      exact menus_lookup_insert _ _ _
    · rw [menu_new_found t n v hf]
      exact hf
  have hrem : ∀ x : String, menu_from_name (menu_remove t (some n)) (some x) =
      if x = n then Option.none else menu_from_name t (some x) := by
    intro x
    rcases hm : t.menus with _ | m
    · simp [menu_remove, menu_from_name, hm]
    · have hum : (m.map Prod.fst).Nodup := by simpa [menus_unique, hm] using hu
      rcases hl : menus_lookup m n with _ | v
      · have hnot := menus_lookup_none_mem m n hl
        by_cases hx : x = n
        · simp [menu_remove, menu_from_name, hm, hl, hx]
        · simp [menu_remove, menu_from_name, hm, hl, hx]
      · by_cases hx : x = n
        · subst hx
          simp [menu_remove, menu_from_name, hm, hl, menus_lookup_remove m x hum]
        · simp [menu_remove, menu_from_name, hm, hl, hx, menus_lookup_remove_ne m n x hx]
  refine ⟨?_, ?_, hfrom, ?_, ?_, ?_, ?_, ?_, ?_⟩
  · exact menu_new_found _ n _ hfrom
  · rcases hf : menu_from_name t (some n) with _ | v
    · rw [menu_new_fresh t n hf]
      rw [menu_from_name_lookup] at hf
      exact menus_filter_insert _ n _ (menus_lookup_none_mem _ n hf)
    · rw [menu_new_found t n v hf]
      rw [menu_from_name_lookup] at hf
      exact menus_filter_some _ n v hu hf
  · simp [menu_new]
  · simpa using hrem n
  · simpa [hne] using hrem other
  · rcases hf : menu_from_name t (some n) with _ | v
    · rw [menu_new_fresh t n hf, menu_from_name_lookup, menu_from_name_lookup]
      exact menus_lookup_insert_ne _ n other _ hne
    · rw [menu_new_found t n v hf]
  · rcases hf : menu_from_name t (some n) with _ | v
    · rw [menu_new_fresh t n hf]
      exact menus_insert_nodup _ n _ hu
    · rw [menu_new_found t n v hf]
      exact hu
  · rcases hm : t.menus with _ | m
    · simpa [menu_remove, hm] using hu
    · have hum : (m.map Prod.fst).Nodup := by simpa [menus_unique, hm] using hu
      rcases hl : menus_lookup m n with _ | v
      · simpa [menu_remove, menu_from_name, hm, hl] using hu
      · simpa [menu_remove, menu_from_name, hm, hl, menus_unique] using
          menus_remove_nodup m n hum

/-- C30 (witness): with `main` registered, `menu_new("main")` returns the menu
0, `menu_new("aux")` registers a new menu, and after `menu_remove("main")` the
name `main` is unknown. -/
theorem menu_registry_unique_witness :
    menus_unique menu_table_example ∧ "aux" ≠ "main" ∧
    menu_new menu_table_example (some "main") = (menu_table_example, 0) ∧
    menu_from_name (menu_remove menu_table_example (some "main")) (some "main") =
      Option.none :=
  ⟨by unfold menus_unique; decide, by decide, by decide,
    (menu_registry_unique menu_table_example "main" "aux"
      (by unfold menus_unique; decide) (by decide)).2.2.2.2.1⟩


/-! ## Flow grid: claims C32 and C33 -/

theorem flow_grid_set_rows_oriented (w : Option GtkWidget) (n : Int)
    (h : flow_grid_oriented w) : flow_grid_oriented (flow_grid_set_rows w n) := by
  rcases w with _ | w
  · exact h
  · cases w <;> try exact h
    simp only [flow_grid_set_rows, flow_grid_oriented, flow_grid_divisor]
    by_cases hn : n < 1
    · simp [hn]
    · have : 0 < n := by omega
      simp [hn, this]

theorem flow_grid_set_cols_oriented (w : Option GtkWidget) (n : Int)
    (h : flow_grid_oriented w) : flow_grid_oriented (flow_grid_set_cols w n) := by
  rcases w with _ | w
  · exact h
  · cases w <;> try exact h
    simp only [flow_grid_set_cols, flow_grid_oriented, flow_grid_divisor]
    by_cases hn : n < 1
    · have : ¬ 0 < n := by omega
      simp [hn, this]
    · have : 0 < n := by omega
      simp [hn, this]

/-- C32: starting from `flow_grid_init`, after any sequence of calls of
`flow_grid_set_rows` and `flow_grid_set_cols` with arbitrary integer
arguments the widget is a flow grid in which exactly one of `rows > 0` and
`cols > 0` holds, and the divisor of `flow_grid_attach` is strictly
positive. -/
theorem flow_grid_orientation (calls : List FlowGridCall) :
    ∃ rows cols, calls.foldl FlowGridCall.run flow_grid_init =
        some (GtkWidget.flow_grid rows cols) ∧
      ((0 < rows ∧ ¬ 0 < cols) ∨ (¬ 0 < rows ∧ 0 < cols)) ∧
      0 < flow_grid_divisor rows cols ∧
      flow_grid_divisor rows cols ≠ 0 := by
  have hall : ∀ (cs : List FlowGridCall) (w : Option GtkWidget), flow_grid_oriented w →
      flow_grid_oriented (cs.foldl FlowGridCall.run w) := by
    intro cs
    induction cs with
    | nil => intro w h; exact h
    | cons c cs ih =>
      intro w h
      simp only [List.foldl_cons]
      apply ih
      cases c
      · exact flow_grid_set_rows_oriented w _ h
      · exact flow_grid_set_cols_oriented w _ h
  have h0 : flow_grid_oriented flow_grid_init := by
    simp [flow_grid_init, flow_grid_oriented, flow_grid_divisor]
  have h := hall calls flow_grid_init h0
  rcases hw : calls.foldl FlowGridCall.run flow_grid_init with _ | w
  · rw [hw] at h
    exact absurd h (by simp [flow_grid_oriented])
  · rw [hw] at h
    cases w with
    | flow_grid rows cols => exact ⟨rows, cols, rfl, h.1, h.2, ne_of_gt h.2⟩
    | _ => exact absurd h (by simp [flow_grid_oriented])

theorem to_gint_of_range (x : Int) (h1 : -(2 ^ 31) ≤ x) (h2 : x < 2 ^ 31) : to_gint x = x := by
  unfold to_gint
  rw [Int.emod_eq_of_lt (by omega) (by omega)]
  omega

theorem active_count_cons (w : FlowItem) (ws : List FlowItem) :
    active_count (w :: ws) = (if w.active then 1 else 0) + active_count ws := by
  unfold active_count
  cases h : w.active <;> simp [List.filter, h]
  omega

theorem flow_grid_attach_rows_run (r : Int) (hr : 0 < r) :
    ∀ (ws : List FlowItem) (k : Nat) (g : FlowGridPrivate), g.rows = r →
      ((g.children = [] ∧ k = 0) ∨ (g.children ≠ [] ∧ g.i = k)) →
      k + active_count ws < 2 ^ 31 →
      (ws.foldl flow_grid_attach g).children = g.children ++ cells_down r k ws := by
  intro ws
  induction ws with
  | nil => intro k g _ _ _; simp [cells_down]
  | cons w ws ih =>
    intro k g hrows hinv hk
    rw [active_count_cons] at hk
    simp only [List.foldl_cons]
    cases hw : w.active
    · simp only [hw, Bool.false_eq_true, if_false, Nat.zero_add] at hk
      have hg : flow_grid_attach g w = g := by simp [flow_grid_attach, hw]
      rw [hg, ih k g hrows hinv hk]
      simp [cells_down, hw]
    · simp only [hw, if_true] at hk
      have hi : (if g.children.isEmpty then (0 : Int) else g.i) = (k : Int) := by
        rcases hinv with ⟨h1, h2⟩ | ⟨h1, h2⟩
        · simp [h1, h2]
        · have : g.children.isEmpty = false := by
            cases hc : g.children with
            | nil => exact absurd hc h1
            | cons a b => rfl
          simp [this, h2]
      have hk0 : (0 : Int) ≤ (k : Int) := Int.ofNat_nonneg k
      have hg : flow_grid_attach g w =
          { g with children := g.children ++ [(w.id, (k : Int) / r, (k : Int) % r)],
                   i := ((k + 1 : Nat) : Int) } := by
        have hto : to_gint ((k : Int) + 1) = ((k + 1 : Nat) : Int) := by
          rw [to_gint_of_range _ (by omega) (by push_cast at hk ⊢; omega)]
          push_cast
          rfl
        simp only [flow_grid_attach, hw, Bool.true_eq_false, if_false, hi, hrows, hr,
          gt_iff_lt, if_true, hto, Int.tdiv_eq_ediv hk0 (le_of_lt hr),
          Int.tmod_eq_emod hk0 (le_of_lt hr)]
      rw [hg, ih (k + 1)
        { g with children := g.children ++ [(w.id, (k : Int) / r, (k : Int) % r)],
                 i := ((k + 1 : Nat) : Int) } hrows (Or.inr ⟨by simp, rfl⟩) (by omega)]
      simp [cells_down, hw]

theorem flow_grid_attach_cols_run (c : Int) (hc : 0 < c) :
    ∀ (ws : List FlowItem) (k : Nat) (g : FlowGridPrivate), ¬ 0 < g.rows → g.cols = c →
      ((g.children = [] ∧ k = 0) ∨ (g.children ≠ [] ∧ g.i = k)) →
      k + active_count ws < 2 ^ 31 →
      (ws.foldl flow_grid_attach g).children = g.children ++ cells_across c k ws := by
  intro ws
  induction ws with
  | nil => intro k g _ _ _ _; simp [cells_across]
  | cons w ws ih =>
    intro k g hrows hcols hinv hk
    rw [active_count_cons] at hk
    simp only [List.foldl_cons]
    cases hw : w.active
    · simp only [hw, Bool.false_eq_true, if_false, Nat.zero_add] at hk
      have hg : flow_grid_attach g w = g := by simp [flow_grid_attach, hw]
      rw [hg, ih k g hrows hcols hinv hk]
      simp [cells_across, hw]
    · simp only [hw, if_true] at hk
      have hi : (if g.children.isEmpty then (0 : Int) else g.i) = (k : Int) := by
        rcases hinv with ⟨h1, h2⟩ | ⟨h1, h2⟩
        · simp [h1, h2]
        · have : g.children.isEmpty = false := by
            cases hc : g.children with
            | nil => exact absurd hc h1
            | cons a b => rfl
          simp [this, h2]
      have hk0 : (0 : Int) ≤ (k : Int) := Int.ofNat_nonneg k
      have hg : flow_grid_attach g w =
          { g with children := g.children ++ [(w.id, (k : Int) % c, (k : Int) / c)],
                   i := ((k + 1 : Nat) : Int) } := by
        have hto : to_gint ((k : Int) + 1) = ((k + 1 : Nat) : Int) := by
          rw [to_gint_of_range _ (by omega) (by push_cast at hk ⊢; omega)]
          push_cast
          rfl
        simp only [flow_grid_attach, hw, Bool.true_eq_false, if_false, hi, hcols, hrows,
          gt_iff_lt, if_false, hto, Int.tdiv_eq_ediv hk0 (le_of_lt hc),
          Int.tmod_eq_emod hk0 (le_of_lt hc)]
      rw [hg, ih (k + 1)
        { g with children := g.children ++ [(w.id, (k : Int) % c, (k : Int) / c)],
                 i := ((k + 1 : Nat) : Int) } hrows hcols (Or.inr ⟨by simp, rfl⟩) (by omega)]
      simp [cells_across, hw]

/-- C33: in an empty grid with `rows = r > 0`, attaching a list of items gives
the children of the specification: the `k`-th active item, counted from 0,
stands at column `k / r` and row `k % r`, and inactive items are skipped
without advancing `k`; with `rows <= 0` and `cols = c > 0` the `k`-th active
item stands at column `k % c` and row `k / c`.  The row index `k % r` lies in
`[0, r)` and two different `k` never give the same cell. -/
theorem flow_grid_attach_cells (g : FlowGridPrivate) (ws : List FlowItem)
    (hempty : g.children = []) (hcount : active_count ws < 2 ^ 31) :
    (0 < g.rows →
      (ws.foldl flow_grid_attach g).children = cells_down g.rows 0 ws) ∧
    (¬ 0 < g.rows → 0 < g.cols →
      (ws.foldl flow_grid_attach g).children = cells_across g.cols 0 ws) ∧
    (∀ (r : Int) (k : Nat), 0 < r → 0 ≤ (k : Int) % r ∧ (k : Int) % r < r) ∧
    (∀ (r : Int) (k1 k2 : Nat), 0 < r →
      ((k1 : Int) / r, (k1 : Int) % r) = ((k2 : Int) / r, (k2 : Int) % r) → k1 = k2) := by
  refine ⟨fun hr => ?_, fun hr hc => ?_, fun r k hr => ?_, fun r k1 k2 hr h => ?_⟩
  · have := flow_grid_attach_rows_run g.rows hr ws 0 g rfl (Or.inl ⟨hempty, rfl⟩)
      (by omega)
    rw [this, hempty, List.nil_append]
  · have := flow_grid_attach_cols_run g.cols hc ws 0 g hr rfl (Or.inl ⟨hempty, rfl⟩)
      (by omega)
    rw [this, hempty, List.nil_append]
  · exact ⟨Int.emod_nonneg _ (ne_of_gt hr), Int.emod_lt_of_pos _ hr⟩
  · have h1 := congrArg Prod.fst h
    have h2 := congrArg Prod.snd h
    simp only [] at h1 h2
    have e1 := Int.ediv_add_emod (k1 : Int) r
    have e2 := Int.ediv_add_emod (k2 : Int) r
    rw [h1, h2] at e1
    have : (k1 : Int) = (k2 : Int) := e1.symm.trans e2
    exact_mod_cast this

/-- C33 (witness): with three rows, an active, an inactive and two more active
items are placed at (0,0), (0,1) and (0,2). -/
theorem flow_grid_attach_cells_witness :
    ({ rows := 3, cols := 0, i := 7, children := [] } : FlowGridPrivate).children = [] ∧
    active_count [⟨10, true⟩, ⟨11, false⟩, ⟨12, true⟩, ⟨13, true⟩] < 2 ^ 31 ∧
    ([⟨10, true⟩, ⟨11, false⟩, ⟨12, true⟩, ⟨13, true⟩].foldl flow_grid_attach
      ({ rows := 3, cols := 0, i := 7, children := [] } : FlowGridPrivate)).children =
      [(10, 0, 0), (12, 0, 1), (13, 0, 2)] :=
  ⟨rfl, by decide,
    ((flow_grid_attach_cells { rows := 3, cols := 0, i := 7, children := [] }
      [⟨10, true⟩, ⟨11, false⟩, ⟨12, true⟩, ⟨13, true⟩] rfl (by decide)).1
        (by decide)).trans (by decide)⟩


/-! ## Locations and booleans: claims C34 and C35 -/

theorem MAX_one_le (v : ℚ) : 1 ≤ MAX 1 v := by
  unfold MAX
  split_ifs with h
  · exact le_refl _
  · exact not_lt.mp h

theorem config_get_loc_min (s : State) :
    1 ≤ (config_get_loc s).2.w ∧ 1 ≤ (config_get_loc s).2.h := by
  unfold config_get_loc
  lift_lets
  intro r0 e1 e2 s1 r1 e3 e4 s2 r2 s3 e9 e5 e6 s4 r3 e7 e8 s5 r4 e10
  have hb0 : 1 ≤ r0.w ∧ 1 ≤ r0.h := ⟨le_refl _, le_refl _⟩
  have hb1 : 1 ≤ r1.w ∧ 1 ≤ r1.h := ⟨le_refl _, le_refl _⟩
  have hb2 : 1 ≤ r2.w ∧ 1 ≤ r2.h := ⟨le_refl _, le_refl _⟩
  have hb3 : 1 ≤ r3.w ∧ 1 ≤ r3.h := ⟨MAX_one_le _, le_refl _⟩
  have hb4 : 1 ≤ r4.w ∧ 1 ≤ r4.h := ⟨MAX_one_le _, MAX_one_le _⟩
  clear_value r0 r1 r2 r3 r4 e1 e2 e3 e4 e5 e6 e7 e8 e9 e10 s1 s2 s3 s4 s5
  have key : ∀ (c : Prop) [Decidable c] (a b : State × rect),
      (1 ≤ a.2.w ∧ 1 ≤ a.2.h) → (1 ≤ b.2.w ∧ 1 ≤ b.2.h) →
      (1 ≤ (if c then a else b).2.w ∧ 1 ≤ (if c then a else b).2.h) := by
    intro c _ a b ha hb
    split
    · exact ha
    · exact hb
  exact key _ _ _ hb0 (key _ _ _ hb0 (key _ _ _ hb1 (key _ _ _ hb1 (key _ _ _
    (key _ _ _ hb2 hb2) (key _ _ _ hb2 (key _ _ _ hb2 (key _ _ _ hb3 (key _ _ _ hb3
    (key _ _ _ hb4 hb4)))))))))

/-- C34: every rectangle that `config_get_loc` returns has `w >= 1` and
`h >= 1`, whatever the tokens; and when the parse stops at a token that fits
nowhere (or at the end of the input), an error is reported, the fields parsed
before it hold their parsed values, `w` and `h` raised to at least 1, and the
other fields hold the defaults `x = 0`, `y = 0`, `w = 1`, `h = 1`. -/
theorem config_get_loc_bounds (s : State) (x y w h : ℚ) (tl : List Lexeme)
    (hstop : ∀ t, tl.head? = some t → loc_stopper t) :
    (∀ s0 : State, 1 ≤ (config_get_loc s0).2.w ∧ 1 ≤ (config_get_loc s0).2.h) ∧
    loc_result s tl = ({ x := 0, y := 0, w := 1, h := 1 }, true) ∧
    loc_result s (.chr '(' :: tl) = ({ x := 0, y := 0, w := 1, h := 1 }, true) ∧
    loc_result s (.chr '(' :: .float x :: tl) = ({ x := x, y := 0, w := 1, h := 1 }, true) ∧
    loc_result s (.chr '(' :: .float x :: .chr ',' :: tl) =
      ({ x := x, y := 0, w := 1, h := 1 }, true) ∧
    loc_result s (.chr '(' :: .float x :: .chr ',' :: .float y :: tl) =
      ({ x := x, y := y, w := 1, h := 1 }, true) ∧
    loc_result s (.chr '(' :: .float x :: .chr ',' :: .float y :: .chr ',' :: tl) =
      ({ x := x, y := y, w := 1, h := 1 }, true) ∧
    loc_result s (.chr '(' :: .float x :: .chr ',' :: .float y :: .chr ',' :: .float w :: tl) =
      ({ x := x, y := y, w := MAX 1 w, h := 1 }, true) ∧
    loc_result s (.chr '(' :: .float x :: .chr ',' :: .float y :: .chr ',' :: .float w ::
        .chr ',' :: tl) = ({ x := x, y := y, w := MAX 1 w, h := 1 }, true) ∧
    loc_result s (.chr '(' :: .float x :: .chr ',' :: .float y :: .chr ',' :: .float w ::
        .chr ',' :: .float h :: tl) = ({ x := x, y := y, w := MAX 1 w, h := MAX 1 h }, true) := by
  refine ⟨config_get_loc_min, ?_⟩
  rcases tl with _ | ⟨t, rest⟩
  · simp [loc_result, config_get_loc, config_expect_token, g_scanner_peek_next_token,
      g_scanner_get_next_token, Lexeme.token, Token.code, G_TOKEN_FLOAT, Token.v_float,
      g_scanner_error, config_log_error]
  · obtain ⟨h1, h2, h3, h4, h5⟩ := hstop t rfl
    have g1 : ¬ (t.token.code = 263) := h1
    have g2 : ¬ (t.token.code = 44) := h2
    have g3 : ¬ (t.token.code = 40) := h3
    have g4 : ¬ (t.token.code = 41) := h4
    have hn := lexeme_token_ne_none t
    clear h1 h2 h3 h4 hstop
    cases t <;>
    simp_all [loc_result, config_get_loc, config_expect_token, g_scanner_peek_next_token,
      g_scanner_get_next_token, Lexeme.token, Token.code, G_TOKEN_FLOAT, Token.v_float,
      g_scanner_error, config_log_error]

/-- C34 (witness): `loc(3,4,0 z` stops at `z` behind the width: the rectangle
is `x = 3`, `y = 4`, the width raised to 1 and the default height. -/
theorem config_get_loc_bounds_witness :
    (∀ t, [Lexeme.ident "z"].head? = some t → loc_stopper t) ∧
    loc_result (State.init [])
        (.chr '(' :: .float 3 :: .chr ',' :: .float 4 :: .chr ',' :: .float 0 ::
          [Lexeme.ident "z"]) =
      ({ x := 3, y := 4, w := MAX 1 0, h := 1 }, true) :=
  ⟨fun t ht => by
      simp at ht
      subst ht
      unfold loc_stopper
      decide,
    (config_get_loc_bounds (State.init []) 3 4 0 0 [Lexeme.ident "z"]
      (fun t ht => by
        simp at ht
        subst ht
        unfold loc_stopper
        decide)).2.2.2.2.2.2.2.1⟩

/-- C35 (behaviour of the code): when the `=` is missing (the next token is
`\x7d`, or the input has ended), `config_assign_boolean` reports the error and
returns FALSE, whatever the default passed in; on `= True` it returns TRUE, on
`= False` FALSE, and on `=` followed by an identifier it reports the error
and returns the default. -/
theorem config_assign_boolean_missing_assign (s : State) (dflt : Bool) (expr x : String)
    (rest : List Lexeme) :
    config_assign_boolean { s with next_token := .none, input := (.chr '}' :: rest) } dflt expr =
      (g_scanner_error
        { s with max_parse_errors := false, next_token := .chr '}', input := rest }
        ("Missing '=' in " ++ expr ++ " = <boolean>"), false) ∧
    config_assign_boolean { s with next_token := .none, input := [] } dflt expr =
      (g_scanner_error
        { s with max_parse_errors := false, next_token := .eof, input := [] }
        ("Missing '=' in " ++ expr ++ " = <boolean>"), false) ∧
    (config_assign_boolean
      { s with next_token := .none, input := (.chr '}' :: rest) } true expr).2 = false ∧
    (config_assign_boolean
      { s with next_token := .none, input := (.chr '=' :: .kw G_TOKEN_TRUE :: rest) }
      dflt expr).2 = true ∧
    (config_assign_boolean
      { s with next_token := .none, input := (.chr '=' :: .kw G_TOKEN_FALSE :: rest) }
      dflt expr).2 = false ∧
    config_assign_boolean
        { s with next_token := .none, input := (.chr '=' :: .ident x :: rest) } dflt expr =
      (config_optional_semicolon
        (g_scanner_error
          { s with max_parse_errors := false, token := .ident x, next_token := .none,
                   input := rest }
          ("Missing <boolean> in " ++ expr ++ " = <boolean>")), dflt) := by
  refine ⟨?_, ?_, ?_, ?_, ?_, ?_⟩ <;>
  simp [config_assign_boolean, config_expect_token, g_scanner_peek_next_token,
    g_scanner_get_next_token, Lexeme.token, Token.code]


/-! ## Pager, menu items and quoting: claims C36 to C39 -/

/-- C36 (behaviour of the code): in numeric sort mode the difference of the
two values is cut to 32 bits: for the workspaces `4294967296` and `0` the
result is 0, as if they were equal, and for `2147483648` and `0` it is
negative, as if the first came before the second; the sign is that of the
difference of the values whenever the difference fits a `gint`. -/
theorem taskbar_pager_compare_truncates (cmp : Int) :
    taskbar_pager_compare true 4294967296 0 cmp = 0 ∧
    taskbar_pager_compare true 2147483648 0 cmp = -2147483648 ∧
    taskbar_pager_compare true 2147483648 0 cmp < 0 ∧
    taskbar_pager_compare true 0 2147483649 cmp > 0 ∧
    ∀ n1 n2 : Int, -(2 ^ 31) ≤ n1 - n2 → n1 - n2 < 2 ^ 31 →
      taskbar_pager_compare true n1 n2 cmp = n1 - n2 := by
  refine ⟨by simp [taskbar_pager_compare, to_gint, to_gint64],
    by simp [taskbar_pager_compare, to_gint, to_gint64],
    by simp [taskbar_pager_compare, to_gint, to_gint64],
    by simp [taskbar_pager_compare, to_gint, to_gint64], ?_⟩
  intro n1 n2 h1 h2
  have e64 : to_gint64 (n1 - n2) = n1 - n2 := by
    unfold to_gint64
    rw [Int.emod_eq_of_lt (by omega) (by omega)]
    omega
  have e32 : to_gint (n1 - n2) = n1 - n2 := by
    unfold to_gint
    rw [Int.emod_eq_of_lt (by omega) (by omega)]
    omega
  simp [taskbar_pager_compare, e64, e32]

/-- C36 (witness): for the workspaces `10` and `9` the result is 1. -/
theorem taskbar_pager_compare_truncates_witness :
    -(2 ^ 31) ≤ (10 : Int) - 9 ∧ (10 : Int) - 9 < 2 ^ 31 ∧
    taskbar_pager_compare true 10 9 0 = 10 - 9 :=
  ⟨by decide, by decide,
    (taskbar_pager_compare_truncates 0).2.2.2.2 10 9 (by decide) (by decide)⟩

/-- C38 (behaviour of the code): `taskbar_pager_decorate` destroys the button
without clearing the field: after `decorate(TRUE)`, `decorate(FALSE)` the
pointer is still set, to a destroyed button, although `labels` is FALSE; the
third call `decorate(TRUE)` then returns at once, so the holder ends without
a live button.  A button created by `decorate(TRUE)` is live, and a repeated
`decorate(TRUE)` changes nothing. -/
theorem taskbar_pager_decorate_keeps_pointer (icons : Bool) :
    (taskbar_pager_decorate (taskbar_pager_decorate taskbar_pager_init true icons)
      false icons).button = some 0 ∧
    has_live_button (taskbar_pager_decorate (taskbar_pager_decorate taskbar_pager_init
      true icons) false icons) = false ∧
    taskbar_pager_decorate (taskbar_pager_decorate (taskbar_pager_decorate taskbar_pager_init
      true icons) false icons) true icons =
      { button := some 0, buttons := [false] } ∧
    has_live_button (taskbar_pager_decorate (taskbar_pager_decorate
      (taskbar_pager_decorate taskbar_pager_init true icons) false icons) true icons) =
      false ∧
    has_live_button (taskbar_pager_decorate taskbar_pager_init true icons) = true ∧
    ∀ priv : TaskbarPagerPrivate,
      taskbar_pager_decorate (taskbar_pager_decorate priv true icons) true icons =
        taskbar_pager_decorate priv true icons := by
  refine ⟨rfl, rfl, rfl, rfl, rfl, ?_⟩
  intro priv
  rcases priv with ⟨_ | b, bs⟩ <;> simp [taskbar_pager_decorate]

theorem strchr_some (c : Char) : ∀ (l r : List Char), strchr l c = some r →
    ∃ pre, l = pre ++ r ∧ c ∉ pre ∧ r.head? = some c := by
  intro l
  induction l with
  | nil => intro r h; simp [strchr] at h
  | cons x xs ih =>
    intro r h
    by_cases hx : x = c
    · simp only [strchr, hx, if_true, Option.some.injEq] at h
      exact ⟨[], by simp [← h, hx], by simp, by simp [← h]⟩
    · simp only [strchr, hx, if_false] at h
      obtain ⟨pre, h1, h2, h3⟩ := ih r h
      refine ⟨x :: pre, by simp [h1], ?_, h3⟩
      simp only [List.mem_cons, not_or]
      exact ⟨fun hc => hx hc.symm, h2⟩

theorem strchr_none (c : Char) : ∀ l : List Char, c ∉ l → strchr l c = Option.none := by
  intro l
  induction l with
  | nil => intro _; rfl
  | cons x xs ih =>
    intro h
    simp only [List.mem_cons, not_or] at h
    simp [strchr, Ne.symm h.1, ih h.2]

theorem strchr_mem (c : Char) : ∀ l : List Char, c ∈ l → ∃ r, strchr l c = some r := by
  intro l
  induction l with
  | nil => intro h; simp at h
  | cons x xs ih =>
    intro h
    by_cases hx : x = c
    · exact ⟨x :: xs, by simp [strchr, hx]⟩
    · simp only [List.mem_cons] at h
      rcases h with h | h
      · exact absurd h.symm hx
      · obtain ⟨r, hr⟩ := ih h
        exact ⟨r, by simp [strchr, hx, hr]⟩

/-- C37: when the label contains `%`, `menu_item_new` passes as text the part
of the label in front of the first `%`, which contains no `%`, and as icon
everything behind that `%`, so that text, `%` and icon together are the
label; when the label contains no `%`, the text is the whole label and the
icon is `NULL`. -/
theorem menu_item_new_split (label : List Char) :
    ('%' ∈ label →
      ∃ icon, (menu_item_new label).2 = some icon ∧
        (menu_item_new label).1 ++ '%' :: icon = label ∧ '%' ∉ (menu_item_new label).1) ∧
    ('%' ∉ label → menu_item_new label = (label, Option.none)) := by
  constructor
  · intro h
    obtain ⟨r, hr⟩ := strchr_mem '%' label h
    obtain ⟨pre, h1, h2, h3⟩ := strchr_some '%' label r hr
    rcases r with _ | ⟨x, tl⟩
    · simp at h3
    · simp only [List.head?_cons, Option.some.injEq] at h3
      subst h3
      have htake : label.take (label.length - ('%' :: tl).length) = pre := by
        rw [h1]
        simp
      refine ⟨tl, ?_, ?_, ?_⟩
      · simp [menu_item_new, hr]
      · simp only [menu_item_new, hr, htake]
        exact h1.symm
      · simp only [menu_item_new, hr, htake]
        exact h2
  · intro h
    simp [menu_item_new, strchr_none '%' label h]

/-- C37 (witness): the label `Quit%exit` gives the text `Quit` and the icon
`exit`; the label `Quit` gives the text `Quit` and no icon. -/
theorem menu_item_new_split_witness :
    '%' ∈ "Quit%exit".data ∧ '%' ∉ "Quit".data ∧
    menu_item_new "Quit%exit".data = ("Quit".data, some "exit".data) ∧
    menu_item_new "Quit".data = ("Quit".data, Option.none) :=
  ⟨by decide, by decide, by decide, (menu_item_new_split "Quit".data).2 (by decide)⟩

theorem buffer_write_end (pre : List Char) (p : Char) (ps : List Char) (c : Char) :
    buffer_write (pre ++ p :: ps) pre.length c = some (pre ++ c :: ps) := by
  simp [buffer_write]

theorem escape_quotes_length (s : List Char) :
    (escape_quotes s).length = s.length + count_quotes s := by
  induction s with
  | nil => rfl
  | cons c cs ih =>
    by_cases h : c = dquote
    · simp [escape_quotes, count_quotes, h, ih]
      omega
    · simp [escape_quotes, count_quotes, h, ih]
      omega

theorem config_value_string_loop_run : ∀ (cs pre pad : List Char),
    (escape_quotes cs).length ≤ pad.length →
    config_value_string_loop cs (pre ++ pad) pre.length =
      some (pre ++ escape_quotes cs ++ pad.drop (escape_quotes cs).length,
        pre.length + (escape_quotes cs).length) := by
  intro cs
  induction cs with
  | nil => intro pre pad _; simp [config_value_string_loop, escape_quotes]
  | cons c cs ih =>
    intro pre pad hlen
    by_cases h : c = dquote
    · subst h
      simp only [escape_quotes, if_true, List.length_cons] at hlen ⊢
      rcases pad with _ | ⟨p1, _ | ⟨p2, ps⟩⟩
      · simp at hlen
      · simp at hlen
      · have hps : (escape_quotes cs).length ≤ ps.length := by simp at hlen; omega
        have w1 := buffer_write_end pre p1 (p2 :: ps) backslash
        have w2 : buffer_write (pre ++ backslash :: p2 :: ps) (pre.length + 1) dquote =
            some (pre ++ backslash :: dquote :: ps) := by
          have := buffer_write_end (pre ++ [backslash]) p2 ps dquote
          simpa using this
        have hrec : config_value_string_loop cs (pre ++ backslash :: dquote :: ps)
            (pre.length + 2) =
            some (pre ++ backslash :: dquote ::
                (escape_quotes cs ++ ps.drop (escape_quotes cs).length),
              pre.length + 2 + (escape_quotes cs).length) := by
          have := ih (pre ++ [backslash, dquote]) ps hps
          simpa using this
        simp only [config_value_string_loop, if_true, w1, Option.some_bind, w2, hrec]
        simp
        omega
    · simp only [escape_quotes, h, if_false, List.length_cons] at hlen ⊢
      rcases pad with _ | ⟨p1, ps⟩
      · simp at hlen
      · have hps : (escape_quotes cs).length ≤ ps.length := by simp at hlen; omega
        have w1 := buffer_write_end pre p1 ps c
        have hrec : config_value_string_loop cs (pre ++ c :: ps) (pre.length + 1) =
            some (pre ++ c :: (escape_quotes cs ++ ps.drop (escape_quotes cs).length),
              pre.length + 1 + (escape_quotes cs).length) := by
          have := ih (pre ++ [c]) ps hps
          simpa using this
        simp only [config_value_string_loop, h, if_false, w1, Option.some_bind, hrec]
        simp
        omega

theorem escape_quotes_join (s : List Char) :
    escape_quotes s =
      (s.map (fun c => if c = dquote then [backslash, c] else [c])).flatten := by
  induction s with
  | nil => rfl
  | cons c cs ih =>
    by_cases h : c = dquote
    · simp [escape_quotes, h, ih]
    · simp [escape_quotes, h, ih]

theorem config_value_string_buffer_run (fill : Char) (dest string : List Char) :
    config_value_string_buffer fill dest string =
      some (dest ++ [dquote] ++ escape_quotes string ++ [dquote, Char.ofNat 0]) := by
  have hlen := escape_quotes_length string
  have hrep : List.replicate (dest.length + string.length + count_quotes string + 3 -
      dest.length) fill =
      fill :: List.replicate (string.length + count_quotes string + 2) fill := by
    rw [show dest.length + string.length + count_quotes string + 3 - dest.length =
      (string.length + count_quotes string + 2) + 1 by omega, List.replicate_succ]
  have w1 := buffer_write_end dest fill
    (List.replicate (string.length + count_quotes string + 2) fill) dquote
  have hloop := config_value_string_loop_run string (dest ++ [dquote])
    (List.replicate (string.length + count_quotes string + 2) fill)
    (by simp [hlen])
  have hdrop : (List.replicate (string.length + count_quotes string + 2) fill).drop
      (escape_quotes string).length = [fill, fill] := by
    rw [hlen, List.drop_replicate]
    simp [List.replicate]
  rw [hdrop] at hloop
  simp only [List.length_append, List.length_singleton, List.append_assoc,
    List.singleton_append] at hloop
  have w2 : buffer_write (dest ++ (dquote :: escape_quotes string ++ [fill, fill]))
      (dest.length + 1 + (escape_quotes string).length) dquote =
      some (dest ++ (dquote :: escape_quotes string ++ [dquote, fill])) := by
    have := buffer_write_end (dest ++ dquote :: escape_quotes string) fill [fill] dquote
    have hl : (dest ++ dquote :: escape_quotes string).length =
        dest.length + 1 + (escape_quotes string).length := by
      simp
      omega
    rw [hl] at this
    simpa using this
  have w3 : buffer_write (dest ++ (dquote :: escape_quotes string ++ [dquote, fill]))
      (dest.length + 1 + (escape_quotes string).length + 1) (Char.ofNat 0) =
      some (dest ++ (dquote :: escape_quotes string ++ [dquote, Char.ofNat 0])) := by
    have := buffer_write_end (dest ++ dquote :: escape_quotes string ++ [dquote]) fill []
      (Char.ofNat 0)
    have hl : (dest ++ dquote :: escape_quotes string ++ [dquote]).length =
        dest.length + 1 + (escape_quotes string).length + 1 := by
      simp
      omega
    rw [hl] at this
    simpa using this
  unfold config_value_string_buffer
  simp only [hrep, w1, Option.some_bind, hloop, w2, w3]
  simp

/-- C39: written into a buffer of `len(dest) + len(s) + q + 3` bytes, where
`q` is the number of `"` in `s`, with every write checked against the size of
the buffer, `config_value_string` stays inside the buffer and fills it
exactly with `dest`, a `"`, the characters of `s` with one backslash put in
front of each `"` and no other character changed, a `"` and the terminating
zero byte; the text in front of the terminator is the string given by the
function on strings, and its length is `len(dest) + len(s) + q + 2`. -/
theorem config_value_string_fits (fill : Char) (dest string : String) :
    config_value_string_buffer fill dest.data string.data =
      some ((config_value_string dest string).data ++ [Char.ofNat 0]) ∧
    (config_value_string dest string).data =
      dest.data ++ [dquote] ++
        ((string.data.map (fun c => if c = dquote then [backslash, c] else [c])).flatten) ++
        [dquote] ∧
    (config_value_string dest string).data.length =
      dest.data.length + string.data.length + count_quotes string.data + 2 ∧
    ((config_value_string dest string).data ++ [Char.ofNat 0]).length =
      dest.data.length + string.data.length + count_quotes string.data + 3 := by
  have hdata : (config_value_string dest string).data =
      dest.data ++ [dquote] ++ escape_quotes string.data ++ [dquote] := by
    simp [config_value_string, String.data_append]
  have hlen := escape_quotes_length string.data
  refine ⟨?_, ?_, ?_, ?_⟩
  · rw [config_value_string_buffer_run, hdata]
    simp
  · rw [hdata, escape_quotes_join]
  · rw [hdata]
    simp [hlen]
    omega
  · rw [hdata]
    simp [hlen]
    omega


/-! ## Termination: claim C31 -/

section

set_option linter.unreachableTactic false
set_option linter.unusedTactic false
set_option linter.unnecessarySeqFocus false

theorem config_get_pins_loop_succ (n : Nat) (s : State) :
    config_get_pins_loop (n + 1) s =
      if (config_expect_token (g_scanner_get_next_token s) G_TOKEN_STRING
          "expecting a string in pins = string [,string]").2 = false then
        (config_expect_token (g_scanner_get_next_token s) G_TOKEN_STRING
          "expecting a string in pins = string [,string]").1
      else if (g_scanner_peek_next_token
          { g_scanner_get_next_token (config_expect_token (g_scanner_get_next_token s)
              G_TOKEN_STRING "expecting a string in pins = string [,string]").1 with
            calls := (g_scanner_get_next_token (config_expect_token
                (g_scanner_get_next_token s) G_TOKEN_STRING
                "expecting a string in pins = string [,string]").1).calls ++
              [Call.pager_add_pin (g_scanner_get_next_token (config_expect_token
                (g_scanner_get_next_token s) G_TOKEN_STRING
                "expecting a string in pins = string [,string]").1).token.v_string] }).next_token =
          .chr ',' then
        config_get_pins_loop n (g_scanner_peek_next_token
          { g_scanner_get_next_token (config_expect_token (g_scanner_get_next_token s)
              G_TOKEN_STRING "expecting a string in pins = string [,string]").1 with
            calls := (g_scanner_get_next_token (config_expect_token
                (g_scanner_get_next_token s) G_TOKEN_STRING
                "expecting a string in pins = string [,string]").1).calls ++
              [Call.pager_add_pin (g_scanner_get_next_token (config_expect_token
                (g_scanner_get_next_token s) G_TOKEN_STRING
                "expecting a string in pins = string [,string]").1).token.v_string] })
      else g_scanner_peek_next_token
          { g_scanner_get_next_token (config_expect_token (g_scanner_get_next_token s)
              G_TOKEN_STRING "expecting a string in pins = string [,string]").1 with
            calls := (g_scanner_get_next_token (config_expect_token
                (g_scanner_get_next_token s) G_TOKEN_STRING
                "expecting a string in pins = string [,string]").1).calls ++
              [Call.pager_add_pin (g_scanner_get_next_token (config_expect_token
                (g_scanner_get_next_token s) G_TOKEN_STRING
                "expecting a string in pins = string [,string]").1).token.v_string] } := rfl

theorem config_switcher_loop_succ (n : Nat) (p : Switcher) :
    config_switcher_loop (n + 1) p =
      if (g_scanner_peek_next_token p.s).next_token ≠ .chr '}' ∧
          (g_scanner_peek_next_token p.s).next_token ≠ .eof then
        config_switcher_loop n
          (config_switcher_switch p (g_scanner_get_next_token (g_scanner_peek_next_token p.s)))
      else { p with s := g_scanner_peek_next_token p.s } := rfl

theorem config_function_loop_succ (H : Header) (n : Nat) (s : State)
    (actions : List layout_action) :
    config_function_loop H (n + 1) s actions =
      if s.next_token ≠ .eof ∧ s.next_token ≠ .chr '}' then
        config_function_loop H n (config_function_item H s actions).1
          (config_function_item H s actions).2
      else (s, actions) := rfl

theorem pending_token (t : Lexeme) : pending t.token = [t.token] := by
  cases t <;> simp [pending, Lexeme.token]

theorem stream_peek (s : State) : stream (g_scanner_peek_next_token s) = stream s := by
  unfold g_scanner_peek_next_token stream
  split
  · rename_i h
    split
    · rename_i h2
      simp [h, h2, pending]
    · rename_i t rest h2
      simp [h, h2, pending_token]
      simp [pending]
  · rfl

theorem remaining_peek (s : State) : remaining (g_scanner_peek_next_token s) = remaining s := by
  unfold remaining
  rw [stream_peek]

theorem peek_next_ne_none (s : State) : (g_scanner_peek_next_token s).next_token ≠ .none := by
  unfold g_scanner_peek_next_token
  split
  · split
    · simp
    · rename_i t rest h2
      cases t <;> simp [Lexeme.token]
  · rename_i h
    exact fun e => h e

theorem peek_of_next (s : State) (h : s.next_token ≠ .none) : g_scanner_peek_next_token s = s := by
  unfold g_scanner_peek_next_token
  split
  · rename_i h2
    exact absurd h2 h
  · rfl

theorem peek_peek (s : State) :
    g_scanner_peek_next_token (g_scanner_peek_next_token s) = g_scanner_peek_next_token s :=
  peek_of_next _ (peek_next_ne_none s)

theorem follows_refl (s : State) : follows s s := ⟨List.suffix_refl _⟩

theorem follows_trans {a b c : State} (h1 : follows a b) (h2 : follows b c) : follows a c :=
  ⟨List.IsSuffix.trans h1.suffix h2.suffix⟩

theorem follows_of_stream {a b : State} (h : stream a = stream b) : follows a b := by
  constructor
  rw [h]

theorem follows_le {a b : State} (h : follows a b) : remaining a ≤ remaining b :=
  List.IsSuffix.length_le h.suffix

theorem advances_of_follows {a b c : State} (h1 : follows a b) (h2 : advances b c) :
    advances a c :=
  ⟨follows_trans h1 h2.after, lt_of_le_of_lt (follows_le h1) h2.fewer⟩

theorem advances_then_follows {a b c : State} (h1 : advances a b) (h2 : follows b c) :
    advances a c :=
  ⟨follows_trans h1.after h2, lt_of_lt_of_le h1.fewer (follows_le h2)⟩

theorem stream_get (s : State) :
    stream (g_scanner_get_next_token s) = s.input.map Lexeme.token ∨
    stream (g_scanner_get_next_token s) = (s.input.map Lexeme.token).tail ∧
      s.next_token = .none := by
  unfold g_scanner_get_next_token stream
  split
  · rename_i h
    split
    · rename_i h2
      simp [h, h2, pending]
    · rename_i t rest h2
      right
      simp [h, h2, pending]
  · left
    simp [pending]

theorem follows_get_self (s : State) : follows (g_scanner_get_next_token s) s := by
  constructor
  rcases stream_get s with h | ⟨h, _⟩
  · rw [h]
    exact List.suffix_append _ _
  · rw [h]
    exact (List.tail_suffix _).trans (List.suffix_append _ _)

theorem advances_get_self (s : State) (h1 : s.next_token ≠ .none) (h2 : s.next_token ≠ .eof) :
    advances (g_scanner_get_next_token s) s := by
  refine ⟨follows_get_self s, ?_⟩
  unfold remaining
  rcases stream_get s with h | ⟨_, h⟩
  · rw [h]
    simp [stream, pending, h1, h2]
  · exact absurd h h1

theorem remaining_zero_peek (s : State) (h : remaining s = 0) :
    (g_scanner_peek_next_token s).next_token = .eof := by
  have hs : stream s = [] := List.length_eq_zero.mp h
  unfold stream at hs
  have h1 := List.append_eq_nil.mp hs
  unfold g_scanner_peek_next_token
  split
  · rename_i hn
    have : s.input = [] := by simpa using h1.2
    simp [this]
  · rename_i hn
    have h3 := h1.1
    unfold pending at h3
    split at h3
    · rename_i h4
      rcases h4 with h4 | h4
      · exact absurd h4 hn
      · exact h4
    · simp at h3

theorem remaining_pos (s : State) (h1 : s.next_token ≠ .none) (h2 : s.next_token ≠ .eof) :
    0 < remaining s := by
  simp [remaining, stream, pending, h1, h2]

theorem remaining_le_input (s : State) : remaining s ≤ s.input.length + 1 := by
  unfold remaining stream pending
  split <;> simp

theorem token_get_mem (s : State) (h1 : s.next_token ≠ .none) (h2 : s.next_token ≠ .eof) :
    (g_scanner_get_next_token s).token ∈ stream s := by
  unfold g_scanner_get_next_token
  split
  · rename_i h
    exact absurd h h1
  · simp [stream, pending, h1, h2]

theorem follows_get {s1 s : State} (h : follows s1 s) : follows (g_scanner_get_next_token s1) s :=
  follows_trans (follows_get_self s1) h

theorem follows_peek {s1 s : State} (h : follows s1 s) :
    follows (g_scanner_peek_next_token s1) s :=
  follows_trans (follows_of_stream (stream_peek s1)) h

theorem stream_log_error (s : State) (m : String) (e : Bool) :
    stream (config_log_error s m e) = stream s := by
  unfold config_log_error stream
  split
  · split <;> rfl
  · rfl

theorem stream_error (s : State) (m : String) : stream (g_scanner_error s m) = stream s :=
  stream_log_error s m true

theorem follows_error {s1 s : State} (m : String) (h : follows s1 s) :
    follows (g_scanner_error s1 m) s :=
  follows_trans (follows_of_stream (stream_log_error s1 m true)) h

theorem follows_expect {s1 s : State} (t : Nat) (m : String) (h : follows s1 s) :
    follows (config_expect_token s1 t m).1 s := by
  unfold config_expect_token
  simp only []
  split
  · exact follows_trans (follows_of_stream (stream_peek s1)) h
  · exact follows_trans (follows_of_stream (stream_log_error _ _ true))
      (follows_trans (follows_of_stream (stream_peek s1)) h)

theorem follows_semicolon {s1 s : State} (h : follows s1 s) :
    follows (config_optional_semicolon s1) s := by
  unfold config_optional_semicolon
  simp only []
  split
  · exact follows_get (follows_peek h)
  · exact follows_peek h

theorem follows_mk {s1 s : State} (tok : Token) (e : Bool) (ms : List String)
    (d : Option (List (String × String))) (f : List scan_file) (fl : List Nat) (c : List Call)
    (mh : List (List MenuEntry)) (mn : List (String × Nat)) (h : follows s1 s) :
    follows ⟨s1.input, tok, s1.next_token, e, ms, d, f, fl, c, mh, mn⟩ s := ⟨h.suffix⟩

theorem follows_ite {c : Prop} [Decidable c] {a b s : State}
    (h1 : c → follows a s) (h2 : ¬ c → follows b s) : follows (if c then a else b) s := by
  split
  · exact h1 ‹_›
  · exact h2 ‹_›

theorem follows_ite_fst {α : Type} {c : Prop} [Decidable c] {a b : State × α} {s : State}
    (h1 : c → follows a.1 s) (h2 : ¬ c → follows b.1 s) :
    follows (if c then a else b).1 s := by
  split
  · exact h1 ‹_›
  · exact h2 ‹_›

theorem follows_ite_cond {c : Prop} [Decidable c] {a b : CondState} {s : State}
    (h1 : c → follows a.s s) (h2 : ¬ c → follows b.s s) :
    follows (if c then a else b).s s := by
  split
  · exact h1 ‹_›
  · exact h2 ‹_›

theorem follows_ite_action {c : Prop} [Decidable c] {a b : ActionResult} {s : State}
    (h1 : c → follows a.s s) (h2 : ¬ c → follows b.s s) :
    follows (if c then a else b).s s := by
  split
  · exact h1 ‹_›
  · exact h2 ‹_›

theorem follows_ite_props {c : Prop} [Decidable c] {a b : Props} {s : State}
    (h1 : c → follows a.s s) (h2 : ¬ c → follows b.s s) :
    follows (if c then a else b).s s := by
  split
  · exact h1 ‹_›
  · exact h2 ‹_›

theorem follows_ite_switcher {c : Prop} [Decidable c] {a b : Switcher} {s : State}
    (h1 : c → follows a.s s) (h2 : ¬ c → follows b.s s) :
    follows (if c then a else b).s s := by
  split
  · exact h1 ‹_›
  · exact h2 ‹_›

theorem follows_ite_placer {c : Prop} [Decidable c] {a b : Placer} {s : State}
    (h1 : c → follows a.s s) (h2 : ¬ c → follows b.s s) :
    follows (if c then a else b).s s := by
  split
  · exact h1 ‹_›
  · exact h2 ‹_›

theorem follows_ite_head {c : Prop} [Decidable c] {a b : MenuHead} {s : State}
    (h1 : c → follows a.s s) (h2 : ¬ c → follows b.s s) :
    follows (if c then a else b).s s := by
  split
  · exact h1 ‹_›
  · exact h2 ‹_›


attribute [local irreducible] g_scanner_get_next_token g_scanner_peek_next_token g_scanner_error config_expect_token config_optional_semicolon

set_option maxRecDepth 4000 in
theorem config_scanner_var_flag_follows (H : Header) (s1 : State) (type : Nat) {s : State}
    (h : follows s1 s) :
    follows (config_scanner_var_flag H s1 type).1 s := by
  unfold config_scanner_var_flag
  try lift_lets
  intros
  repeat (first
    | (apply follows_ite_fst <;> intro _)
    | (apply follows_ite <;> intro _)
    | (apply follows_ite_cond <;> intro _)
    | (apply follows_ite_action <;> intro _)
    | (apply follows_ite_props <;> intro _)
    | (apply follows_ite_switcher <;> intro _)
    | (apply follows_ite_placer <;> intro _)
    | (apply follows_ite_head <;> intro _)
    | exact h
    | apply follows_get
    | apply follows_peek
    | apply follows_error
    | apply follows_expect
    | apply follows_semicolon
    | fail_if_no_progress apply follows_mk
    | fail_if_no_progress dsimp only)

attribute [local irreducible] config_scanner_var_flag

set_option maxRecDepth 4000 in
theorem config_scanner_var_follows (H : Header) (s1 : State) (file : Nat) {s : State}
    (h : follows s1 s) :
    follows (config_scanner_var H s1 file) s := by
  unfold config_scanner_var
  try lift_lets
  intros
  repeat (first
    | (apply follows_ite_fst <;> intro _)
    | (apply follows_ite <;> intro _)
    | (apply follows_ite_cond <;> intro _)
    | (apply follows_ite_action <;> intro _)
    | (apply follows_ite_props <;> intro _)
    | (apply follows_ite_switcher <;> intro _)
    | (apply follows_ite_placer <;> intro _)
    | (apply follows_ite_head <;> intro _)
    | exact h
    | apply follows_get
    | apply follows_peek
    | apply follows_error
    | apply follows_expect
    | apply follows_semicolon
    | apply config_scanner_var_flag_follows
    | fail_if_no_progress apply follows_mk
    | fail_if_no_progress dsimp only)

attribute [local irreducible] config_scanner_var

set_option maxRecDepth 4000 in
theorem config_scanner_source_flag_follows (s1 : State) (flags : Nat) (fname : String) {s : State}
    (h : follows s1 s) :
    follows (config_scanner_source_flag s1 flags fname).1 s := by
  unfold config_scanner_source_flag
  try lift_lets
  intros
  repeat (first
    | (apply follows_ite_fst <;> intro _)
    | (apply follows_ite <;> intro _)
    | (apply follows_ite_cond <;> intro _)
    | (apply follows_ite_action <;> intro _)
    | (apply follows_ite_props <;> intro _)
    | (apply follows_ite_switcher <;> intro _)
    | (apply follows_ite_placer <;> intro _)
    | (apply follows_ite_head <;> intro _)
    | exact h
    | apply follows_get
    | apply follows_peek
    | apply follows_error
    | apply follows_expect
    | apply follows_semicolon
    | fail_if_no_progress apply follows_mk
    | fail_if_no_progress dsimp only)

attribute [local irreducible] config_scanner_source_flag

set_option maxRecDepth 4000 in
theorem config_scanner_source_flags_follows  (n : Nat) : ∀ (s1 : State) (flags : Nat) (fname : String) {s : State},
    follows s1 s → follows (config_scanner_source_flags n s1 flags fname).1 s := by
  induction n with
  | zero =>
    intro s1 flags fname s h
    unfold config_scanner_source_flags
    repeat (first
      | (apply follows_ite_fst <;> intro _)
      | (apply follows_ite <;> intro _)
      | (apply follows_ite_cond <;> intro _)
      | (apply follows_ite_action <;> intro _)
      | (apply follows_ite_props <;> intro _)
      | (apply follows_ite_switcher <;> intro _)
      | (apply follows_ite_placer <;> intro _)
      | (apply follows_ite_head <;> intro _)
      | exact h
      | apply follows_get
      | apply follows_peek
      | apply follows_error
      | apply follows_expect
      | apply follows_semicolon
      | apply config_scanner_source_flag_follows
      | fail_if_no_progress apply follows_mk
      | fail_if_no_progress dsimp only)
  | succ n ih =>
    intro s1 flags fname s h
    rw [config_scanner_source_flags_succ]
    repeat (first
      | (apply follows_ite_fst <;> intro _)
      | (apply follows_ite <;> intro _)
      | (apply follows_ite_cond <;> intro _)
      | (apply follows_ite_action <;> intro _)
      | (apply follows_ite_props <;> intro _)
      | (apply follows_ite_switcher <;> intro _)
      | (apply follows_ite_placer <;> intro _)
      | (apply follows_ite_head <;> intro _)
      | exact h
      | apply follows_get
      | apply follows_peek
      | apply follows_error
      | apply follows_expect
      | apply follows_semicolon
      | apply config_scanner_source_flag_follows
      | apply ih
      | fail_if_no_progress apply follows_mk
      | fail_if_no_progress dsimp only)

attribute [local irreducible] config_scanner_source_flags

set_option maxRecDepth 4000 in
theorem config_scanner_source_trigger_follows (s1 : State) {s : State}
    (h : follows s1 s) :
    follows (config_scanner_source_trigger s1).1 s := by
  unfold config_scanner_source_trigger
  try lift_lets
  intros
  repeat (first
    | (apply follows_ite_fst <;> intro _)
    | (apply follows_ite <;> intro _)
    | (apply follows_ite_cond <;> intro _)
    | (apply follows_ite_action <;> intro _)
    | (apply follows_ite_props <;> intro _)
    | (apply follows_ite_switcher <;> intro _)
    | (apply follows_ite_placer <;> intro _)
    | (apply follows_ite_head <;> intro _)
    | exact h
    | apply follows_get
    | apply follows_peek
    | apply follows_error
    | apply follows_expect
    | apply follows_semicolon
    | fail_if_no_progress apply follows_mk
    | fail_if_no_progress dsimp only)

attribute [local irreducible] config_scanner_source_trigger

set_option maxRecDepth 4000 in
theorem config_scanner_source_item_follows (H : Header) (s1 : State) (file : Nat) {s : State}
    (h : follows s1 s) :
    follows (config_scanner_source_item H s1 file) s := by
  unfold config_scanner_source_item
  try lift_lets
  intros
  repeat (first
    | (apply follows_ite_fst <;> intro _)
    | (apply follows_ite <;> intro _)
    | (apply follows_ite_cond <;> intro _)
    | (apply follows_ite_action <;> intro _)
    | (apply follows_ite_props <;> intro _)
    | (apply follows_ite_switcher <;> intro _)
    | (apply follows_ite_placer <;> intro _)
    | (apply follows_ite_head <;> intro _)
    | exact h
    | apply follows_get
    | apply follows_peek
    | apply follows_error
    | apply follows_expect
    | apply follows_semicolon
    | apply config_scanner_var_follows
    | fail_if_no_progress apply follows_mk
    | fail_if_no_progress dsimp only)

attribute [local irreducible] config_scanner_source_item

set_option maxRecDepth 4000 in
theorem config_scanner_source_vars_follows (H : Header) (n : Nat) : ∀ (s1 : State) (file : Nat) {s : State},
    follows s1 s → follows (config_scanner_source_vars H n s1 file) s := by
  induction n with
  | zero =>
    intro s1 file s h
    unfold config_scanner_source_vars
    repeat (first
      | (apply follows_ite_fst <;> intro _)
      | (apply follows_ite <;> intro _)
      | (apply follows_ite_cond <;> intro _)
      | (apply follows_ite_action <;> intro _)
      | (apply follows_ite_props <;> intro _)
      | (apply follows_ite_switcher <;> intro _)
      | (apply follows_ite_placer <;> intro _)
      | (apply follows_ite_head <;> intro _)
      | exact h
      | apply follows_get
      | apply follows_peek
      | apply follows_error
      | apply follows_expect
      | apply follows_semicolon
      | apply config_scanner_source_item_follows
      | fail_if_no_progress apply follows_mk
      | fail_if_no_progress dsimp only)
  | succ n ih =>
    intro s1 file s h
    rw [config_scanner_source_vars_succ]
    repeat (first
      | (apply follows_ite_fst <;> intro _)
      | (apply follows_ite <;> intro _)
      | (apply follows_ite_cond <;> intro _)
      | (apply follows_ite_action <;> intro _)
      | (apply follows_ite_props <;> intro _)
      | (apply follows_ite_switcher <;> intro _)
      | (apply follows_ite_placer <;> intro _)
      | (apply follows_ite_head <;> intro _)
      | exact h
      | apply follows_get
      | apply follows_peek
      | apply follows_error
      | apply follows_expect
      | apply follows_semicolon
      | apply config_scanner_source_item_follows
      | apply ih
      | fail_if_no_progress apply follows_mk
      | fail_if_no_progress dsimp only)

attribute [local irreducible] config_scanner_source_vars

set_option maxRecDepth 4000 in
theorem config_scanner_source_follows (H : Header) (s1 : State) (source : Source) {s : State}
    (h : follows s1 s) :
    follows (config_scanner_source H s1 source).1 s := by
  unfold config_scanner_source
  try lift_lets
  intros
  repeat (first
    | (apply follows_ite_fst <;> intro _)
    | (apply follows_ite <;> intro _)
    | (apply follows_ite_cond <;> intro _)
    | (apply follows_ite_action <;> intro _)
    | (apply follows_ite_props <;> intro _)
    | (apply follows_ite_switcher <;> intro _)
    | (apply follows_ite_placer <;> intro _)
    | (apply follows_ite_head <;> intro _)
    | exact h
    | apply follows_get
    | apply follows_peek
    | apply follows_error
    | apply follows_expect
    | apply follows_semicolon
    | apply config_scanner_source_vars_follows
    | apply config_scanner_source_trigger_follows
    | apply config_scanner_source_flags_follows
    | fail_if_no_progress apply follows_mk
    | fail_if_no_progress dsimp only)

attribute [local irreducible] config_scanner_source

set_option maxRecDepth 4000 in
theorem config_scanner_item_follows (H : Header) (s1 : State) {s : State}
    (h : follows s1 s) :
    follows (config_scanner_item H s1) s := by
  unfold config_scanner_item
  try lift_lets
  intros
  repeat (first
    | (apply follows_ite_fst <;> intro _)
    | (apply follows_ite <;> intro _)
    | (apply follows_ite_cond <;> intro _)
    | (apply follows_ite_action <;> intro _)
    | (apply follows_ite_props <;> intro _)
    | (apply follows_ite_switcher <;> intro _)
    | (apply follows_ite_placer <;> intro _)
    | (apply follows_ite_head <;> intro _)
    | exact h
    | apply follows_get
    | apply follows_peek
    | apply follows_error
    | apply follows_expect
    | apply follows_semicolon
    | apply config_scanner_source_follows
    | fail_if_no_progress apply follows_mk
    | fail_if_no_progress dsimp only)

attribute [local irreducible] config_scanner_item

set_option maxRecDepth 4000 in
theorem config_scanner_loop_follows (H : Header) (n : Nat) : ∀ (s1 : State) {s : State},
    follows s1 s → follows (config_scanner_loop H n s1) s := by
  induction n with
  | zero =>
    intro s1 s h
    unfold config_scanner_loop
    repeat (first
      | (apply follows_ite_fst <;> intro _)
      | (apply follows_ite <;> intro _)
      | (apply follows_ite_cond <;> intro _)
      | (apply follows_ite_action <;> intro _)
      | (apply follows_ite_props <;> intro _)
      | (apply follows_ite_switcher <;> intro _)
      | (apply follows_ite_placer <;> intro _)
      | (apply follows_ite_head <;> intro _)
      | exact h
      | apply follows_get
      | apply follows_peek
      | apply follows_error
      | apply follows_expect
      | apply follows_semicolon
      | apply config_scanner_item_follows
      | fail_if_no_progress apply follows_mk
      | fail_if_no_progress dsimp only)
  | succ n ih =>
    intro s1 s h
    rw [config_scanner_loop_succ]
    repeat (first
      | (apply follows_ite_fst <;> intro _)
      | (apply follows_ite <;> intro _)
      | (apply follows_ite_cond <;> intro _)
      | (apply follows_ite_action <;> intro _)
      | (apply follows_ite_props <;> intro _)
      | (apply follows_ite_switcher <;> intro _)
      | (apply follows_ite_placer <;> intro _)
      | (apply follows_ite_head <;> intro _)
      | exact h
      | apply follows_get
      | apply follows_peek
      | apply follows_error
      | apply follows_expect
      | apply follows_semicolon
      | apply config_scanner_item_follows
      | apply ih
      | fail_if_no_progress apply follows_mk
      | fail_if_no_progress dsimp only)

attribute [local irreducible] config_scanner_loop

set_option maxRecDepth 4000 in
theorem config_scanner_follows (H : Header) (s1 : State) {s : State}
    (h : follows s1 s) :
    follows (config_scanner H s1) s := by
  unfold config_scanner
  try lift_lets
  intros
  repeat (first
    | (apply follows_ite_fst <;> intro _)
    | (apply follows_ite <;> intro _)
    | (apply follows_ite_cond <;> intro _)
    | (apply follows_ite_action <;> intro _)
    | (apply follows_ite_props <;> intro _)
    | (apply follows_ite_switcher <;> intro _)
    | (apply follows_ite_placer <;> intro _)
    | (apply follows_ite_head <;> intro _)
    | exact h
    | apply follows_get
    | apply follows_peek
    | apply follows_error
    | apply follows_expect
    | apply follows_semicolon
    | apply config_scanner_loop_follows
    | fail_if_no_progress apply follows_mk
    | fail_if_no_progress dsimp only)

attribute [local irreducible] config_scanner

set_option maxRecDepth 4000 in
theorem config_assign_boolean_follows (s1 : State) (dflt : Bool) (expr : String) {s : State}
    (h : follows s1 s) :
    follows (config_assign_boolean s1 dflt expr).1 s := by
  unfold config_assign_boolean
  try lift_lets
  intros
  repeat (first
    | (apply follows_ite_fst <;> intro _)
    | (apply follows_ite <;> intro _)
    | (apply follows_ite_cond <;> intro _)
    | (apply follows_ite_action <;> intro _)
    | (apply follows_ite_props <;> intro _)
    | (apply follows_ite_switcher <;> intro _)
    | (apply follows_ite_placer <;> intro _)
    | (apply follows_ite_head <;> intro _)
    | exact h
    | apply follows_get
    | apply follows_peek
    | apply follows_error
    | apply follows_expect
    | apply follows_semicolon
    | fail_if_no_progress apply follows_mk
    | fail_if_no_progress dsimp only)

attribute [local irreducible] config_assign_boolean

set_option maxRecDepth 4000 in
theorem config_assign_string_follows (s1 : State) (expr : String) {s : State}
    (h : follows s1 s) :
    follows (config_assign_string s1 expr).1 s := by
  unfold config_assign_string
  try lift_lets
  intros
  repeat (first
    | (apply follows_ite_fst <;> intro _)
    | (apply follows_ite <;> intro _)
    | (apply follows_ite_cond <;> intro _)
    | (apply follows_ite_action <;> intro _)
    | (apply follows_ite_props <;> intro _)
    | (apply follows_ite_switcher <;> intro _)
    | (apply follows_ite_placer <;> intro _)
    | (apply follows_ite_head <;> intro _)
    | exact h
    | apply follows_get
    | apply follows_peek
    | apply follows_error
    | apply follows_expect
    | apply follows_semicolon
    | fail_if_no_progress apply follows_mk
    | fail_if_no_progress dsimp only)

attribute [local irreducible] config_assign_string

set_option maxRecDepth 4000 in
theorem config_assign_number_follows (s1 : State) (expr : String) {s : State}
    (h : follows s1 s) :
    follows (config_assign_number s1 expr).1 s := by
  unfold config_assign_number
  try lift_lets
  intros
  repeat (first
    | (apply follows_ite_fst <;> intro _)
    | (apply follows_ite <;> intro _)
    | (apply follows_ite_cond <;> intro _)
    | (apply follows_ite_action <;> intro _)
    | (apply follows_ite_props <;> intro _)
    | (apply follows_ite_switcher <;> intro _)
    | (apply follows_ite_placer <;> intro _)
    | (apply follows_ite_head <;> intro _)
    | exact h
    | apply follows_get
    | apply follows_peek
    | apply follows_error
    | apply follows_expect
    | apply follows_semicolon
    | fail_if_no_progress apply follows_mk
    | fail_if_no_progress dsimp only)

attribute [local irreducible] config_assign_number

set_option maxRecDepth 4000 in
theorem config_get_loc_follows (s1 : State) {s : State}
    (h : follows s1 s) :
    follows (config_get_loc s1).1 s := by
  unfold config_get_loc
  try lift_lets
  intros
  repeat (first
    | (apply follows_ite_fst <;> intro _)
    | (apply follows_ite <;> intro _)
    | (apply follows_ite_cond <;> intro _)
    | (apply follows_ite_action <;> intro _)
    | (apply follows_ite_props <;> intro _)
    | (apply follows_ite_switcher <;> intro _)
    | (apply follows_ite_placer <;> intro _)
    | (apply follows_ite_head <;> intro _)
    | exact h
    | apply follows_get
    | apply follows_peek
    | apply follows_error
    | apply follows_expect
    | apply follows_semicolon
    | fail_if_no_progress apply follows_mk
    | fail_if_no_progress dsimp only)

attribute [local irreducible] config_get_loc

set_option maxRecDepth 4000 in
theorem config_get_value_loop_follows (H : Header) (n : Nat) : ∀ (s1 : State) (value : String) {s : State},
    follows s1 s → follows (config_get_value_loop H n s1 value).1 s := by
  induction n with
  | zero =>
    intro s1 value s h
    unfold config_get_value_loop
    repeat (first
      | (apply follows_ite_fst <;> intro _)
      | (apply follows_ite <;> intro _)
      | (apply follows_ite_cond <;> intro _)
      | (apply follows_ite_action <;> intro _)
      | (apply follows_ite_props <;> intro _)
      | (apply follows_ite_switcher <;> intro _)
      | (apply follows_ite_placer <;> intro _)
      | (apply follows_ite_head <;> intro _)
      | exact h
      | apply follows_get
      | apply follows_peek
      | apply follows_error
      | apply follows_expect
      | apply follows_semicolon
      | fail_if_no_progress apply follows_mk
      | fail_if_no_progress dsimp only)
  | succ n ih =>
    intro s1 value s h
    rw [config_get_value_loop_succ]
    repeat (first
      | (apply follows_ite_fst <;> intro _)
      | (apply follows_ite <;> intro _)
      | (apply follows_ite_cond <;> intro _)
      | (apply follows_ite_action <;> intro _)
      | (apply follows_ite_props <;> intro _)
      | (apply follows_ite_switcher <;> intro _)
      | (apply follows_ite_placer <;> intro _)
      | (apply follows_ite_head <;> intro _)
      | exact h
      | apply follows_get
      | apply follows_peek
      | apply follows_error
      | apply follows_expect
      | apply follows_semicolon
      | apply ih
      | fail_if_no_progress apply follows_mk
      | fail_if_no_progress dsimp only)

attribute [local irreducible] config_get_value_loop

set_option maxRecDepth 4000 in
theorem config_get_value_follows (H : Header) (s1 : State) (prop : String) (assign : Bool) {s : State}
    (h : follows s1 s) :
    follows (config_get_value H s1 prop assign).1 s := by
  unfold config_get_value
  try lift_lets
  intros
  repeat (first
    | (apply follows_ite_fst <;> intro _)
    | (apply follows_ite <;> intro _)
    | (apply follows_ite_cond <;> intro _)
    | (apply follows_ite_action <;> intro _)
    | (apply follows_ite_props <;> intro _)
    | (apply follows_ite_switcher <;> intro _)
    | (apply follows_ite_placer <;> intro _)
    | (apply follows_ite_head <;> intro _)
    | exact h
    | apply follows_get
    | apply follows_peek
    | apply follows_error
    | apply follows_expect
    | apply follows_semicolon
    | apply config_get_value_loop_follows
    | fail_if_no_progress apply follows_mk
    | fail_if_no_progress dsimp only)

attribute [local irreducible] config_get_value

set_option maxRecDepth 4000 in
theorem config_define_follows (H : Header) (s1 : State) {s : State}
    (h : follows s1 s) :
    follows (config_define H s1) s := by
  unfold config_define
  try lift_lets
  intros
  repeat (first
    | (apply follows_ite_fst <;> intro _)
    | (apply follows_ite <;> intro _)
    | (apply follows_ite_cond <;> intro _)
    | (apply follows_ite_action <;> intro _)
    | (apply follows_ite_props <;> intro _)
    | (apply follows_ite_switcher <;> intro _)
    | (apply follows_ite_placer <;> intro _)
    | (apply follows_ite_head <;> intro _)
    | exact h
    | apply follows_get
    | apply follows_peek
    | apply follows_error
    | apply follows_expect
    | apply follows_semicolon
    | apply config_get_value_follows
    | fail_if_no_progress apply follows_mk
    | fail_if_no_progress dsimp only)

attribute [local irreducible] config_define

set_option maxRecDepth 4000 in
theorem config_get_pins_loop_follows  (n : Nat) : ∀ (s1 : State) {s : State},
    follows s1 s → follows (config_get_pins_loop n s1) s := by
  induction n with
  | zero =>
    intro s1 s h
    unfold config_get_pins_loop
    repeat (first
      | (apply follows_ite_fst <;> intro _)
      | (apply follows_ite <;> intro _)
      | (apply follows_ite_cond <;> intro _)
      | (apply follows_ite_action <;> intro _)
      | (apply follows_ite_props <;> intro _)
      | (apply follows_ite_switcher <;> intro _)
      | (apply follows_ite_placer <;> intro _)
      | (apply follows_ite_head <;> intro _)
      | exact h
      | apply follows_get
      | apply follows_peek
      | apply follows_error
      | apply follows_expect
      | apply follows_semicolon
      | fail_if_no_progress apply follows_mk
      | fail_if_no_progress dsimp only)
  | succ n ih =>
    intro s1 s h
    rw [config_get_pins_loop_succ]
    repeat (first
      | (apply follows_ite_fst <;> intro _)
      | (apply follows_ite <;> intro _)
      | (apply follows_ite_cond <;> intro _)
      | (apply follows_ite_action <;> intro _)
      | (apply follows_ite_props <;> intro _)
      | (apply follows_ite_switcher <;> intro _)
      | (apply follows_ite_placer <;> intro _)
      | (apply follows_ite_head <;> intro _)
      | exact h
      | apply follows_get
      | apply follows_peek
      | apply follows_error
      | apply follows_expect
      | apply follows_semicolon
      | apply ih
      | fail_if_no_progress apply follows_mk
      | fail_if_no_progress dsimp only)

attribute [local irreducible] config_get_pins_loop

set_option maxRecDepth 4000 in
theorem config_get_pins_follows (s1 : State) (lw : layout_widget) {s : State}
    (h : follows s1 s) :
    follows (config_get_pins s1 lw) s := by
  unfold config_get_pins
  try lift_lets
  intros
  repeat (first
    | (apply follows_ite_fst <;> intro _)
    | (apply follows_ite <;> intro _)
    | (apply follows_ite_cond <;> intro _)
    | (apply follows_ite_action <;> intro _)
    | (apply follows_ite_props <;> intro _)
    | (apply follows_ite_switcher <;> intro _)
    | (apply follows_ite_placer <;> intro _)
    | (apply follows_ite_head <;> intro _)
    | exact h
    | apply follows_get
    | apply follows_peek
    | apply follows_error
    | apply follows_expect
    | apply follows_semicolon
    | apply config_get_pins_loop_follows
    | fail_if_no_progress apply follows_mk
    | fail_if_no_progress dsimp only)

attribute [local irreducible] config_get_pins

set_option maxRecDepth 4000 in
theorem config_widget_cols_follows (s1 : State) (lw : layout_widget) {s : State}
    (h : follows s1 s) :
    follows (config_widget_cols s1 lw).1 s := by
  unfold config_widget_cols
  try lift_lets
  intros
  repeat (first
    | (apply follows_ite_fst <;> intro _)
    | (apply follows_ite <;> intro _)
    | (apply follows_ite_cond <;> intro _)
    | (apply follows_ite_action <;> intro _)
    | (apply follows_ite_props <;> intro _)
    | (apply follows_ite_switcher <;> intro _)
    | (apply follows_ite_placer <;> intro _)
    | (apply follows_ite_head <;> intro _)
    | exact h
    | apply follows_get
    | apply follows_peek
    | apply follows_error
    | apply follows_expect
    | apply follows_semicolon
    | apply config_assign_number_follows
    | fail_if_no_progress apply follows_mk
    | fail_if_no_progress dsimp only)

attribute [local irreducible] config_widget_cols

set_option maxRecDepth 4000 in
theorem config_widget_rows_follows (s1 : State) (lw : layout_widget) {s : State}
    (h : follows s1 s) :
    follows (config_widget_rows s1 lw).1 s := by
  unfold config_widget_rows
  try lift_lets
  intros
  repeat (first
    | (apply follows_ite_fst <;> intro _)
    | (apply follows_ite <;> intro _)
    | (apply follows_ite_cond <;> intro _)
    | (apply follows_ite_action <;> intro _)
    | (apply follows_ite_props <;> intro _)
    | (apply follows_ite_switcher <;> intro _)
    | (apply follows_ite_placer <;> intro _)
    | (apply follows_ite_head <;> intro _)
    | exact h
    | apply follows_get
    | apply follows_peek
    | apply follows_error
    | apply follows_expect
    | apply follows_semicolon
    | apply config_assign_number_follows
    | fail_if_no_progress apply follows_mk
    | fail_if_no_progress dsimp only)

attribute [local irreducible] config_widget_rows

set_option maxRecDepth 4000 in
theorem config_action_cond_follows (c : CondState) {s : State}
    (h : follows c.s s) :
    follows (config_action_cond c).s s := by
  unfold config_action_cond
  try lift_lets
  intros
  repeat (first
    | (apply follows_ite_fst <;> intro _)
    | (apply follows_ite <;> intro _)
    | (apply follows_ite_cond <;> intro _)
    | (apply follows_ite_action <;> intro _)
    | (apply follows_ite_props <;> intro _)
    | (apply follows_ite_switcher <;> intro _)
    | (apply follows_ite_placer <;> intro _)
    | (apply follows_ite_head <;> intro _)
    | exact h
    | apply follows_get
    | apply follows_peek
    | apply follows_error
    | apply follows_expect
    | apply follows_semicolon
    | fail_if_no_progress apply follows_mk
    | fail_if_no_progress dsimp only)

attribute [local irreducible] config_action_cond

set_option maxRecDepth 4000 in
theorem config_action_conds_follows  (n : Nat) : ∀ (c : CondState) {s : State},
    follows c.s s → follows (config_action_conds n c).s s := by
  induction n with
  | zero =>
    intro c s h
    unfold config_action_conds
    repeat (first
      | (apply follows_ite_fst <;> intro _)
      | (apply follows_ite <;> intro _)
      | (apply follows_ite_cond <;> intro _)
      | (apply follows_ite_action <;> intro _)
      | (apply follows_ite_props <;> intro _)
      | (apply follows_ite_switcher <;> intro _)
      | (apply follows_ite_placer <;> intro _)
      | (apply follows_ite_head <;> intro _)
      | exact h
      | apply follows_get
      | apply follows_peek
      | apply follows_error
      | apply follows_expect
      | apply follows_semicolon
      | apply config_action_cond_follows
      | fail_if_no_progress apply follows_mk
      | fail_if_no_progress dsimp only)
  | succ n ih =>
    intro c s h
    rw [config_action_conds_succ]
    repeat (first
      | (apply follows_ite_fst <;> intro _)
      | (apply follows_ite <;> intro _)
      | (apply follows_ite_cond <;> intro _)
      | (apply follows_ite_action <;> intro _)
      | (apply follows_ite_props <;> intro _)
      | (apply follows_ite_switcher <;> intro _)
      | (apply follows_ite_placer <;> intro _)
      | (apply follows_ite_head <;> intro _)
      | exact h
      | apply follows_get
      | apply follows_peek
      | apply follows_error
      | apply follows_expect
      | apply follows_semicolon
      | apply config_action_cond_follows
      | apply ih
      | fail_if_no_progress apply follows_mk
      | fail_if_no_progress dsimp only)

attribute [local irreducible] config_action_conds

set_option maxRecDepth 4000 in
theorem config_action_bracket_follows (s1 : State) {s : State}
    (h : follows s1 s) :
    follows (config_action_bracket s1).s s := by
  unfold config_action_bracket
  try lift_lets
  intros
  repeat (first
    | (apply follows_ite_fst <;> intro _)
    | (apply follows_ite <;> intro _)
    | (apply follows_ite_cond <;> intro _)
    | (apply follows_ite_action <;> intro _)
    | (apply follows_ite_props <;> intro _)
    | (apply follows_ite_switcher <;> intro _)
    | (apply follows_ite_placer <;> intro _)
    | (apply follows_ite_head <;> intro _)
    | exact h
    | apply follows_get
    | apply follows_peek
    | apply follows_error
    | apply follows_expect
    | apply follows_semicolon
    | apply config_action_conds_follows
    | fail_if_no_progress apply follows_mk
    | fail_if_no_progress dsimp only)

attribute [local irreducible] config_action_bracket

set_option maxRecDepth 4000 in
theorem config_action_args_follows (H : Header) (s1 : State) (action : layout_action) (type : Keyword) {s : State}
    (h : follows s1 s) :
    follows (config_action_args H s1 action type).s s := by
  unfold config_action_args
  try lift_lets
  intros
  repeat (first
    | (apply follows_ite_fst <;> intro _)
    | (apply follows_ite <;> intro _)
    | (apply follows_ite_cond <;> intro _)
    | (apply follows_ite_action <;> intro _)
    | (apply follows_ite_props <;> intro _)
    | (apply follows_ite_switcher <;> intro _)
    | (apply follows_ite_placer <;> intro _)
    | (apply follows_ite_head <;> intro _)
    | exact h
    | apply follows_get
    | apply follows_peek
    | apply follows_error
    | apply follows_expect
    | apply follows_semicolon
    | apply config_get_value_follows
    | fail_if_no_progress apply follows_mk
    | fail_if_no_progress dsimp only)

attribute [local irreducible] config_action_args

set_option maxRecDepth 4000 in
theorem config_action_head_follows (H : Header) (c : CondState) (action : layout_action) {s : State}
    (h : follows c.s s) :
    follows (config_action_head H c action).s s := by
  unfold config_action_head
  try lift_lets
  intros
  repeat (first
    | (apply follows_ite_fst <;> intro _)
    | (apply follows_ite <;> intro _)
    | (apply follows_ite_cond <;> intro _)
    | (apply follows_ite_action <;> intro _)
    | (apply follows_ite_props <;> intro _)
    | (apply follows_ite_switcher <;> intro _)
    | (apply follows_ite_placer <;> intro _)
    | (apply follows_ite_head <;> intro _)
    | exact h
    | apply follows_get
    | apply follows_peek
    | apply follows_error
    | apply follows_expect
    | apply follows_semicolon
    | apply config_action_args_follows
    | fail_if_no_progress apply follows_mk
    | fail_if_no_progress dsimp only)

attribute [local irreducible] config_action_head

set_option maxRecDepth 4000 in
theorem config_action_follows (H : Header) (s1 : State) (action : layout_action) {s : State}
    (h : follows s1 s) :
    follows (config_action H s1 action).s s := by
  unfold config_action
  try lift_lets
  intros
  repeat (first
    | (apply follows_ite_fst <;> intro _)
    | (apply follows_ite <;> intro _)
    | (apply follows_ite_cond <;> intro _)
    | (apply follows_ite_action <;> intro _)
    | (apply follows_ite_props <;> intro _)
    | (apply follows_ite_switcher <;> intro _)
    | (apply follows_ite_placer <;> intro _)
    | (apply follows_ite_head <;> intro _)
    | exact h
    | apply follows_get
    | apply follows_peek
    | apply follows_error
    | apply follows_expect
    | apply follows_semicolon
    | apply config_action_head_follows
    | apply config_action_bracket_follows
    | fail_if_no_progress apply follows_mk
    | fail_if_no_progress dsimp only)

attribute [local irreducible] config_action

set_option maxRecDepth 4000 in
theorem config_widget_action_follows (H : Header) (s1 : State) (lw : layout_widget) {s : State}
    (h : follows s1 s) :
    follows (config_widget_action H s1 lw).1 s := by
  unfold config_widget_action
  try lift_lets
  intros
  repeat (first
    | (apply follows_ite_fst <;> intro _)
    | (apply follows_ite <;> intro _)
    | (apply follows_ite_cond <;> intro _)
    | (apply follows_ite_action <;> intro _)
    | (apply follows_ite_props <;> intro _)
    | (apply follows_ite_switcher <;> intro _)
    | (apply follows_ite_placer <;> intro _)
    | (apply follows_ite_head <;> intro _)
    | exact h
    | apply follows_get
    | apply follows_peek
    | apply follows_error
    | apply follows_expect
    | apply follows_semicolon
    | apply config_action_follows
    | fail_if_no_progress apply follows_mk
    | fail_if_no_progress dsimp only)

attribute [local irreducible] config_widget_action

set_option maxRecDepth 4000 in
theorem config_widget_props_switch_follows (H : Header) (p : Props) (s1 : State) {s : State}
    (h : follows s1 s) :
    follows (config_widget_props_switch H p s1).s s := by
  unfold config_widget_props_switch
  try lift_lets
  intros
  repeat (first
    | (apply follows_ite_fst <;> intro _)
    | (apply follows_ite <;> intro _)
    | (apply follows_ite_cond <;> intro _)
    | (apply follows_ite_action <;> intro _)
    | (apply follows_ite_props <;> intro _)
    | (apply follows_ite_switcher <;> intro _)
    | (apply follows_ite_placer <;> intro _)
    | (apply follows_ite_head <;> intro _)
    | exact h
    | apply follows_get
    | apply follows_peek
    | apply follows_error
    | apply follows_expect
    | apply follows_semicolon
    | apply config_get_value_follows
    | apply config_assign_string_follows
    | apply config_assign_number_follows
    | apply config_assign_boolean_follows
    | apply config_get_pins_follows
    | apply config_widget_cols_follows
    | apply config_widget_rows_follows
    | apply config_widget_action_follows
    | apply config_get_loc_follows
    | fail_if_no_progress apply follows_mk
    | fail_if_no_progress dsimp only)

attribute [local irreducible] config_widget_props_switch

set_option maxRecDepth 4000 in
theorem config_widget_props_item_follows (H : Header) (p : Props) {s : State}
    (h : follows p.s s) :
    follows (config_widget_props_item H p).s s := by
  unfold config_widget_props_item
  try lift_lets
  intros
  repeat (first
    | (apply follows_ite_fst <;> intro _)
    | (apply follows_ite <;> intro _)
    | (apply follows_ite_cond <;> intro _)
    | (apply follows_ite_action <;> intro _)
    | (apply follows_ite_props <;> intro _)
    | (apply follows_ite_switcher <;> intro _)
    | (apply follows_ite_placer <;> intro _)
    | (apply follows_ite_head <;> intro _)
    | exact h
    | apply follows_get
    | apply follows_peek
    | apply follows_error
    | apply follows_expect
    | apply follows_semicolon
    | apply config_widget_props_switch_follows
    | fail_if_no_progress apply follows_mk
    | fail_if_no_progress dsimp only)

attribute [local irreducible] config_widget_props_item

set_option maxRecDepth 4000 in
theorem config_widget_props_loop_follows (H : Header) (n : Nat) : ∀ (p : Props) {s : State},
    follows p.s s → follows (config_widget_props_loop H n p).s s := by
  induction n with
  | zero =>
    intro p s h
    unfold config_widget_props_loop
    repeat (first
      | (apply follows_ite_fst <;> intro _)
      | (apply follows_ite <;> intro _)
      | (apply follows_ite_cond <;> intro _)
      | (apply follows_ite_action <;> intro _)
      | (apply follows_ite_props <;> intro _)
      | (apply follows_ite_switcher <;> intro _)
      | (apply follows_ite_placer <;> intro _)
      | (apply follows_ite_head <;> intro _)
      | exact h
      | apply follows_get
      | apply follows_peek
      | apply follows_error
      | apply follows_expect
      | apply follows_semicolon
      | apply config_widget_props_item_follows
      | fail_if_no_progress apply follows_mk
      | fail_if_no_progress dsimp only)
  | succ n ih =>
    intro p s h
    rw [config_widget_props_loop_succ]
    repeat (first
      | (apply follows_ite_fst <;> intro _)
      | (apply follows_ite <;> intro _)
      | (apply follows_ite_cond <;> intro _)
      | (apply follows_ite_action <;> intro _)
      | (apply follows_ite_props <;> intro _)
      | (apply follows_ite_switcher <;> intro _)
      | (apply follows_ite_placer <;> intro _)
      | (apply follows_ite_head <;> intro _)
      | exact h
      | apply follows_get
      | apply follows_peek
      | apply follows_error
      | apply follows_expect
      | apply follows_semicolon
      | apply config_widget_props_item_follows
      | apply ih
      | fail_if_no_progress apply follows_mk
      | fail_if_no_progress dsimp only)

attribute [local irreducible] config_widget_props_loop

set_option maxRecDepth 4000 in
theorem config_widget_props_follows (H : Header) (s1 : State) (lw : layout_widget) {s : State}
    (h : follows s1 s) :
    follows (config_widget_props H s1 lw).1 s := by
  unfold config_widget_props
  try lift_lets
  intros
  repeat (first
    | (apply follows_ite_fst <;> intro _)
    | (apply follows_ite <;> intro _)
    | (apply follows_ite_cond <;> intro _)
    | (apply follows_ite_action <;> intro _)
    | (apply follows_ite_props <;> intro _)
    | (apply follows_ite_switcher <;> intro _)
    | (apply follows_ite_placer <;> intro _)
    | (apply follows_ite_head <;> intro _)
    | exact h
    | apply follows_get
    | apply follows_peek
    | apply follows_error
    | apply follows_expect
    | apply follows_semicolon
    | apply config_widget_props_loop_follows
    | fail_if_no_progress apply follows_mk
    | fail_if_no_progress dsimp only)

attribute [local irreducible] config_widget_props

set_option maxRecDepth 4000 in
theorem config_menu_item_follows (H : Header) (s1 : State) {s : State}
    (h : follows s1 s) :
    follows (config_menu_item H s1).1 s := by
  unfold config_menu_item
  try lift_lets
  intros
  repeat (first
    | (apply follows_ite_fst <;> intro _)
    | (apply follows_ite <;> intro _)
    | (apply follows_ite_cond <;> intro _)
    | (apply follows_ite_action <;> intro _)
    | (apply follows_ite_props <;> intro _)
    | (apply follows_ite_switcher <;> intro _)
    | (apply follows_ite_placer <;> intro _)
    | (apply follows_ite_head <;> intro _)
    | exact h
    | apply follows_get
    | apply follows_peek
    | apply follows_error
    | apply follows_expect
    | apply follows_semicolon
    | apply config_action_follows
    | fail_if_no_progress apply follows_mk
    | fail_if_no_progress dsimp only)

attribute [local irreducible] config_menu_item

set_option maxRecDepth 4000 in
theorem config_menu_head_follows (s1 : State) (parent : Option Nat) {s : State}
    (h : follows s1 s) :
    follows (config_menu_head s1 parent).s s := by
  unfold config_menu_head
  try lift_lets
  intros
  repeat (first
    | (apply follows_ite_fst <;> intro _)
    | (apply follows_ite <;> intro _)
    | (apply follows_ite_cond <;> intro _)
    | (apply follows_ite_action <;> intro _)
    | (apply follows_ite_props <;> intro _)
    | (apply follows_ite_switcher <;> intro _)
    | (apply follows_ite_placer <;> intro _)
    | (apply follows_ite_head <;> intro _)
    | exact h
    | apply follows_get
    | apply follows_peek
    | apply follows_error
    | apply follows_expect
    | apply follows_semicolon
    | fail_if_no_progress apply follows_mk
    | fail_if_no_progress dsimp only)

attribute [local irreducible] config_menu_head

set_option maxRecDepth 4000 in
theorem config_menu_tail_follows (s1 : State) (name : String) (menu : Nat) (parent : Option Nat) {s : State}
    (h : follows s1 s) :
    follows (config_menu_tail s1 name menu parent) s := by
  unfold config_menu_tail
  cases parent
  try lift_lets
  intros
  repeat (first
    | (apply follows_ite_fst <;> intro _)
    | (apply follows_ite <;> intro _)
    | (apply follows_ite_cond <;> intro _)
    | (apply follows_ite_action <;> intro _)
    | (apply follows_ite_props <;> intro _)
    | (apply follows_ite_switcher <;> intro _)
    | (apply follows_ite_placer <;> intro _)
    | (apply follows_ite_head <;> intro _)
    | exact h
    | apply follows_get
    | apply follows_peek
    | apply follows_error
    | apply follows_expect
    | apply follows_semicolon
    | fail_if_no_progress apply follows_mk
    | fail_if_no_progress dsimp only)

attribute [local irreducible] config_menu_tail

set_option maxRecDepth 4000 in
theorem config_menu_entry_follows (H : Header) (s1 : State) (menu : Nat) {s : State}
    (h : follows s1 s) :
    follows (config_menu_entry H s1 menu) s := by
  unfold config_menu_entry
  try lift_lets
  intros
  repeat (first
    | (apply follows_ite_fst <;> intro _)
    | (apply follows_ite <;> intro _)
    | (apply follows_ite_cond <;> intro _)
    | (apply follows_ite_action <;> intro _)
    | (apply follows_ite_props <;> intro _)
    | (apply follows_ite_switcher <;> intro _)
    | (apply follows_ite_placer <;> intro _)
    | (apply follows_ite_head <;> intro _)
    | exact h
    | apply follows_get
    | apply follows_peek
    | apply follows_error
    | apply follows_expect
    | apply follows_semicolon
    | apply config_menu_item_follows
    | fail_if_no_progress apply follows_mk
    | fail_if_no_progress dsimp only)

attribute [local irreducible] config_menu_entry

set_option maxRecDepth 4000 in
theorem config_menu_loop_follows (H : Header) (n : Nat) : ∀ (s1 : State) (menu : Nat) {s : State},
    follows s1 s → follows (config_menu_loop H n s1 menu) s := by
  induction n with
  | zero =>
    intro s1 menu s h
    unfold config_menu_loop
    repeat (first
      | (apply follows_ite_fst <;> intro _)
      | (apply follows_ite <;> intro _)
      | (apply follows_ite_cond <;> intro _)
      | (apply follows_ite_action <;> intro _)
      | (apply follows_ite_props <;> intro _)
      | (apply follows_ite_switcher <;> intro _)
      | (apply follows_ite_placer <;> intro _)
      | (apply follows_ite_head <;> intro _)
      | exact h
      | apply follows_get
      | apply follows_peek
      | apply follows_error
      | apply follows_expect
      | apply follows_semicolon
      | apply config_menu_entry_follows
      | apply config_menu_tail_follows
      | apply config_menu_head_follows
      | fail_if_no_progress apply follows_mk
      | fail_if_no_progress dsimp only)
  | succ n ih =>
    intro s1 menu s h
    rw [config_menu_loop_succ]
    repeat (first
      | (apply follows_ite_fst <;> intro _)
      | (apply follows_ite <;> intro _)
      | (apply follows_ite_cond <;> intro _)
      | (apply follows_ite_action <;> intro _)
      | (apply follows_ite_props <;> intro _)
      | (apply follows_ite_switcher <;> intro _)
      | (apply follows_ite_placer <;> intro _)
      | (apply follows_ite_head <;> intro _)
      | exact h
      | apply follows_get
      | apply follows_peek
      | apply follows_error
      | apply follows_expect
      | apply follows_semicolon
      | apply config_menu_entry_follows
      | apply config_menu_tail_follows
      | apply config_menu_head_follows
      | apply ih
      | fail_if_no_progress apply follows_mk
      | fail_if_no_progress dsimp only)

attribute [local irreducible] config_menu_loop

set_option maxRecDepth 4000 in
theorem config_menu_follows (H : Header) (s1 : State) (parent : Option Nat) {s : State}
    (h : follows s1 s) :
    follows (config_menu H s1 parent) s := by
  unfold config_menu
  try lift_lets
  intros
  repeat (first
    | (apply follows_ite_fst <;> intro _)
    | (apply follows_ite <;> intro _)
    | (apply follows_ite_cond <;> intro _)
    | (apply follows_ite_action <;> intro _)
    | (apply follows_ite_props <;> intro _)
    | (apply follows_ite_switcher <;> intro _)
    | (apply follows_ite_placer <;> intro _)
    | (apply follows_ite_head <;> intro _)
    | exact h
    | apply follows_get
    | apply follows_peek
    | apply follows_error
    | apply follows_expect
    | apply follows_semicolon
    | apply config_menu_loop_follows
    | apply config_menu_tail_follows
    | apply config_menu_head_follows
    | fail_if_no_progress apply follows_mk
    | fail_if_no_progress dsimp only)

attribute [local irreducible] config_menu

set_option maxRecDepth 4000 in
theorem config_switcher_switch_follows (p : Switcher) (s1 : State) {s : State}
    (h : follows s1 s) :
    follows (config_switcher_switch p s1).s s := by
  unfold config_switcher_switch
  try lift_lets
  intros
  repeat (first
    | (apply follows_ite_fst <;> intro _)
    | (apply follows_ite <;> intro _)
    | (apply follows_ite_cond <;> intro _)
    | (apply follows_ite_action <;> intro _)
    | (apply follows_ite_props <;> intro _)
    | (apply follows_ite_switcher <;> intro _)
    | (apply follows_ite_placer <;> intro _)
    | (apply follows_ite_head <;> intro _)
    | exact h
    | apply follows_get
    | apply follows_peek
    | apply follows_error
    | apply follows_expect
    | apply follows_semicolon
    | apply config_assign_string_follows
    | apply config_assign_number_follows
    | apply config_assign_boolean_follows
    | fail_if_no_progress apply follows_mk
    | fail_if_no_progress dsimp only)

attribute [local irreducible] config_switcher_switch

set_option maxRecDepth 4000 in
theorem config_switcher_loop_follows  (n : Nat) : ∀ (p : Switcher) {s : State},
    follows p.s s → follows (config_switcher_loop n p).s s := by
  induction n with
  | zero =>
    intro p s h
    unfold config_switcher_loop
    repeat (first
      | (apply follows_ite_fst <;> intro _)
      | (apply follows_ite <;> intro _)
      | (apply follows_ite_cond <;> intro _)
      | (apply follows_ite_action <;> intro _)
      | (apply follows_ite_props <;> intro _)
      | (apply follows_ite_switcher <;> intro _)
      | (apply follows_ite_placer <;> intro _)
      | (apply follows_ite_head <;> intro _)
      | exact h
      | apply follows_get
      | apply follows_peek
      | apply follows_error
      | apply follows_expect
      | apply follows_semicolon
      | apply config_switcher_switch_follows
      | fail_if_no_progress apply follows_mk
      | fail_if_no_progress dsimp only)
  | succ n ih =>
    intro p s h
    rw [config_switcher_loop_succ]
    repeat (first
      | (apply follows_ite_fst <;> intro _)
      | (apply follows_ite <;> intro _)
      | (apply follows_ite_cond <;> intro _)
      | (apply follows_ite_action <;> intro _)
      | (apply follows_ite_props <;> intro _)
      | (apply follows_ite_switcher <;> intro _)
      | (apply follows_ite_placer <;> intro _)
      | (apply follows_ite_head <;> intro _)
      | exact h
      | apply follows_get
      | apply follows_peek
      | apply follows_error
      | apply follows_expect
      | apply follows_semicolon
      | apply config_switcher_switch_follows
      | apply ih
      | fail_if_no_progress apply follows_mk
      | fail_if_no_progress dsimp only)

attribute [local irreducible] config_switcher_loop

set_option maxRecDepth 4000 in
theorem config_switcher_follows (s1 : State) {s : State}
    (h : follows s1 s) :
    follows (config_switcher s1) s := by
  unfold config_switcher
  try lift_lets
  intros
  repeat (first
    | (apply follows_ite_fst <;> intro _)
    | (apply follows_ite <;> intro _)
    | (apply follows_ite_cond <;> intro _)
    | (apply follows_ite_action <;> intro _)
    | (apply follows_ite_props <;> intro _)
    | (apply follows_ite_switcher <;> intro _)
    | (apply follows_ite_placer <;> intro _)
    | (apply follows_ite_head <;> intro _)
    | exact h
    | apply follows_get
    | apply follows_peek
    | apply follows_error
    | apply follows_expect
    | apply follows_semicolon
    | apply config_switcher_loop_follows
    | fail_if_no_progress apply follows_mk
    | fail_if_no_progress dsimp only)

attribute [local irreducible] config_switcher

set_option maxRecDepth 4000 in
theorem config_placer_switch_follows (p : Placer) (s1 : State) {s : State}
    (h : follows s1 s) :
    follows (config_placer_switch p s1).s s := by
  unfold config_placer_switch
  try lift_lets
  intros
  repeat (first
    | (apply follows_ite_fst <;> intro _)
    | (apply follows_ite <;> intro _)
    | (apply follows_ite_cond <;> intro _)
    | (apply follows_ite_action <;> intro _)
    | (apply follows_ite_props <;> intro _)
    | (apply follows_ite_switcher <;> intro _)
    | (apply follows_ite_placer <;> intro _)
    | (apply follows_ite_head <;> intro _)
    | exact h
    | apply follows_get
    | apply follows_peek
    | apply follows_error
    | apply follows_expect
    | apply follows_semicolon
    | apply config_assign_number_follows
    | apply config_assign_boolean_follows
    | fail_if_no_progress apply follows_mk
    | fail_if_no_progress dsimp only)

attribute [local irreducible] config_placer_switch

set_option maxRecDepth 4000 in
theorem config_placer_loop_follows  (n : Nat) : ∀ (p : Placer) {s : State},
    follows p.s s → follows (config_placer_loop n p).s s := by
  induction n with
  | zero =>
    intro p s h
    unfold config_placer_loop
    repeat (first
      | (apply follows_ite_fst <;> intro _)
      | (apply follows_ite <;> intro _)
      | (apply follows_ite_cond <;> intro _)
      | (apply follows_ite_action <;> intro _)
      | (apply follows_ite_props <;> intro _)
      | (apply follows_ite_switcher <;> intro _)
      | (apply follows_ite_placer <;> intro _)
      | (apply follows_ite_head <;> intro _)
      | exact h
      | apply follows_get
      | apply follows_peek
      | apply follows_error
      | apply follows_expect
      | apply follows_semicolon
      | apply config_placer_switch_follows
      | fail_if_no_progress apply follows_mk
      | fail_if_no_progress dsimp only)
  | succ n ih =>
    intro p s h
    rw [config_placer_loop_succ]
    repeat (first
      | (apply follows_ite_fst <;> intro _)
      | (apply follows_ite <;> intro _)
      | (apply follows_ite_cond <;> intro _)
      | (apply follows_ite_action <;> intro _)
      | (apply follows_ite_props <;> intro _)
      | (apply follows_ite_switcher <;> intro _)
      | (apply follows_ite_placer <;> intro _)
      | (apply follows_ite_head <;> intro _)
      | exact h
      | apply follows_get
      | apply follows_peek
      | apply follows_error
      | apply follows_expect
      | apply follows_semicolon
      | apply config_placer_switch_follows
      | apply ih
      | fail_if_no_progress apply follows_mk
      | fail_if_no_progress dsimp only)

attribute [local irreducible] config_placer_loop

set_option maxRecDepth 4000 in
theorem config_placer_follows (s1 : State) {s : State}
    (h : follows s1 s) :
    follows (config_placer s1) s := by
  unfold config_placer
  try lift_lets
  intros
  repeat (first
    | (apply follows_ite_fst <;> intro _)
    | (apply follows_ite <;> intro _)
    | (apply follows_ite_cond <;> intro _)
    | (apply follows_ite_action <;> intro _)
    | (apply follows_ite_props <;> intro _)
    | (apply follows_ite_switcher <;> intro _)
    | (apply follows_ite_placer <;> intro _)
    | (apply follows_ite_head <;> intro _)
    | exact h
    | apply follows_get
    | apply follows_peek
    | apply follows_error
    | apply follows_expect
    | apply follows_semicolon
    | apply config_placer_loop_follows
    | fail_if_no_progress apply follows_mk
    | fail_if_no_progress dsimp only)

attribute [local irreducible] config_placer

set_option maxRecDepth 4000 in
theorem config_function_item_follows (H : Header) (s1 : State) (actions : List layout_action) {s : State}
    (h : follows s1 s) :
    follows (config_function_item H s1 actions).1 s := by
  unfold config_function_item
  try lift_lets
  intros
  repeat (first
    | (apply follows_ite_fst <;> intro _)
    | (apply follows_ite <;> intro _)
    | (apply follows_ite_cond <;> intro _)
    | (apply follows_ite_action <;> intro _)
    | (apply follows_ite_props <;> intro _)
    | (apply follows_ite_switcher <;> intro _)
    | (apply follows_ite_placer <;> intro _)
    | (apply follows_ite_head <;> intro _)
    | exact h
    | apply follows_get
    | apply follows_peek
    | apply follows_error
    | apply follows_expect
    | apply follows_semicolon
    | apply config_action_follows
    | fail_if_no_progress apply follows_mk
    | fail_if_no_progress dsimp only)

attribute [local irreducible] config_function_item

set_option maxRecDepth 4000 in
theorem config_function_loop_follows (H : Header) (n : Nat) : ∀ (s1 : State) (actions : List layout_action) {s : State},
    follows s1 s → follows (config_function_loop H n s1 actions).1 s := by
  induction n with
  | zero =>
    intro s1 actions s h
    unfold config_function_loop
    repeat (first
      | (apply follows_ite_fst <;> intro _)
      | (apply follows_ite <;> intro _)
      | (apply follows_ite_cond <;> intro _)
      | (apply follows_ite_action <;> intro _)
      | (apply follows_ite_props <;> intro _)
      | (apply follows_ite_switcher <;> intro _)
      | (apply follows_ite_placer <;> intro _)
      | (apply follows_ite_head <;> intro _)
      | exact h
      | apply follows_get
      | apply follows_peek
      | apply follows_error
      | apply follows_expect
      | apply follows_semicolon
      | apply config_function_item_follows
      | fail_if_no_progress apply follows_mk
      | fail_if_no_progress dsimp only)
  | succ n ih =>
    intro s1 actions s h
    rw [config_function_loop_succ]
    repeat (first
      | (apply follows_ite_fst <;> intro _)
      | (apply follows_ite <;> intro _)
      | (apply follows_ite_cond <;> intro _)
      | (apply follows_ite_action <;> intro _)
      | (apply follows_ite_props <;> intro _)
      | (apply follows_ite_switcher <;> intro _)
      | (apply follows_ite_placer <;> intro _)
      | (apply follows_ite_head <;> intro _)
      | exact h
      | apply follows_get
      | apply follows_peek
      | apply follows_error
      | apply follows_expect
      | apply follows_semicolon
      | apply config_function_item_follows
      | apply ih
      | fail_if_no_progress apply follows_mk
      | fail_if_no_progress dsimp only)

attribute [local irreducible] config_function_loop

set_option maxRecDepth 4000 in
theorem config_function_follows (H : Header) (s1 : State) {s : State}
    (h : follows s1 s) :
    follows (config_function H s1) s := by
  unfold config_function
  try lift_lets
  intros
  repeat (first
    | (apply follows_ite_fst <;> intro _)
    | (apply follows_ite <;> intro _)
    | (apply follows_ite_cond <;> intro _)
    | (apply follows_ite_action <;> intro _)
    | (apply follows_ite_props <;> intro _)
    | (apply follows_ite_switcher <;> intro _)
    | (apply follows_ite_placer <;> intro _)
    | (apply follows_ite_head <;> intro _)
    | exact h
    | apply follows_get
    | apply follows_peek
    | apply follows_error
    | apply follows_expect
    | apply follows_semicolon
    | apply config_function_loop_follows
    | fail_if_no_progress apply follows_mk
    | fail_if_no_progress dsimp only)

attribute [local irreducible] config_function

set_option maxRecDepth 4000 in
theorem config_trigger_action_follows (H : Header) (s1 : State) {s : State}
    (h : follows s1 s) :
    follows (config_trigger_action H s1) s := by
  unfold config_trigger_action
  try lift_lets
  intros
  repeat (first
    | (apply follows_ite_fst <;> intro _)
    | (apply follows_ite <;> intro _)
    | (apply follows_ite_cond <;> intro _)
    | (apply follows_ite_action <;> intro _)
    | (apply follows_ite_props <;> intro _)
    | (apply follows_ite_switcher <;> intro _)
    | (apply follows_ite_placer <;> intro _)
    | (apply follows_ite_head <;> intro _)
    | exact h
    | apply follows_get
    | apply follows_peek
    | apply follows_error
    | apply follows_expect
    | apply follows_semicolon
    | apply config_action_follows
    | fail_if_no_progress apply follows_mk
    | fail_if_no_progress dsimp only)

attribute [local irreducible] config_trigger_action

set_option maxRecDepth 4000 in
theorem config_widgets_tail_follows (s1 : State) {s : State}
    (h : follows s1 s) :
    follows (config_widgets_tail s1) s := by
  unfold config_widgets_tail
  try lift_lets
  intros
  repeat (first
    | (apply follows_ite_fst <;> intro _)
    | (apply follows_ite <;> intro _)
    | (apply follows_ite_cond <;> intro _)
    | (apply follows_ite_action <;> intro _)
    | (apply follows_ite_props <;> intro _)
    | (apply follows_ite_switcher <;> intro _)
    | (apply follows_ite_placer <;> intro _)
    | (apply follows_ite_head <;> intro _)
    | exact h
    | apply follows_get
    | apply follows_peek
    | apply follows_error
    | apply follows_expect
    | apply follows_semicolon
    | fail_if_no_progress apply follows_mk
    | fail_if_no_progress dsimp only)

attribute [local irreducible] config_widgets_tail

/-- A loop on a budget whose passes each consume a token leaves through its
test once the budget is at least the number of unconsumed tokens, and then
gives the same result for every such budget. -/
theorem fuel_loop_exit {σ ρ : Type} (st : σ → State) (loop : Nat → σ → ρ) (test : σ → Prop)
    (body : σ → σ) (exit : σ → ρ) (I : σ → Prop)
    (hs1 : ∀ n x, I x → test x → loop (n + 1) x = loop n (body x))
    (hs2 : ∀ n x, I x → ¬ test x → loop (n + 1) x = exit x)
    (h0 : ∀ x, I x → ¬ test x → remaining (st x) = 0 → loop 0 x = exit x)
    (hb : ∀ x, I x → test x → I (body x) ∧ advances (st (body x)) (st x)) :
    ∀ n x, I x → remaining (st x) ≤ n →
      ∃ y, I y ∧ ¬ test y ∧ follows (st y) (st x) ∧
        ∀ m, remaining (st x) ≤ m → loop m x = exit y := by
  intro n
  induction n with
  | zero =>
    intro x hI hle
    by_cases ht : test x
    · have := (hb x hI ht).2.fewer
      omega
    · refine ⟨x, hI, ht, follows_refl _, ?_⟩
      intro m _
      cases m with
      | zero => exact h0 x hI ht (by omega)
      | succ m => exact hs2 m x hI ht
  | succ n ih =>
    intro x hI hle
    by_cases ht : test x
    · obtain ⟨hIb, hadv⟩ := hb x hI ht
      obtain ⟨y, hy1, hy2, hy3, hy4⟩ := ih (body x) hIb (by have := hadv.fewer; omega)
      refine ⟨y, hy1, hy2, follows_trans hy3 hadv.after, ?_⟩
      intro m hm
      cases m with
      | zero =>
        have := hadv.fewer
        omega
      | succ m =>
        rw [hs1 m x hI ht]
        exact hy4 m (by have := hadv.fewer; omega)
    · refine ⟨x, hI, ht, follows_refl _, ?_⟩
      intro m hm
      cases m with
      | zero => exact h0 x hI ht (by omega)
      | succ m => exact hs2 m x hI ht

theorem loop_settles_of_exit {ρ : Type} (loop : Nat → ρ) (k n : Nat) (r : ρ) (hk : k ≤ n)
    (h : ∀ m, k ≤ m → loop m = r) : loop_settles loop n := by
  intro m hm
  rw [h m (le_trans hk hm), h n hk]

theorem advances_get {s1 s : State} (hi : s1.input = s.input)
    (hn : s1.next_token = s.next_token) (h1 : s.next_token ≠ .none)
    (h2 : s.next_token ≠ .eof) : advances (g_scanner_get_next_token s1) s := by
  have h := advances_get_self s1 (by rw [hn]; exact h1) (by rw [hn]; exact h2)
  have hs : stream s1 = stream s := by
    unfold stream
    rw [hi, hn]
  exact advances_then_follows h (follows_of_stream hs)

theorem advances_get_peek (s : State) (h : (g_scanner_peek_next_token s).next_token ≠ .eof) :
    advances (g_scanner_get_next_token (g_scanner_peek_next_token s)) s :=
  advances_then_follows (advances_get_self _ (peek_next_ne_none s) h)
    (follows_of_stream (stream_peek s))

theorem config_expect_token_ok (s : State) (t : Nat) (m : String)
    (h : (g_scanner_peek_next_token s).next_token.code = t) :
    config_expect_token s t m = (g_scanner_peek_next_token s, true) := by
  unfold config_expect_token
  simp [h]

set_option maxRecDepth 4000 in
theorem config_scanner_item_advances (H : Header) (s1 : State) (h1 : s1.next_token ≠ .none)
    (h2 : s1.next_token ≠ .eof) : advances (config_scanner_item H s1) s1 := by
  refine advances_of_follows ?_ (advances_get_self s1 h1 h2)
  have h := follows_refl (g_scanner_get_next_token s1)
  unfold config_scanner_item
  try lift_lets
  intros
  repeat (first
    | (apply follows_ite_fst <;> intro _)
    | (apply follows_ite <;> intro _)
    | (apply follows_ite_cond <;> intro _)
    | (apply follows_ite_action <;> intro _)
    | (apply follows_ite_props <;> intro _)
    | (apply follows_ite_switcher <;> intro _)
    | (apply follows_ite_placer <;> intro _)
    | (apply follows_ite_head <;> intro _)
    | exact h
    | apply follows_get
    | apply follows_peek
    | apply follows_error
    | apply follows_expect
    | apply follows_semicolon
    | apply config_scanner_source_follows
    | fail_if_no_progress apply follows_mk
    | fail_if_no_progress dsimp only)

set_option maxRecDepth 4000 in
theorem config_scanner_var_advances (H : Header) (s1 : State) (file : Nat)
    (h1 : s1.next_token ≠ .none) (h2 : s1.next_token ≠ .eof) :
    advances (config_scanner_var H s1 file) s1 := by
  refine advances_of_follows ?_
    (@advances_get { s1 with max_parse_errors := false } s1 rfl rfl h1 h2)
  have h := follows_refl (g_scanner_get_next_token { s1 with max_parse_errors := false })
  unfold config_scanner_var
  try lift_lets
  intros
  repeat (first
    | (apply follows_ite_fst <;> intro _)
    | (apply follows_ite <;> intro _)
    | (apply follows_ite_cond <;> intro _)
    | (apply follows_ite_action <;> intro _)
    | (apply follows_ite_props <;> intro _)
    | (apply follows_ite_switcher <;> intro _)
    | (apply follows_ite_placer <;> intro _)
    | (apply follows_ite_head <;> intro _)
    | exact h
    | apply follows_get
    | apply follows_peek
    | apply follows_error
    | apply follows_expect
    | apply follows_semicolon
    | apply config_scanner_var_flag_follows
    | fail_if_no_progress apply follows_mk
    | fail_if_no_progress dsimp only)

theorem config_scanner_source_item_advances (H : Header) (s1 : State) (file : Nat)
    (h1 : s1.next_token ≠ .none) (h2 : s1.next_token ≠ .eof) :
    advances (config_scanner_source_item H s1 file) s1 := by
  unfold config_scanner_source_item
  split
  · exact config_scanner_var_advances H s1 file h1 h2
  · exact advances_of_follows (follows_error _ (follows_refl _)) (advances_get_self s1 h1 h2)

set_option maxRecDepth 4000 in
theorem config_scanner_source_flag_advances (s1 : State) (flags : Nat) (fname : String)
    (h1 : s1.next_token ≠ .none) (h2 : s1.next_token ≠ .eof) :
    advances (config_scanner_source_flag s1 flags fname).1 s1 := by
  refine advances_of_follows ?_ (advances_get_self s1 h1 h2)
  have h := follows_refl (g_scanner_get_next_token s1)
  unfold config_scanner_source_flag
  try lift_lets
  intros
  repeat (first
    | (apply follows_ite_fst <;> intro _)
    | (apply follows_ite <;> intro _)
    | (apply follows_ite_cond <;> intro _)
    | (apply follows_ite_action <;> intro _)
    | (apply follows_ite_props <;> intro _)
    | (apply follows_ite_switcher <;> intro _)
    | (apply follows_ite_placer <;> intro _)
    | (apply follows_ite_head <;> intro _)
    | exact h
    | apply follows_get
    | apply follows_peek
    | apply follows_error
    | apply follows_expect
    | apply follows_semicolon
    | fail_if_no_progress apply follows_mk
    | fail_if_no_progress dsimp only)

set_option maxRecDepth 4000 in
theorem config_action_cond_advances (c : CondState) (h1 : c.s.next_token ≠ .none)
    (h2 : c.s.next_token ≠ .eof) : advances (config_action_cond c).s c.s := by
  refine advances_of_follows ?_ (advances_get_self c.s h1 h2)
  have h := follows_refl (g_scanner_get_next_token c.s)
  unfold config_action_cond
  try lift_lets
  intros
  repeat (first
    | (apply follows_ite_fst <;> intro _)
    | (apply follows_ite <;> intro _)
    | (apply follows_ite_cond <;> intro _)
    | (apply follows_ite_action <;> intro _)
    | (apply follows_ite_props <;> intro _)
    | (apply follows_ite_switcher <;> intro _)
    | (apply follows_ite_placer <;> intro _)
    | (apply follows_ite_head <;> intro _)
    | exact h
    | apply follows_get
    | apply follows_peek
    | apply follows_error
    | apply follows_expect
    | apply follows_semicolon
    | fail_if_no_progress apply follows_mk
    | fail_if_no_progress dsimp only)

theorem config_action_conds_advances (n : Nat) (c : CondState) (h1 : c.s.next_token ≠ .none)
    (h2 : c.s.next_token ≠ .eof) : advances (config_action_conds (n + 1) c).s c.s := by
  rw [config_action_conds_succ]
  have hc := config_action_cond_advances c h1 h2
  split
  · exact advances_of_follows
      (config_action_conds_follows n _ (follows_peek (follows_refl (config_action_cond c).s))) hc
  · exact advances_of_follows (follows_peek (follows_refl (config_action_cond c).s)) hc

theorem config_action_bracket_advances (s : State)
    (h : (g_scanner_peek_next_token s).next_token = .chr '[') :
    advances (config_action_bracket s).s s := by
  have key : ∀ x : State, follows
      (if (g_scanner_get_next_token x).token ≠ .chr ']' then
        g_scanner_error (g_scanner_get_next_token x) "missing ']' in conditional action"
      else g_scanner_get_next_token x) x := by
    intro x
    split
    · exact follows_error _ (follows_get (follows_refl _))
    · exact follows_get (follows_refl _)
  have hadv := config_action_conds_advances (g_scanner_peek_next_token s).input.length
    { s := g_scanner_peek_next_token s, cond := 0, ncond := 0 } (peek_next_ne_none s)
    (by rw [h]; simp)
  unfold config_action_bracket
  simp only []
  rw [if_pos h]
  exact advances_of_follows (key _) (advances_then_follows hadv (follows_peek (follows_refl s)))

theorem config_action_bracket_plain (s : State)
    (h : (g_scanner_peek_next_token s).next_token ≠ .chr '[') :
    config_action_bracket s = { s := g_scanner_peek_next_token s, cond := 0, ncond := 0 } := by
  unfold config_action_bracket
  simp only []
  rw [if_neg h]

theorem config_action_args_exec (H : Header) (s : State) (action : layout_action)
    (h : (g_scanner_peek_next_token s).next_token.code = G_TOKEN_STRING) :
    (config_action_args H s action G_TOKEN_EXEC).s =
      g_scanner_get_next_token (g_scanner_peek_next_token s) := by
  have hmem : G_TOKEN_EXEC ∈ action_keywords_string := by decide
  unfold config_action_args
  rw [if_pos hmem, config_expect_token_ok s G_TOKEN_STRING _ h]
  simp

theorem config_action_head_advances (H : Header) (c : CondState) (action : layout_action)
    (h1 : c.s.next_token ≠ .none) (h2 : c.s.next_token ≠ .eof) :
    advances (config_action_head H c action).s c.s := by
  have hp : g_scanner_peek_next_token c.s = c.s := peek_of_next _ h1
  have hg := advances_get_self c.s h1 h2
  unfold config_action_head
  simp only [hp]
  by_cases hcode : c.s.next_token.code = G_TOKEN_STRING
  · have ha := config_action_args_exec H c.s action (by rw [hp]; exact hcode)
    rw [hp] at ha
    simp only [hcode, ne_eq, not_true_eq_false, if_false, false_and]
    split
    · rw [ha]
      exact hg
    · show advances (config_action_args H c.s action G_TOKEN_EXEC).s c.s
      rw [ha]
      exact hg
  · simp only [ne_eq, hcode, not_false_eq_true, if_true, true_and]
    split
    · exact hg
    · split
      · exact advances_of_follows (config_action_args_follows H _ _ _ (follows_refl _)) hg
      · exact advances_of_follows (config_action_args_follows H _ _ _ (follows_refl _)) hg

theorem config_action_advances (H : Header) (s : State) (action : layout_action)
    (h : (g_scanner_peek_next_token s).next_token ≠ .eof) :
    advances (config_action H s action).s s := by
  unfold config_action
  by_cases hb : (g_scanner_peek_next_token s).next_token = .chr '['
  · exact advances_of_follows (config_action_head_follows H _ _ (follows_refl _))
      (config_action_bracket_advances s hb)
  · rw [config_action_bracket_plain s hb]
    exact advances_then_follows
      (config_action_head_advances H _ action (peek_next_ne_none s) h)
      (follows_peek (follows_refl s))

theorem config_scanner_source_flags_exit (fname : String) (n : Nat) (s : State) (flags : Nat)
    (hn : remaining s ≤ n) :
    ∃ y : State × Nat, (g_scanner_peek_next_token y.1).next_token ≠ .chr ',' ∧ follows y.1 s ∧
      ∀ m, remaining s ≤ m →
        config_scanner_source_flags m s flags fname = (g_scanner_peek_next_token y.1, y.2) := by
  obtain ⟨y, _, hy2, hy3, hy4⟩ := fuel_loop_exit (σ := State × Nat) Prod.fst
    (fun n x => config_scanner_source_flags n x.1 x.2 fname)
    (fun x => (g_scanner_peek_next_token x.1).next_token = .chr ',')
    (fun x => config_scanner_source_flag (g_scanner_peek_next_token x.1) x.2 fname)
    (fun x => (g_scanner_peek_next_token x.1, x.2)) (fun _ => True)
    (by
      intro n x _ ht
      simp only []
      rw [config_scanner_source_flags_succ, if_pos ht])
    (by
      intro n x _ ht
      simp only []
      rw [config_scanner_source_flags_succ, if_neg ht])
    (by
      intro x _ _ _
      simp only []
      rw [config_scanner_source_flags])
    (by
      intro x _ ht
      exact ⟨trivial, advances_then_follows
        (config_scanner_source_flag_advances _ _ _ (peek_next_ne_none _) (by rw [ht]; simp))
        (follows_peek (follows_refl _))⟩)
    n (s, flags) trivial hn
  exact ⟨y, hy2, hy3, hy4⟩

theorem config_scanner_source_vars_exit (H : Header) (file : Nat) (n : Nat) (s : State)
    (hn : remaining s ≤ n) :
    ∃ y : State, ¬ ((g_scanner_peek_next_token y).next_token ≠ .chr '}' ∧
        (g_scanner_peek_next_token y).next_token ≠ .eof) ∧ follows y s ∧
      ∀ m, remaining s ≤ m →
        config_scanner_source_vars H m s file = g_scanner_peek_next_token y := by
  obtain ⟨y, _, hy2, hy3, hy4⟩ := fuel_loop_exit (σ := State) id
    (fun n x => config_scanner_source_vars H n x file)
    (fun x => (g_scanner_peek_next_token x).next_token ≠ .chr '}' ∧
      (g_scanner_peek_next_token x).next_token ≠ .eof)
    (fun x => config_scanner_source_item H (g_scanner_peek_next_token x) file)
    g_scanner_peek_next_token (fun _ => True)
    (by
      intro n x _ ht
      simp only []
      rw [config_scanner_source_vars_succ, if_pos ht])
    (by
      intro n x _ ht
      simp only []
      rw [config_scanner_source_vars_succ, if_neg ht])
    (by
      intro x _ _ _
      simp only []
      rw [config_scanner_source_vars])
    (by
      intro x _ ht
      exact ⟨trivial, advances_then_follows
        (config_scanner_source_item_advances H _ file (peek_next_ne_none _) ht.2)
        (follows_peek (follows_refl _))⟩)
    n s trivial hn
  exact ⟨y, hy2, hy3, hy4⟩

theorem config_scanner_loop_exit (H : Header) (n : Nat) (s : State) (hn : remaining s ≤ n) :
    ∃ y : State, ¬ ((g_scanner_peek_next_token y).next_token ≠ .chr '}' ∧
        (g_scanner_peek_next_token y).next_token ≠ .eof) ∧ follows y s ∧
      ∀ m, remaining s ≤ m → config_scanner_loop H m s = g_scanner_peek_next_token y := by
  obtain ⟨y, _, hy2, hy3, hy4⟩ := fuel_loop_exit (σ := State) id
    (fun n x => config_scanner_loop H n x)
    (fun x => (g_scanner_peek_next_token x).next_token ≠ .chr '}' ∧
      (g_scanner_peek_next_token x).next_token ≠ .eof)
    (fun x => config_scanner_item H (g_scanner_peek_next_token x))
    g_scanner_peek_next_token (fun _ => True)
    (by
      intro n x _ ht
      simp only []
      rw [config_scanner_loop_succ, if_pos ht])
    (by
      intro n x _ ht
      simp only []
      rw [config_scanner_loop_succ, if_neg ht])
    (by
      intro x _ _ _
      simp only []
      rw [config_scanner_loop])
    (by
      intro x _ ht
      exact ⟨trivial, advances_then_follows
        (config_scanner_item_advances H _ (peek_next_ne_none _) ht.2)
        (follows_peek (follows_refl _))⟩)
    n s trivial hn
  exact ⟨y, hy2, hy3, hy4⟩

theorem config_get_value_continues_ne_eof (t : Token)
    (h : config_get_value_continues t = true) : t ≠ .eof := by
  unfold config_get_value_continues at h
  simp only [decide_eq_true_eq] at h
  exact h.2.2.2.2

theorem config_get_value_loop_exit (H : Header) (n : Nat) (s : State) (value : String)
    (hs : s.next_token ≠ .none) (hn : remaining s ≤ n) :
    ∃ y : State × String, ¬ (config_get_value_continues y.1.next_token = true) ∧
      follows y.1 s ∧
      ∀ m, remaining s ≤ m → config_get_value_loop H m s value = y := by
  obtain ⟨y, _, hy2, hy3, hy4⟩ := fuel_loop_exit (σ := State × String) Prod.fst
    (fun n x => config_get_value_loop H n x.1 x.2)
    (fun x => config_get_value_continues x.1.next_token = true)
    (fun x => (g_scanner_peek_next_token (g_scanner_get_next_token x.1),
      config_get_value_append H x.1.defines x.2 (g_scanner_get_next_token x.1).token))
    (fun x => x) (fun x => x.1.next_token ≠ .none)
    (by
      intro n x _ ht
      simp only []
      rw [config_get_value_loop_succ, if_pos ht])
    (by
      intro n x _ ht
      simp only []
      rw [config_get_value_loop_succ, if_neg ht])
    (by
      intro x _ _ _
      simp only []
      rw [config_get_value_loop])
    (by
      intro x hx ht
      exact ⟨peek_next_ne_none _, advances_of_follows (follows_peek (follows_refl _))
        (advances_get_self x.1 hx (config_get_value_continues_ne_eof _ ht))⟩)
    n (s, value) hs hn
  exact ⟨y, hy2, hy3, hy4⟩

theorem config_get_pins_loop_exit : ∀ (n : Nat) (s : State), s.next_token ≠ .none →
    s.next_token ≠ .eof → remaining s ≤ n →
    ∀ m, remaining s ≤ m → config_get_pins_loop m s = config_get_pins_loop n s := by
  intro n
  induction n with
  | zero =>
    intro s h1 h2 hn
    have := remaining_pos s h1 h2
    omega
  | succ n ih =>
    intro s h1 h2 hn m hm
    cases m with
    | zero =>
      have := remaining_pos s h1 h2
      omega
    | succ m =>
      have hg := (advances_get_self s h1 h2).fewer
      rw [config_get_pins_loop_succ, config_get_pins_loop_succ]
      split
      · rfl
      · split
        · rename_i hc
          have hf : ∀ k, remaining (g_scanner_get_next_token s) ≤ k → remaining
              (g_scanner_peek_next_token
                { g_scanner_get_next_token (config_expect_token (g_scanner_get_next_token s)
                    G_TOKEN_STRING "expecting a string in pins = string [,string]").1 with
                  calls := (g_scanner_get_next_token (config_expect_token
                      (g_scanner_get_next_token s) G_TOKEN_STRING
                      "expecting a string in pins = string [,string]").1).calls ++
                    [Call.pager_add_pin (g_scanner_get_next_token (config_expect_token
                      (g_scanner_get_next_token s) G_TOKEN_STRING
                      "expecting a string in pins = string [,string]").1).token.v_string] }) ≤
              k := by
            intro k hk
            refine Nat.le_trans (follows_le (b := g_scanner_get_next_token s) ?_) hk
            exact follows_peek (follows_mk _ _ _ _ _ _ _ _ _
              (follows_get (follows_expect _ _ (follows_refl _))))
          exact ih _ (by rw [hc]; simp) (by rw [hc]; simp) (hf n (by omega)) m
            (hf m (by omega))
        · rfl

theorem config_action_conds_exit (n : Nat) (c : CondState) (h1 : c.s.next_token ≠ .none)
    (h2 : c.s.next_token ≠ .eof) (hn : remaining c.s ≤ n) :
    ∃ y : CondState,
      (g_scanner_peek_next_token (config_action_cond y).s).next_token ≠ .chr '|' ∧
      follows y.s c.s ∧
      ∀ m, remaining c.s ≤ m → config_action_conds m c =
        { config_action_cond y with s := g_scanner_peek_next_token (config_action_cond y).s } := by
  obtain ⟨y, _, hy2, hy3, hy4⟩ := fuel_loop_exit (σ := CondState) CondState.s
    (fun n x => config_action_conds n x)
    (fun x => (g_scanner_peek_next_token (config_action_cond x).s).next_token = .chr '|')
    (fun x => { config_action_cond x with
      s := g_scanner_peek_next_token (config_action_cond x).s })
    (fun x => { config_action_cond x with
      s := g_scanner_peek_next_token (config_action_cond x).s })
    (fun x => x.s.next_token ≠ .none ∧ x.s.next_token ≠ .eof)
    (by
      intro n x _ ht
      simp only []
      rw [config_action_conds_succ, if_pos ht])
    (by
      intro n x _ ht
      simp only []
      rw [config_action_conds_succ, if_neg ht])
    (by
      intro x hx _ h0
      have := remaining_pos x.s hx.1 hx.2
      omega)
    (by
      intro x hx ht
      refine ⟨⟨?_, ?_⟩, ?_⟩
      · show (g_scanner_peek_next_token (config_action_cond x).s).next_token ≠ .none
        exact peek_next_ne_none _
      · show (g_scanner_peek_next_token (config_action_cond x).s).next_token ≠ .eof
        rw [ht]
        simp
      · exact advances_of_follows (follows_peek (follows_refl _))
          (config_action_cond_advances x hx.1 hx.2))
    n c ⟨h1, h2⟩ hn
  exact ⟨y, hy2, hy3, hy4⟩

theorem config_widget_props_continues_ne_eof (t : Token) (lw : layout_widget)
    (h : config_widget_props_continues t lw = true) : t ≠ .eof := by
  unfold config_widget_props_continues at h
  simp only [decide_eq_true_eq] at h
  exact h.2.2

theorem config_widget_props_item_advances (H : Header) (p : Props)
    (h1 : p.s.next_token ≠ .none) (h2 : p.s.next_token ≠ .eof) :
    advances (config_widget_props_item H p).s p.s := by
  unfold config_widget_props_item
  exact advances_of_follows (config_widget_props_switch_follows H p _ (follows_refl _))
    (advances_get_self p.s h1 h2)

theorem config_widget_props_loop_exit (H : Header) (n : Nat) (p : Props)
    (hs : p.s.next_token ≠ .none) (hn : remaining p.s ≤ n) :
    ∃ y : Props, ¬ (config_widget_props_continues y.s.next_token y.lw = true) ∧
      follows y.s p.s ∧
      ∀ m, remaining p.s ≤ m → config_widget_props_loop H m p = y := by
  obtain ⟨y, _, hy2, hy3, hy4⟩ := fuel_loop_exit (σ := Props) Props.s
    (fun n x => config_widget_props_loop H n x)
    (fun x => config_widget_props_continues x.s.next_token x.lw = true)
    (fun x => { config_widget_props_item H x with
      s := g_scanner_peek_next_token (config_widget_props_item H x).s })
    (fun x => x) (fun x => x.s.next_token ≠ .none)
    (by
      intro n x _ ht
      simp only []
      rw [config_widget_props_loop_succ, if_pos ht])
    (by
      intro n x _ ht
      simp only []
      rw [config_widget_props_loop_succ, if_neg ht])
    (by
      intro x _ _ _
      simp only []
      rw [config_widget_props_loop])
    (by
      intro x hx ht
      refine ⟨?_, ?_⟩
      · show (g_scanner_peek_next_token (config_widget_props_item H x).s).next_token ≠ .none
        exact peek_next_ne_none _
      · exact advances_of_follows (follows_peek (follows_refl _))
          (config_widget_props_item_advances H x hx
            (config_widget_props_continues_ne_eof _ _ ht)))
    n p hs hn
  exact ⟨y, hy2, hy3, hy4⟩

theorem config_switcher_loop_exit (n : Nat) (p : Switcher) (hn : remaining p.s ≤ n) :
    ∃ y : Switcher, ¬ ((g_scanner_peek_next_token y.s).next_token ≠ .chr '}' ∧
        (g_scanner_peek_next_token y.s).next_token ≠ .eof) ∧ follows y.s p.s ∧
      ∀ m, remaining p.s ≤ m →
        config_switcher_loop m p = { y with s := g_scanner_peek_next_token y.s } := by
  obtain ⟨y, _, hy2, hy3, hy4⟩ := fuel_loop_exit (σ := Switcher) Switcher.s
    (fun n x => config_switcher_loop n x)
    (fun x => (g_scanner_peek_next_token x.s).next_token ≠ .chr '}' ∧
      (g_scanner_peek_next_token x.s).next_token ≠ .eof)
    (fun x => config_switcher_switch x
      (g_scanner_get_next_token (g_scanner_peek_next_token x.s)))
    (fun x => { x with s := g_scanner_peek_next_token x.s }) (fun _ => True)
    (by
      intro n x _ ht
      simp only []
      rw [config_switcher_loop_succ, if_pos ht])
    (by
      intro n x _ ht
      simp only []
      rw [config_switcher_loop_succ, if_neg ht])
    (by
      intro x _ _ _
      simp only []
      rw [config_switcher_loop])
    (by
      intro x _ ht
      exact ⟨trivial, advances_of_follows
        (config_switcher_switch_follows x _ (follows_refl _)) (advances_get_peek x.s ht.2)⟩)
    n p trivial hn
  exact ⟨y, hy2, hy3, hy4⟩

theorem config_placer_loop_exit (n : Nat) (p : Placer) (hn : remaining p.s ≤ n) :
    ∃ y : Placer, ¬ ((g_scanner_peek_next_token y.s).next_token ≠ .chr '}' ∧
        (g_scanner_peek_next_token y.s).next_token ≠ .eof) ∧ follows y.s p.s ∧
      ∀ m, remaining p.s ≤ m →
        config_placer_loop m p = { y with s := g_scanner_peek_next_token y.s } := by
  obtain ⟨y, _, hy2, hy3, hy4⟩ := fuel_loop_exit (σ := Placer) Placer.s
    (fun n x => config_placer_loop n x)
    (fun x => (g_scanner_peek_next_token x.s).next_token ≠ .chr '}' ∧
      (g_scanner_peek_next_token x.s).next_token ≠ .eof)
    (fun x => config_placer_switch x
      (g_scanner_get_next_token (g_scanner_peek_next_token x.s)))
    (fun x => { x with s := g_scanner_peek_next_token x.s }) (fun _ => True)
    (by
      intro n x _ ht
      simp only []
      rw [config_placer_loop_succ, if_pos ht])
    (by
      intro n x _ ht
      simp only []
      rw [config_placer_loop_succ, if_neg ht])
    (by
      intro x _ _ _
      simp only []
      rw [config_placer_loop])
    (by
      intro x _ ht
      exact ⟨trivial, advances_of_follows
        (config_placer_switch_follows x _ (follows_refl _)) (advances_get_peek x.s ht.2)⟩)
    n p trivial hn
  exact ⟨y, hy2, hy3, hy4⟩

theorem config_function_item_next (H : Header) (s : State) (actions : List layout_action) :
    (config_function_item H s actions).1.next_token ≠ .none := by
  unfold config_function_item
  split
  · exact peek_next_ne_none _
  · exact peek_next_ne_none _

theorem config_function_item_advances (H : Header) (s : State) (actions : List layout_action)
    (h1 : s.next_token ≠ .none) (h2 : s.next_token ≠ .eof) :
    advances (config_function_item H s actions).1 s := by
  have ha := config_action_advances H s layout_action.zero
    (by rw [peek_of_next s h1]; exact h2)
  unfold config_function_item
  split
  · exact advances_of_follows (follows_peek (follows_error _ (follows_refl _))) ha
  · exact advances_of_follows (follows_peek (follows_refl _)) ha

theorem config_function_loop_exit (H : Header) (n : Nat) (s : State)
    (actions : List layout_action) (hs : s.next_token ≠ .none) (hn : remaining s ≤ n) :
    ∃ y : State × List layout_action,
      ¬ (y.1.next_token ≠ .eof ∧ y.1.next_token ≠ .chr '}') ∧ follows y.1 s ∧
      ∀ m, remaining s ≤ m → config_function_loop H m s actions = y := by
  obtain ⟨y, _, hy2, hy3, hy4⟩ := fuel_loop_exit (σ := State × List layout_action) Prod.fst
    (fun n x => config_function_loop H n x.1 x.2)
    (fun x => x.1.next_token ≠ .eof ∧ x.1.next_token ≠ .chr '}')
    (fun x => config_function_item H x.1 x.2)
    (fun x => x) (fun x => x.1.next_token ≠ .none)
    (by
      intro n x _ ht
      simp only []
      rw [config_function_loop_succ, if_pos ht])
    (by
      intro n x _ ht
      simp only []
      rw [config_function_loop_succ, if_neg ht])
    (by
      intro x _ _ _
      simp only []
      rw [config_function_loop])
    (by
      intro x hx ht
      exact ⟨config_function_item_next H _ _, config_function_item_advances H _ _ hx ht.1⟩)
    n (s, actions) hs hn
  exact ⟨y, hy2, hy3, hy4⟩

theorem config_menu_head_next (s : State) (parent : Option Nat)
    (h : ¬ (config_menu_head s parent).ok = false) :
    (config_menu_head s parent).s.next_token ≠ .none := by
  revert h
  unfold config_menu_head
  simp only []
  split_ifs <;> first
    | (intro h; exact absurd rfl h)
    | (intro _; exact peek_next_ne_none _)

theorem next_eof_of_remaining (s : State) (h1 : s.next_token ≠ .none) (h : remaining s = 0) :
    s.next_token = .eof := by
  have := remaining_zero_peek s h
  rw [peek_of_next s h1] at this
  exact this

theorem config_menu_loop_stop (H : Header) (s : State) (menu : Nat)
    (h : ¬ (s.next_token ≠ .eof ∧ s.next_token ≠ .chr '}')) :
    ∀ m, config_menu_loop H m s menu = s := by
  intro m
  cases m with
  | zero => rw [config_menu_loop]
  | succ m => rw [config_menu_loop_succ, if_neg h]

theorem config_menu_loop_exit (H : Header) : ∀ (n : Nat) (s : State) (menu : Nat),
    s.next_token ≠ .none → remaining s ≤ n →
    ¬ ((config_menu_loop H n s menu).next_token ≠ .eof ∧
        (config_menu_loop H n s menu).next_token ≠ .chr '}') ∧
    ∀ m, remaining s ≤ m → config_menu_loop H m s menu = config_menu_loop H n s menu := by
  intro n
  induction n with
  | zero =>
    intro s menu h1 hn
    have heof := next_eof_of_remaining s h1 (by omega)
    have ht : ¬ (s.next_token ≠ .eof ∧ s.next_token ≠ .chr '}') := by simp [heof]
    refine ⟨?_, ?_⟩
    · rw [config_menu_loop_stop H s menu ht]
      exact ht
    · intro m _
      rw [config_menu_loop_stop H s menu ht, config_menu_loop_stop H s menu ht]
  | succ n ih =>
    intro s menu h1 hn
    by_cases ht : s.next_token ≠ .eof ∧ s.next_token ≠ .chr '}'
    · have hg := advances_get_self s h1 ht.1
      have hgn : remaining (g_scanner_get_next_token s) ≤ n := by
        have := hg.fewer
        omega
      have hpos : 0 < remaining s := remaining_pos s h1 ht.1
      by_cases hsub : (g_scanner_get_next_token s).token = .kw G_TOKEN_SUBMENU
      · have hhead := follows_le (config_menu_head_follows (g_scanner_get_next_token s)
          (some menu) (follows_refl _))
        by_cases hok : (config_menu_head (g_scanner_get_next_token s) (some menu)).ok = false
        · have hX := follows_le (follows_peek (follows_refl
            (config_menu_head (g_scanner_get_next_token s) (some menu)).s))
          obtain ⟨e1, e2⟩ := ih (g_scanner_peek_next_token
            (config_menu_head (g_scanner_get_next_token s) (some menu)).s) menu
            (peek_next_ne_none _) (by omega)
          have hval : ∀ k, config_menu_loop H (k + 1) s menu = config_menu_loop H k
              (g_scanner_peek_next_token
                (config_menu_head (g_scanner_get_next_token s) (some menu)).s) menu := by
            intro k
            rw [config_menu_loop_succ, if_pos ht, if_pos hsub, if_pos hok]
          rw [hval n]
          refine ⟨e1, ?_⟩
          intro m hm
          cases m with
          | zero => omega
          | succ m =>
            rw [hval m]
            exact e2 m (by have := hg.fewer; omega)
        · have hY := config_menu_head_next _ _ hok
          obtain ⟨_, i2⟩ := ih (config_menu_head (g_scanner_get_next_token s) (some menu)).s
            (config_menu_head (g_scanner_get_next_token s) (some menu)).menu hY (by omega)
          have hZ := follows_le (follows_peek (config_menu_tail_follows _
            (config_menu_head (g_scanner_get_next_token s) (some menu)).name
            (config_menu_head (g_scanner_get_next_token s) (some menu)).menu (some menu)
            (config_menu_loop_follows H n
              (config_menu_head (g_scanner_get_next_token s) (some menu)).s
              (config_menu_head (g_scanner_get_next_token s) (some menu)).menu
              (follows_refl _))))
          obtain ⟨e1, e2⟩ := ih (g_scanner_peek_next_token
              (config_menu_tail
                (config_menu_loop H n
                  (config_menu_head (g_scanner_get_next_token s) (some menu)).s
                  (config_menu_head (g_scanner_get_next_token s) (some menu)).menu)
                (config_menu_head (g_scanner_get_next_token s) (some menu)).name
                (config_menu_head (g_scanner_get_next_token s) (some menu)).menu
                (some menu))) menu (peek_next_ne_none _) (by omega)
          have hval : ∀ k, config_menu_loop H (k + 1) s menu = config_menu_loop H k
              (g_scanner_peek_next_token
                (config_menu_tail
                  (config_menu_loop H k
                    (config_menu_head (g_scanner_get_next_token s) (some menu)).s
                    (config_menu_head (g_scanner_get_next_token s) (some menu)).menu)
                  (config_menu_head (g_scanner_get_next_token s) (some menu)).name
                  (config_menu_head (g_scanner_get_next_token s) (some menu)).menu
                  (some menu))) menu := by
            intro k
            rw [config_menu_loop_succ, if_pos ht, if_pos hsub, if_neg hok]
          rw [hval n]
          refine ⟨e1, ?_⟩
          intro m hm
          cases m with
          | zero => omega
          | succ m =>
            have hm1 : remaining (g_scanner_get_next_token s) ≤ m := by
              have := hg.fewer
              omega
            rw [hval m, i2 m (by omega)]
            exact e2 m (by omega)
      · have hX := follows_le (follows_peek (config_menu_entry_follows H
          (g_scanner_get_next_token s) menu (follows_refl _)))
        obtain ⟨e1, e2⟩ := ih (g_scanner_peek_next_token
          (config_menu_entry H (g_scanner_get_next_token s) menu)) menu
          (peek_next_ne_none _) (by omega)
        have hval : ∀ k, config_menu_loop H (k + 1) s menu = config_menu_loop H k
            (g_scanner_peek_next_token
              (config_menu_entry H (g_scanner_get_next_token s) menu)) menu := by
          intro k
          rw [config_menu_loop_succ, if_pos ht, if_neg hsub]
        rw [hval n]
        refine ⟨e1, ?_⟩
        intro m hm
        cases m with
        | zero => omega
        | succ m =>
          rw [hval m]
          exact e2 m (by have := hg.fewer; omega)
    · refine ⟨?_, ?_⟩
      · rw [config_menu_loop_stop H s menu ht]
        exact ht
      · intro m _
        rw [config_menu_loop_stop H s menu ht, config_menu_loop_stop H s menu ht]

theorem no_include_of_follows {a b : State} (h : follows a b) (hb : no_include b) :
    no_include a :=
  fun hm => hb (h.suffix.subset hm)

theorem token_get_peek_mem (s : State) (h : (g_scanner_peek_next_token s).next_token ≠ .eof) :
    (g_scanner_get_next_token (g_scanner_peek_next_token s)).token ∈ stream s := by
  have := token_get_mem (g_scanner_peek_next_token s) (peek_next_ne_none s) h
  rwa [stream_peek] at this

theorem returns_after_mono {x : Outcome State} {a s : State} (h : returns_after x a)
    (ha : follows a s) : returns_after x s := by
  obtain ⟨r, hr, hf⟩ := h
  exact ⟨r, hr, follows_trans hf ha⟩

theorem returns_after_bind {x : Outcome State} {f : State → Outcome State} {s : State}
    (hx : returns_after x s) (hf : ∀ a, follows a s → returns_after (f a) s) :
    returns_after (x.bind f) s := by
  obtain ⟨r, hr, hfr⟩ := hx
  rw [hr]
  exact hf r hfr

theorem bind_eq_of_returns {x y : Outcome State} {f g : State → Outcome State} {s : State}
    (hxy : x = y) (hy : returns_after y s) (hfg : ∀ a, follows a s → f a = g a) :
    x.bind f = y.bind g := by
  obtain ⟨r, hr, hfr⟩ := hy
  rw [hxy, hr]
  exact hfg r hfr

theorem config_widgets_switch_plain (H : Header)
    (inc : State → Outcome (State × Option layout_widget)) (s1 : State)
    (h : s1.token ≠ .kw G_TOKEN_INCLUDE) :
    ∃ w, config_widgets_switch H inc s1 = .returned w ∧ follows w.1 s1 := by
  unfold config_widgets_switch
  rw [if_neg h]
  split
  · exact ⟨_, rfl, follows_mk _ _ _ _ _ _ _ _ _ (follows_refl _)⟩
  · exact ⟨_, rfl, follows_error _ (follows_refl _)⟩

theorem config_widgets_loop_stop (H : Header)
    (inc : State → Outcome (State × Option layout_widget)) (s : State)
    (parent sibling : Option GtkWidget)
    (h : ¬ ((g_scanner_peek_next_token s).next_token ≠ .chr '}' ∧
      (g_scanner_peek_next_token s).next_token ≠ .eof)) :
    ∀ m, config_widgets_loop H inc m s parent sibling =
      .returned (g_scanner_peek_next_token s) := by
  intro m
  cases m with
  | zero => rw [config_widgets_loop]
  | succ m => rw [config_widgets_loop_succ, if_neg h]

theorem config_widgets_loop_returns (H : Header)
    (inc : State → Outcome (State × Option layout_widget)) :
    ∀ (n : Nat) (s : State) (parent sibling : Option GtkWidget), no_include s →
      returns_after (config_widgets_loop H inc n s parent sibling) s := by
  intro n
  induction n with
  | zero =>
    intro s p sib _
    exact ⟨_, by rw [config_widgets_loop], follows_peek (follows_refl _)⟩
  | succ n ih =>
    intro s p sib hinc
    have ih2 : ∀ (a : State) (p sib : Option GtkWidget), follows a s →
        returns_after (config_widgets_loop H inc n a p sib) s :=
      fun a p sib ha => returns_after_mono (ih a p sib (no_include_of_follows ha hinc)) ha
    rw [config_widgets_loop_succ]
    split
    · rename_i ht
      have hmem := token_get_peek_mem s ht.2
      have hne : (g_scanner_get_next_token (g_scanner_peek_next_token s)).token ≠
          .kw G_TOKEN_INCLUDE := fun e => hinc (e ▸ hmem)
      obtain ⟨w, hw, hfw⟩ := config_widgets_switch_plain H inc _ hne
      have hws : follows w.1 s := follows_trans hfw (advances_get_peek s ht.2).after
      rw [hw, Outcome.bind_returned]
      split
      · exact ih2 _ _ _ hws
      · split
        · apply returns_after_bind
          · exact ih2 _ _ _ (follows_mk _ _ _ _ _ _ _ _ _
              (config_widget_props_follows H _ _ hws))
          · intro a ha
            exact ih2 _ _ _ (follows_mk _ _ _ _ _ _ _ _ _ (config_widgets_tail_follows _ ha))
        · exact ih2 _ _ _ (follows_mk _ _ _ _ _ _ _ _ _
            (config_widget_props_follows H _ _ hws))
    · exact ⟨_, rfl, follows_peek (follows_refl _)⟩

theorem config_widgets_loop_exit (H : Header)
    (inc : State → Outcome (State × Option layout_widget)) :
    ∀ (n : Nat) (s : State) (parent sibling : Option GtkWidget), no_include s →
      remaining s ≤ n → ∀ m, remaining s ≤ m →
        config_widgets_loop H inc m s parent sibling =
          config_widgets_loop H inc n s parent sibling := by
  intro n
  induction n with
  | zero =>
    intro s p sib _ hn m _
    have heof := remaining_zero_peek s (by omega)
    have ht : ¬ ((g_scanner_peek_next_token s).next_token ≠ .chr '}' ∧
        (g_scanner_peek_next_token s).next_token ≠ .eof) := by simp [heof]
    rw [config_widgets_loop_stop H inc s p sib ht, config_widgets_loop_stop H inc s p sib ht]
  | succ n ih =>
    intro s p sib hinc hn m hm
    by_cases ht : (g_scanner_peek_next_token s).next_token ≠ .chr '}' ∧
        (g_scanner_peek_next_token s).next_token ≠ .eof
    · have hadv := advances_get_peek s ht.2
      cases m with
      | zero =>
        have := hadv.fewer
        omega
      | succ m =>
        have hmem := token_get_peek_mem s ht.2
        have hne : (g_scanner_get_next_token (g_scanner_peek_next_token s)).token ≠
            .kw G_TOKEN_INCLUDE := fun e => hinc (e ▸ hmem)
        obtain ⟨w, hw, hfw⟩ := config_widgets_switch_plain H inc _ hne
        have hws : advances w.1 s := advances_of_follows hfw hadv
        have ih2 : ∀ (a : State) (p sib : Option GtkWidget), follows a w.1 →
            config_widgets_loop H inc m a p sib = config_widgets_loop H inc n a p sib := by
          intro a p sib ha
          have h1 := follows_le ha
          have h2 := hws.fewer
          exact ih a p sib (no_include_of_follows (follows_trans ha hws.after) hinc)
            (by omega) m (by omega)
        rw [config_widgets_loop_succ, config_widgets_loop_succ, if_pos ht, if_pos ht, hw,
          Outcome.bind_returned, Outcome.bind_returned]
        split
        · rename_i c1
          try rw [if_pos c1]
          exact ih2 _ _ _ (follows_refl _)
        · rename_i c1
          try rw [if_neg c1]
          split
          · rename_i c2
            try rw [if_pos c2]
            apply bind_eq_of_returns (s := w.1)
            · exact ih2 _ _ _ (follows_mk _ _ _ _ _ _ _ _ _
                (config_widget_props_follows H _ _ (follows_refl _)))
            · exact returns_after_mono (config_widgets_loop_returns H inc n _ _ _
                (no_include_of_follows (follows_trans (follows_mk _ _ _ _ _ _ _ _ _
                  (config_widget_props_follows H _ _ (follows_refl _))) hws.after) hinc))
                (follows_mk _ _ _ _ _ _ _ _ _
                  (config_widget_props_follows H _ _ (follows_refl _)))
            · intro a ha
              exact ih2 _ _ _ (follows_mk _ _ _ _ _ _ _ _ _
                (config_widgets_tail_follows _ ha))
          · rename_i c2
            try rw [if_neg c2]
            exact ih2 _ _ _ (follows_mk _ _ _ _ _ _ _ _ _
              (config_widget_props_follows H _ _ (follows_refl _)))
    · rw [config_widgets_loop_stop H inc s p sib ht, config_widgets_loop_stop H inc s p sib ht]

theorem config_widgets_returns (H : Header)
    (inc : State → Outcome (State × Option layout_widget)) (s : State)
    (parent : Option GtkWidget) (h : no_include s) :
    returns_after (config_widgets H inc s parent) s := by
  unfold config_widgets
  apply returns_after_bind (config_widgets_loop_returns H inc _ s parent Option.none h)
  intro a ha
  exact ⟨_, rfl, config_widgets_tail_follows _ ha⟩

theorem config_layout_returns (H : Header)
    (inc : State → Outcome (State × Option layout_widget)) (s : State) (h : no_include s) :
    ∃ r, config_layout H inc s = .returned r ∧ follows r.1 s := by
  have hs1 : ∀ lw, follows
      { (config_widget_props H
          { s with max_parse_errors := false,
                   calls := s.calls ++ [Call.gtk_widget_set_name (some GtkWidget.grid) "layout"] }
          lw).1 with
        calls := (config_widget_props H
            { s with max_parse_errors := false,
                     calls := s.calls ++
                       [Call.gtk_widget_set_name (some GtkWidget.grid) "layout"] }
            lw).1.calls ++
          [Call.layout_widget_config (config_widget_props H
            { s with max_parse_errors := false,
                     calls := s.calls ++
                       [Call.gtk_widget_set_name (some GtkWidget.grid) "layout"] }
            lw).2.1 Option.none Option.none] } s := by
    intro lw
    exact follows_mk _ _ _ _ _ _ _ _ _ (config_widget_props_follows H _ _
      (follows_mk _ _ _ _ _ _ _ _ _ (follows_refl s)))
  rw [config_layout_eq]
  dsimp only
  split
  · obtain ⟨r, hr, hf⟩ := config_widgets_returns H inc _
      (config_widget_props H _ _).2.1.widget (no_include_of_follows (hs1 _) h)
    rw [hr]
    exact ⟨_, rfl, follows_trans hf (hs1 _)⟩
  · exact ⟨_, rfl, hs1 _⟩

theorem config_parse_toplevel_switch_returns (H : Header)
    (inc : State → Outcome (State × Option layout_widget)) (layout : Bool) (s1 : State)
    (w : Option layout_widget) (h : no_include s1) :
    ∃ r, config_parse_toplevel_switch H inc layout s1 w = .returned r ∧ follows r.1 s1 := by
  unfold config_parse_toplevel_switch
  split
  · exact ⟨_, rfl, config_scanner_follows H _ (follows_refl _)⟩
  split
  · split
    · obtain ⟨r, hr, hf⟩ := config_layout_returns H inc s1 h
      rw [hr]
      exact ⟨_, rfl, hf⟩
    · exact ⟨_, rfl, follows_error _ (follows_refl _)⟩
  split
  · exact ⟨_, rfl, config_placer_follows _ (follows_refl _)⟩
  split
  · exact ⟨_, rfl, config_switcher_follows _ (follows_refl _)⟩
  split
  · exact ⟨_, rfl, config_menu_follows H _ _ (follows_refl _)⟩
  split
  · exact ⟨_, rfl, config_define_follows H _ (follows_refl _)⟩
  split
  · exact ⟨_, rfl, config_trigger_action_follows H _ (follows_refl _)⟩
  split
  · exact ⟨_, rfl, config_function_follows H _ (follows_refl _)⟩
  · exact ⟨_, rfl, follows_error _ (follows_refl _)⟩

theorem config_parse_toplevel_pass (H : Header)
    (inc : State → Outcome (State × Option layout_widget)) (layout : Bool) (x : State)
    (w : Option layout_widget) (h : no_include x)
    (ht : (g_scanner_peek_next_token x).next_token ≠ .eof) :
    ∃ r, config_parse_toplevel_switch H inc layout
        (g_scanner_get_next_token (g_scanner_peek_next_token x)) w = .returned r ∧
      advances r.1 x := by
  have hadv := advances_get_peek x ht
  obtain ⟨r, hr, hf⟩ := config_parse_toplevel_switch_returns H inc layout _ w
    (no_include_of_follows hadv.after h)
  exact ⟨r, hr, advances_of_follows hf hadv⟩

theorem config_parse_toplevel_loop_exit (H : Header)
    (inc : State → Outcome (State × Option layout_widget)) (layout : Bool) (n : Nat)
    (s : State) (w : Option layout_widget) (hinc : no_include s) (hn : remaining s ≤ n) :
    ∃ y : State × Option layout_widget, (g_scanner_peek_next_token y.1).next_token = .eof ∧
      follows y.1 s ∧
      ∀ m, remaining s ≤ m → config_parse_toplevel_loop H inc layout m s w =
        .returned (g_scanner_peek_next_token y.1, y.2) := by
  obtain ⟨y, _, hy2, hy3, hy4⟩ := fuel_loop_exit (σ := State × Option layout_widget) Prod.fst
    (fun n x => config_parse_toplevel_loop H inc layout n x.1 x.2)
    (fun x => (g_scanner_peek_next_token x.1).next_token ≠ .eof)
    (fun x =>
      match config_parse_toplevel_switch H inc layout
          (g_scanner_get_next_token (g_scanner_peek_next_token x.1)) x.2 with
      | .returned r => r
      | _ => x)
    (fun x => .returned (g_scanner_peek_next_token x.1, x.2)) (fun x => no_include x.1)
    (by
      intro n x hx ht
      obtain ⟨r, hr, _⟩ := config_parse_toplevel_pass H inc layout x.1 x.2 hx ht
      simp only []
      rw [config_parse_toplevel_loop_succ, if_pos ht, hr, Outcome.bind_returned])
    (by
      intro n x _ ht
      simp only []
      rw [config_parse_toplevel_loop_succ, if_neg ht])
    (by
      intro x _ _ _
      simp only []
      rw [config_parse_toplevel_loop])
    (by
      intro x hx ht
      obtain ⟨r, hr, hadv⟩ := config_parse_toplevel_pass H inc layout x.1 x.2 hx ht
      simp only [hr]
      exact ⟨no_include_of_follows hadv.after hx, hadv⟩)
    n (s, w) hinc hn
  exact ⟨y, not_not.mp hy2, hy3, hy4⟩

theorem config_menu_loop_pass (H : Header) (n : Nat) (x : State) (menu : Nat)
    (h1 : x.next_token ≠ .none) (h2 : x.next_token ≠ .eof) (h3 : x.next_token ≠ .chr '}') :
    ∃ x1, advances x1 x ∧ config_menu_loop H (n + 1) x menu = config_menu_loop H n x1 menu := by
  have hg := advances_get_self x h1 h2
  rw [config_menu_loop_succ, if_pos ⟨h2, h3⟩]
  split
  · split
    · refine ⟨_, ?_, rfl⟩
      exact advances_of_follows (follows_peek (config_menu_head_follows _ _ (follows_refl _))) hg
    · refine ⟨_, ?_, rfl⟩
      exact advances_of_follows (follows_peek (config_menu_tail_follows _ _ _ _
        (config_menu_loop_follows H n _ _ (config_menu_head_follows _ _ (follows_refl _))))) hg
  · refine ⟨_, ?_, rfl⟩
    exact advances_of_follows (follows_peek (config_menu_entry_follows H _ _ (follows_refl _))) hg

theorem config_widgets_loop_pass (H : Header)
    (inc : State → Outcome (State × Option layout_widget)) (n : Nat) (x : State)
    (parent sibling : Option GtkWidget) (hinc : no_include x)
    (ht : (g_scanner_peek_next_token x).next_token ≠ .chr '}' ∧
      (g_scanner_peek_next_token x).next_token ≠ .eof) :
    ∃ x1 sibling1, advances x1 x ∧
      config_widgets_loop H inc (n + 1) x parent sibling =
        config_widgets_loop H inc n x1 parent sibling1 := by
  have hadv := advances_get_peek x ht.2
  have hmem := token_get_peek_mem x ht.2
  have hne : (g_scanner_get_next_token (g_scanner_peek_next_token x)).token ≠
      .kw G_TOKEN_INCLUDE := fun e => hinc (e ▸ hmem)
  obtain ⟨w, hw, hfw⟩ := config_widgets_switch_plain H inc _ hne
  have hws : advances w.1 x := advances_of_follows hfw hadv
  rw [config_widgets_loop_succ, if_pos ht, hw, Outcome.bind_returned]
  split
  · exact ⟨_, _, hws, rfl⟩
  · split
    · have hA : follows
          { (config_widget_props H w.1 (w.2.getD H.layout_widget_new)).1 with
            calls := (config_widget_props H w.1 (w.2.getD H.layout_widget_new)).1.calls ++
              [Call.layout_widget_config
                (config_widget_props H w.1 (w.2.getD H.layout_widget_new)).2.1
                parent sibling] } w.1 :=
        follows_mk _ _ _ _ _ _ _ _ _ (config_widget_props_follows H _ _ (follows_refl _))
      obtain ⟨s4, h4, hf4⟩ := config_widgets_loop_returns H inc n _
        (config_widget_props H w.1 (w.2.getD H.layout_widget_new)).2.1.widget Option.none
        (no_include_of_follows (follows_trans hA hws.after) hinc)
      rw [h4, Outcome.bind_returned]
      refine ⟨_, _, ?_, rfl⟩
      exact advances_of_follows (follows_mk _ _ _ _ _ _ _ _ _
        (config_widgets_tail_follows _ (follows_trans hf4 hA))) hws
    · refine ⟨_, _, ?_, rfl⟩
      exact advances_of_follows (follows_mk _ _ _ _ _ _ _ _ _
        (config_widget_props_follows H _ _ (follows_refl _))) hws

theorem config_get_pins_loop_pass (n : Nat) (x : State) (h1 : x.next_token ≠ .none)
    (h2 : x.next_token ≠ .eof) :
    ∃ x1, advances x1 x ∧
      (config_get_pins_loop (n + 1) x = config_get_pins_loop n x1 ∨
        config_get_pins_loop (n + 1) x = x1) := by
  have hg := advances_get_self x h1 h2
  rw [config_get_pins_loop_succ]
  split
  · refine ⟨_, ?_, Or.inr rfl⟩
    exact advances_of_follows (follows_expect _ _ (follows_refl _)) hg
  · split
    · refine ⟨_, ?_, Or.inl rfl⟩
      exact advances_of_follows (follows_peek (follows_mk _ _ _ _ _ _ _ _ _
        (follows_get (follows_expect _ _ (follows_refl _))))) hg
    · refine ⟨_, ?_, Or.inr rfl⟩
      exact advances_of_follows (follows_peek (follows_mk _ _ _ _ _ _ _ _ _
        (follows_get (follows_expect _ _ (follows_refl _))))) hg

theorem config_expect_token_next (x : State) (t : Nat) (m : String)
    (h : (config_expect_token x t m).2 = true) (h1 : t ≠ 256) (h2 : t ≠ 0) :
    (config_expect_token x t m).1.next_token ≠ .none ∧
      (config_expect_token x t m).1.next_token ≠ .eof := by
  revert h
  unfold config_expect_token
  simp only []
  split
  · rename_i hc
    intro _
    refine ⟨?_, ?_⟩
    · intro e
      rw [e] at hc
      exact h1 hc.symm
    · intro e
      rw [e] at hc
      exact h2 hc.symm
  · intro h
    exact absurd h (by simp)

/-- C31: on every token sequence without an `Include` keyword
`config_parse_toplevel` returns, with the end of input peeked, and every
budget of at least the length of the input plus one gives that same result;
the function `inc` standing for `config_include` is arbitrary, it is never
called.  Every parsing loop (top level, scanner block, source body, flag
list, widget list, property block, menu body, function body, switcher and
placer blocks, condition list, pins list, value) settles at the budget its
caller gives it, the length of the input plus one, and each pass through its
body that starts on a token leaves fewer unconsumed tokens than it found.
The loops that are entered on a token get one from their callers: a peek
leaves a token or the end of input in the look-ahead slot, an accepted menu
header ends with a peek, and an accepted `=` is a token. -/
theorem config_parse_toplevel_terminates (H : Header)
    (inc : State → Outcome (State × Option layout_widget)) (layout : Bool) (s : State)
    (hinc : no_include s) :
    (∃ r, config_parse_toplevel H inc s layout = .returned r ∧ r.1.next_token = .eof ∧
      follows r.1 s ∧
      ∀ m, s.input.length + 1 ≤ m →
        config_parse_toplevel_loop H inc layout m s Option.none = .returned r) ∧
    (∀ (x : State) (w : Option layout_widget), no_include x →
      (g_scanner_peek_next_token x).next_token ≠ .eof →
      ∃ r, config_parse_toplevel_switch H inc layout
          (g_scanner_get_next_token (g_scanner_peek_next_token x)) w = .returned r ∧
        advances r.1 x) ∧
    (∀ x : State, loop_settles (fun n => config_scanner_loop H n x) (x.input.length + 1)) ∧
    (∀ x : State, (g_scanner_peek_next_token x).next_token ≠ .eof →
      advances (config_scanner_item H (g_scanner_peek_next_token x)) x) ∧
    (∀ (x : State) (file : Nat),
      loop_settles (fun n => config_scanner_source_vars H n x file) (x.input.length + 1)) ∧
    (∀ (x : State) (file : Nat), (g_scanner_peek_next_token x).next_token ≠ .eof →
      advances (config_scanner_source_item H (g_scanner_peek_next_token x) file) x) ∧
    (∀ (x : State) (flags : Nat) (fname : String),
      loop_settles (fun n => config_scanner_source_flags n x flags fname)
        (x.input.length + 1)) ∧
    (∀ (x : State) (flags : Nat) (fname : String),
      (g_scanner_peek_next_token x).next_token = .chr ',' →
      advances (config_scanner_source_flag (g_scanner_peek_next_token x) flags fname).1 x) ∧
    (∀ (x : State) (parent sibling : Option GtkWidget), no_include x →
      loop_settles (fun n => config_widgets_loop H inc n x parent sibling)
        (x.input.length + 1) ∧
      returns_after (config_widgets_loop H inc (x.input.length + 1) x parent sibling) x) ∧
    (∀ (n : Nat) (x : State) (parent sibling : Option GtkWidget), no_include x →
      (g_scanner_peek_next_token x).next_token ≠ .chr '}' ∧
        (g_scanner_peek_next_token x).next_token ≠ .eof →
      ∃ x1 sibling1, advances x1 x ∧
        config_widgets_loop H inc (n + 1) x parent sibling =
          config_widgets_loop H inc n x1 parent sibling1) ∧
    (∀ p : Props, p.s.next_token ≠ .none →
      loop_settles (fun n => config_widget_props_loop H n p) (p.s.input.length + 1)) ∧
    (∀ p : Props, p.s.next_token ≠ .none →
      config_widget_props_continues p.s.next_token p.lw = true →
      advances (config_widget_props_item H p).s p.s) ∧
    (∀ (x : State) (menu : Nat), x.next_token ≠ .none →
      loop_settles (fun n => config_menu_loop H n x menu) (x.input.length + 1)) ∧
    (∀ (n : Nat) (x : State) (menu : Nat), x.next_token ≠ .none → x.next_token ≠ .eof →
      x.next_token ≠ .chr '}' →
      ∃ x1, advances x1 x ∧
        config_menu_loop H (n + 1) x menu = config_menu_loop H n x1 menu) ∧
    (∀ (x : State) (actions : List layout_action), x.next_token ≠ .none →
      loop_settles (fun n => config_function_loop H n x actions) (x.input.length + 1)) ∧
    (∀ (x : State) (actions : List layout_action), x.next_token ≠ .none →
      x.next_token ≠ .eof → advances (config_function_item H x actions).1 x) ∧
    (∀ p : Switcher, loop_settles (fun n => config_switcher_loop n p) (p.s.input.length + 1)) ∧
    (∀ p : Switcher, (g_scanner_peek_next_token p.s).next_token ≠ .eof →
      advances (config_switcher_switch p
        (g_scanner_get_next_token (g_scanner_peek_next_token p.s))).s p.s) ∧
    (∀ p : Placer, loop_settles (fun n => config_placer_loop n p) (p.s.input.length + 1)) ∧
    (∀ p : Placer, (g_scanner_peek_next_token p.s).next_token ≠ .eof →
      advances (config_placer_switch p
        (g_scanner_get_next_token (g_scanner_peek_next_token p.s))).s p.s) ∧
    (∀ c : CondState, c.s.next_token ≠ .none → c.s.next_token ≠ .eof →
      loop_settles (fun n => config_action_conds n c) (c.s.input.length + 1)) ∧
    (∀ c : CondState, c.s.next_token ≠ .none → c.s.next_token ≠ .eof →
      advances (config_action_cond c).s c.s) ∧
    (∀ x : State, x.next_token ≠ .none → x.next_token ≠ .eof →
      loop_settles (fun n => config_get_pins_loop n x) (x.input.length + 1)) ∧
    (∀ (n : Nat) (x : State), x.next_token ≠ .none → x.next_token ≠ .eof →
      ∃ x1, advances x1 x ∧
        (config_get_pins_loop (n + 1) x = config_get_pins_loop n x1 ∨
          config_get_pins_loop (n + 1) x = x1)) ∧
    (∀ (x : State) (value : String), x.next_token ≠ .none →
      loop_settles (fun n => config_get_value_loop H n x value) (x.input.length + 1)) ∧
    (∀ x : State, x.next_token ≠ .none → config_get_value_continues x.next_token = true →
      advances (g_scanner_peek_next_token (g_scanner_get_next_token x)) x) ∧
    (∀ x : State, (g_scanner_peek_next_token x).next_token ≠ .none) ∧
    (∀ (x : State) (parent : Option Nat), (config_menu_head x parent).ok = true →
      (config_menu_head x parent).s.next_token ≠ .none) ∧
    (∀ (x : State) (m : String), (config_expect_token x ('='.toNat) m).2 = true →
      (config_expect_token x ('='.toNat) m).1.next_token ≠ .none ∧
        (config_expect_token x ('='.toNat) m).1.next_token ≠ .eof) := by
  refine ⟨?_, ?_, ?_, ?_, ?_, ?_, ?_, ?_, ?_, ?_, ?_, ?_, ?_, ?_, ?_, ?_, ?_, ?_, ?_, ?_, ?_,
    ?_, ?_, ?_, ?_, ?_, ?_, ?_, ?_⟩
  · obtain ⟨y, hy1, hy2, hy3⟩ := config_parse_toplevel_loop_exit H inc layout (remaining s) s
      Option.none hinc le_rfl
    refine ⟨(g_scanner_peek_next_token y.1, y.2), ?_, hy1, follows_peek hy2, ?_⟩
    · unfold config_parse_toplevel
      exact hy3 _ (remaining_le_input s)
    · intro m hm
      exact hy3 m (le_trans (remaining_le_input s) hm)
  · intro x w hx ht
    exact config_parse_toplevel_pass H inc layout x w hx ht
  · intro x
    obtain ⟨y, _, _, hy⟩ := config_scanner_loop_exit H (remaining x) x le_rfl
    exact loop_settles_of_exit _ _ _ _ (remaining_le_input x) hy
  · intro x ht
    exact advances_then_follows (config_scanner_item_advances H _ (peek_next_ne_none x) ht)
      (follows_peek (follows_refl x))
  · intro x file
    obtain ⟨y, _, _, hy⟩ := config_scanner_source_vars_exit H file (remaining x) x le_rfl
    exact loop_settles_of_exit _ _ _ _ (remaining_le_input x) hy
  · intro x file ht
    exact advances_then_follows
      (config_scanner_source_item_advances H _ file (peek_next_ne_none x) ht)
      (follows_peek (follows_refl x))
  · intro x flags fname
    obtain ⟨y, _, _, hy⟩ := config_scanner_source_flags_exit fname (remaining x) x flags le_rfl
    exact loop_settles_of_exit _ _ _ _ (remaining_le_input x) hy
  · intro x flags fname ht
    exact advances_then_follows
      (config_scanner_source_flag_advances _ flags fname (peek_next_ne_none x)
        (by rw [ht]; simp))
      (follows_peek (follows_refl x))
  · intro x parent sibling hx
    refine ⟨?_, config_widgets_loop_returns H inc _ x parent sibling hx⟩
    exact loop_settles_of_exit _ _ _ _ (remaining_le_input x)
      (config_widgets_loop_exit H inc (remaining x) x parent sibling hx le_rfl)
  · intro n x parent sibling hx ht
    exact config_widgets_loop_pass H inc n x parent sibling hx ht
  · intro p hp
    obtain ⟨y, _, _, hy⟩ := config_widget_props_loop_exit H (remaining p.s) p hp le_rfl
    exact loop_settles_of_exit _ _ _ _ (remaining_le_input p.s) hy
  · intro p hp ht
    exact config_widget_props_item_advances H p hp
      (config_widget_props_continues_ne_eof _ _ ht)
  · intro x menu hx
    exact loop_settles_of_exit _ _ _ _ (remaining_le_input x)
      (config_menu_loop_exit H (remaining x) x menu hx le_rfl).2
  · intro n x menu h1 h2 h3
    exact config_menu_loop_pass H n x menu h1 h2 h3
  · intro x actions hx
    obtain ⟨y, _, _, hy⟩ := config_function_loop_exit H (remaining x) x actions hx le_rfl
    exact loop_settles_of_exit _ _ _ _ (remaining_le_input x) hy
  · intro x actions h1 h2
    exact config_function_item_advances H x actions h1 h2
  · intro p
    obtain ⟨y, _, _, hy⟩ := config_switcher_loop_exit (remaining p.s) p le_rfl
    exact loop_settles_of_exit _ _ _ _ (remaining_le_input p.s) hy
  · intro p ht
    exact advances_of_follows (config_switcher_switch_follows p _ (follows_refl _))
      (advances_get_peek p.s ht)
  · intro p
    obtain ⟨y, _, _, hy⟩ := config_placer_loop_exit (remaining p.s) p le_rfl
    exact loop_settles_of_exit _ _ _ _ (remaining_le_input p.s) hy
  · intro p ht
    exact advances_of_follows (config_placer_switch_follows p _ (follows_refl _))
      (advances_get_peek p.s ht)
  · intro c h1 h2
    obtain ⟨y, _, _, hy⟩ := config_action_conds_exit (remaining c.s) c h1 h2 le_rfl
    exact loop_settles_of_exit _ _ _ _ (remaining_le_input c.s) hy
  · intro c h1 h2
    exact config_action_cond_advances c h1 h2
  · intro x h1 h2
    exact loop_settles_of_exit _ _ _ _ (remaining_le_input x)
      (config_get_pins_loop_exit (remaining x) x h1 h2 le_rfl)
  · intro n x h1 h2
    exact config_get_pins_loop_pass n x h1 h2
  · intro x value hx
    obtain ⟨y, _, _, hy⟩ := config_get_value_loop_exit H (remaining x) x value hx le_rfl
    exact loop_settles_of_exit _ _ _ _ (remaining_le_input x) hy
  · intro x hx ht
    exact advances_of_follows (follows_peek (follows_refl _))
      (advances_get_self x hx (config_get_value_continues_ne_eof _ ht))
  · intro x
    exact peek_next_ne_none x
  · intro x parent h
    exact config_menu_head_next x parent (by rw [h]; simp)
  · intro x m h
    exact config_expect_token_next x _ m h (by decide) (by decide)

/-- C31 (witness): the document `Placer \x7b xstep = 5 }` holds no `Include`,
and `config_parse_toplevel` returns on it with the end of input peeked. -/
theorem config_parse_toplevel_terminates_witness :
    no_include (State.init [.kw G_TOKEN_PLACER, .chr '\x7b', .kw G_TOKEN_XSTEP, .chr '=',
      .float 5, .chr '}']) ∧
    ∃ r, config_parse_toplevel header_example (fun st => .returned (st, Option.none))
        (State.init [.kw G_TOKEN_PLACER, .chr '\x7b', .kw G_TOKEN_XSTEP, .chr '=',
          .float 5, .chr '}']) true = .returned r ∧ r.1.next_token = .eof :=
  ⟨by simp [no_include, stream, pending, State.init, Lexeme.token],
    (config_parse_toplevel_terminates header_example (fun st => .returned (st, Option.none))
      true _ (by simp [no_include, stream, pending, State.init, Lexeme.token])).1.imp
      (fun _ hr => ⟨hr.1, hr.2.1⟩)⟩

end

end Sfwbar
